import Mathlib

/-! Voxel sandbox server: terraforming, packet handling and snapshot dispatch.

A shallow embedding of `world.cpp` (voxel grid, `terraform`) and `network.cpp`
(`send_chunks_hard_update_packets`, `dispatch_newcoming_client_to_clients`,
`dispatch_snapshot_to_clients`, `update_as_server`).

Conventions of the embedding.

* `float32_t` values are rationals.  The amount computed by `terraform`, the
  conversion `ws_to_xs`, the ray of `ray_cast_terraform` and the state
  comparison of `dispatch_snapshot_to_clients` round the exact result of every
  float operation to the nearest float32 (`round_float32`, ties to even); a
  result beyond the float32 range is not a finite value and is undefined
  (`none`).  The coordinates and squared distances of `terraform` are integers,
  on which float arithmetic is exact below `2^24`; the float arithmetic of the
  meshing, collision and player-input code is exact.  A conversion from float
  to a 32-bit integer truncates toward zero and is undefined outside the
  `int32_t` range; a division by zero is undefined.
* A `voxel_chunk_t *` is the index of the chunk in `voxel_chunks_t.chunks`; the
  null pointer is `none`.
* C arrays are total functions of the index; where the source indexes an array
  with a value that came from arithmetic on signed coordinates the embedding
  checks the bounds and the operation is undefined (`none`) outside them.
* Undefined behaviour (null dereference, out-of-bounds voxel write, integer
  conversion out of range) is `none`.
-/

namespace Game

/-! ## Scalars and vectors -/

abbrev float32_t := ℚ

structure vector3_t where
  x : float32_t
  y : float32_t
  z : float32_t

structure ivector3_t where
  x : Int
  y : Int
  z : Int
deriving DecidableEq

/-- The conversion `vector3_t(ivector3_t)`. -/
def ivector3_t.to_vector3 (v : ivector3_t) : vector3_t :=
  ⟨(v.x : ℚ), (v.y : ℚ), (v.z : ℚ)⟩

def vector3_t.add (a b : vector3_t) : vector3_t := ⟨a.x + b.x, a.y + b.y, a.z + b.z⟩

def vector3_t.sub (a b : vector3_t) : vector3_t := ⟨a.x - b.x, a.y - b.y, a.z - b.z⟩

/-- The function `glm::dot`. -/
def vector3_t.dot (a b : vector3_t) : float32_t := a.x * b.x + a.y * b.y + a.z * b.z

def ivector3_t.sub (a b : ivector3_t) : ivector3_t := ⟨a.x - b.x, a.y - b.y, a.z - b.z⟩

/-- Conversion of a float to an integer: the fractional part is discarded
(truncation toward zero). -/
def float_to_int (q : float32_t) : Int :=
  if 0 ≤ q then ⌊q⌋ else ⌈q⌉

/-- The cast `(int32_t)f`: defined only when the truncated value is an `int32_t`. -/
def float_to_int32 (q : float32_t) : Option Int :=
  if -(2 : Int) ^ 31 ≤ float_to_int q ∧ float_to_int q < (2 : Int) ^ 31 then
    some (float_to_int q)
  else none

/-- The conversion `ivector3_t(vector3_t)`, component-wise truncation. -/
def vector3_t.to_ivector3 (v : vector3_t) : ivector3_t :=
  ⟨float_to_int v.x, float_to_int v.y, float_to_int v.z⟩

/-- The function `glm::round` on one component: nearest integer, halves away from zero. -/
def glm_round (q : float32_t) : Int :=
  if 0 ≤ q then ⌊q + 1 / 2⌋ else -⌊-q + 1 / 2⌋

/-- Float division; a zero divisor gives no finite value. -/
def float_div (a b : float32_t) : Option float32_t :=
  if b = 0 then none else some (a / b)

/-! ## float32 rounding -/

/-- Rounding to the nearest integer, a tie going to the even neighbour. -/
def round_half_even (x : ℚ) : Int :=
  if x - ⌊x⌋ < 1 / 2 then ⌊x⌋
  else if 1 / 2 < x - ⌊x⌋ then ⌊x⌋ + 1
  else if ⌊x⌋ % 2 = 0 then ⌊x⌋ else ⌊x⌋ + 1

/-- The exponent of the unit in the last place of the float32 values of the
magnitude of `q`: 24 significant bits, and `-149` in the subnormal range. -/
def float32_exponent (q : ℚ) : Int := max (Int.log 2 |q| - 23) (-149)

/-- The float32 value nearest to `q` (round to nearest, ties to even), the
exponent being unbounded above. -/
def round_float32 (q : ℚ) : float32_t :=
  (round_half_even (q / 2 ^ float32_exponent q) : ℚ) * 2 ^ float32_exponent q

/-- The result of a float32 operation whose exact result is `q`: the rounded
value, or no finite value when it lies beyond the float32 range. -/
def float32 (q : ℚ) : Option float32_t :=
  if |round_float32 q| < 2 ^ 128 then some (round_float32 q) else none

/-- Float division in float32; a zero divisor gives no finite value. -/
def float32_div (a b : float32_t) : Option float32_t :=
  if b = 0 then none else float32 (a / b)

/-- The sum `a + b` of two vectors in float32. -/
def vector3_t.float32_add (a b : vector3_t) : Option vector3_t :=
  match float32 (a.x + b.x), float32 (a.y + b.y), float32 (a.z + b.z) with
  | some x, some y, some z => some ⟨x, y, z⟩
  | _, _, _ => none

/-- The difference `a - b` of two vectors in float32. -/
def vector3_t.float32_sub (a b : vector3_t) : Option vector3_t :=
  match float32 (a.x - b.x), float32 (a.y - b.y), float32 (a.z - b.z) with
  | some x, some y, some z => some ⟨x, y, z⟩
  | _, _, _ => none

/-- The product `s * v` of a float and a vector in float32. -/
def vector3_t.float32_scale (v : vector3_t) (s : float32_t) : Option vector3_t :=
  match float32 (s * v.x), float32 (s * v.y), float32 (s * v.z) with
  | some x, some y, some z => some ⟨x, y, z⟩
  | _, _, _ => none

/-- The quotient `v / s` of a vector and a float in float32. -/
def vector3_t.float32_div_scalar (v : vector3_t) (s : float32_t) : Option vector3_t :=
  match float32_div v.x s, float32_div v.y s, float32_div v.z s with
  | some x, some y, some z => some ⟨x, y, z⟩
  | _, _, _ => none

/-- The function `glm::dot` in float32: the three products, then
`(x + y) + z`. -/
def vector3_t.float32_dot (a b : vector3_t) : Option float32_t :=
  match float32 (a.x * b.x), float32 (a.y * b.y), float32 (a.z * b.z) with
  | some x, some y, some z => (float32 (x + y)).bind fun s => float32 (s + z)
  | _, _, _ => none

/-! ## Voxel grid (`world.cpp`) -/

def VOXEL_CHUNK_EDGE_LENGTH : Nat := 16

/-- The fields of `voxel_chunk_t` read and written by the voxel code and by the
snapshot dispatcher; `voxels` is `uint8_t voxels[16][16][16]`, `mesh_vertices`
and `vertex_count` are the cached mesh, and `modified_voxels_list_count`,
`list_of_modified_voxels` and `voxel_history` are the modification list and the
history buffer that `dispatch_snapshot_to_clients` reads. -/
structure voxel_chunk_t where
  xs_bottom_corner : ivector3_t
  chunk_coord : ivector3_t
  voxels : Nat → Nat → Nat → Nat
  should_do_gpu_sync : Bool
  vertex_count : Nat := 0
  mesh_vertices : Nat → vector3_t := fun _ => ⟨0, 0, 0⟩
  modified_voxels_list_count : Nat := 0
  list_of_modified_voxels : Nat → Nat := fun _ => 0
  voxel_history : Nat → Nat := fun _ => 0

/-- The fields of `voxel_chunks_t` (the global `g_voxel_chunks`): `chunks` is the
array of chunk pointers, zero-filled by `initialize_world` before the grid cells
are allocated. -/
structure voxel_chunks_t where
  grid_edge_size : Nat
  size : float32_t
  chunks : Nat → Option voxel_chunk_t
  chunks_to_gpu_sync : Nat → Int
  to_sync_count : Nat

def is_voxel_coord_within_chunk (coord : ivector3_t)
    (edge_length : Nat := VOXEL_CHUNK_EDGE_LENGTH) : Bool :=
  decide (coord.x ≥ 0 ∧ coord.x < (edge_length : Int) ∧
          coord.y ≥ 0 ∧ coord.y < (edge_length : Int) ∧
          coord.z ≥ 0 ∧ coord.z < (edge_length : Int))

/-- The source takes `uint32_t` coordinates and converts them back to `int` with
`ivector3_t(x, y, z)`; the callers pass `int` coordinates, so the value tested
is the caller's signed coordinate. -/
def convert_3d_to_1d_index (x y z : Int) (edge_length : Nat) : Int :=
  if is_voxel_coord_within_chunk ⟨x, y, z⟩ edge_length then
    z * ((edge_length : Int) * (edge_length : Int)) + y * (edge_length : Int) + x
  else
    -1

/-- The pointer stored in slot `index` of the chunk array, null for index `-1`
and for a slot that was never allocated. -/
def get_voxel_chunk (g : voxel_chunks_t) (index : Int) : Option Nat :=
  if index = -1 then none
  else if (g.chunks index.toNat).isSome then some index.toNat else none

def get_chunk_encompassing_point (g : voxel_chunks_t) (xs_position : vector3_t) : Option Nat :=
  let rounded : ivector3_t :=
    ⟨glm_round xs_position.x, glm_round xs_position.y, glm_round xs_position.z⟩
  let chunk_coord : ivector3_t :=
    ⟨rounded.x.tdiv (VOXEL_CHUNK_EDGE_LENGTH : Int), rounded.y.tdiv (VOXEL_CHUNK_EDGE_LENGTH : Int),
     rounded.z.tdiv (VOXEL_CHUNK_EDGE_LENGTH : Int)⟩
  get_voxel_chunk g
    (convert_3d_to_1d_index chunk_coord.x chunk_coord.y chunk_coord.z g.grid_edge_size)

def ready_chunk_for_gpu_sync (g : voxel_chunks_t) (chunk : Option Nat) : Option voxel_chunks_t :=
  match chunk with
  | none => none
  | some p =>
    match g.chunks p with
    | none => none
    | some c =>
      if !c.should_do_gpu_sync then
        some { g with
          chunks_to_gpu_sync := Function.update g.chunks_to_gpu_sync g.to_sync_count
            (convert_3d_to_1d_index c.chunk_coord.x c.chunk_coord.y c.chunk_coord.z
              g.grid_edge_size)
          to_sync_count := g.to_sync_count + 1
          chunks := Function.update g.chunks p (some { c with should_do_gpu_sync := true }) }
      else some g

/-- The block of `terraform` that computes the new density of one voxel (it
occurs twice in the source, once per branch): the float32 product
`((proportion * coefficient) * dt) * 700.0f`, the cast to `int32_t`, the
addition in `int32_t` and the clamping stores. -/
def terraform_new_value (current_voxel_value : Nat) (proportion coefficient dt : float32_t) :
    Option Nat :=
  match (float32 (proportion * coefficient)).bind fun signed =>
      (float32 (signed * dt)).bind fun scaled => float32 (scaled * 700) with
  | none => none
  | some product =>
    match float_to_int32 product with
    | none => none
    | some amount =>
      let new_value : Int := amount + (current_voxel_value : Int)
      if new_value < -(2 : Int) ^ 31 ∨ (2 : Int) ^ 31 ≤ new_value then none
      else if new_value > 255 then some 255
      else if new_value < 0 then some 0
      else some (new_value.toNat % 256)

/-- The store `chunk->voxels[x][y][z] = value`. -/
def voxel_chunk_t.set_voxel (c : voxel_chunk_t) (x y z value : Nat) : voxel_chunk_t :=
  { c with voxels := fun a b d => if a = x ∧ b = y ∧ d = z then value else c.voxels a b d }

/-- The update of the voxel at chunk-space coordinate `cs_vcoord` of chunk
`chunk`, shared by the two branches of `terraform`. -/
def terraform_write (g : voxel_chunks_t) (chunk : Nat) (cs_vcoord : ivector3_t)
    (real_distance_squared radius_squared coefficient dt : float32_t) : Option voxel_chunks_t :=
  match g.chunks chunk with
  | none => none
  | some c =>
    if is_voxel_coord_within_chunk cs_vcoord then
      let x := cs_vcoord.x.toNat
      let y := cs_vcoord.y.toNat
      let z := cs_vcoord.z.toNat
      match float32_div real_distance_squared radius_squared with
      | none => none
      | some ratio =>
        match float32 (1 - ratio) with
        | none => none
        | some proportion =>
          match terraform_new_value (c.voxels x y z) proportion coefficient dt with
          | none => none
          | some value =>
            some { g with
              chunks := Function.update g.chunks chunk (some (c.set_voxel x y z value)) }
    else none

/-- One iteration of the innermost loop body of `terraform`; the state is the
grid together with the local pointer `chunk`. -/
def terraform_step (voxel_coord bottom_corner : ivector3_t)
    (radius_squared coefficient dt : float32_t)
    (st : voxel_chunks_t × Nat) (xyz : Nat × Nat × Nat) : Option (voxel_chunks_t × Nat) :=
  let g := st.1
  let chunk := st.2
  let v_f : vector3_t :=
    (vector3_t.mk (xyz.1 : ℚ) (xyz.2.1 : ℚ) (xyz.2.2 : ℚ)).add bottom_corner.to_vector3
  let diff : vector3_t := v_f.sub voxel_coord.to_vector3
  let real_distance_squared : float32_t := diff.dot diff
  if real_distance_squared ≤ radius_squared then
    match g.chunks chunk with
    | none => none
    | some c =>
      let cs_vcoord : ivector3_t := v_f.to_ivector3.sub c.xs_bottom_corner
      if is_voxel_coord_within_chunk cs_vcoord then
        (terraform_write g chunk cs_vcoord real_distance_squared radius_squared coefficient dt).map
          (fun g1 => (g1, chunk))
      else
        match get_chunk_encompassing_point g v_f.to_ivector3.to_vector3 with
        | none => some (g, chunk)
        | some new_chunk =>
          match ready_chunk_for_gpu_sync g (some new_chunk) with
          | none => none
          | some g1 =>
            match g1.chunks new_chunk with
            | none => none
            | some c1 =>
              (terraform_write g1 new_chunk (v_f.to_ivector3.sub c1.xs_bottom_corner)
                real_distance_squared radius_squared coefficient dt).map
                (fun g2 => (g2, new_chunk))
  else some (g, chunk)

/-- The iteration space of the three nested loops of `terraform`, in execution
order: `z` outermost, `x` innermost, each from `0` to `diameter - 1`. -/
def terraform_offsets (diameter : Nat) : List (Nat × Nat × Nat) :=
  (List.range diameter).flatMap fun z =>
    (List.range diameter).flatMap fun y =>
      (List.range diameter).map fun x => (x, y, z)

def terraform (g : voxel_chunks_t) (xs_voxel_coord : ivector3_t) (voxel_radius : Nat)
    (destructive : Bool) (dt : float32_t) : Option voxel_chunks_t :=
  let voxel_coord := xs_voxel_coord
  match get_chunk_encompassing_point g voxel_coord.to_vector3 with
  | none => none
  | some chunk =>
    match ready_chunk_for_gpu_sync g (some chunk) with
    | none => none
    | some g0 =>
      let coefficient : float32_t := if destructive then -1 else 1
      let radius : float32_t := (voxel_radius : ℚ)
      let radius_squared : float32_t := radius * radius
      let bottom_corner : ivector3_t :=
        voxel_coord.sub ⟨(voxel_radius : Int), (voxel_radius : Int), (voxel_radius : Int)⟩
      let diameter : Nat := voxel_radius * 2 + 1
      match (terraform_offsets diameter).foldlM
          (terraform_step voxel_coord bottom_corner radius_squared coefficient dt) (g0, chunk) with
      | none => none
      | some st => ready_chunk_for_gpu_sync st.1 (some st.2)

/-- The density stored for the voxel at voxel-space coordinate `p`, read through
the chunk that holds it; `none` when `p` is not a voxel of the grid. -/
def voxel_at (g : voxel_chunks_t) (p : ivector3_t) : Option Nat :=
  if is_voxel_coord_within_chunk p (g.grid_edge_size * VOXEL_CHUNK_EDGE_LENGTH) then
    match g.chunks (convert_3d_to_1d_index (p.x / 16) (p.y / 16) (p.z / 16)
        g.grid_edge_size).toNat with
    | none => none
    | some c => some (c.voxels (p.x % 16).toNat (p.y % 16).toNat (p.z % 16).toNat)
  else none

def chunk_index (G cx cy cz : Nat) : Nat := cz * (G * G) + cy * G + cx

def grid_well_formed (g : voxel_chunks_t) : Prop :=
  ∀ cx cy cz : Nat, cx < g.grid_edge_size → cy < g.grid_edge_size → cz < g.grid_edge_size →
    ∃ c, g.chunks (chunk_index g.grid_edge_size cx cy cz) = some c ∧
      c.xs_bottom_corner = ⟨16 * (cx : Int), 16 * (cy : Int), 16 * (cz : Int)⟩ ∧
      c.chunk_coord = ⟨(cx : Int), (cy : Int), (cz : Int)⟩ ∧
      ∀ x y z, x < 16 → y < 16 → z < 16 → c.voxels x y z < 256

def in_grid (g : voxel_chunks_t) (p : ivector3_t) : Prop :=
  0 ≤ p.x ∧ p.x < 16 * (g.grid_edge_size : Int) ∧
  0 ≤ p.y ∧ p.y < 16 * (g.grid_edge_size : Int) ∧
  0 ≤ p.z ∧ p.z < 16 * (g.grid_edge_size : Int)

def clamp_density (v : Int) : Nat :=
  if v > 255 then 255 else if v < 0 then 0 else v.toNat

/-- Two grids that differ at most in the GPU-synchronisation bookkeeping. -/
def same_voxels (g g' : voxel_chunks_t) : Prop :=
  g'.grid_edge_size = g.grid_edge_size ∧
  ∀ i, (g'.chunks i).map (fun c => (c.xs_bottom_corner, c.chunk_coord, c.voxels)) =
       (g.chunks i).map (fun c => (c.xs_bottom_corner, c.chunk_coord, c.voxels))

/-- The float32 value of `proportion * coefficient * dt * 700.0f` in
`terraform`, with `proportion = 1.0f - d2 / r2`: every operation rounds to
float32. -/
def terraform_amount (d2 r2 coefficient dt : float32_t) : float32_t :=
  round_float32 (round_float32 (round_float32
    (round_float32 (1 - round_float32 (d2 / r2)) * coefficient) * dt) * 700)

/-- The density `terraform` stores for a voxel of density `v` at squared
distance `d2` from the centre: the clamped sum of `v` and the truncated amount. -/
def terraform_density (v : Nat) (d2 r2 coefficient dt : float32_t) : Nat :=
  clamp_density (float_to_int (terraform_amount d2 r2 coefficient dt) + (v : Int))

/-- Squared distance between two voxel coordinates. -/
def dist_sq (p c : ivector3_t) : Int :=
  (p.x - c.x) * (p.x - c.x) + (p.y - c.y) * (p.y - c.y) + (p.z - c.z) * (p.z - c.z)

/-- The voxel-space coordinate visited by `terraform` at loop counters `xyz`. -/
def voxel_position (bottom_corner : ivector3_t) (xyz : Nat × Nat × Nat) : ivector3_t :=
  ⟨(xyz.1 : Int) + bottom_corner.x, (xyz.2.1 : Int) + bottom_corner.y,
   (xyz.2.2 : Int) + bottom_corner.z⟩

/-- The state of the loop of `terraform` is a well-formed grid and a pointer to
one of its chunks. -/
def loop_inv (g : voxel_chunks_t) (chunk : Nat) : Prop :=
  grid_well_formed g ∧ ∃ kx ky kz : Nat, kx < g.grid_edge_size ∧ ky < g.grid_edge_size ∧
    kz < g.grid_edge_size ∧ chunk = chunk_index g.grid_edge_size kx ky kz

/-- The magnitude of the amount `terraform` adds or subtracts: the float32
product `(p * dt) * 700` with `p = 1 - d2 / r2` computed in float32, every
operation rounding to the nearest float32. -/
def float32_terraform_amount (d2 r2 dt : float32_t) : float32_t :=
  round_float32 (round_float32 (round_float32 (1 - round_float32 (d2 / r2)) * dt) * 700)

/-- The density after an additive or a destructive update of a voxel of density
`v` at squared distance `d2`, for squared radius `r2`, written without the sign
coefficient: the truncated float32 amount is added or subtracted and the result
clamped. -/
def truncated_terraform_density (v : Nat) (d2 r2 : float32_t) (destructive : Bool)
    (dt : float32_t) : Nat :=
  if destructive then clamp_density ((v : Int) - float_to_int (float32_terraform_amount d2 r2 dt))
  else clamp_density ((v : Int) + float_to_int (float32_terraform_amount d2 r2 dt))

/-- Rounding to the nearest integer, the rounding named by the specification
of `terraform`. -/
def round_to_nearest (q : ℚ) : Int := ⌊q + 1 / 2⌋

/-- The density after `terraform` as the specification words it:
`clamp(v ± round(p·700·dt), 0, 255)` with `p = 1 − d²/r²`. -/
def spec_terraform_density (v : Nat) (d2 r2 : ℚ) (additive : Bool) (dt : ℚ) : Nat :=
  if additive then clamp_density ((v : Int) + round_to_nearest ((1 - d2 / r2) * 700 * dt))
  else clamp_density ((v : Int) - round_to_nearest ((1 - d2 / r2) * 700 * dt))

/-- A chunk at grid cell `(0, 0, 0)` whose voxels all have density 100. -/
def example_chunk : voxel_chunk_t :=
  { xs_bottom_corner := ⟨0, 0, 0⟩, chunk_coord := ⟨0, 0, 0⟩,
    voxels := fun _ _ _ => 100, should_do_gpu_sync := false }

/-- A grid of edge size 1 holding `example_chunk`. -/
def example_grid : voxel_chunks_t :=
  { grid_edge_size := 1, size := 9,
    chunks := fun i => if i = 0 then some example_chunk else none,
    chunks_to_gpu_sync := fun _ => 0, to_sync_count := 0 }

/-! ## Packets and serialization (`network.cpp`; `network.hpp` is not among the sources) -/

inductive packet_mode_t where
  | PM_CLIENT_MODE
  | PM_SERVER_MODE
deriving DecidableEq

inductive client_packet_type_t where
  | CPT_CLIENT_JOIN
  | CPT_INPUT_STATE
  | CPT_PREDICTION_ERROR_CORRECTION
  | CPT_ACKNOWLEDGED_GAME_STATE_RECEPTION
deriving DecidableEq

inductive server_packet_type_t where
  | SPT_SERVER_HANDSHAKE
  | SPT_CHUNK_VOXELS_HARD_UPDATE
  | SPT_CLIENT_JOINED
  | SPT_GAME_STATE_SNAPSHOT
deriving DecidableEq

/-- The `packet_type` field of a header.  The field is shared by the two
enumerations; a received value is read against the client enumeration and is
`client t` when it equals the enumerator `t`, and `other raw` stands for a value
that equals no enumerator of the enumeration it is read against. -/
inductive packet_type_t where
  | client (t : client_packet_type_t)
  | server (t : server_packet_type_t)
  | other (raw : Nat)
deriving DecidableEq

structure packet_header_t where
  packet_mode : packet_mode_t
  packet_type : packet_type_t
  total_packet_size : Nat
  current_tick : Nat
  client_id : Nat
deriving DecidableEq

structure network_address_t where
  port : Nat
  ipv4_address : Nat
deriving DecidableEq

/-- One chunk of a hard update: the coordinate of the chunk and its voxel values. -/
structure voxel_chunk_values_packet_t where
  chunk_coord_x : Nat
  chunk_coord_y : Nat
  chunk_coord_z : Nat
  voxel_values : Nat → Nat → Nat → Nat

structure player_state_initialize_packet_t where
  client_id : Nat
  player_name : String
  ws_position : vector3_t
  ws_direction : vector3_t

structure game_state_initialize_packet_t where
  client_index : Nat
  player_count : Nat
  player : Nat → player_state_initialize_packet_t

structure modified_voxel_t where
  previous_value : Nat
  next_value : Nat
  index : Nat

structure modified_chunk_t where
  chunk_index : Nat
  modified_voxels : List modified_voxel_t

structure game_snapshot_voxel_delta_packet_t where
  modified_chunks : List modified_chunk_t

structure quaternion_t where
  w : float32_t
  x : float32_t
  y : float32_t
  z : float32_t

structure game_snapshot_player_state_packet_t where
  client_id : Nat
  ws_position : vector3_t
  ws_direction : vector3_t
  ws_velocity : vector3_t
  ws_up_vector : vector3_t
  ws_rotation : quaternion_t
  action_flags : Nat
  is_rolling : Bool
  need_to_do_correction : Bool
  need_to_do_voxel_correction : Bool
  is_to_ignore : Bool

def vector3_t.zero : vector3_t := ⟨0, 0, 0⟩

/-- The value of `game_snapshot_player_state_packet_t x = {}`. -/
def game_snapshot_player_state_packet_t.zero : game_snapshot_player_state_packet_t :=
  { client_id := 0, ws_position := vector3_t.zero, ws_direction := vector3_t.zero,
    ws_velocity := vector3_t.zero, ws_up_vector := vector3_t.zero,
    ws_rotation := ⟨0, 0, 0, 0⟩, action_flags := 0, is_rolling := false,
    need_to_do_correction := false, need_to_do_voxel_correction := false,
    is_to_ignore := false }

/-- The union `chunks_count` of `send_chunks_hard_update_packets`: the bit field
`is_first` (1 bit) and the bit field `count` (31 bits) that share the
`uint32_t to_update_count`. -/
structure chunks_count_t where
  is_first : Bool
  count : Nat

/-- What one `serialize_*` call appends to a serializer. -/
inductive wire_item where
  | header (h : packet_header_t)
  | uint8 (v : Nat)
  | uint16 (v : Nat)
  | uint32 (v : Nat)
  | uint64 (v : Nat)
  | to_update_count (c : chunks_count_t)
  | voxel_chunk_values (p : voxel_chunk_values_packet_t)
  | player_state_initialize_packet (p : player_state_initialize_packet_t)
  | game_state_initialize_packet (p : game_state_initialize_packet_t)
  | game_snapshot_voxel_delta (p : game_snapshot_voxel_delta_packet_t)
  | game_snapshot_player_state (p : game_snapshot_player_state_packet_t)

/-- Modelled from the spec: the byte counts of the serialization routines and the
`sizeof` values declared in `network.hpp`, which is not among the sources; they
are parameters of the embedding.  `sizeof_packet_header` is both the value of
`sizeof_packet_header()` and the number of bytes `serialize_packet_header`
writes, and likewise for the snapshot packets. -/
structure wire_format where
  sizeof_packet_header : Nat
  voxel_chunk_values_bytes : Nat
  player_state_initialize_bytes : player_state_initialize_packet_t → Nat
  game_state_initialize_bytes : game_state_initialize_packet_t → Nat
  sizeof_game_snapshot_voxel_delta_packet : game_snapshot_voxel_delta_packet_t → Nat
  sizeof_game_snapshot_player_state_packet : Nat
  sizeof_voxel_state_initialize_packet_t : Nat
  sizeof_game_state_initialize_counts : Nat
  sizeof_player_state_initialize_packet_t : Nat

/-- Number of bytes a serialized item occupies in the datagram. -/
def wire_item.bytes (fmt : wire_format) : wire_item → Nat
  | .header _ => fmt.sizeof_packet_header
  | .uint8 _ => 1
  | .uint16 _ => 2
  | .uint32 _ => 4
  | .uint64 _ => 8
  | .to_update_count _ => 4
  | .voxel_chunk_values _ => fmt.voxel_chunk_values_bytes
  | .player_state_initialize_packet p => fmt.player_state_initialize_bytes p
  | .game_state_initialize_packet p => fmt.game_state_initialize_bytes p
  | .game_snapshot_voxel_delta p => fmt.sizeof_game_snapshot_voxel_delta_packet p
  | .game_snapshot_player_state _ => fmt.sizeof_game_snapshot_player_state_packet

/-- A `serializer_t`: the items written below `data_buffer_head`, oldest first. -/
structure serializer_t where
  items : List wire_item

/-- The value of `data_buffer_head`, the number of bytes written. -/
def serializer_t.data_buffer_head (fmt : wire_format) (s : serializer_t) : Nat :=
  (s.items.map (wire_item.bytes fmt)).sum

def serializer_t.write (s : serializer_t) (i : wire_item) : serializer_t :=
  { items := s.items ++ [i] }

/-- A datagram handed to `send_serialized_message`: the destination and the
bytes of the serializer below `data_buffer_head`. -/
structure sent_message_t where
  address : network_address_t
  items : List wire_item

/-- The `total_packet_size` declared by the header of a sent datagram (its first
item), if it has one. -/
def sent_message_t.declared_size (m : sent_message_t) : Option Nat :=
  match m.items with
  | wire_item.header h :: _ => some h.total_packet_size
  | _ => none

/-- The number of bytes of a sent datagram. -/
def sent_message_t.bytes (fmt : wire_format) (m : sent_message_t) : Nat :=
  (m.items.map (wire_item.bytes fmt)).sum

/-! ## Server state -/

structure player_state_t where
  action_flags : Nat
  mouse_x_diff : float32_t
  mouse_y_diff : float32_t
  flags_byte : Nat
  dt : float32_t
  ws_position : vector3_t
  ws_direction : vector3_t

/-- The value of `player_state_t x = {}`. -/
def player_state_t.zero : player_state_t :=
  { action_flags := 0, mouse_x_diff := 0, mouse_y_diff := 0, flags_byte := 0, dt := 0,
    ws_position := vector3_t.zero, ws_direction := vector3_t.zero }

/-- The ring of pending commands of a player (`player_states_cbuffer`). -/
structure circular_buffer_t where
  head : Nat
  tail : Nat
  head_tail_difference : Nat
  buffer_size : Nat
  buffer : Nat → player_state_t

/-- Modelled from the spec: `push_item` of the bounded command ring, which is
declared outside the sources: the item is stored at `head`, `head` advances and
wraps at the capacity, and the number of pending items grows by one. -/
def circular_buffer_t.push_item (b : circular_buffer_t) (item : player_state_t) :
    circular_buffer_t :=
  { b with
    buffer := Function.update b.buffer b.head item
    head := if b.head + 1 = b.buffer_size then 0 else b.head + 1
    head_tail_difference := b.head_tail_difference + 1 }

structure network_component_t where
  player_states_cbuffer : circular_buffer_t
  commands_to_flush : Nat
  client_state_index : Nat

/-- A `glm` 4×4 matrix, by column and row. -/
def matrix4_t : Type := Fin 4 → Fin 4 → float32_t

/-- The matrix `matrix4_t(1.0f)`. -/
def matrix4_t.identity : matrix4_t := fun c r => if c = r then 1 else 0

/-- The fields of `player_t` used by the network code and by the input handlers.
`ws_input_v` is `none` when one of its components is not a finite number. -/
structure player_t where
  ws_p : vector3_t
  ws_d : vector3_t
  ws_v : vector3_t
  ws_r : quaternion_t
  ws_current_up_vector : vector3_t
  previous_action_flags : Nat
  rolling_mode : Bool
  network : network_component_t
  action_flags : Nat := 0
  toggled_rolling_previous_frame : Bool := false
  rolling_rotation : matrix4_t := matrix4_t.identity
  rolling_rotation_angle : float32_t := 0
  ws_input_v : Option vector3_t := some ⟨0, 0, 0⟩

structure local_client_modified_voxel_t where
  x : Nat
  y : Nat
  z : Nat
  value : Nat
deriving DecidableEq

structure client_modified_chunk_nl_t where
  chunk_index : Nat
  modified_voxel_count : Nat
  modified_voxels : Nat → local_client_modified_voxel_t

structure client_t where
  name : String
  client_id : Nat
  network_address : network_address_t
  current_packet_count : Nat
  player_handle : Nat
  received_input_commands : Bool
  previous_client_tick : Nat
  previous_received_player_state : player_state_t
  modified_chunks_count : Nat
  previous_received_voxel_modifications : Nat → client_modified_chunk_nl_t
  needs_to_do_voxel_correction : Bool
  needs_to_acknowledge_prediction_error : Bool

structure network_state_t where
  client_count : Nat
  clients : Nat → client_t

/-- The memory the server code works on: the network state, the players (by
player handle), the voxel grid, the tick counter and the datagrams sent so far
(oldest first). -/
structure server_t where
  network_state : network_state_t
  players : Nat → player_t
  player_count : Nat
  voxel_chunks : voxel_chunks_t
  current_tick : Nat
  sent : List sent_message_t

def get_client (s : server_t) (index : Nat) : client_t := s.network_state.clients index

def set_client (s : server_t) (index : Nat) (c : client_t) : server_t :=
  { s with network_state :=
      { s.network_state with clients := Function.update s.network_state.clients index c } }

def get_player (s : server_t) (handle : Nat) : player_t := s.players handle

def set_player (s : server_t) (handle : Nat) (p : player_t) : server_t :=
  { s with players := Function.update s.players handle p }

/-- The call `send_serialized_message(&serializer, address)`. -/
def send_serialized_message (s : server_t) (serializer : serializer_t)
    (address : network_address_t) : server_t :=
  { s with sent := s.sent ++ [{ address := address, items := serializer.items }] }

/-! ## Hard update of the chunks and announcement of a new client -/

/-- Modelled from the spec: `initialize_chunk_values_packets`, which is defined
outside the sources, returns one `voxel_chunk_values_packet_t` per chunk of the
grid, in index order, and their number (the whole grid is streamed). -/
def initialize_chunk_values_packets (g : voxel_chunks_t) :
    (Nat → voxel_chunk_values_packet_t) × Nat :=
  (fun i =>
    match g.chunks i with
    | some c =>
      { chunk_coord_x := c.chunk_coord.x.toNat, chunk_coord_y := c.chunk_coord.y.toNat,
        chunk_coord_z := c.chunk_coord.z.toNat, voxel_values := c.voxels }
    | none =>
      { chunk_coord_x := 0, chunk_coord_y := 0, chunk_coord_z := 0,
        voxel_values := fun _ _ _ => 0 },
   g.grid_edge_size * g.grid_edge_size * g.grid_edge_size)

/-- The items of one hard-update datagram: header, chunk count word, number of
chunks in the packet, then the chunks `pointer[0 .. count)`. -/
def hard_update_items (header : packet_header_t) (chunks_count : chunks_count_t)
    (pointer : Nat → voxel_chunk_values_packet_t) (count : Nat) : List wire_item :=
  [wire_item.header header, wire_item.to_update_count chunks_count, wire_item.uint32 count] ++
    (List.range count).map fun chunk => wire_item.voxel_chunk_values (pointer chunk)

/-- The function `send_chunks_hard_update_packets`, given the array and count
that `initialize_chunk_values_packets` returned.  `count` is a 31-bit field. -/
def send_chunks_hard_update_packets_of (fmt : wire_format) (s : server_t)
    (address : network_address_t) (voxel_update_packets : Nat → voxel_chunk_values_packet_t)
    (hard_update_count : Nat) : server_t :=
  let header : packet_header_t :=
    { packet_mode := packet_mode_t.PM_SERVER_MODE
      packet_type := packet_type_t.server server_packet_type_t.SPT_CHUNK_VOXELS_HARD_UPDATE
      total_packet_size := 0
      current_tick := s.current_tick
      client_id := 0 }
  let count : Nat := hard_update_count % 2 ^ 31
  let loop_count : Nat := hard_update_count / 8
  let s1 : server_t := (List.range loop_count).foldl (fun st packet =>
    let header1 : packet_header_t := { header with
      total_packet_size := fmt.sizeof_packet_header + 4 +
        1 * VOXEL_CHUNK_EDGE_LENGTH * VOXEL_CHUNK_EDGE_LENGTH * VOXEL_CHUNK_EDGE_LENGTH * 8 }
    send_serialized_message st
      { items := hard_update_items header1
          { is_first := decide (packet = 0), count := count }
          (fun chunk => voxel_update_packets (packet * 8 + chunk)) 8 }
      address) s
  let hard_update_count1 : Nat := hard_update_count - 8 * loop_count
  if hard_update_count1 ≠ 0 then
    let header2 : packet_header_t := { header with
      total_packet_size := fmt.sizeof_packet_header +
        1 * VOXEL_CHUNK_EDGE_LENGTH * VOXEL_CHUNK_EDGE_LENGTH * VOXEL_CHUNK_EDGE_LENGTH *
          hard_update_count1 }
    send_serialized_message s1
      { items := hard_update_items header2
          { is_first := decide (loop_count = 0), count := count }
          (fun chunk => voxel_update_packets (loop_count * 8 + chunk)) hard_update_count1 }
      address
  else s1

def send_chunks_hard_update_packets (fmt : wire_format) (s : server_t)
    (address : network_address_t) : server_t :=
  send_chunks_hard_update_packets_of fmt s address
    (initialize_chunk_values_packets s.voxel_chunks).1
    (initialize_chunk_values_packets s.voxel_chunks).2

def dispatch_newcoming_client_to_clients (s : server_t) (new_client_index : Nat) : server_t :=
  let newcoming_client := get_client s new_client_index
  let player := get_player s newcoming_client.player_handle
  let header : packet_header_t :=
    { packet_mode := packet_mode_t.PM_SERVER_MODE
      packet_type := packet_type_t.server server_packet_type_t.SPT_CLIENT_JOINED
      total_packet_size := 0
      current_tick := s.current_tick
      client_id := 0 }
  let player_initialize_packet : player_state_initialize_packet_t :=
    { client_id := new_client_index
      player_name := newcoming_client.name
      ws_position := player.ws_p
      ws_direction := player.ws_d }
  let serializer : serializer_t :=
    { items := [wire_item.header header,
        wire_item.player_state_initialize_packet player_initialize_packet] }
  (List.range s.network_state.client_count).foldl (fun st client_index =>
    send_serialized_message st serializer (get_client st client_index).network_address) s

/-- The chunks a datagram carries, in the order they were serialized. -/
def sent_message_t.chunks (m : sent_message_t) : List voxel_chunk_values_packet_t :=
  m.items.filterMap fun i =>
    match i with
    | wire_item.voxel_chunk_values p => some p
    | _ => none

/-- The chunk count word of a hard-update datagram (its second item). -/
def sent_message_t.to_update_count (m : sent_message_t) : Option chunks_count_t :=
  match m.items with
  | _ :: wire_item.to_update_count c :: _ => some c
  | _ => none

/-- The per-packet chunk count of a hard-update datagram (its third item). -/
def sent_message_t.chunk_count (m : sent_message_t) : Option Nat :=
  match m.items with
  | _ :: _ :: wire_item.uint32 k :: _ => some k
  | _ => none

/-- The value of `client_t x = {}`. -/
def client_t.zero : client_t :=
  { name := "", client_id := 0, network_address := ⟨0, 0⟩, current_packet_count := 0,
    player_handle := 0, received_input_commands := false, previous_client_tick := 0,
    previous_received_player_state := player_state_t.zero, modified_chunks_count := 0,
    previous_received_voxel_modifications := fun _ =>
      { chunk_index := 0, modified_voxel_count := 0, modified_voxels := fun _ => ⟨0, 0, 0, 0⟩ },
    needs_to_do_voxel_correction := false, needs_to_acknowledge_prediction_error := false }

/-- A player record with every field zero and an empty command ring of the
given capacity. -/
def player_t.zero (buffer_size : Nat) : player_t :=
  { ws_p := vector3_t.zero, ws_d := vector3_t.zero, ws_v := vector3_t.zero,
    ws_r := ⟨0, 0, 0, 0⟩, ws_current_up_vector := vector3_t.zero, previous_action_flags := 0,
    rolling_mode := false,
    network :=
      { player_states_cbuffer :=
          { head := 0, tail := 0, head_tail_difference := 0, buffer_size := buffer_size,
            buffer := fun _ => player_state_t.zero },
        commands_to_flush := 0, client_state_index := 0 } }

/-- A server with no client, no player and `example_grid` as its voxel grid. -/
def example_server : server_t :=
  { network_state := { client_count := 0, clients := fun _ => client_t.zero },
    players := fun _ => player_t.zero 40, player_count := 0, voxel_chunks := example_grid,
    current_tick := 0, sent := [] }

/-- A wire format with the 16-byte header of the packet layout and a hard-update
chunk of 3 coordinate bytes and `16³` voxel bytes; the other sizes are set to
small fixed values.  It serves to evaluate the code on concrete inputs. -/
def example_wire_format : wire_format :=
  { sizeof_packet_header := 16, voxel_chunk_values_bytes := 4099,
    player_state_initialize_bytes := fun _ => 30,
    game_state_initialize_bytes := fun _ => 8,
    sizeof_game_snapshot_voxel_delta_packet := fun _ => 4,
    sizeof_game_snapshot_player_state_packet := 71,
    sizeof_voxel_state_initialize_packet_t := 16,
    sizeof_game_state_initialize_counts := 8,
    sizeof_player_state_initialize_packet_t := 40 }

/-! ## Packet handling of the server (`update_as_server`) -/

structure client_join_packet_t where
  client_name : String

structure client_input_state_packet_t where
  action_flags : Nat
  mouse_x_diff : float32_t
  mouse_y_diff : float32_t
  flags_byte : Nat
  dt : float32_t

structure client_modified_chunk_t where
  chunk_index : Nat
  modified_voxel_count : Nat
  modified_voxels : Nat → local_client_modified_voxel_t

structure client_modified_voxels_packet_t where
  modified_chunk_count : Nat
  modified_chunks : Nat → client_modified_chunk_t

/-- Modelled from the spec: the `deserialize_*` routines are declared outside the
sources, so a received datagram is given by the result of `receive_from` (byte
count and sender) and by the values those routines read from it: the header, and
the body fields of each packet type in the order of the packet table (the join
packet; the input commands, final position and direction and voxel
modifications of an input-state packet; the tick of a prediction-error
correction or of an acknowledgement). -/
structure received_datagram_t where
  bytes_received : Int
  received_address : network_address_t
  header : packet_header_t
  client_join : client_join_packet_t
  player_state_count : Nat
  input_packets : Nat → client_input_state_packet_t
  ws_position : vector3_t
  ws_direction : vector3_t
  voxel_packet : client_modified_voxels_packet_t
  tick : Nat

/-- Modelled from the spec: `spawn_player`, defined outside the sources,
allocates the next player record and returns its handle; the fields it gives the
record are not modelled. -/
def spawn_player (s : server_t) : server_t × Nat :=
  ({ s with player_count := s.player_count + 1 }, s.player_count)

/-- Modelled from the spec: `initialize_game_state_initialize_packet`, defined
outside the sources, fills the handshake with the assigned client id and the
list of existing players (id, name, position, direction). -/
def initialize_game_state_initialize_packet (s : server_t) (client_id : Nat) :
    game_state_initialize_packet_t :=
  { client_index := client_id
    player_count := s.network_state.client_count
    player := fun i =>
      { client_id := (get_client s i).client_id
        player_name := (get_client s i).name
        ws_position := (get_player s (get_client s i).player_handle).ws_p
        ws_direction := (get_player s (get_client s i).player_handle).ws_d } }

/-- The case `CPT_CLIENT_JOIN` of `update_as_server`.  The two lookup tables
`client_table_by_name` and `client_table_by_address` are written here and read
nowhere in the modelled code; they are left out. -/
def handle_client_join (fmt : wire_format) (s : server_t) (d : received_datagram_t) : server_t :=
  let index := s.network_state.client_count
  let client0 := get_client s index
  let client1 : client_t := { client0 with
    name := d.client_join.client_name
    client_id := s.network_state.client_count
    network_address := d.received_address
    current_packet_count := 0 }
  let spawned := spawn_player s
  let client2 : client_t := { client1 with player_handle := spawned.2 }
  let s1 := set_client spawned.1 index client2
  let local_player_data := get_player s1 client2.player_handle
  let s2 := set_player s1 client2.player_handle
    { local_player_data with
      network := { local_player_data.network with client_state_index := client2.client_id } }
  let s3 : server_t := { s2 with
    network_state := { s2.network_state with client_count := s2.network_state.client_count + 1 } }
  let game_state_init_packet := initialize_game_state_initialize_packet s3 client2.client_id
  let handshake_header : packet_header_t :=
    { packet_mode := packet_mode_t.PM_SERVER_MODE
      packet_type := packet_type_t.server server_packet_type_t.SPT_SERVER_HANDSHAKE
      total_packet_size := fmt.sizeof_packet_header + fmt.sizeof_voxel_state_initialize_packet_t +
        fmt.sizeof_game_state_initialize_counts +
        fmt.sizeof_player_state_initialize_packet_t * game_state_init_packet.player_count
      current_tick := s3.current_tick
      client_id := 0 }
  let s4 := send_serialized_message s3
    { items := [wire_item.header handshake_header,
        wire_item.game_state_initialize_packet game_state_init_packet] }
    client2.network_address
  let s5 := send_chunks_hard_update_packets fmt s4 client2.network_address
  dispatch_newcoming_client_to_clients s5 client2.client_id

/-- The `player_state_t` built from one deserialized input command. -/
def player_state_of_input (input_packet : client_input_state_packet_t) : player_state_t :=
  { player_state_t.zero with
    action_flags := input_packet.action_flags
    mouse_x_diff := input_packet.mouse_x_diff
    mouse_y_diff := input_packet.mouse_y_diff
    flags_byte := input_packet.flags_byte
    dt := input_packet.dt }

/-- The stores of one received modified chunk into slot
`i + client->modified_chunks_count`: the index, the reported count, and the
reported voxels below both the count and 80. -/
def store_modified_chunk (client : client_t) (i : Nat) (received : client_modified_chunk_t) :
    client_t :=
  let slot := i + client.modified_chunks_count
  let chunk0 := client.previous_received_voxel_modifications slot
  let chunk1 : client_modified_chunk_nl_t := { chunk0 with
    chunk_index := received.chunk_index
    modified_voxel_count := received.modified_voxel_count }
  let chunk2 : client_modified_chunk_nl_t :=
    (List.range (min chunk1.modified_voxel_count 80)).foldl (fun c voxel =>
      { c with
        modified_voxels := Function.update c.modified_voxels voxel
          ({ x := (received.modified_voxels voxel).x
             y := (received.modified_voxels voxel).y
             z := (received.modified_voxels voxel).z
             value := (received.modified_voxels voxel).value } :
            local_client_modified_voxel_t) }) chunk1
  { client with
    previous_received_voxel_modifications :=
      Function.update client.previous_received_voxel_modifications slot chunk2 }

/-- The case `CPT_INPUT_STATE` of `update_as_server`. -/
def handle_input_state (s : server_t) (d : received_datagram_t) : server_t :=
  let client0 := get_client s d.header.client_id
  if !client0.needs_to_acknowledge_prediction_error then
    let client1 : client_t := { client0 with
      received_input_commands := true
      previous_client_tick := d.header.current_tick }
    let player0 := get_player s client1.player_handle
    let player_state_count := d.player_state_count
    let pushed : circular_buffer_t × player_state_t :=
      (List.range player_state_count).foldl (fun acc i =>
        let player_state := player_state_of_input (d.input_packets i)
        (acc.1.push_item player_state, player_state))
        (player0.network.player_states_cbuffer, player_state_t.zero)
    let client2 : client_t := { client1 with
      previous_received_player_state := { pushed.2 with
        ws_position := d.ws_position
        ws_direction := d.ws_direction } }
    let player1 : player_t := { player0 with
      network := { player0.network with
        player_states_cbuffer := pushed.1
        commands_to_flush := player0.network.commands_to_flush + player_state_count } }
    let client3 : client_t :=
      (List.range d.voxel_packet.modified_chunk_count).foldl (fun c i =>
        store_modified_chunk c i (d.voxel_packet.modified_chunks i)) client2
    let client4 : client_t := { client3 with
      modified_chunks_count := client3.modified_chunks_count +
        d.voxel_packet.modified_chunk_count }
    set_client (set_player s client1.player_handle player1) d.header.client_id client4
  else s

/-- The case `CPT_PREDICTION_ERROR_CORRECTION` of `update_as_server`. -/
def handle_prediction_error_correction (s : server_t) (d : received_datagram_t) : server_t :=
  let client := get_client s d.header.client_id
  set_client s d.header.client_id { client with
    needs_to_acknowledge_prediction_error := false
    previous_client_tick := d.tick }

/-- The body of the receive loop of `update_as_server` for one result of
`receive_from`: the size check, the mode check and the switch on the packet
type. -/
def handle_datagram (fmt : wire_format) (s : server_t) (d : received_datagram_t) : server_t :=
  if d.bytes_received > 0 then
    if (d.header.total_packet_size : Int) = d.bytes_received then
      if d.header.packet_mode = packet_mode_t.PM_CLIENT_MODE then
        match d.header.packet_type with
        | packet_type_t.client client_packet_type_t.CPT_CLIENT_JOIN =>
          handle_client_join fmt s d
        | packet_type_t.client client_packet_type_t.CPT_INPUT_STATE =>
          handle_input_state s d
        | packet_type_t.client client_packet_type_t.CPT_PREDICTION_ERROR_CORRECTION =>
          handle_prediction_error_correction s d
        | packet_type_t.client client_packet_type_t.CPT_ACKNOWLEDGED_GAME_STATE_RECEPTION => s
        | _ => s
      else s
    else s
  else s

/-- A datagram of 24 bytes from client 0 whose header declares 24 bytes, client
mode and the given packet type, with an empty body. -/
def example_datagram (t : packet_type_t) : received_datagram_t :=
  { bytes_received := 24
    received_address := ⟨1, 1⟩
    header :=
      { packet_mode := packet_mode_t.PM_CLIENT_MODE, packet_type := t, total_packet_size := 24,
        current_tick := 7, client_id := 0 }
    client_join := { client_name := "alice" }
    player_state_count := 0
    input_packets := fun _ =>
      { action_flags := 0, mouse_x_diff := 0, mouse_y_diff := 0, flags_byte := 0, dt := 0 }
    ws_position := vector3_t.zero
    ws_direction := vector3_t.zero
    voxel_packet :=
      { modified_chunk_count := 0
        modified_chunks := fun _ =>
          { chunk_index := 0, modified_voxel_count := 0,
            modified_voxels := fun _ => ⟨0, 0, 0, 0⟩ } }
    tick := 9 }

/-- The server `example_server` after client 0 was latched as owing the
acknowledgement of a prediction error. -/
def latched_server : server_t :=
  set_client example_server 0
    { client_t.zero with needs_to_acknowledge_prediction_error := true }

/-! ## Snapshot dispatch (`dispatch_snapshot_to_clients`) -/

/-- The read `actual_voxel_chunk->voxels[x][y][z]` with
`actual_voxel_chunk = *get_voxel_chunk(chunk_index)`: undefined for a null chunk
and for a coordinate outside the `16³` array. -/
def actual_voxel_value (g : voxel_chunks_t) (chunk_index : Nat)
    (v : local_client_modified_voxel_t) : Option Nat :=
  match get_voxel_chunk g (chunk_index : Int) with
  | none => none
  | some p =>
    match g.chunks p with
    | none => none
    | some c => if v.x < 16 ∧ v.y < 16 ∧ v.z < 16 then some (c.voxels v.x v.y v.z) else none

/-- The state of the per-client part of the dispatch loop: the serializer, the
local flag `force_client_to_do_voxel_correction` and the client record. -/
structure voxel_loop_t where
  serializer : serializer_t
  force_client_to_do_voxel_correction : Bool
  client : client_t

/-- The body of the loop over the voxels of one reported chunk. -/
def serialize_client_voxel (g : voxel_chunks_t) (chunk : Nat) (st : voxel_loop_t)
    (voxel : Nat) : Option voxel_loop_t :=
  let modified_chunk_data := st.client.previous_received_voxel_modifications chunk
  let voxel_ptr := modified_chunk_data.modified_voxels voxel
  match actual_voxel_value g modified_chunk_data.chunk_index voxel_ptr with
  | none => none
  | some actual_voxel_value =>
    if actual_voxel_value ≠ voxel_ptr.value then
      some
        { serializer :=
            (((st.serializer.write (wire_item.uint8 voxel_ptr.x)).write
              (wire_item.uint8 voxel_ptr.y)).write (wire_item.uint8 voxel_ptr.z)).write
              (wire_item.uint8 actual_voxel_value)
          force_client_to_do_voxel_correction := true
          client := { st.client with
            needs_to_do_voxel_correction := true
            needs_to_acknowledge_prediction_error := true } }
    else
      some
        { st with
          serializer :=
            (((st.serializer.write (wire_item.uint8 voxel_ptr.x)).write
              (wire_item.uint8 voxel_ptr.y)).write (wire_item.uint8 voxel_ptr.z)).write
              (wire_item.uint8 255) }

/-- The body of the loop over the chunks a client reported. -/
def serialize_client_chunk (g : voxel_chunks_t) (st : voxel_loop_t) (chunk : Nat) :
    Option voxel_loop_t :=
  let modified_chunk_data := st.client.previous_received_voxel_modifications chunk
  let st1 : voxel_loop_t := { st with
    serializer := (st.serializer.write (wire_item.uint16 modified_chunk_data.chunk_index)).write
      (wire_item.uint32 modified_chunk_data.modified_voxel_count) }
  (List.range modified_chunk_data.modified_voxel_count).foldlM
    (serialize_client_voxel g chunk) st1

/-- The comparison of two vectors against `precision = 0.1f`, the float32
nearest to `1/10`: some component of `glm::abs(a - b)`, the difference taken in
float32, exceeds the precision.  A difference beyond the float32 range is an
infinity in the source and exceeds the precision there as its unbounded rounding
does here. -/
def is_different (a b : vector3_t) : Bool :=
  let precision : float32_t := round_float32 (1 / 10)
  decide (|round_float32 (a.x - b.x)| > precision ∨ |round_float32 (a.y - b.y)| > precision ∨
    |round_float32 (a.z - b.z)| > precision)

/-- The state of the loop over the player snapshots serialized for one client:
the serializer, the array `player_snapshots`, the client record and the player
of the client. -/
structure player_loop_t where
  serializer : serializer_t
  player_snapshots : Nat → game_snapshot_player_state_packet_t
  client : client_t
  player : player_t

/-- The block of the player loop executed at `i == client_index`: the comparison
of the state the client reported with the state of the server, and the flags of
the client's own entry. -/
def correct_own_snapshot (client_index : Nat) (st : player_loop_t) : player_loop_t :=
  let player_snapshot_packet := st.player_snapshots client_index
  if st.client.received_input_commands then
    let previous_received_player_state := st.client.previous_received_player_state
    let position_is_different :=
      is_different previous_received_player_state.ws_position
        player_snapshot_packet.ws_position
    let direction_is_different :=
      is_different previous_received_player_state.ws_direction
        player_snapshot_packet.ws_direction
    let st2 : player_loop_t :=
      if position_is_different || direction_is_different then
        { st with
          player := { st.player with
            network := { st.player.network with
              player_states_cbuffer := { st.player.network.player_states_cbuffer with
                tail := st.player.network.player_states_cbuffer.head
                head_tail_difference := 0 } } }
          player_snapshots := Function.update st.player_snapshots client_index
            { player_snapshot_packet with need_to_do_correction := true }
          client := { st.client with needs_to_acknowledge_prediction_error := true } }
      else st
    { st2 with
      player_snapshots := Function.update st2.player_snapshots client_index
        { st2.player_snapshots client_index with is_to_ignore := false } }
  else
    { st with
      player_snapshots := Function.update st.player_snapshots client_index
        { player_snapshot_packet with is_to_ignore := true } }

/-- The body of the loop `for i < client_count` that serializes the player
snapshots into the packet of client `client_index`. -/
def serialize_player_snapshot (client_index : Nat) (st : player_loop_t) (i : Nat) :
    player_loop_t :=
  let st1 : player_loop_t := if i = client_index then correct_own_snapshot client_index st else st
  { st1 with
    serializer := st1.serializer.write
      (wire_item.game_snapshot_player_state (st1.player_snapshots i)) }

/-- The state of the loop over the recipients: the server memory and the array
`player_snapshots`. -/
structure dispatch_loop_t where
  server : server_t
  player_snapshots : Nat → game_snapshot_player_state_packet_t

/-- The block `if (force_client_to_do_voxel_correction)` of the dispatch loop: it
sets both correction flags of the recipient's own entry and the latch. -/
def force_voxel_correction (client_index : Nat) (v : voxel_loop_t)
    (player_snapshots : Nat → game_snapshot_player_state_packet_t) :
    voxel_loop_t × (Nat → game_snapshot_player_state_packet_t) :=
  if v.force_client_to_do_voxel_correction then
    ({ v with client := { v.client with needs_to_acknowledge_prediction_error := true } },
      Function.update player_snapshots client_index
        { player_snapshots client_index with
          need_to_do_voxel_correction := true
          need_to_do_correction := true })
  else (v, player_snapshots)

/-- The end of one iteration of the dispatch loop: the client and player records
written through the pointers `client` and `player` are stored back,
`modified_chunks_count` is reset and the serialized datagram is sent. -/
def send_client_snapshot (s : server_t) (client_index player_handle : Nat)
    (p : player_loop_t) : dispatch_loop_t :=
  let client1 : client_t := { p.client with modified_chunks_count := 0 }
  let server1 := set_client (set_player s player_handle p.player) client_index client1
  { server := send_serialized_message server1 p.serializer client1.network_address
    player_snapshots := p.player_snapshots }

/-- The body of the loop over the recipients of `dispatch_snapshot_to_clients`;
`start` holds the items serialized before `player_snapshots_start` (the header
and the voxel delta). -/
def dispatch_snapshot_to_client (start : serializer_t) (st : dispatch_loop_t)
    (client_index : Nat) : Option dispatch_loop_t :=
  let client := get_client st.server client_index
  let player := get_player st.server client.player_handle
  if client.received_input_commands then
    let out_serializer : serializer_t :=
      (start.write (wire_item.uint64 client.previous_client_tick)).write
        (wire_item.uint32 client.modified_chunks_count)
    match (List.range client.modified_chunks_count).foldlM
        (serialize_client_chunk st.server.voxel_chunks)
        { serializer := out_serializer, force_client_to_do_voxel_correction := false,
          client := client } with
    | none => none
    | some v =>
      let forced := force_voxel_correction client_index v st.player_snapshots
      let p : player_loop_t :=
        (List.range st.server.network_state.client_count).foldl
          (serialize_player_snapshot client_index)
          { serializer := forced.1.serializer, player_snapshots := forced.2,
            client := forced.1.client, player := player }
      some (send_client_snapshot st.server client_index client.player_handle p)
  else some st

/-- The entry of `player_snapshots` prepared for a client before the recipients
are served. -/
def prepare_player_snapshot (s : server_t) (client_index : Nat) :
    game_snapshot_player_state_packet_t :=
  let client := get_client s client_index
  let player := get_player s client.player_handle
  { game_snapshot_player_state_packet_t.zero with
    client_id := client.client_id
    ws_position := player.ws_p
    ws_direction := player.ws_d
    ws_velocity := player.ws_v
    ws_up_vector := player.ws_current_up_vector
    ws_rotation := player.ws_r
    action_flags := player.previous_action_flags
    is_rolling := player.rolling_mode }

/-- The array `player_snapshots` as `dispatch_snapshot_to_clients` prepares it
before serving the recipients. -/
def prepared_player_snapshots (s : server_t) : Nat → game_snapshot_player_state_packet_t :=
  fun client_index =>
    if client_index < s.network_state.client_count then prepare_player_snapshot s client_index
    else game_snapshot_player_state_packet_t.zero

/-- The function `dispatch_snapshot_to_clients`.  The voxel delta packet, which
the source builds from `get_modified_voxel_chunks`, and the final
`clear_chunk_history_for_server` belong to voxel code outside the sources: the
packet is a parameter and the clearing is not modelled. -/
def dispatch_snapshot_to_clients (fmt : wire_format) (s : server_t)
    (voxel_packet : game_snapshot_voxel_delta_packet_t) : Option server_t :=
  let player_snapshots := prepared_player_snapshots s
  let header : packet_header_t :=
    { packet_mode := packet_mode_t.PM_SERVER_MODE
      packet_type := packet_type_t.server server_packet_type_t.SPT_GAME_STATE_SNAPSHOT
      total_packet_size := fmt.sizeof_packet_header + 8 +
        fmt.sizeof_game_snapshot_voxel_delta_packet voxel_packet +
        fmt.sizeof_game_snapshot_player_state_packet * s.network_state.client_count
      current_tick := 0
      client_id := 0 }
  let start : serializer_t :=
    { items := [wire_item.header header, wire_item.game_snapshot_voxel_delta voxel_packet] }
  ((List.range s.network_state.client_count).foldlM (dispatch_snapshot_to_client start)
    { server := s, player_snapshots := player_snapshots }).map fun st => st.server

/-- The player entries among serialized items, in the order they were serialized. -/
def player_states_of_items (items : List wire_item) :
    List game_snapshot_player_state_packet_t :=
  items.filterMap fun i =>
    match i with
    | wire_item.game_snapshot_player_state p => some p
    | _ => none

/-- The player entries a datagram carries, in the order they were serialized. -/
def sent_message_t.player_states (m : sent_message_t) :
    List game_snapshot_player_state_packet_t :=
  player_states_of_items m.items

/-- The value bytes a datagram carries (`serialize_uint8` items), in order. -/
def sent_message_t.uint8_values (m : sent_message_t) : List Nat :=
  m.items.filterMap fun i =>
    match i with
    | wire_item.uint8 v => some v
    | _ => none

/-- A voxel the client reported (entry `voxel` of its stored chunk `chunk`)
differs from the voxel the server holds at that position. -/
def voxel_mismatch (g : voxel_chunks_t) (c : client_t) (chunk voxel : Nat) : Prop :=
  actual_voxel_value g (c.previous_received_voxel_modifications chunk).chunk_index
      ((c.previous_received_voxel_modifications chunk).modified_voxels voxel) ≠
    some ((c.previous_received_voxel_modifications chunk).modified_voxels voxel).value

/-- At least one voxel the client reported differs from the server. -/
def has_voxel_mismatch (g : voxel_chunks_t) (c : client_t) : Prop :=
  ∃ chunk, chunk < c.modified_chunks_count ∧
    ∃ voxel, voxel < (c.previous_received_voxel_modifications chunk).modified_voxel_count ∧
      voxel_mismatch g c chunk voxel

/-- The number of snapshots a dispatch sends before the one of client `k`: the
recipients are the clients with `received_input_commands`, in index order. -/
def recipients_before (s : server_t) (k : Nat) : Nat :=
  ((List.range k).filter fun j => (get_client s j).received_input_commands).length

/-- The record of a client after the voxel comparison: both flags are set when
a mismatch was found. -/
def client_after_voxels (c : client_t) (force : Bool) : client_t :=
  if force then
    { c with needs_to_do_voxel_correction := true, needs_to_acknowledge_prediction_error := true }
  else c

/-- What one dispatch does for recipient `k`, in terms of the state `s` and the
array `snaps` the dispatch loop started from: `msg` is the datagram sent to the
client and `latch` the value of its `needs_to_acknowledge_prediction_error`
afterwards. -/
def snapshot_outcome (s : server_t) (snaps : Nat → game_snapshot_player_state_packet_t)
    (k : Nat) (msg : sent_message_t) (latch : Bool) : Prop :=
  ∃ (e : game_snapshot_player_state_packet_t) (force : Bool),
    msg.address = (get_client s k).network_address ∧
    msg.player_states[k]? = some e ∧
    (force = true ↔ has_voxel_mismatch s.voxel_chunks (get_client s k)) ∧
    e.need_to_do_voxel_correction = ((snaps k).need_to_do_voxel_correction || force) ∧
    e.need_to_do_correction =
      (((snaps k).need_to_do_correction || force) ||
        (is_different (get_client s k).previous_received_player_state.ws_position
            (snaps k).ws_position ||
          is_different (get_client s k).previous_received_player_state.ws_direction
            (snaps k).ws_direction)) ∧
    e.is_to_ignore = false ∧
    latch =
      ((((get_client s k).needs_to_acknowledge_prediction_error || force) || force) ||
        (is_different (get_client s k).previous_received_player_state.ws_position
            (snaps k).ws_position ||
          is_different (get_client s k).previous_received_player_state.ws_direction
            (snaps k).ws_direction))

/-- Every voxel the client reported can be read from the grid of the server:
its chunk exists and its coordinates lie in the chunk. -/
def reported_voxels_readable (g : voxel_chunks_t) (c : client_t) : Prop :=
  ∀ chunk, chunk < c.modified_chunks_count →
    ∀ voxel, voxel < (c.previous_received_voxel_modifications chunk).modified_voxel_count →
      (actual_voxel_value g (c.previous_received_voxel_modifications chunk).chunk_index
        ((c.previous_received_voxel_modifications chunk).modified_voxels voxel)).isSome = true

/-- A server with one client, client 0, that has sent input commands, reported
the position and direction `(0, 0, 0)` and reported no voxel; its player is at
the position `p`. -/
def one_client_server (p : vector3_t) : server_t :=
  { example_server with
    network_state :=
      { client_count := 1
        clients := fun _ => { client_t.zero with received_input_commands := true } }
    players := fun _ => { player_t.zero 40 with ws_p := p } }

/-- A chunk at grid cell `(0, 0, 0)` whose voxels all have density 255. -/
def solid_chunk : voxel_chunk_t :=
  { xs_bottom_corner := ⟨0, 0, 0⟩, chunk_coord := ⟨0, 0, 0⟩,
    voxels := fun _ _ _ => 255, should_do_gpu_sync := false }

/-- A grid of edge size 1 holding `solid_chunk`. -/
def solid_grid : voxel_chunks_t :=
  { grid_edge_size := 1, size := 9,
    chunks := fun i => if i = 0 then some solid_chunk else none,
    chunks_to_gpu_sync := fun _ => 0, to_sync_count := 0 }

/-- A server over `solid_grid` with one client, client 0, that has sent input
commands and reported one modified voxel: voxel `(0, 0, 0)` of chunk 0 with the
given value. -/
def reporting_server (value : Nat) : server_t :=
  { example_server with
    voxel_chunks := solid_grid
    network_state :=
      { client_count := 1
        clients := fun _ =>
          { client_t.zero with
            received_input_commands := true
            modified_chunks_count := 1
            previous_received_voxel_modifications := fun _ =>
              { chunk_index := 0, modified_voxel_count := 1,
                modified_voxels := fun _ => ⟨0, 0, 0, value⟩ } } } }

/-- The receive loop of `update_as_server`, `for (i = 0; i < 1 + 2 * client_count; ++i)`,
from counter `i` on; `received` lists the results of the successive
`receive_from` calls (an empty socket is a result with `bytes_received ≤ 0`), and
past its end the socket stays empty. -/
def receive_loop (fmt : wire_format) : server_t → Nat → List received_datagram_t → server_t
  | s, _, [] => s
  | s, i, d :: rest =>
    if i < 1 + 2 * s.network_state.client_count then
      receive_loop fmt (handle_datagram fmt s d) (i + 1) rest
    else s

/-- The function `update_as_server`.  The static `time_since_previous_snapshot`
is passed in and returned, `server_game_state_snapshot_rate` is the parameter
`rate` (for the rate 0 the quotient `1.0f / rate` is infinite and no snapshot is
due), and `voxel_packet` is the voxel delta of the snapshot (see
`dispatch_snapshot_to_clients`). -/
def update_as_server (fmt : wire_format) (s : server_t) (time_since_previous_snapshot : float32_t)
    (rate dt : float32_t) (voxel_packet : game_snapshot_voxel_delta_packet_t)
    (received : List received_datagram_t) : Option (server_t × float32_t) :=
  let time1 : float32_t := time_since_previous_snapshot + dt
  if rate ≠ 0 ∧ time1 > 1 / rate then
    match dispatch_snapshot_to_clients fmt s voxel_packet with
    | none => none
    | some s1 => some (receive_loop fmt s1 0 received, 0)
  else some (receive_loop fmt s 0 received, time1)

/-! ## Ray casting (`ray_cast_terraform`) -/

/-- The product `s * v` of a float and a vector. -/
def vector3_t.scale (s : float32_t) (v : vector3_t) : vector3_t := ⟨s * v.x, s * v.y, s * v.z⟩

/-- The quotient `v / s` of a vector and a float; a zero divisor gives no finite value. -/
def vector3_t.div_scalar (v : vector3_t) (s : float32_t) : Option vector3_t :=
  if s = 0 then none else some ⟨v.x / s, v.y / s, v.z / s⟩

/-- The function `get_voxel_world_origin`: the edge size is converted to float32
and the product with `size` is rounded; the halving and the product with 16 are
exact in float32. -/
def get_voxel_world_origin (g : voxel_chunks_t) : Option vector3_t :=
  (float32 (-(round_float32 (g.grid_edge_size : ℚ) / 2) * (VOXEL_CHUNK_EDGE_LENGTH : ℚ) *
    g.size)).map fun h => ⟨h, h, h⟩

/-- The function `ws_to_xs`: world space to voxel space, in float32. -/
def ws_to_xs (g : voxel_chunks_t) (ws_position : vector3_t) : Option vector3_t :=
  match get_voxel_world_origin g with
  | none => none
  | some origin =>
    match ws_position.float32_sub origin with
    | none => none
    | some from_origin => from_origin.float32_div_scalar g.size

/-- The function `get_voxel_coord(const vector3_t &)`: the rounded position,
each component reduced with the C remainder `% 16` (negative for a negative
component). -/
def get_voxel_coord (xs_position : vector3_t) : ivector3_t :=
  let rounded : ivector3_t :=
    ⟨glm_round xs_position.x, glm_round xs_position.y, glm_round xs_position.z⟩
  ⟨rounded.x.tmod (VOXEL_CHUNK_EDGE_LENGTH : Int), rounded.y.tmod (VOXEL_CHUNK_EDGE_LENGTH : Int),
   rounded.z.tmod (VOXEL_CHUNK_EDGE_LENGTH : Int)⟩

/-- The result of running a loop of the source for at most a given number of
iterations: the value it returns, undefined behaviour, or the bound was reached
before the loop ended. -/
inductive run_result (α : Type) where
  | done (a : α)
  | undefined
  | out_of_fuel

/-- An optional value as a result: `none` is undefined behaviour. -/
def run_result.of_option {α : Type} : Option α → run_result α
  | some a => run_result.done a
  | none => run_result.undefined

/-- The test made by the body of the loop of `ray_cast_terraform` at one
position: `some true` when the chunk of the rounded position exists and the voxel
read there exceeds the surface level, `some false` when the chunk is null or the
voxel does not exceed it, `none` when the voxel index lies outside the array. -/
def ray_hits (g : voxel_chunks_t) (current_ray_position : vector3_t) (surface_level : Nat) :
    Option Bool :=
  match get_chunk_encompassing_point g current_ray_position with
  | none => some false
  | some chunk =>
    match g.chunks chunk with
    | none => none
    | some c =>
      let voxel_coord := get_voxel_coord current_ray_position
      if is_voxel_coord_within_chunk voxel_coord then
        some (decide (c.voxels voxel_coord.x.toNat voxel_coord.y.toNat voxel_coord.z.toNat >
          surface_level))
      else none

/-- The left side of the condition of the loop of `ray_cast_terraform`:
`glm::dot(current_ray_position - ray_start_position, current_ray_position -
ray_start_position)` in float32. -/
def ray_distance_squared (ray_start_position current_ray_position : vector3_t) :
    Option float32_t :=
  (current_ray_position.float32_sub ray_start_position).bind fun d => d.float32_dot d

/-- The increment of the loop of `ray_cast_terraform`:
`current_ray_position += ray_step_size * ray_direction` in float32. -/
def ray_next (ray_direction : vector3_t) (ray_step_size : float32_t)
    (current_ray_position : vector3_t) : Option vector3_t :=
  (ray_direction.float32_scale ray_step_size).bind fun d => current_ray_position.float32_add d

/-- The loop of `ray_cast_terraform` from the position `current_ray_position`
on, run for at most `fuel` evaluations of its condition. -/
def ray_cast_terraform_loop (g : voxel_chunks_t) (ray_start_position ray_direction : vector3_t)
    (ray_step_size max_reach_distance_squared dt : float32_t) (surface_level : Nat)
    (destructive : Bool) : Nat → vector3_t → run_result voxel_chunks_t
  | 0, _ => run_result.out_of_fuel
  | fuel + 1, current_ray_position =>
    match ray_distance_squared ray_start_position current_ray_position with
    | none => run_result.undefined
    | some distance_squared =>
      if distance_squared < max_reach_distance_squared then
        match ray_hits g current_ray_position surface_level with
        | none => run_result.undefined
        | some true =>
          run_result.of_option (terraform g current_ray_position.to_ivector3 2 destructive dt)
        | some false =>
          match ray_next ray_direction ray_step_size current_ray_position with
          | none => run_result.undefined
          | some next_ray_position =>
            ray_cast_terraform_loop g ray_start_position ray_direction ray_step_size
              max_reach_distance_squared dt surface_level destructive fuel next_ray_position
      else run_result.done g

/-- The function `ray_cast_terraform`, its loop run for at most `fuel`
evaluations of the condition. -/
def ray_cast_terraform (fuel : Nat) (g : voxel_chunks_t) (ws_position ws_direction : vector3_t)
    (max_reach_distance dt : float32_t) (surface_level : Nat) (destructive : Bool) :
    run_result voxel_chunks_t :=
  match ws_to_xs g ws_position with
  | none => run_result.undefined
  | some ray_start_position =>
    match float32_div max_reach_distance g.size with
    | none => run_result.undefined
    | some max_reach_distance =>
      match float32 (max_reach_distance / 10),
        float32 (max_reach_distance * max_reach_distance) with
      | some ray_step_size, some max_reach_distance_squared =>
        ray_cast_terraform_loop g ray_start_position ws_direction ray_step_size
          max_reach_distance_squared dt surface_level destructive fuel ray_start_position
      | _, _ => run_result.undefined

/-- The position of the loop of `ray_cast_terraform` after `k` increments, the
`k`-th sample of the ray: `start` for `k = 0`, and the float32 sum of the
previous sample and `step * dir` after that; `none` when a float operation left
the float32 range. -/
def ray_sample (start dir : vector3_t) (step : float32_t) : Nat → Option vector3_t
  | 0 => some start
  | k + 1 => (ray_sample start dir step k).bind (ray_next dir step)

/-- The condition of the loop of `ray_cast_terraform` at the position `p`: the
float32 squared distance from the start is below the squared reach. -/
def ray_in_reach (start : vector3_t) (reach_squared : float32_t) (p : vector3_t) :
    Option Bool :=
  (ray_distance_squared start p).map fun d => decide (d < reach_squared)

/-- What `ray_cast_terraform` does when its loop stops at the position `p`:
nothing when `p` is out of reach, otherwise one call of `terraform` with radius 2
at `p`, whose voxel exceeds the surface level. -/
def ray_outcome (g : voxel_chunks_t) (p : vector3_t) (in_reach : Option Bool) (dt : float32_t)
    (surface_level : Nat) (destructive : Bool) : run_result voxel_chunks_t :=
  match in_reach with
  | none => run_result.undefined
  | some false => run_result.done g
  | some true =>
    match ray_hits g p surface_level with
    | some true => run_result.of_option (terraform g p.to_ivector3 2 destructive dt)
    | _ => run_result.undefined

/-- The voxel whose density `ray_cast_terraform` tests at the position `p`: the
component-wise rounding of `p`. -/
def rounded_position (p : vector3_t) : ivector3_t :=
  ⟨glm_round p.x, glm_round p.y, glm_round p.z⟩

/-! ## Mesh extraction (`update_chunk_mesh`) -/

/-- The constants of the mesh code that are defined outside the sources: the
table `TRIANGLE_TABLE` of `ttable.inc` (one row of edge indices per bit
combination, ended by `-1`) and the capacity `MAX_VERTICES_PER_VOXEL_CHUNK` of
`mesh_vertices`. -/
structure mesh_tables where
  TRIANGLE_TABLE : Nat → List Int
  MAX_VERTICES_PER_VOXEL_CHUNK : Nat

/-- The function `lerp`. -/
def lerp (a b x : float32_t) : Option float32_t := float_div (x - a) (b - a)

/-- The function `interpolate`: `a + x * (b - a)`. -/
def interpolate (a b : vector3_t) (x : float32_t) : vector3_t := a.add ((b.sub a).scale x)

/-- The function `push_vertex_to_triangle_array`; a store at or beyond the
capacity of `mesh_vertices` is undefined. -/
def push_vertex_to_triangle_array (t : mesh_tables) (v0 v1 : Nat) (vertices : Nat → vector3_t)
    (chunk : voxel_chunk_t) (voxel_values : Nat → Nat) (surface_level : Nat) :
    Option voxel_chunk_t :=
  let surface_level_f : float32_t := (surface_level : ℚ)
  let voxel_value0 : float32_t := (voxel_values v0 : ℚ)
  let voxel_value1 : float32_t := (voxel_values v1 : ℚ)
  let swapped : Bool := decide (voxel_value0 > voxel_value1)
  let value0 : float32_t := if swapped then voxel_value1 else voxel_value0
  let value1 : float32_t := if swapped then voxel_value0 else voxel_value1
  let w0 : Nat := if swapped then v1 else v0
  let w1 : Nat := if swapped then v0 else v1
  match lerp value0 value1 surface_level_f with
  | none => none
  | some interpolated_voxel_values =>
    let vertex := interpolate (vertices w0) (vertices w1) interpolated_voxel_values
    if chunk.vertex_count < t.MAX_VERTICES_PER_VOXEL_CHUNK then
      some { chunk with
        mesh_vertices := Function.update chunk.mesh_vertices chunk.vertex_count vertex
        vertex_count := chunk.vertex_count + 1 }
    else none

def NORMALIZED_CUBE_VERTICES : List vector3_t :=
  [⟨-1 / 2, -1 / 2, -1 / 2⟩, ⟨1 / 2, -1 / 2, -1 / 2⟩, ⟨1 / 2, -1 / 2, 1 / 2⟩,
   ⟨-1 / 2, -1 / 2, 1 / 2⟩, ⟨-1 / 2, 1 / 2, -1 / 2⟩, ⟨1 / 2, 1 / 2, -1 / 2⟩,
   ⟨1 / 2, 1 / 2, 1 / 2⟩, ⟨-1 / 2, 1 / 2, 1 / 2⟩]

/-- The array `vertices` of a voxel pair anchored at `(x, y, z)`:
`NORMALIZED_CUBE_VERTICES[i] + 0.5 + (x, y, z)`. -/
def voxel_pair_vertices (x y z : Nat) (i : Nat) : vector3_t :=
  ((NORMALIZED_CUBE_VERTICES.getD i ⟨0, 0, 0⟩).add ⟨1 / 2, 1 / 2, 1 / 2⟩).add
    ⟨(x : ℚ), (y : ℚ), (z : ℚ)⟩

/-- The two cube corners joined by an edge, as the `switch` over the edge index
lists them; other values match no case. -/
def edge_corners (edge_index : Int) : Option (Nat × Nat) :=
  if edge_index = 0 then some (0, 1)
  else if edge_index = 1 then some (1, 2)
  else if edge_index = 2 then some (2, 3)
  else if edge_index = 3 then some (3, 0)
  else if edge_index = 4 then some (4, 5)
  else if edge_index = 5 then some (5, 6)
  else if edge_index = 6 then some (6, 7)
  else if edge_index = 7 then some (7, 4)
  else if edge_index = 8 then some (0, 4)
  else if edge_index = 9 then some (1, 5)
  else if edge_index = 10 then some (2, 6)
  else if edge_index = 11 then some (3, 7)
  else none

/-- One iteration of the loop `for (i = 0; i < 3; ++i)` over `edge_pair`. -/
def push_edge_vertex (t : mesh_tables) (edge_pair : Nat → Int) (vertices : Nat → vector3_t)
    (voxel_values : Nat → Nat) (surface_level : Nat) (chunk : voxel_chunk_t) (i : Nat) :
    Option voxel_chunk_t :=
  match edge_corners (edge_pair i) with
  | none => some chunk
  | some (v0, v1) =>
    push_vertex_to_triangle_array t v0 v1 vertices chunk voxel_values surface_level

/-- The loop `while (triangle_entry[edge] != -1)` of `update_chunk_mesh_voxel_pair`;
the first argument is the rest of the table row from `triangle_entry[edge]` on,
and reading past the end of the row is undefined. -/
def update_chunk_mesh_voxel_pair_loop (t : mesh_tables) (voxel_values : Nat → Nat)
    (x y z surface_level : Nat) :
    List Int → Nat → (Nat → Int) → voxel_chunk_t → Option voxel_chunk_t
  | [], _, _, _ => none
  | edge_index :: rest, edge, edge_pair, chunk =>
    if edge_index = -1 then some chunk
    else
      let edge_pair1 := Function.update edge_pair (edge % 3) edge_index
      if edge % 3 = 2 then
        match (List.range 3).foldlM
            (push_edge_vertex t edge_pair1 (voxel_pair_vertices x y z) voxel_values surface_level)
            chunk with
        | none => none
        | some chunk1 =>
          update_chunk_mesh_voxel_pair_loop t voxel_values x y z surface_level rest (edge + 1)
            edge_pair1 chunk1
      else
        update_chunk_mesh_voxel_pair_loop t voxel_values x y z surface_level rest (edge + 1)
          edge_pair1 chunk

/-- The `uint8_t bit_combination` of a voxel pair: bit `i` is set when corner `i`
exceeds the surface level. -/
def bit_combination (voxel_values : Nat → Nat) (surface_level : Nat) : Nat :=
  (List.range 8).foldl (fun acc i =>
    (acc ||| ((if voxel_values i > surface_level then 1 else 0) <<< i)) % 256) 0

/-- The function `update_chunk_mesh_voxel_pair`. -/
def update_chunk_mesh_voxel_pair (t : mesh_tables) (voxel_values : Nat → Nat)
    (chunk : voxel_chunk_t) (x y z surface_level : Nat) : Option voxel_chunk_t :=
  update_chunk_mesh_voxel_pair_loop t voxel_values x y z surface_level
    (t.TRIANGLE_TABLE (bit_combination voxel_values surface_level)) 0 (fun _ => 0) chunk

/-- The function `chunk_edge_voxel_value`: the value returned and the value
stored to `*doesnt_exist`. -/
def chunk_edge_voxel_value (g : voxel_chunks_t) (chunk : voxel_chunk_t) (x y z : Nat) :
    Option (Nat × Bool) :=
  let chunk_coord_offset_x : Int := if x = VOXEL_CHUNK_EDGE_LENGTH then 1 else 0
  let chunk_coord_offset_y : Int := if y = VOXEL_CHUNK_EDGE_LENGTH then 1 else 0
  let chunk_coord_offset_z : Int := if z = VOXEL_CHUNK_EDGE_LENGTH then 1 else 0
  let final_x : Nat := if x = VOXEL_CHUNK_EDGE_LENGTH then 0 else x
  let final_y : Nat := if y = VOXEL_CHUNK_EDGE_LENGTH then 0 else y
  let final_z : Nat := if z = VOXEL_CHUNK_EDGE_LENGTH then 0 else z
  match get_voxel_chunk g
      (convert_3d_to_1d_index (chunk.chunk_coord.x + chunk_coord_offset_x)
        (chunk.chunk_coord.y + chunk_coord_offset_y)
        (chunk.chunk_coord.z + chunk_coord_offset_z) g.grid_edge_size) with
  | none => some (0, true)
  | some p =>
    match g.chunks p with
    | none => none
    | some c =>
      if final_x < 16 ∧ final_y < 16 ∧ final_z < 16 then
        some (c.voxels final_x final_y final_z, false)
      else none

/-- The array `voxel_values` while its initializers are evaluated, left to
right, together with the local `doesnt_exist`, which every call of
`chunk_edge_voxel_value` overwrites. -/
structure voxel_values_t where
  values : List Nat
  doesnt_exist : Bool

/-- An initializer that reads `chunk->voxels` directly. -/
def voxel_values_t.push_own (st : voxel_values_t) (chunk : voxel_chunk_t) (x y z : Nat) :
    Option voxel_values_t :=
  some { st with values := st.values ++ [chunk.voxels x y z] }

/-- An initializer `chunk_edge_voxel_value(chunk, x, y, z, &doesnt_exist)`. -/
def voxel_values_t.push_edge (g : voxel_chunks_t) (st : voxel_values_t) (chunk : voxel_chunk_t)
    (x y z : Nat) : Option voxel_values_t :=
  (chunk_edge_voxel_value g chunk x y z).map fun r =>
    { values := st.values ++ [r.1], doesnt_exist := r.2 }

/-- The array `voxel_values` as a function of the corner index. -/
def voxel_values_t.value_at (st : voxel_values_t) (i : Nat) : Nat := st.values.getD i 0

/-- The `voxel_values` of a pair of the loop over the `+x` face (and of the loop
over the `+z` face, which has the same initializers). -/
def x_superior_voxel_values (g : voxel_chunks_t) (chunk : voxel_chunk_t) (x y z : Nat) :
    Option voxel_values_t :=
  (((((((voxel_values_t.push_own ⟨[], false⟩ chunk x y z).bind
    fun st => st.push_edge g chunk (x + 1) y z).bind
    fun st => st.push_edge g chunk (x + 1) y (z + 1)).bind
    fun st => st.push_edge g chunk x y (z + 1)).bind
    fun st => st.push_own chunk x (y + 1) z).bind
    fun st => st.push_edge g chunk (x + 1) (y + 1) z).bind
    fun st => st.push_edge g chunk (x + 1) (y + 1) (z + 1)).bind
    fun st => st.push_edge g chunk x (y + 1) (z + 1)

/-- The `voxel_values` of a pair of the loop over the `+y` face. -/
def y_superior_voxel_values (g : voxel_chunks_t) (chunk : voxel_chunk_t) (x y z : Nat) :
    Option voxel_values_t :=
  (((((((voxel_values_t.push_own ⟨[], false⟩ chunk x y z).bind
    fun st => st.push_edge g chunk (x + 1) y z).bind
    fun st => st.push_edge g chunk (x + 1) y (z + 1)).bind
    fun st => st.push_edge g chunk x y (z + 1)).bind
    fun st => st.push_edge g chunk x (y + 1) z).bind
    fun st => st.push_edge g chunk (x + 1) (y + 1) z).bind
    fun st => st.push_edge g chunk (x + 1) (y + 1) (z + 1)).bind
    fun st => st.push_edge g chunk x (y + 1) (z + 1)

/-- The `voxel_values` of a pair of the interior loop. -/
def interior_voxel_values (chunk : voxel_chunk_t) (x y z : Nat) : voxel_values_t :=
  { values := [chunk.voxels x y z, chunk.voxels (x + 1) y z, chunk.voxels (x + 1) y (z + 1),
      chunk.voxels x y (z + 1), chunk.voxels x (y + 1) z, chunk.voxels (x + 1) (y + 1) z,
      chunk.voxels (x + 1) (y + 1) (z + 1), chunk.voxels x (y + 1) (z + 1)]
    doesnt_exist := false }

/-- The end of the body of a face loop: `if (!doesnt_exist)` the pair is meshed. -/
def mesh_face_pair (t : mesh_tables) (surface_level : Nat) (chunk : voxel_chunk_t)
    (voxel_values : Option voxel_values_t) (x y z : Nat) : Option voxel_chunk_t :=
  match voxel_values with
  | none => none
  | some st =>
    if !st.doesnt_exist then update_chunk_mesh_voxel_pair t st.value_at chunk x y z surface_level
    else some chunk

/-- The body of the loop over the `+x` face, at the counters `(y, z)`. -/
def x_superior_pair (t : mesh_tables) (g : voxel_chunks_t) (surface_level : Nat)
    (chunk : voxel_chunk_t) (yz : Nat × Nat) : Option voxel_chunk_t :=
  mesh_face_pair t surface_level chunk
    (x_superior_voxel_values g chunk (VOXEL_CHUNK_EDGE_LENGTH - 1) yz.1 yz.2)
    (VOXEL_CHUNK_EDGE_LENGTH - 1) yz.1 yz.2

/-- The body of the loop over the `+y` face, at the counters `(x, z)`. -/
def y_superior_pair (t : mesh_tables) (g : voxel_chunks_t) (surface_level : Nat)
    (chunk : voxel_chunk_t) (xz : Nat × Nat) : Option voxel_chunk_t :=
  mesh_face_pair t surface_level chunk
    (y_superior_voxel_values g chunk xz.1 (VOXEL_CHUNK_EDGE_LENGTH - 1) xz.2)
    xz.1 (VOXEL_CHUNK_EDGE_LENGTH - 1) xz.2

/-- The body of the loop over the `+z` face, at the counters `(x, y)`. -/
def z_superior_pair (t : mesh_tables) (g : voxel_chunks_t) (surface_level : Nat)
    (chunk : voxel_chunk_t) (xy : Nat × Nat) : Option voxel_chunk_t :=
  mesh_face_pair t surface_level chunk
    (x_superior_voxel_values g chunk xy.1 xy.2 (VOXEL_CHUNK_EDGE_LENGTH - 1))
    xy.1 xy.2 (VOXEL_CHUNK_EDGE_LENGTH - 1)

/-- The body of the interior loop, at the counters `(x, y, z)`. -/
def interior_pair (t : mesh_tables) (surface_level : Nat) (chunk : voxel_chunk_t)
    (xyz : Nat × Nat × Nat) : Option voxel_chunk_t :=
  update_chunk_mesh_voxel_pair t (interior_voxel_values chunk xyz.1 xyz.2.1 xyz.2.2).value_at chunk
    xyz.1 xyz.2.1 xyz.2.2 surface_level

/-- The counters `(y, z)` of the loop over the `+x` face, in execution order. -/
def x_superior_anchors : List (Nat × Nat) :=
  (List.range VOXEL_CHUNK_EDGE_LENGTH).flatMap fun z =>
    (List.range (VOXEL_CHUNK_EDGE_LENGTH - 1)).map fun y => (y, z)

/-- The counters `(x, z)` of the loop over the `+y` face, in execution order. -/
def y_superior_anchors : List (Nat × Nat) :=
  (List.range VOXEL_CHUNK_EDGE_LENGTH).flatMap fun z =>
    (List.range VOXEL_CHUNK_EDGE_LENGTH).map fun x => (x, z)

/-- The counters `(x, y)` of the loop over the `+z` face, in execution order. -/
def z_superior_anchors : List (Nat × Nat) :=
  (List.range (VOXEL_CHUNK_EDGE_LENGTH - 1)).flatMap fun y =>
    (List.range (VOXEL_CHUNK_EDGE_LENGTH - 1)).map fun x => (x, y)

/-- The counters `(x, y, z)` of the interior loop, in execution order. -/
def interior_anchors : List (Nat × Nat × Nat) :=
  (List.range (VOXEL_CHUNK_EDGE_LENGTH - 1)).flatMap fun z =>
    (List.range (VOXEL_CHUNK_EDGE_LENGTH - 1)).flatMap fun y =>
      (List.range (VOXEL_CHUNK_EDGE_LENGTH - 1)).map fun x => (x, y, z)

/-- The loops of `update_chunk_mesh` over the chunk record, after the vertex count
was reset: the three face loops (each only when the neighbour chunk on that side
exists) and then the interior loop.  The pointers `xy_superior`, `xz_superior`,
`yz_superior` and `xyz_superior` of the source are not used by it. -/
def update_chunk_mesh_loops (t : mesh_tables) (g : voxel_chunks_t) (chunk : voxel_chunk_t)
    (surface_level : Nat) : Option voxel_chunk_t :=
  let x_superior := get_voxel_chunk g (convert_3d_to_1d_index (chunk.chunk_coord.x + 1)
    chunk.chunk_coord.y chunk.chunk_coord.z g.grid_edge_size)
  let y_superior := get_voxel_chunk g (convert_3d_to_1d_index chunk.chunk_coord.x
    (chunk.chunk_coord.y + 1) chunk.chunk_coord.z g.grid_edge_size)
  let z_superior := get_voxel_chunk g (convert_3d_to_1d_index chunk.chunk_coord.x
    chunk.chunk_coord.y (chunk.chunk_coord.z + 1) g.grid_edge_size)
  ((((if x_superior.isSome then x_superior_anchors.foldlM (x_superior_pair t g surface_level) chunk
      else some chunk).bind
    fun c => if y_superior.isSome then
        y_superior_anchors.foldlM (y_superior_pair t g surface_level) c
      else some c).bind
    fun c => if z_superior.isSome then
        z_superior_anchors.foldlM (z_superior_pair t g surface_level) c
      else some c).bind
    fun c => interior_anchors.foldlM (interior_pair t surface_level) c)

/-- The passes of `update_chunk_mesh` over the chunk record: `vertex_count` is
reset and the loops run. -/
def update_chunk_mesh_passes (t : mesh_tables) (g : voxel_chunks_t) (chunk0 : voxel_chunk_t)
    (surface_level : Nat) : Option voxel_chunk_t :=
  update_chunk_mesh_loops t g { chunk0 with vertex_count := 0 } surface_level

/-- The function `update_chunk_mesh` on the chunk at pointer `chunk`. -/
def update_chunk_mesh (t : mesh_tables) (g : voxel_chunks_t) (chunk : Nat) (surface_level : Nat) :
    Option voxel_chunks_t :=
  match g.chunks chunk with
  | none => none
  | some chunk0 =>
    match update_chunk_mesh_passes t g chunk0 surface_level with
    | none => none
    | some chunk1 =>
      ready_chunk_for_gpu_sync { g with chunks := Function.update g.chunks chunk (some chunk1) }
        (some chunk)

/-- An example of the missing constants: a table whose rows are empty except row
153 (corners 0, 3, 4 and 7 above the surface), which lists two triangles over the
four cut edges 0, 2, 4 and 6, and a capacity of 16875 vertices. -/
def example_tables : mesh_tables :=
  { TRIANGLE_TABLE := fun m =>
      if m = 153 then [0, 2, 4, 4, 2, 6, -1, -1, -1, -1, -1, -1, -1, -1, -1, -1]
      else List.replicate 16 (-1)
    MAX_VERTICES_PER_VOXEL_CHUNK := 16875 }

/-- The chunk at index `i` of a grid of edge size 2, all voxels of density 255. -/
def boundary_chunk (i : Nat) : voxel_chunk_t :=
  { xs_bottom_corner := ⟨16 * ((i % 2 : Nat) : Int), 16 * ((i / 2 % 2 : Nat) : Int),
      16 * ((i / 4 : Nat) : Int)⟩
    chunk_coord := ⟨((i % 2 : Nat) : Int), ((i / 2 % 2 : Nat) : Int), ((i / 4 : Nat) : Int)⟩
    voxels := fun _ _ _ => 255
    should_do_gpu_sync := false }

/-- A grid of edge size 2 whose eight chunks are all solid (density 255). -/
def boundary_grid : voxel_chunks_t :=
  { grid_edge_size := 2, size := 9,
    chunks := fun i => if i < 8 then some (boundary_chunk i) else none,
    chunks_to_gpu_sync := fun _ => 0, to_sync_count := 0 }

/-- A chunk record with the voxels and the grid cell of chunk 1 of
`boundary_grid`, the cell `(1, 0, 0)`. -/
def is_boundary_chunk_1 (c : voxel_chunk_t) : Prop :=
  c.voxels = (fun _ _ _ => 255) ∧ c.chunk_coord = ⟨1, 0, 0⟩

/-! ## Auxiliary definitions for the snapshot entries and the client table -/

/-- No entry of the array `player_snapshots` is flagged `is_to_ignore`. -/
def never_ignored (snaps : Nat → game_snapshot_player_state_packet_t) : Prop :=
  ∀ j, (snaps j).is_to_ignore = false

/-- A server with two clients over `example_grid`: client 0 has sent input
commands, client 1 has sent none; neither has reported a voxel. -/
def two_client_server : server_t :=
  { example_server with
    network_state :=
      { client_count := 2
        clients := fun i =>
          if i = 0 then { client_t.zero with client_id := 0, received_input_commands := true }
          else { client_t.zero with client_id := 1, player_handle := 1 } } }

/-- What the `CPT_INPUT_STATE` case leaves in a slot of
`previous_received_voxel_modifications` after storing the reported chunk `r` over
the old content `old`: the index, the reported count, and the reported voxels
below both the count and 80. -/
def stored_chunk (old : client_modified_chunk_nl_t) (r : client_modified_chunk_t) :
    client_modified_chunk_nl_t :=
  { chunk_index := r.chunk_index
    modified_voxel_count := r.modified_voxel_count
    modified_voxels := fun v =>
      if v < min r.modified_voxel_count 80 then r.modified_voxels v else old.modified_voxels v }

/-- The server accepts the datagram as an input-state packet of its sender: the
size check, the mode check and the switch select the case `CPT_INPUT_STATE`, and
the sender does not owe the acknowledgement of a prediction error. -/
def accepted_input_state (s : server_t) (d : received_datagram_t) : Prop :=
  d.bytes_received > 0 ∧ (d.header.total_packet_size : Int) = d.bytes_received ∧
  d.header.packet_mode = packet_mode_t.PM_CLIENT_MODE ∧
  d.header.packet_type = packet_type_t.client client_packet_type_t.CPT_INPUT_STATE ∧
  (get_client s d.header.client_id).needs_to_acknowledge_prediction_error = false

/-- An input-state datagram of client 0 that reports one modified chunk, chunk 0,
with 81 modified voxels, voxel `v` being `(v % 16, v / 16, 1)` with value 7. -/
def long_report_datagram : received_datagram_t :=
  { example_datagram (packet_type_t.client client_packet_type_t.CPT_INPUT_STATE) with
    voxel_packet :=
      { modified_chunk_count := 1
        modified_chunks := fun _ =>
          { chunk_index := 0, modified_voxel_count := 81,
            modified_voxels := fun v => ⟨v % 16, v / 16, 1, 7⟩ } } }

/-- The server accepts the datagram as a `CLIENT_JOIN`: the size check, the mode
check and the switch select the case `CPT_CLIENT_JOIN`. -/
def accepted_join (d : received_datagram_t) : Bool :=
  decide (d.bytes_received > 0 ∧ (d.header.total_packet_size : Int) = d.bytes_received ∧
    d.header.packet_mode = packet_mode_t.PM_CLIENT_MODE ∧
    d.header.packet_type = packet_type_t.client client_packet_type_t.CPT_CLIENT_JOIN)

/-- The server state after the datagrams `ds` were handled in order. -/
def process_datagrams (fmt : wire_format) (s : server_t) (ds : List received_datagram_t) :
    server_t :=
  ds.foldl (handle_datagram fmt) s

/-- Every client record in use holds its own index as `client_id`. -/
def client_ids_in_order (s : server_t) : Prop :=
  ∀ i, i < s.network_state.client_count → (get_client s i).client_id = i

/-- The `client_index` a `SERVER_HANDSHAKE` datagram carries (a header followed
by the game state initialize packet). -/
def handshake_client_index (m : sent_message_t) : Option Nat :=
  match m.items with
  | [wire_item.header _, wire_item.game_state_initialize_packet p] => some p.client_index
  | _ => none

/-! ## Voxel delta of the snapshot (`dispatch_snapshot_to_clients`) -/

/-- Modelled from the spec: `get_modified_voxel_chunks`, defined outside the
sources, returns the chunks whose modification list is not empty ("every chunk
with a non-empty modification list"), here in index order. -/
def get_modified_voxel_chunks (g : voxel_chunks_t) : List voxel_chunk_t :=
  (List.range (g.grid_edge_size * g.grid_edge_size * g.grid_edge_size)).filterMap fun i =>
    match g.chunks i with
    | some c => if c.modified_voxels_list_count ≠ 0 then some c else none
    | none => none

/-- Modelled from the spec: `convert_1d_to_3d_coord`, defined outside the
sources, the inverse of `convert_3d_to_1d_index`. -/
def convert_1d_to_3d_coord (index edge_length : Nat) : Nat × Nat × Nat :=
  (index % edge_length, index / edge_length % edge_length, index / (edge_length * edge_length))

/-- The loop of `dispatch_snapshot_to_clients` that prepares the voxel delta of
the snapshot: one `modified_chunk_t` per modified chunk and one entry per index
of its modification list, with the value kept in the history and the current
value. -/
def prepare_voxel_delta_packet (g : voxel_chunks_t) : game_snapshot_voxel_delta_packet_t :=
  { modified_chunks := (get_modified_voxel_chunks g).map fun chunk =>
      { chunk_index := (convert_3d_to_1d_index chunk.chunk_coord.x chunk.chunk_coord.y
          chunk.chunk_coord.z g.grid_edge_size).toNat
        modified_voxels := (List.range chunk.modified_voxels_list_count).map fun voxel =>
          let voxel_index := chunk.list_of_modified_voxels voxel
          let coord := convert_1d_to_3d_coord voxel_index VOXEL_CHUNK_EDGE_LENGTH
          { previous_value := chunk.voxel_history voxel_index
            next_value := chunk.voxels coord.1 coord.2.1 coord.2.2
            index := voxel_index } } }

/-- The modification list and the history buffer of a chunk. -/
def chunk_history (c : voxel_chunk_t) : Nat × (Nat → Nat) × (Nat → Nat) :=
  (c.modified_voxels_list_count, c.list_of_modified_voxels, c.voxel_history)

/-- Two grids of the same size whose chunks have the same modification lists and
history buffers. -/
def same_history (g g' : voxel_chunks_t) : Prop :=
  g'.grid_edge_size = g.grid_edge_size ∧
  ∀ i, (g'.chunks i).map chunk_history = (g.chunks i).map chunk_history

/-! ## Player input (`handle_main_player_mouse_movement`, `handle_main_player_keyboard_input`) -/

/-- The functions of the C math library that the code reaches through `glm`
(`sqrt`, `sin`, `cos`); they are parameters of the model. -/
structure math_functions where
  sqrt : float32_t → float32_t
  sin : float32_t → float32_t
  cos : float32_t → float32_t

def vector3_t.neg (v : vector3_t) : vector3_t := ⟨-v.x, -v.y, -v.z⟩

/-- The library function `glm::cross`. -/
def vector3_t.cross (a b : vector3_t) : vector3_t :=
  ⟨a.y * b.z - b.y * a.z, a.z * b.x - b.z * a.x, a.x * b.y - b.x * a.y⟩

/-- The library function `glm::normalize`: `v * inversesqrt(dot(v, v))`; the
result is `none` when the square root is 0 (the components are then not finite). -/
def glm_normalize (M : math_functions) (v : vector3_t) : Option vector3_t :=
  v.div_scalar (M.sqrt (v.dot v))

/-- The library function `glm::radians`: the product with the constant
`0.01745329251994329576923690768489`. -/
def glm_radians (degrees : float32_t) : float32_t :=
  degrees * (1745329251994329576923690768489 / 100000000000000000000000000000000)

/-- A `glm` 3×3 matrix, by columns. -/
structure matrix3_t where
  c0 : vector3_t
  c1 : vector3_t
  c2 : vector3_t

/-- The product of a `matrix3_t` and a vector. -/
def matrix3_t.mul_vec (m : matrix3_t) (v : vector3_t) : vector3_t :=
  ((m.c0.scale v.x).add (m.c1.scale v.y)).add (m.c2.scale v.z)

/-- The upper left 3×3 block `matrix3_t(glm::rotate(angle, v))` of the library
function `glm::rotate`, the rotation by `angle` about the normalized axis `v`. -/
def glm_rotate (M : math_functions) (angle : float32_t) (v : vector3_t) : Option matrix3_t :=
  (glm_normalize M v).map fun axis =>
    let c := M.cos angle
    let s := M.sin angle
    let temp := axis.scale (1 - c)
    { c0 := ⟨c + temp.x * axis.x, temp.x * axis.y + s * axis.z, temp.x * axis.z - s * axis.y⟩
      c1 := ⟨temp.y * axis.x - s * axis.z, c + temp.y * axis.y, temp.y * axis.z + s * axis.x⟩
      c2 := ⟨temp.z * axis.x + s * axis.y, temp.z * axis.y - s * axis.x, c + temp.z * axis.z⟩ }

/-- The enumeration `keyboard_button_type_t` (without the count `INVALID_KEY`). -/
inductive keyboard_button_type_t where
  | A | B | C | D | E | F | G | H | I | J | K | L | M | N | O | P | Q | R | S | T | U | V | W
  | X | Y | Z | ZERO | ONE | TWO | THREE | FOUR | FIVE | SIX | SEVEN | EIGHT | NINE | UP | LEFT
  | DOWN | RIGHT | SPACE | LEFT_SHIFT | LEFT_CONTROL | ENTER | BACKSPACE | ESCAPE
  deriving DecidableEq

/-- The enumeration `mouse_button_type_t` (without the count). -/
inductive mouse_button_type_t where
  | MOUSE_LEFT | MOUSE_RIGHT | MOUSE_MIDDLE
  deriving DecidableEq

/-- The fields of `input_state_t` read by the player input handlers; `keyboard`
and `mouse_buttons` hold the truth value of `is_down` of each button. -/
structure input_state_t where
  keyboard : keyboard_button_type_t → Bool
  mouse_buttons : mouse_button_type_t → Bool
  cursor_moved : Bool
  cursor_pos_x : float32_t
  cursor_pos_y : float32_t
  previous_cursor_pos_x : float32_t
  previous_cursor_pos_y : float32_t

/-- The bit positions of the enumeration `action_flags_t`, which is declared
outside the sources. -/
structure action_flags_t where
  ACTION_FORWARD : Nat
  ACTION_LEFT : Nat
  ACTION_BACK : Nat
  ACTION_RIGHT : Nat
  ACTION_UP : Nat
  ACTION_DOWN : Nat
  ACTION_RUN : Nat
  ACTION_TERRAFORM_DESTROY : Nat
  ACTION_TERRAFORM_ADD : Nat

/-- The statement `*action_flags |= (1 << bit)` on a `uint32_t`. -/
def set_action_flag (action_flags bit : Nat) : Nat := (action_flags ||| (1 <<< bit)) % 2 ^ 32

/-- The direction after the two rotations of `handle_main_player_mouse_movement`,
before it is normalized: the rotation by `x_angle` about `up` and the rotation
by `y_angle` about `cross(res, up)`. -/
def mouse_look_rotated (M : math_functions) (ws_d : vector3_t) (x_angle y_angle : float32_t) :
    Option vector3_t :=
  let up : vector3_t := ⟨0, 1, 0⟩
  (glm_rotate M x_angle up).bind fun r1 =>
    let res := r1.mul_vec ws_d
    let rotate_y := res.cross up
    (glm_rotate M y_angle rotate_y).map fun r2 => r2.mul_vec res

/-- The value of `res` that `handle_main_player_mouse_movement` tests against the
limit; `none` when it is not finite. -/
def mouse_look_direction (M : math_functions) (ws_d : vector3_t) (x_angle y_angle : float32_t) :
    Option vector3_t :=
  (mouse_look_rotated M ws_d x_angle y_angle).bind (glm_normalize M)

/-- The angle `glm::radians(-d) * SENSITIVITY * dt` of a cursor movement `d`. -/
def mouse_look_angle (d dt : float32_t) : float32_t :=
  let SENSITIVITY : float32_t := 15
  glm_radians (-d) * SENSITIVITY * dt

/-- The function `handle_main_player_mouse_movement`.  A comparison with a value
that is not finite is false, so such a `res` is not stored. -/
def handle_main_player_mouse_movement (M : math_functions) (e : player_t)
    (input_state : input_state_t) (dt : float32_t) : player_t :=
  if input_state.cursor_moved then
    let up : vector3_t := ⟨0, 1, 0⟩
    let d_x := input_state.cursor_pos_x - input_state.previous_cursor_pos_x
    let d_y := input_state.cursor_pos_y - input_state.previous_cursor_pos_y
    let x_angle := mouse_look_angle d_x dt
    let y_angle := mouse_look_angle d_y dt
    match mouse_look_direction M e.ws_d x_angle y_angle with
    | none => e
    | some res =>
      let up_dot_view := up.dot res
      let minus_up_dot_view := up.neg.dot res
      let limit : float32_t := 99 / 100
      if up_dot_view > -limit ∧ up_dot_view < limit ∧ minus_up_dot_view > -limit ∧
          minus_up_dot_view < limit then
        { e with ws_d := res }
      else e
  else e

/-- The locals `movements` and `res` of `handle_main_player_keyboard_input`;
`res` is `none` when it is not finite. -/
structure movement_t where
  movements : Nat
  res : Option vector3_t

/-- The lambda `acc_v`: `++movements; dst += d * accelerate`. -/
def acc_v (accelerate : float32_t) (d : Option vector3_t) (st : movement_t) : movement_t :=
  { movements := st.movements + 1
    res := st.res.bind fun r => d.map fun v => r.add (v.scale accelerate) }

/-- The part of `handle_main_player_keyboard_input` that reads the movement keys:
the locals `movements` and `res` after the key tests and the value stored to
`*action_flags`. -/
def keyboard_movement (M : math_functions) (a : action_flags_t) (e : player_t)
    (input_state : input_state_t) : movement_t × Nat :=
  let up : vector3_t := ⟨0, 1, 0⟩
  let key := input_state.keyboard
  let d := glm_normalize M ⟨e.ws_d.x, e.ws_d.y, e.ws_d.z⟩
  let accelerate : float32_t := if key keyboard_button_type_t.R then 6 else 1
  let flags0 : Nat := 0
  let flags1 := if key keyboard_button_type_t.R then set_action_flag flags0 a.ACTION_RUN else flags0
  let m0 : movement_t := { movements := 0, res := some ⟨0, 0, 0⟩ }
  let m1 := if key keyboard_button_type_t.W then acc_v accelerate d m0 else m0
  let flags2 :=
    if key keyboard_button_type_t.W then set_action_flag flags1 a.ACTION_FORWARD else flags1
  let m2 :=
    if key keyboard_button_type_t.A then
      acc_v accelerate (d.map fun v => (v.cross up).neg) m1
    else m1
  let flags3 :=
    if key keyboard_button_type_t.A then set_action_flag flags2 a.ACTION_LEFT else flags2
  let m3 := if key keyboard_button_type_t.S then acc_v accelerate (d.map vector3_t.neg) m2 else m2
  let flags4 :=
    if key keyboard_button_type_t.S then set_action_flag flags3 a.ACTION_BACK else flags3
  let m4 :=
    if key keyboard_button_type_t.D then acc_v accelerate (d.map fun v => v.cross up) m3 else m3
  let flags5 :=
    if key keyboard_button_type_t.D then set_action_flag flags4 a.ACTION_RIGHT else flags4
  let flags6 :=
    if key keyboard_button_type_t.SPACE then set_action_flag flags5 a.ACTION_UP else flags5
  let m5 :=
    if key keyboard_button_type_t.LEFT_SHIFT then acc_v accelerate (some up.neg) m4 else m4
  let flags7 :=
    if key keyboard_button_type_t.LEFT_SHIFT then set_action_flag flags6 a.ACTION_DOWN
    else flags6
  (m5, flags7)

/-- The part of `handle_main_player_keyboard_input` that reads key `E`: the
toggle of `rolling_mode`. -/
def toggle_rolling_mode (e : player_t) (E_is_down : Bool) : player_t :=
  if E_is_down && !e.toggled_rolling_previous_frame then
    let rolling_mode := !e.rolling_mode
    if !rolling_mode then
      { e with
        toggled_rolling_previous_frame := true
        rolling_mode := rolling_mode
        rolling_rotation := matrix4_t.identity
        rolling_rotation_angle := 0 }
    else
      { e with toggled_rolling_previous_frame := true, rolling_mode := rolling_mode }
  else if !E_is_down then
    { e with toggled_rolling_previous_frame := false }
  else e

/-- The function `handle_main_player_keyboard_input`: the player record and the
value stored to `*action_flags`. -/
def handle_main_player_keyboard_input (M : math_functions) (a : action_flags_t) (e : player_t)
    (input_state : input_state_t) (_dt : float32_t) : player_t × Nat :=
  let moved := keyboard_movement M a e input_state
  let e1 := toggle_rolling_mode e (input_state.keyboard keyboard_button_type_t.E)
  let e2 : player_t :=
    if moved.1.movements > 0 then { e1 with ws_input_v := moved.1.res.map fun r => r.scale 15 }
    else { e1 with ws_input_v := some ⟨0, 0, 0⟩ }
  (e2, moved.2)

/-- The states of the player after each of a sequence of frames processed by
`handle_main_player_keyboard_input`, oldest first. -/
def keyboard_frames (M : math_functions) (a : action_flags_t) :
    player_t → List (input_state_t × float32_t) → List player_t
  | _, [] => []
  | e, frame :: rest =>
    let e1 := (handle_main_player_keyboard_input M a e frame.1 frame.2).1
    e1 :: keyboard_frames M a e1 rest

/-- For each frame of a sequence, whether `rolling_mode` after the frame differs
from `rolling_mode` before it. -/
def rolling_mode_flips (M : math_functions) (a : action_flags_t) :
    player_t → List (input_state_t × float32_t) → List Bool
  | _, [] => []
  | e, frame :: rest =>
    let e1 := (handle_main_player_keyboard_input M a e frame.1 frame.2).1
    (e1.rolling_mode != e.rolling_mode) :: rolling_mode_flips M a e1 rest

/-- Whether key `E` is down in each frame of a sequence. -/
def E_is_down (frames : List (input_state_t × float32_t)) : List Bool :=
  frames.map fun frame => frame.1.keyboard keyboard_button_type_t.E

/-- Example values of the parameters: a library whose `sqrt` is exact at 1 and
whose `sin` and `cos` are those of the angle with sine 3/5, and bit positions
0 to 8 for the action flags. -/
def example_math_functions : math_functions :=
  { sqrt := fun q => q, sin := fun _ => 3 / 5, cos := fun _ => 4 / 5 }

def example_action_flags : action_flags_t :=
  { ACTION_FORWARD := 0, ACTION_LEFT := 1, ACTION_BACK := 2, ACTION_RIGHT := 3, ACTION_UP := 4,
    ACTION_DOWN := 5, ACTION_RUN := 6, ACTION_TERRAFORM_DESTROY := 7, ACTION_TERRAFORM_ADD := 8 }

/-- An input state with no key down except, if `e_down`, key `E`. -/
def example_input_state (e_down : Bool) : input_state_t :=
  { keyboard := fun k => decide (k = keyboard_button_type_t.E) && e_down
    mouse_buttons := fun _ => false
    cursor_moved := false
    cursor_pos_x := 0, cursor_pos_y := 0, previous_cursor_pos_x := 0, previous_cursor_pos_y := 0 }

/-- A player that faces along `+x`. -/
def look_example_player : player_t := { player_t.zero 40 with ws_d := ⟨1, 0, 0⟩ }

/-- An input state in which the cursor moved by `(4, 2)`. -/
def look_example_input : input_state_t :=
  { example_input_state false with cursor_moved := true, cursor_pos_x := 4, cursor_pos_y := 2 }

/-! ## Collision detection and response (`collide`) -/

inductive collision_primitive_type_t where
  | CPT_FACE
  | CPT_EDGE
  | CPT_VERTEX
  deriving DecidableEq

structure collision_t where
  primitive_type : collision_primitive_type_t
  detected : Bool
  is_currently_in_air : Bool
  under_terrain : Bool
  es_velocity : vector3_t
  es_contact_point : vector3_t
  es_at : vector3_t
  es_normal : vector3_t
  es_distance : float32_t

/-- The value of `collision_t x = {}`. -/
def collision_t.zero : collision_t :=
  { primitive_type := collision_primitive_type_t.CPT_FACE, detected := false,
    is_currently_in_air := false, under_terrain := false, es_velocity := ⟨0, 0, 0⟩,
    es_contact_point := ⟨0, 0, 0⟩, es_at := ⟨0, 0, 0⟩, es_normal := ⟨0, 0, 0⟩, es_distance := 0 }

/-- The component-wise product of two vectors. -/
def vector3_t.mul (a b : vector3_t) : vector3_t := ⟨a.x * b.x, a.y * b.y, a.z * b.z⟩

/-- The component-wise quotient of two vectors; a zero divisor gives no finite value. -/
def vector3_t.div (a b : vector3_t) : Option vector3_t :=
  if b.x = 0 ∨ b.y = 0 ∨ b.z = 0 then none else some ⟨a.x / b.x, a.y / b.y, a.z / b.z⟩

/-- The library function `glm::length`. -/
def glm_length (M : math_functions) (v : vector3_t) : float32_t := M.sqrt (v.dot v)

/-- The function `get_voxel_coord(const ivector3_t &)`. -/
def get_voxel_coord_ivector3 (xs_position : ivector3_t) : ivector3_t :=
  ⟨xs_position.x.tmod (VOXEL_CHUNK_EDGE_LENGTH : Int),
   xs_position.y.tmod (VOXEL_CHUNK_EDGE_LENGTH : Int),
   xs_position.z.tmod (VOXEL_CHUNK_EDGE_LENGTH : Int)⟩

/-- The destination of the collision vertices: the array `dst_array`, whose
entries are `none` where the stored vertex is not finite, and `*count`. -/
structure collision_vertices_t where
  dst_array : Nat → Option vector3_t
  count : Nat

/-- The function `push_collision_vertex`; `capacity` is the number of elements of
`dst_array`, and a store at or beyond it is undefined. -/
def push_collision_vertex (v0 v1 : Nat) (vertices : Nat → vector3_t) (voxel_values : Nat → Nat)
    (surface_level : Nat) (capacity : Nat) (dst : collision_vertices_t) :
    Option collision_vertices_t :=
  let surface_level_f : float32_t := (surface_level : ℚ)
  let voxel_value0 : float32_t := (voxel_values v0 : ℚ)
  let voxel_value1 : float32_t := (voxel_values v1 : ℚ)
  let swapped : Bool := decide (voxel_value0 > voxel_value1)
  let value0 : float32_t := if swapped then voxel_value1 else voxel_value0
  let value1 : float32_t := if swapped then voxel_value0 else voxel_value1
  let w0 : Nat := if swapped then v1 else v0
  let w1 : Nat := if swapped then v0 else v1
  let vertex : Option vector3_t :=
    (lerp value0 value1 surface_level_f).map (interpolate (vertices w0) (vertices w1))
  if dst.count < capacity then
    some { dst_array := Function.update dst.dst_array dst.count vertex
           count := (dst.count + 1) % 2 ^ 32 }
  else none

/-- One iteration of the loop `for (i = 0; i < 3; ++i)` over `edge_pair` in
`push_collision_triangles_vertices`. -/
def push_collision_edge_vertex (edge_pair : Nat → Int) (vertices : Nat → vector3_t)
    (voxel_values : Nat → Nat) (surface_level : Nat) (capacity : Nat)
    (dst : collision_vertices_t) (i : Nat) : Option collision_vertices_t :=
  match edge_corners (edge_pair i) with
  | none => some dst
  | some (v0, v1) =>
    push_collision_vertex v0 v1 vertices voxel_values surface_level capacity dst

/-- The loop `while (triangle_entry[edge] != -1)` of
`push_collision_triangles_vertices`; the first argument is the rest of the table
row from `triangle_entry[edge]` on, and reading past the end of the row is
undefined.  The test `*count + 3 >= max` is computed in `uint32_t`, and
`dst_array` has `max` elements. -/
def push_collision_triangles_vertices_loop (voxel_values : Nat → Nat) (x y z : Nat)
    (surface_level : Nat) (max : Nat) :
    List Int → Nat → (Nat → Int) → collision_vertices_t → Option collision_vertices_t
  | [], _, _, _ => none
  | edge_index :: rest, edge, edge_pair, dst =>
    if edge_index = -1 then some dst
    else if (dst.count + 3) % 2 ^ 32 ≥ max then some dst
    else
      let edge_pair1 := Function.update edge_pair (edge % 3) edge_index
      if edge % 3 = 2 then
        match (List.range 3).foldlM
            (push_collision_edge_vertex edge_pair1 (voxel_pair_vertices x y z) voxel_values
              surface_level max) dst with
        | none => none
        | some dst1 =>
          push_collision_triangles_vertices_loop voxel_values x y z surface_level max rest
            (edge + 1) edge_pair1 dst1
      else
        push_collision_triangles_vertices_loop voxel_values x y z surface_level max rest
          (edge + 1) edge_pair1 dst

/-- The function `push_collision_triangles_vertices`. -/
def push_collision_triangles_vertices (t : mesh_tables) (voxel_values : Nat → Nat) (x y z : Nat)
    (surface_level : Nat) (dst : collision_vertices_t) (max : Nat) :
    Option collision_vertices_t :=
  push_collision_triangles_vertices_loop voxel_values x y z surface_level max
    (t.TRIANGLE_TABLE (bit_combination voxel_values surface_level)) 0 (fun _ => 0) dst

/-- The function `is_point_in_triangle`. -/
def is_point_in_triangle (point tri_point_a tri_point_b tri_point_c : vector3_t) : Bool :=
  let cross11 := (tri_point_c.sub tri_point_b).cross (point.sub tri_point_b)
  let cross12 := (tri_point_c.sub tri_point_b).cross (tri_point_a.sub tri_point_b)
  let d1 := cross11.dot cross12
  if d1 ≥ 0 then
    let cross21 := (tri_point_c.sub tri_point_a).cross (point.sub tri_point_a)
    let cross22 := (tri_point_c.sub tri_point_a).cross (tri_point_b.sub tri_point_a)
    let d2 := cross21.dot cross22
    if d2 ≥ 0 then
      let cross31 := (tri_point_b.sub tri_point_a).cross (point.sub tri_point_a)
      let cross32 := (tri_point_b.sub tri_point_a).cross (tri_point_c.sub tri_point_a)
      let d3 := cross31.dot cross32
      if d3 ≥ 0 then true else false
    else false
  else false

/-- The function `get_smallest_root` over an ordered field with the square root
`sqrt`: the value returned and the value of `*root` afterwards.  For `a = 0` the
two quotients are infinite or not numbers, every comparison with them fails and
the function returns false. -/
def get_smallest_root {F : Type} [LinearOrderedField F] (sqrt : F → F) (a b c max_r root : F) :
    Bool × F :=
  let determinant := b * b - 4 * a * c
  if determinant < 0 then (false, root)
  else if 2 * a = 0 then (false, root)
  else
    let sqrt_d := sqrt determinant
    let r1 := (-b - sqrt_d) / (2 * a)
    let r2 := (-b + sqrt_d) / (2 * a)
    let lo := if r1 > r2 then r2 else r1
    let hi := if r1 > r2 then r1 else r2
    if lo > 0 ∧ lo < max_r then (true, lo)
    else if hi > 0 ∧ hi < max_r then (true, hi)
    else (false, root)

/-- The function `get_plane_constant`. -/
def get_plane_constant (plane_point plane_normal : vector3_t) : float32_t :=
  -((plane_point.x * plane_normal.x) + (plane_point.y * plane_normal.y) +
    (plane_point.z * plane_normal.z))

/-- The function `squared`. -/
def squared (f : float32_t) : float32_t := f * f

/-- The function `distance_squared`. -/
def distance_squared (dir : vector3_t) : float32_t := dir.dot dir

/-- The function `check_collision_with_vertex`. -/
def check_collision_with_vertex (M : math_functions)
    (es_sphere_velocity es_sphere_position es_vertex es_surface_normal : vector3_t)
    (collision : collision_t) : collision_t :=
  let a := distance_squared es_sphere_velocity
  let b := 2 * es_sphere_velocity.dot (es_sphere_position.sub es_vertex)
  let c := distance_squared (es_vertex.sub es_sphere_position) - 1
  let r := get_smallest_root M.sqrt a b c 1 0
  if r.1 then
    let new_resting_instance := r.2
    let es_distance := glm_length M (es_sphere_velocity.scale new_resting_instance)
    if es_distance < collision.es_distance then
      { collision with
        detected := true
        primitive_type := collision_primitive_type_t.CPT_VERTEX
        es_distance := es_distance
        es_contact_point := es_vertex
        es_normal := es_surface_normal }
    else collision
  else collision

/-- The function `check_collision_with_edge`; for an edge of length 0 the
proportion is not a finite number and both comparisons with it fail. -/
def check_collision_with_edge (M : math_functions)
    (es_sphere_velocity es_sphere_position es_vertex_a es_vertex_b es_surface_normal : vector3_t)
    (collision : collision_t) : collision_t :=
  let es_edge_diff := es_vertex_b.sub es_vertex_a
  let es_sphere_pos_to_vertex := es_vertex_a.sub es_sphere_position
  let a := distance_squared es_edge_diff * -distance_squared es_sphere_velocity +
    squared (es_edge_diff.dot es_sphere_velocity)
  let b := distance_squared es_edge_diff * 2 * es_sphere_velocity.dot es_sphere_pos_to_vertex -
    2 * (es_edge_diff.dot es_sphere_velocity * es_edge_diff.dot es_sphere_pos_to_vertex)
  let c := distance_squared es_edge_diff * (1 - distance_squared es_sphere_pos_to_vertex) +
    squared (es_edge_diff.dot es_sphere_pos_to_vertex)
  let r := get_smallest_root M.sqrt a b c 1 0
  if r.1 then
    let new_resting_instance := r.2
    match float_div (es_edge_diff.dot es_sphere_velocity * new_resting_instance -
        es_edge_diff.dot es_sphere_pos_to_vertex) (distance_squared es_edge_diff) with
    | none => collision
    | some in_edge_proportion =>
      if in_edge_proportion ≥ 0 ∧ in_edge_proportion ≤ 1 then
        let es_sphere_contact_point := es_vertex_a.add (es_edge_diff.scale in_edge_proportion)
        let es_distance := glm_length M (es_sphere_velocity.scale new_resting_instance)
        if es_distance < collision.es_distance then
          { collision with
            detected := true
            primitive_type := collision_primitive_type_t.CPT_EDGE
            es_distance := es_distance
            es_contact_point := es_sphere_contact_point
            es_normal := es_surface_normal }
        else collision
      else collision
  else collision

/-- The block `if (!found_collision)` of `collide_with_triangle`: the three
vertex checks and the three edge checks. -/
def check_vertices_and_edges (M : math_functions) (es_velocity es_center : vector3_t)
    (es_fa es_fb es_fc es_up_normal_of_triangle : vector3_t) (closest : collision_t) :
    collision_t :=
  let c1 := check_collision_with_vertex M es_velocity es_center es_fa es_up_normal_of_triangle
    closest
  let c2 := check_collision_with_vertex M es_velocity es_center es_fb es_up_normal_of_triangle c1
  let c3 := check_collision_with_vertex M es_velocity es_center es_fc es_up_normal_of_triangle c2
  let c4 := check_collision_with_edge M es_velocity es_center es_fa es_fb
    es_up_normal_of_triangle c3
  let c5 := check_collision_with_edge M es_velocity es_center es_fb es_fc
    es_up_normal_of_triangle c4
  check_collision_with_edge M es_velocity es_center es_fc es_fa es_up_normal_of_triangle c5

/-- What one activation of `collide_with_triangle` does: it returns with
`*closest` set, or it calls itself with a new sphere position. -/
inductive collide_with_triangle_step where
  | returned (closest : collision_t)
  | again (es_new_sphere_position : vector3_t) (closest : collision_t)

/-- The check of the triangle face in `collide_with_triangle`, from the contact
point on; `otherwise` is the outcome of the block `if (!found_collision)`. -/
def collide_with_triangle_face (M : math_functions) (es_fa es_fb es_fc : vector3_t)
    (es_center es_velocity es_up_normal_of_triangle : vector3_t)
    (plane_constant first_resting_instance : float32_t) (closest : collision_t)
    (otherwise : collide_with_triangle_step) : collide_with_triangle_step :=
  let es_contact_point :=
    (es_center.add (es_velocity.scale first_resting_instance)).sub es_up_normal_of_triangle
  if is_point_in_triangle es_contact_point es_fa es_fb es_fc then
    let es_distance := glm_length M (es_velocity.scale first_resting_instance)
    if es_distance < closest.es_distance then
      let sphere_point_plane_distance :=
        (es_center.sub es_up_normal_of_triangle).dot es_up_normal_of_triangle + plane_constant
      if sphere_point_plane_distance < 0 ∧ closest.under_terrain = false then
        let es_new_sphere_position :=
          es_center.sub (es_up_normal_of_triangle.scale sphere_point_plane_distance)
        collide_with_triangle_step.again es_new_sphere_position
          { closest with
            under_terrain := true
            es_at := es_new_sphere_position
            es_normal := es_up_normal_of_triangle }
      else
        collide_with_triangle_step.returned
          { closest with
            detected := true
            primitive_type := collision_primitive_type_t.CPT_FACE
            es_distance := es_distance
            es_contact_point := es_contact_point
            es_normal := es_up_normal_of_triangle }
    else otherwise
  else otherwise

/-- The body of `collide_with_triangle` up to its recursive call.  The result is
`none` when the normal of the triangle is not finite (a triangle without area);
a velocity of length 0 makes `velocity_dot_normal` not a number, and the
comparison with it fails. -/
def collide_with_triangle_body (M : math_functions) (triangle_vertices : Nat → vector3_t)
    (es_center es_velocity : vector3_t) (closest : collision_t) :
    Option collide_with_triangle_step :=
  let es_fa := triangle_vertices 0
  let es_fb := triangle_vertices 1
  let es_fc := triangle_vertices 2
  match glm_normalize M ((es_fb.sub es_fa).cross (es_fc.sub es_fa)) with
  | none => none
  | some es_up_normal_of_triangle =>
    let velocity_dot_normal_is_positive : Bool :=
      match glm_normalize M es_velocity with
      | none => false
      | some n => decide (n.dot es_up_normal_of_triangle > 0)
    if velocity_dot_normal_is_positive then some (collide_with_triangle_step.returned closest)
    else
      let plane_constant := -((es_fa.x * es_up_normal_of_triangle.x) +
        (es_fa.y * es_up_normal_of_triangle.y) + (es_fa.z * es_up_normal_of_triangle.z))
      let normal_dot_velocity := es_velocity.dot es_up_normal_of_triangle
      let sphere_plane_distance := es_center.dot es_up_normal_of_triangle + plane_constant
      let edges_and_vertices := collide_with_triangle_step.returned
        (check_vertices_and_edges M es_velocity es_center es_fa es_fb es_fc
          es_up_normal_of_triangle closest)
      if normal_dot_velocity = 0 then
        if |sphere_plane_distance| ≥ 1 then some (collide_with_triangle_step.returned closest)
        else some edges_and_vertices
      else
        let first0 := (1 - sphere_plane_distance) / normal_dot_velocity
        let second0 := (-1 - sphere_plane_distance) / normal_dot_velocity
        let first1 := if first0 > second0 then second0 else first0
        let second1 := if first0 > second0 then first0 else second0
        if first1 > 1 ∨ second1 < 0 then some (collide_with_triangle_step.returned closest)
        else
          let first_resting_instance := if first1 < 0 then 0 else first1
          some (collide_with_triangle_face M es_fa es_fb es_fc es_center es_velocity
            es_up_normal_of_triangle plane_constant first_resting_instance closest
            edges_and_vertices)

/-- The function `collide_with_triangle`: the body, run again from the new sphere
position when it calls itself.  The second activation finds `under_terrain` set
and cannot call itself again; `fuel` bounds the number of activations. -/
def collide_with_triangle (M : math_functions) (triangle_vertices : Nat → vector3_t) :
    Nat → vector3_t → vector3_t → collision_t → run_result collision_t
  | 0, _, _, _ => run_result.out_of_fuel
  | fuel + 1, es_center, es_velocity, closest =>
    match collide_with_triangle_body M triangle_vertices es_center es_velocity closest with
    | none => run_result.undefined
    | some (collide_with_triangle_step.returned c) => run_result.done c
    | some (collide_with_triangle_step.again es_new_sphere_position c) =>
      collide_with_triangle M triangle_vertices fuel es_new_sphere_position es_velocity c

/-- The arguments of a call of `collide`. -/
structure collide_args where
  ws_center : vector3_t
  ws_size : vector3_t
  ws_velocity : vector3_t
  recurse_depth : Nat
  previous_collision : collision_t

/-- The `return` statement through which an activation of `collide` leaves: the
branch without collision, the branch guarded by
`new_velocity_distance_squared < very_close_distance_squared`, or the last
`else`, taken at the maximal recursion depth. -/
inductive collide_branch where
  | no_collision
  | very_close
  | depth_cap
  deriving DecidableEq

/-- What one activation of `collide` does: it returns a collision through one of
its `return` statements, or it calls `collide` with new arguments and returns
the result of that call. -/
inductive collide_step where
  | returned (branch : collide_branch) (ret : collision_t)
  | recurse (args : collide_args)

/-- The conversion of a `uint32_t` produced from a signed coordinate. -/
def int32_to_uint32 (x : Int) : Nat := (x % 2 ^ 32).toNat

/-- The array `voxel_values` that `collide` reads for the voxel pair at
`(x, y, z)`.  A null `chunk` and an index outside `voxels` are undefined. -/
def collide_voxel_values (g : voxel_chunks_t) (is_between_chunks : Bool) (x y z : Int) :
    Option (Nat → Nat) :=
  match get_chunk_encompassing_point g ⟨(x : ℚ), (y : ℚ), (z : ℚ)⟩ with
  | none => none
  | some p =>
    match g.chunks p with
    | none => none
    | some chunk =>
      let cs_coord := get_voxel_coord_ivector3 ⟨x, y, z⟩
      if 0 ≤ cs_coord.x ∧ 0 ≤ cs_coord.y ∧ 0 ≤ cs_coord.z then
        let cx := cs_coord.x.toNat
        let cy := cs_coord.y.toNat
        let cz := cs_coord.z.toNat
        if is_between_chunks then
          ((((((((voxel_values_t.push_own ⟨[], false⟩ chunk cx cy cz).bind
            fun st => st.push_edge g chunk (cx + 1) cy cz).bind
            fun st => st.push_edge g chunk (cx + 1) cy (cz + 1)).bind
            fun st => st.push_edge g chunk cx cy (cz + 1)).bind
            fun st => st.push_edge g chunk cx (cy + 1) cz).bind
            fun st => st.push_edge g chunk (cx + 1) (cy + 1) cz).bind
            fun st => st.push_edge g chunk (cx + 1) (cy + 1) (cz + 1)).bind
            fun st => st.push_edge g chunk cx (cy + 1) (cz + 1)).map voxel_values_t.value_at
        else if cx + 1 < 16 ∧ cy + 1 < 16 ∧ cz + 1 < 16 then
          some (interior_voxel_values chunk cx cy cz).value_at
        else none
      else none

/-- The body of the innermost loop of `collide` at the counters `(x, y, z)`. -/
def collide_push_voxel_pair (t : mesh_tables) (g : voxel_chunks_t) (is_between_chunks : Bool)
    (max_vertices : Nat) (dst : collision_vertices_t) (xyz : Int × Int × Int) :
    Option collision_vertices_t :=
  match collide_voxel_values g is_between_chunks xyz.1 xyz.2.1 xyz.2.2 with
  | none => none
  | some voxel_values =>
    push_collision_triangles_vertices t voxel_values (int32_to_uint32 xyz.1)
      (int32_to_uint32 xyz.2.1) (int32_to_uint32 xyz.2.2) 60 dst max_vertices

/-- The counters `(x, y, z)` of the three nested loops of `collide`, in execution
order. -/
def collide_anchors (xs_cube_min xs_cube_range : ivector3_t) : List (Int × Int × Int) :=
  (List.range xs_cube_range.z.toNat).flatMap fun k =>
    (List.range xs_cube_range.y.toNat).flatMap fun j =>
      (List.range xs_cube_range.x.toNat).map fun i =>
        (xs_cube_min.x + (i : Int), xs_cube_min.y + (j : Int), xs_cube_min.z + (k : Int))

/-- The triangle vertices `collide` gathers around the ellipsoid: the cube of
voxel pairs, the test `is_between_chunks`, `max_vertices` and the three nested
loops. -/
def collide_triangle_vertices (t : mesh_tables) (g : voxel_chunks_t)
    (ws_center ws_size : vector3_t) : Option collision_vertices_t :=
  match ws_to_xs g (ws_center.add ws_size), ws_to_xs g (ws_center.sub ws_size) with
  | some hi, some lo =>
    let xs_cube_range0 : ivector3_t := ⟨⌈hi.x⌉, ⌈hi.y⌉, ⌈hi.z⌉⟩
    let xs_cube_min : ivector3_t := ⟨⌊lo.x⌋, ⌊lo.y⌋, ⌊lo.z⌋⟩
    let xs_cube_range := xs_cube_range0.sub xs_cube_min
    let min_voxel_coord := get_voxel_coord_ivector3 xs_cube_min
    let max_voxel_coord := get_voxel_coord_ivector3
      ⟨xs_cube_min.x + xs_cube_range.x, xs_cube_min.y + xs_cube_range.y,
        xs_cube_min.z + xs_cube_range.z⟩
    let is_between_chunks : Bool :=
      decide (max_voxel_coord.x < min_voxel_coord.x ∨ max_voxel_coord.y < min_voxel_coord.y ∨
        max_voxel_coord.z < min_voxel_coord.z ∨ max_voxel_coord.x = 15 ∨
        max_voxel_coord.y = 15 ∨ max_voxel_coord.z = 15)
    let range_f := xs_cube_range.to_vector3
    let max_vertices : Nat := (float_to_int (3 * 5 * range_f.dot range_f / 2)).toNat
    (collide_anchors xs_cube_min xs_cube_range).foldlM
      (collide_push_voxel_pair t g is_between_chunks max_vertices)
      { dst_array := fun _ => none, count := 0 }
  | _, _ => none

/-- The conversion of a gathered vertex from voxel space to ellipsoid space. -/
def xs_to_es (g : voxel_chunks_t) (ws_size v : vector3_t) : Option vector3_t :=
  let h : float32_t := (g.grid_edge_size : ℚ) / 2 * (VOXEL_CHUNK_EDGE_LENGTH : ℚ)
  (((v.sub ⟨h, h, h⟩).scale g.size)).div ws_size

/-- The body of the loop over the gathered triangles: the three vertices are
converted and `collide_with_triangle` is called.  A vertex that is not finite
gives no result. -/
def collide_triangle (M : math_functions) (g : voxel_chunks_t) (ws_size : vector3_t)
    (vertices : collision_vertices_t) (es_center es_velocity : vector3_t)
    (closest : collision_t) (triangle : Nat) : Option collision_t :=
  let vertex := fun i => (vertices.dst_array (triangle * 3 + i)).bind (xs_to_es g ws_size)
  match vertex 0, vertex 1, vertex 2 with
  | some a, some b, some c =>
    match collide_with_triangle M (fun i => if i = 0 then a else if i = 1 then b else c) 2
        es_center es_velocity closest with
    | run_result.done closest1 => some closest1
    | _ => none
  | _, _, _ => none

/-- The value of `closest_collision` after the loop over the gathered triangles. -/
def collide_closest_collision (M : math_functions) (g : voxel_chunks_t) (ws_size : vector3_t)
    (vertices : collision_vertices_t) (es_center es_velocity : vector3_t) : Option collision_t :=
  (List.range (vertices.count / 3)).foldlM
    (collide_triangle M g ws_size vertices es_center es_velocity)
    { collision_t.zero with es_distance := 1000 }

/-- The maximal recursion depth of `collide`. -/
def max_recursion_depth : Nat := 5

/-- The constant `es_very_close_distance_from_terrain` of `collide`. -/
def es_very_close_distance_from_terrain : float32_t := 0

/-- The block `if (closest_collision.detected)` of `collide`: the response to a
detected collision.  The result is `none` when a normalized vector is not finite. -/
def collide_response (M : math_functions) (es_center es_velocity ws_size : vector3_t)
    (recurse_depth : Nat) (closest_collision : collision_t) : Option collide_step :=
  let es_sphere_position := es_center
  let es_sphere_velocity := es_velocity
  let es_sphere_destination_point := es_sphere_position.add es_sphere_velocity
  let moved : Option (vector3_t × vector3_t) :=
    if closest_collision.es_distance ≥ es_very_close_distance_from_terrain then
      (glm_normalize M es_sphere_velocity).map fun es_normalized_velocity =>
        let es_scaled_velocity := es_normalized_velocity.scale
          (closest_collision.es_distance - es_very_close_distance_from_terrain)
        (es_sphere_position.add es_scaled_velocity,
          closest_collision.es_contact_point.sub
            (es_normalized_velocity.scale es_very_close_distance_from_terrain))
    else some (es_sphere_position, closest_collision.es_contact_point)
  match moved with
  | none => none
  | some (es_new_sphere_position, es_contact_point) =>
    let es_slide_plane_point := es_contact_point
    match glm_normalize M (es_new_sphere_position.sub es_contact_point) with
    | none => none
    | some es_slide_plane_normal =>
      let plane_constant := get_plane_constant es_slide_plane_point es_slide_plane_normal
      let dest_point_dist_from_plane :=
        es_sphere_destination_point.dot es_slide_plane_normal + plane_constant
      let es_new_sphere_destination_point :=
        es_sphere_destination_point.sub (es_slide_plane_normal.scale dest_point_dist_from_plane)
      let es_new_velocity := es_new_sphere_destination_point.sub es_contact_point
      let new_velocity_distance_squared := distance_squared es_new_velocity
      let very_close_distance_squared := squared es_very_close_distance_from_terrain
      let ret : collision_t :=
        { collision_t.zero with
          detected := true
          es_at := es_new_sphere_position
          es_velocity := es_new_velocity
          es_normal := es_slide_plane_normal }
      if new_velocity_distance_squared < very_close_distance_squared then
        some (collide_step.returned collide_branch.very_close ret)
      else if recurse_depth < max_recursion_depth then
        some (collide_step.recurse
          { ws_center := es_new_sphere_position.mul ws_size
            ws_size := ws_size
            ws_velocity := es_new_velocity.mul ws_size
            recurse_depth := (recurse_depth + 1) % 2 ^ 32
            previous_collision := ret })
      else some (collide_step.returned collide_branch.depth_cap ret)

/-- The body of `collide`: one activation, up to its `return` or its recursive
call. -/
def collide_body (M : math_functions) (t : mesh_tables) (g : voxel_chunks_t) (args : collide_args) :
    Option collide_step :=
  match args.ws_center.div args.ws_size, args.ws_velocity.div args.ws_size,
    collide_triangle_vertices t g args.ws_center args.ws_size with
  | some es_center, some es_velocity, some vertices =>
    match collide_closest_collision M g args.ws_size vertices es_center es_velocity with
    | none => none
    | some closest_collision =>
      if closest_collision.detected then
        collide_response M es_center es_velocity args.ws_size args.recurse_depth closest_collision
      else
        match (args.ws_center.add args.ws_velocity).div args.ws_size with
        | none => none
        | some es_at =>
          some (collide_step.returned collide_branch.no_collision
            { collision_t.zero with
              detected := decide (args.recurse_depth > 0)
              is_currently_in_air := true
              es_at := es_at
              es_velocity := es_velocity
              es_normal := args.previous_collision.es_normal })
  | _, _, _ => none

/-- The function `collide`: the activations run one after the other, each
recursive call being the last action of its caller; `fuel` bounds their number.
The result carries the `return` statement through which the last activation
left. -/
def collide (M : math_functions) (t : mesh_tables) (g : voxel_chunks_t) :
    Nat → collide_args → run_result (collide_branch × collision_t)
  | 0, _ => run_result.out_of_fuel
  | fuel + 1, args =>
    match collide_body M t g args with
    | none => run_result.undefined
    | some (collide_step.returned branch ret) => run_result.done (branch, ret)
    | some (collide_step.recurse args1) => collide M t g fuel args1

/-- The recursion depths of the activations of a call of `collide`, the outermost
first. -/
def collide_depths (M : math_functions) (t : mesh_tables) (g : voxel_chunks_t) :
    Nat → collide_args → List Nat
  | 0, _ => []
  | fuel + 1, args =>
    args.recurse_depth ::
      match collide_body M t g args with
      | some (collide_step.recurse args1) => collide_depths M t g fuel args1
      | _ => []

/-! ## Machine arithmetic of `convert_3d_to_1d_index` -/

/-- The conversion of a `uint32_t` value to `int32_t` (two's complement). -/
def uint32_to_int32 (n : Nat) : Int :=
  if n % 2 ^ 32 < 2 ^ 31 then ((n % 2 ^ 32 : Nat) : Int) else ((n % 2 ^ 32 : Nat) : Int) - 2 ^ 32

/-- The function `convert_3d_to_1d_index` with its machine arithmetic made
explicit: the parameters are `uint32_t`, the coordinate tested is
`ivector3_t(x, y, z)`, the sum is computed in `uint32_t` (modulo `2^32`) and
returned as `int32_t`. -/
def convert_3d_to_1d_index_uint32 (x y z edge_length : Nat) : Int :=
  if is_voxel_coord_within_chunk ⟨uint32_to_int32 x, uint32_to_int32 y, uint32_to_int32 z⟩
      edge_length then
    uint32_to_int32 ((z * (edge_length * edge_length) + y * edge_length + x) % 2 ^ 32)
  else
    -1

/-! ## The anchors visited by `update_chunk_mesh` -/

/-- The anchors `(x, y, z)` of the voxel pairs visited by the loops of
`update_chunk_mesh`, in execution order: the `+x` face (`x = 15`), the `+y` face
(`y = 15`), the `+z` face (`z = 15`) and the interior. -/
def mesh_pair_anchors : List (Nat × Nat × Nat) :=
  x_superior_anchors.map (fun yz => (VOXEL_CHUNK_EDGE_LENGTH - 1, yz.1, yz.2)) ++
  (y_superior_anchors.map (fun xz => (xz.1, VOXEL_CHUNK_EDGE_LENGTH - 1, xz.2)) ++
  (z_superior_anchors.map (fun xy => (xy.1, xy.2, VOXEL_CHUNK_EDGE_LENGTH - 1)) ++
  interior_anchors))

/-- The `voxel_values` of the pair anchored at `a`, as the loop that visits the
anchor initializes them. -/
def mesh_pair_voxel_values (g : voxel_chunks_t) (chunk : voxel_chunk_t) (a : Nat × Nat × Nat) :
    Option voxel_values_t :=
  if a.2.1 = VOXEL_CHUNK_EDGE_LENGTH - 1 then y_superior_voxel_values g chunk a.1 a.2.1 a.2.2
  else if a.1 = VOXEL_CHUNK_EDGE_LENGTH - 1 then x_superior_voxel_values g chunk a.1 a.2.1 a.2.2
  else if a.2.2 = VOXEL_CHUNK_EDGE_LENGTH - 1 then x_superior_voxel_values g chunk a.1 a.2.1 a.2.2
  else some (interior_voxel_values chunk a.1 a.2.1 a.2.2)

/-- One call of `update_chunk_mesh_voxel_pair` for the pair anchored at `a`. -/
def mesh_pair_at (t : mesh_tables) (g : voxel_chunks_t) (surface_level : Nat)
    (chunk : voxel_chunk_t) (a : Nat × Nat × Nat) : Option voxel_chunk_t :=
  match mesh_pair_voxel_values g chunk a with
  | none => none
  | some st => update_chunk_mesh_voxel_pair t st.value_at chunk a.1 a.2.1 a.2.2 surface_level

/-- The chunk at `chunk_coord` and its seven neighbours towards `+x`, `+y` and
`+z` are all allocated. -/
def neighbours_exist (g : voxel_chunks_t) (chunk_coord : ivector3_t) : Prop :=
  ∀ dx dy dz : Nat, dx ≤ 1 → dy ≤ 1 → dz ≤ 1 →
    (get_voxel_chunk g (convert_3d_to_1d_index (chunk_coord.x + (dx : Int))
      (chunk_coord.y + (dy : Int)) (chunk_coord.z + (dz : Int)) g.grid_edge_size)).isSome = true

/-- The chunk records `c` and `c'` differ at most in the cached mesh. -/
def same_chunk_body (c c' : voxel_chunk_t) : Prop :=
  c'.xs_bottom_corner = c.xs_bottom_corner ∧ c'.chunk_coord = c.chunk_coord ∧
  c'.voxels = c.voxels ∧ c'.should_do_gpu_sync = c.should_do_gpu_sync ∧
  c'.modified_voxels_list_count = c.modified_voxels_list_count ∧
  c'.list_of_modified_voxels = c.list_of_modified_voxels ∧ c'.voxel_history = c.voxel_history

/-! ## The GPU-synchronisation list -/

/-- One iteration of the loop of `sync_gpu_with_chunk_state`: the mesh of the
listed chunk is rebuilt and its flag `should_do_gpu_sync` is cleared.  The GPU
buffer and the index count of the GPU mesh are not part of the model; a null
chunk pointer is undefined. -/
def sync_gpu_with_chunk_state_step (t : mesh_tables) (g : voxel_chunks_t) (i : Nat) :
    Option voxel_chunks_t :=
  match get_voxel_chunk g (g.chunks_to_gpu_sync i) with
  | none => none
  | some chunk =>
    match update_chunk_mesh t g chunk 60 with
    | none => none
    | some g1 =>
      match g1.chunks chunk with
      | none => none
      | some c =>
        some { g1 with
          chunks := Function.update g1.chunks chunk (some { c with should_do_gpu_sync := false }) }

/-- The loop `for (i = 0; i < to_sync_count; ++i)` of `sync_gpu_with_chunk_state`,
from the counter `i` on; the bound is read again before every iteration. -/
def sync_gpu_with_chunk_state_loop (t : mesh_tables) :
    Nat → voxel_chunks_t → Nat → run_result voxel_chunks_t
  | 0, _, _ => run_result.out_of_fuel
  | fuel + 1, g, i =>
    if i < g.to_sync_count then
      match sync_gpu_with_chunk_state_step t g i with
      | none => run_result.undefined
      | some g1 => sync_gpu_with_chunk_state_loop t fuel g1 (i + 1)
    else run_result.done g

/-- The function `sync_gpu_with_chunk_state`. -/
def sync_gpu_with_chunk_state (t : mesh_tables) (fuel : Nat) (g : voxel_chunks_t) :
    run_result voxel_chunks_t :=
  match sync_gpu_with_chunk_state_loop t fuel g 0 with
  | run_result.done g1 => run_result.done { g1 with to_sync_count := 0 }
  | run_result.undefined => run_result.undefined
  | run_result.out_of_fuel => run_result.out_of_fuel

/-- Every allocated chunk sits in the slot that its `chunk_coord` converts to. -/
def chunks_at_their_index (g : voxel_chunks_t) : Prop :=
  ∀ p c, g.chunks p = some c →
    convert_3d_to_1d_index c.chunk_coord.x c.chunk_coord.y c.chunk_coord.z g.grid_edge_size
      = (p : Int)

/-- The list `chunks_to_gpu_sync[0..to_sync_count)` is duplicate-free, each of its
entries is the index of an allocated chunk whose flag `should_do_gpu_sync` is
set, and every allocated chunk whose flag is set is listed. -/
def gpu_sync_list_ok (g : voxel_chunks_t) : Prop :=
  (∀ i j, i < g.to_sync_count → j < g.to_sync_count →
    g.chunks_to_gpu_sync i = g.chunks_to_gpu_sync j → i = j) ∧
  (∀ i, i < g.to_sync_count → ∃ (p : Nat) (c : voxel_chunk_t), g.chunks_to_gpu_sync i = (p : Int) ∧
    g.chunks p = some c ∧ c.should_do_gpu_sync = true) ∧
  (∀ p c, g.chunks p = some c → c.should_do_gpu_sync = true →
    ∃ i, i < g.to_sync_count ∧ g.chunks_to_gpu_sync i = (p : Int))

/-- The state of the loop of `sync_gpu_with_chunk_state` at the counter `i`, for
the grid `g0` on entry: the list is that of `g0`, the chunks listed before `i`
have their flag cleared, the chunks listed from `i` on are those of `g0`, and
the voxels are unchanged. -/
def sync_loop_inv (g0 g : voxel_chunks_t) (i : Nat) : Prop :=
  g.to_sync_count = g0.to_sync_count ∧ g.chunks_to_gpu_sync = g0.chunks_to_gpu_sync ∧
  same_voxels g0 g ∧ g.size = g0.size ∧
  (∀ j, j < g0.to_sync_count → ∃ (p : Nat) (c : voxel_chunk_t), g0.chunks_to_gpu_sync j = (p : Int) ∧
    g.chunks p = some c ∧ (if j < i then c.should_do_gpu_sync = false
      else g0.chunks p = some c ∧ c.should_do_gpu_sync = true)) ∧
  (∀ p c, g.chunks p = some c → c.should_do_gpu_sync = true →
    ∃ j, i ≤ j ∧ j < g0.to_sync_count ∧ g0.chunks_to_gpu_sync j = (p : Int))

/-! ## Entries of other players in a snapshot -/

/-- A server with two clients over `example_grid` that have both sent input
commands; client 1 reported the position `(5, 0, 0)` while the server holds its
player at the origin. -/
def two_recipient_server : server_t :=
  { example_server with
    network_state :=
      { client_count := 2
        clients := fun i =>
          if i = 0 then { client_t.zero with client_id := 0, received_input_commands := true }
          else
            { client_t.zero with
              client_id := 1, player_handle := 1, received_input_commands := true,
              previous_received_player_state :=
                { player_state_t.zero with ws_position := ⟨5, 0, 0⟩ } } } }

/-- The datagrams `send_chunks_hard_update_packets` sends, listed. -/
def hard_update_messages (fmt : wire_format) (tick : Nat) (address : network_address_t)
    (voxel_update_packets : Nat → voxel_chunk_values_packet_t) (n : Nat) : List sent_message_t :=
  ((List.range (n / 8)).map fun packet =>
    ({ address := address
       items := hard_update_items
        { packet_mode := packet_mode_t.PM_SERVER_MODE
          packet_type := packet_type_t.server server_packet_type_t.SPT_CHUNK_VOXELS_HARD_UPDATE
          total_packet_size := fmt.sizeof_packet_header + 4 + 1 * 16 * 16 * 16 * 8
          current_tick := tick
          client_id := 0 }
        { is_first := decide (packet = 0), count := n % 2 ^ 31 }
        (fun chunk => voxel_update_packets (packet * 8 + chunk)) 8 } : sent_message_t)) ++
  (if n % 8 ≠ 0 then
    [({ address := address
        items := hard_update_items
          { packet_mode := packet_mode_t.PM_SERVER_MODE
            packet_type := packet_type_t.server server_packet_type_t.SPT_CHUNK_VOXELS_HARD_UPDATE
            total_packet_size := fmt.sizeof_packet_header + 1 * 16 * 16 * 16 * (n % 8)
            current_tick := tick
            client_id := 0 }
          { is_first := decide (n / 8 = 0), count := n % 2 ^ 31 }
          (fun chunk => voxel_update_packets (n / 8 * 8 + chunk)) (n % 8) } : sent_message_t)]
   else [])

/-! ## Theorems -/

theorem round_half_even_intCast (n : Int) : round_half_even (n : ℚ) = n := by
  unfold round_half_even
  simp

theorem round_half_even_eq_of_abs_lt {x : ℚ} {m : Int} (h : |x - m| < 1 / 2) :
    round_half_even x = m := by
  rw [abs_lt] at h
  unfold round_half_even
  by_cases hx : (m : ℚ) ≤ x
  · have hf : ⌊x⌋ = m := by
      rw [Int.floor_eq_iff]
      constructor
      · exact hx
      · linarith
    rw [hf, if_pos (by linarith)]
  · have hf : ⌊x⌋ = m - 1 := by
      rw [Int.floor_eq_iff]
      push_cast
      constructor
      · linarith
      · linarith
    rw [hf]
    push_cast
    rw [if_neg (by linarith), if_pos (by linarith)]
    ring

theorem round_half_even_ge (x : ℚ) : x - 1 / 2 ≤ (round_half_even x : ℚ) := by
  unfold round_half_even
  have h1 := Int.floor_le x
  have h2 := Int.lt_floor_add_one x
  split_ifs <;> push_cast <;> linarith

theorem round_half_even_le (x : ℚ) : (round_half_even x : ℚ) ≤ x + 1 / 2 := by
  unfold round_half_even
  have h1 := Int.floor_le x
  have h2 := Int.lt_floor_add_one x
  split_ifs <;> push_cast <;> linarith

theorem round_half_even_floor_le (x : ℚ) : ⌊x⌋ ≤ round_half_even x := by
  unfold round_half_even
  split_ifs <;> omega

theorem round_half_even_le_floor_succ (x : ℚ) : round_half_even x ≤ ⌊x⌋ + 1 := by
  unfold round_half_even
  split_ifs <;> omega

theorem round_half_even_mono {x y : ℚ} (h : x ≤ y) : round_half_even x ≤ round_half_even y := by
  rcases (Int.floor_mono h).lt_or_eq with hlt | heq
  · calc round_half_even x ≤ ⌊x⌋ + 1 := round_half_even_le_floor_succ x
      _ ≤ ⌊y⌋ := hlt
      _ ≤ round_half_even y := round_half_even_floor_le y
  · unfold round_half_even
    rw [← heq]
    split_ifs <;> first | omega | (exfalso; linarith)

theorem round_half_even_neg (x : ℚ) : round_half_even (-x) = -round_half_even x := by
  by_cases hx : (⌊x⌋ : ℚ) = x
  · rw [← hx, ← Int.cast_neg, round_half_even_intCast, round_half_even_intCast]
  · have h1 : (⌊x⌋ : ℚ) < x := lt_of_le_of_ne (Int.floor_le x) hx
    have h2 := Int.lt_floor_add_one x
    have hf : ⌊-x⌋ = -⌊x⌋ - 1 := by
      rw [Int.floor_eq_iff]
      push_cast
      constructor <;> linarith
    unfold round_half_even
    rw [hf]
    push_cast
    have hpar : (-⌊x⌋ - 1) % 2 = 0 ↔ ¬ ⌊x⌋ % 2 = 0 := by omega
    by_cases c1 : x - ⌊x⌋ < 1 / 2
    · rw [if_pos c1, if_neg (by linarith), if_pos (by linarith)]
      ring
    · by_cases c2 : 1 / 2 < x - ⌊x⌋
      · rw [if_neg c1, if_pos c2, if_pos (by linarith)]
        ring
      · rw [if_neg c1, if_neg c2, if_neg (by linarith), if_neg (by linarith)]
        by_cases c3 : ⌊x⌋ % 2 = 0
        · rw [if_pos c3, if_neg (by omega)]
          ring
        · rw [if_neg c3, if_pos (by omega)]
          ring

theorem float32_exponent_neg (q : ℚ) : float32_exponent (-q) = float32_exponent q := by
  unfold float32_exponent
  rw [abs_neg]

theorem round_float32_neg (q : ℚ) : round_float32 (-q) = -round_float32 q := by
  unfold round_float32
  rw [float32_exponent_neg, neg_div, round_half_even_neg]
  push_cast
  ring

theorem round_float32_zero : round_float32 0 = 0 := by
  unfold round_float32
  rw [zero_div]
  have := round_half_even_intCast 0
  simp only [Int.cast_zero] at this
  rw [this]
  simp

theorem two_zpow_pos (e : Int) : (0 : ℚ) < 2 ^ e := zpow_pos (by norm_num) e

theorem round_float32_nonneg {q : ℚ} (h : 0 ≤ q) : 0 ≤ round_float32 q := by
  unfold round_float32
  have h0 : round_half_even 0 ≤ round_half_even (q / 2 ^ float32_exponent q) :=
    round_half_even_mono (div_nonneg h (two_zpow_pos _).le)
  have e0 := round_half_even_intCast 0
  simp only [Int.cast_zero] at e0
  rw [e0] at h0
  have : (0 : ℚ) ≤ (round_half_even (q / 2 ^ float32_exponent q) : ℚ) := by exact_mod_cast h0
  exact mul_nonneg this (two_zpow_pos _).le

theorem round_float32_nonpos {q : ℚ} (h : q ≤ 0) : round_float32 q ≤ 0 := by
  have := round_float32_nonneg (neg_nonneg.mpr h)
  rw [round_float32_neg] at this
  linarith

/-- A power of two with a non-negative exponent is an integer. -/
theorem two_zpow_eq_intCast {k : Int} (hk : 0 ≤ k) : (2 : ℚ) ^ k = (((2 : Int) ^ k.toNat : Int) : ℚ) := by
  obtain ⟨n, rfl⟩ := Int.eq_ofNat_of_zero_le hk
  simp

theorem log_lt_of_lt_zpow {q : ℚ} {x : Int} (hq : 0 < q) (h : q < 2 ^ x) : Int.log 2 q < x := by
  have := (Int.lt_zpow_iff_log_lt (R := ℚ) (b := 2) (by norm_num) (x := x) hq).mp
    (by simpa using h)
  exact this

theorem le_log_of_zpow_le {q : ℚ} {x : Int} (hq : 0 < q) (h : 2 ^ x ≤ q) : x ≤ Int.log 2 q := by
  have := (Int.zpow_le_iff_le_log (R := ℚ) (b := 2) (by norm_num) (x := x) hq).mp
    (by simpa using h)
  exact this

theorem zpow_log_le {q : ℚ} (hq : 0 < q) : (2 : ℚ) ^ Int.log 2 q ≤ q := by
  have := Int.zpow_log_le_self (R := ℚ) (b := 2) (by norm_num) hq
  simpa using this

theorem lt_zpow_log_succ (q : ℚ) : q < (2 : ℚ) ^ (Int.log 2 q + 1) := by
  have := Int.lt_zpow_succ_log_self (R := ℚ) (b := 2) (by norm_num) q
  simpa using this

theorem float32_exponent_eq {q : ℚ} {E : Int} (h1 : 2 ^ E ≤ |q|) (h2 : |q| < 2 ^ (E + 1))
    (hE : -126 ≤ E) : float32_exponent q = E - 23 := by
  have hq : 0 < |q| := lt_of_lt_of_le (two_zpow_pos E) h1
  have hl : Int.log 2 |q| = E := by
    have a := le_log_of_zpow_le hq h1
    have b := log_lt_of_lt_zpow hq h2
    omega
  unfold float32_exponent
  rw [hl]
  omega

/-- The float32 nearest to `q`, given the binade of `q` and the nearest multiple
of the unit in the last place. -/
theorem round_float32_eq_of_close {q : ℚ} (E m : Int) (h1 : 2 ^ E ≤ |q|)
    (h2 : |q| < 2 ^ (E + 1)) (hE : -126 ≤ E) (hm : |q / 2 ^ (E - 23) - m| < 1 / 2) :
    round_float32 q = (m : ℚ) * 2 ^ (E - 23) := by
  unfold round_float32
  rw [float32_exponent_eq h1 h2 hE, round_half_even_eq_of_abs_lt hm]

theorem float32_exponent_le_of_dyadic {m e : Int} (hm : |m| < 2 ^ 24) (he : -149 ≤ e)
    (hm0 : m ≠ 0) : float32_exponent ((m : ℚ) * 2 ^ e) ≤ e := by
  unfold float32_exponent
  apply max_le _ he
  have hpos : (0 : ℚ) < |(m : ℚ) * 2 ^ e| := by
    rw [abs_pos]
    exact mul_ne_zero (by exact_mod_cast hm0) (two_zpow_pos e).ne'
  have hlt : |(m : ℚ) * 2 ^ e| < 2 ^ (e + 24) := by
    rw [abs_mul, abs_of_pos (two_zpow_pos e), zpow_add₀ (by norm_num : (2 : ℚ) ≠ 0), mul_comm]
    apply mul_lt_mul_of_pos_left _ (two_zpow_pos e)
    have : ((|m| : Int) : ℚ) < ((2 ^ 24 : Int) : ℚ) := by exact_mod_cast hm
    rw [Int.cast_abs] at this
    norm_num at this ⊢
    exact this
  have := log_lt_of_lt_zpow hpos hlt
  omega

/-- A value `m·2^e` with fewer than 24 significant bits is a float32. -/
theorem round_float32_of_dyadic (m e : Int) (hm : |m| < 2 ^ 24) (he : -149 ≤ e) :
    round_float32 ((m : ℚ) * 2 ^ e) = (m : ℚ) * 2 ^ e := by
  by_cases hm0 : m = 0
  · subst hm0
    simp [round_float32_zero]
  · have hle := float32_exponent_le_of_dyadic hm he hm0
    unfold round_float32
    generalize float32_exponent ((m : ℚ) * 2 ^ e) = ee at hle
    have hk : (0 : Int) ≤ e - ee := by omega
    have hq : (m : ℚ) * 2 ^ e / 2 ^ ee = ((m * 2 ^ (e - ee).toNat : Int) : ℚ) := by
      push_cast
      rw [mul_div_assoc, ← zpow_sub₀ (by norm_num : (2 : ℚ) ≠ 0), two_zpow_eq_intCast hk]
      push_cast
      rfl
    rw [hq, round_half_even_intCast]
    push_cast
    rw [mul_assoc]
    congr 1
    have : ((2 : ℚ) ^ (e - ee).toNat) = (2 : ℚ) ^ (e - ee) := by
      rw [two_zpow_eq_intCast hk]
      push_cast
      rfl
    rw [this, ← zpow_add₀ (by norm_num : (2 : ℚ) ≠ 0)]
    congr 1
    ring

theorem round_float32_intCast (n : Int) (hn : |n| < 2 ^ 24) : round_float32 (n : ℚ) = n := by
  have := round_float32_of_dyadic n 0 hn (by norm_num)
  simpa using this

theorem round_float32_two_zpow (e : Int) (he : -149 ≤ e) : round_float32 (2 ^ e) = 2 ^ e := by
  have := round_float32_of_dyadic 1 e (by norm_num) he
  simpa using this

theorem round_float32_mono_pos {a b : ℚ} (ha : 0 < a) (h : a ≤ b) :
    round_float32 a ≤ round_float32 b := by
  have hb : 0 < b := lt_of_lt_of_le ha h
  have hlog : Int.log 2 a ≤ Int.log 2 b := Int.log_mono_right ha h
  have hexp : float32_exponent a ≤ float32_exponent b := by
    unfold float32_exponent
    rw [abs_of_pos ha, abs_of_pos hb]
    exact max_le_max (by omega) (le_refl _)
  rcases hexp.lt_or_eq with hlt | heq
  · -- different binades: a power of two lies between the two roundings
    have hea : float32_exponent a = max (Int.log 2 a - 23) (-149) := by
      unfold float32_exponent
      rw [abs_of_pos ha]
    have heb : float32_exponent b = max (Int.log 2 b - 23) (-149) := by
      unfold float32_exponent
      rw [abs_of_pos hb]
    have hL : float32_exponent b = Int.log 2 b - 23 := by
      rw [heb]
      apply max_eq_left
      have : -149 ≤ float32_exponent a := by rw [hea]; exact le_max_right _ _
      by_contra hc
      rw [heb, max_eq_right (by omega)] at hlt
      omega
    have hLa : Int.log 2 a < Int.log 2 b := by
      have : Int.log 2 a - 23 ≤ float32_exponent a := by rw [hea]; exact le_max_left _ _
      omega
    have haL : a ≤ 2 ^ Int.log 2 b := by
      have h1 := lt_zpow_log_succ a
      have h2 : (2 : ℚ) ^ (Int.log 2 a + 1) ≤ 2 ^ Int.log 2 b :=
        zpow_le_zpow_right₀ (by norm_num) (by omega)
      linarith
    have hbL : (2 : ℚ) ^ Int.log 2 b ≤ b := zpow_log_le hb
    have h2 : (2 : ℚ) ^ Int.log 2 b ≤ round_float32 b := by
      unfold round_float32
      rw [hL]
      have hk : (0 : Int) ≤ 23 := by norm_num
      have hx : (2 : ℚ) ^ (23 : Int) ≤ b / 2 ^ (Int.log 2 b - 23) := by
        rw [le_div_iff₀ (two_zpow_pos _), ← zpow_add₀ (by norm_num : (2 : ℚ) ≠ 0)]
        have : (23 : Int) + (Int.log 2 b - 23) = Int.log 2 b := by ring
        rw [this]
        exact hbL
      have hm := round_half_even_mono hx
      rw [two_zpow_eq_intCast hk, round_half_even_intCast] at hm
      have hm' : (((2 : Int) ^ (23 : Int).toNat : Int) : ℚ) ≤
          (round_half_even (b / 2 ^ (Int.log 2 b - 23)) : ℚ) := by exact_mod_cast hm
      rw [← two_zpow_eq_intCast hk] at hm'
      calc (2 : ℚ) ^ Int.log 2 b = 2 ^ (23 : Int) * 2 ^ (Int.log 2 b - 23) := by
            rw [← zpow_add₀ (by norm_num : (2 : ℚ) ≠ 0)]
            congr 1
            ring
        _ ≤ _ := mul_le_mul_of_nonneg_right hm' (two_zpow_pos _).le
    have h1 : round_float32 a ≤ 2 ^ Int.log 2 b := by
      unfold round_float32
      have hk : (0 : Int) ≤ Int.log 2 b - float32_exponent a := by omega
      have hx : a / 2 ^ float32_exponent a ≤ (2 : ℚ) ^ (Int.log 2 b - float32_exponent a) := by
        rw [div_le_iff₀ (two_zpow_pos _), ← zpow_add₀ (by norm_num : (2 : ℚ) ≠ 0)]
        have : Int.log 2 b - float32_exponent a + float32_exponent a = Int.log 2 b := by ring
        rw [this]
        exact haL
      have hm := round_half_even_mono hx
      rw [two_zpow_eq_intCast hk, round_half_even_intCast] at hm
      have hm' : (round_half_even (a / 2 ^ float32_exponent a) : ℚ) ≤
          (((2 : Int) ^ (Int.log 2 b - float32_exponent a).toNat : Int) : ℚ) := by
        exact_mod_cast hm
      rw [← two_zpow_eq_intCast hk] at hm'
      calc _ ≤ (2 : ℚ) ^ (Int.log 2 b - float32_exponent a) * 2 ^ float32_exponent a :=
            mul_le_mul_of_nonneg_right hm' (two_zpow_pos _).le
        _ = 2 ^ Int.log 2 b := by
            rw [← zpow_add₀ (by norm_num : (2 : ℚ) ≠ 0)]
            congr 1
            ring
    exact le_trans h1 h2
  · unfold round_float32
    rw [heq]
    have hx : a / 2 ^ float32_exponent b ≤ b / 2 ^ float32_exponent b :=
      div_le_div_of_nonneg_right h (two_zpow_pos _).le
    have hm := round_half_even_mono hx
    have hm' : (round_half_even (a / 2 ^ float32_exponent b) : ℚ) ≤
        (round_half_even (b / 2 ^ float32_exponent b) : ℚ) := by exact_mod_cast hm
    exact mul_le_mul_of_nonneg_right hm' (two_zpow_pos _).le

/-- Rounding to float32 is monotone. -/
theorem round_float32_mono {a b : ℚ} (h : a ≤ b) : round_float32 a ≤ round_float32 b := by
  rcases lt_trichotomy 0 a with ha | ha | ha
  · exact round_float32_mono_pos ha h
  · rw [← ha, round_float32_zero]
    exact round_float32_nonneg (by linarith)
  · rcases le_or_lt 0 b with hb | hb
    · exact le_trans (round_float32_nonpos ha.le) (round_float32_nonneg hb)
    · have := round_float32_mono_pos (neg_pos.mpr hb) (neg_le_neg h)
      rw [round_float32_neg, round_float32_neg] at this
      linarith

theorem round_half_even_abs_le {x : ℚ} {n : Int} (h : |x| ≤ (n : ℚ)) :
    |round_half_even x| ≤ n := by
  rw [abs_le] at h ⊢
  constructor
  · have := round_half_even_mono h.1
    rw [← Int.cast_neg, round_half_even_intCast] at this
    exact this
  · have := round_half_even_mono h.2
    rw [round_half_even_intCast] at this
    exact this

theorem abs_div_float32_exponent_lt (q : ℚ) : |q / 2 ^ float32_exponent q| < 2 ^ 24 := by
  rw [abs_div, abs_of_pos (two_zpow_pos _), div_lt_iff₀ (two_zpow_pos _)]
  have h1 := lt_zpow_log_succ |q|
  have h2 : (2 : ℚ) ^ (Int.log 2 |q| + 1) ≤ 2 ^ (24 + float32_exponent q) := by
    apply zpow_le_zpow_right₀ (by norm_num)
    have : Int.log 2 |q| - 23 ≤ float32_exponent q := by
      unfold float32_exponent
      exact le_max_left _ _
    omega
  have h3 : (2 : ℚ) ^ (24 + float32_exponent q) = 2 ^ 24 * 2 ^ float32_exponent q := by
    rw [zpow_add₀ (by norm_num : (2 : ℚ) ≠ 0)]
    norm_num
  linarith

theorem float32_exponent_ge (q : ℚ) : -149 ≤ float32_exponent q := by
  unfold float32_exponent
  exact le_max_right _ _

/-- The result of rounding is a float32: rounding it again changes nothing. -/
theorem round_float32_idem (q : ℚ) : round_float32 (round_float32 q) = round_float32 q := by
  have hM : |round_half_even (q / 2 ^ float32_exponent q)| ≤ 2 ^ 24 := by
    apply round_half_even_abs_le
    have := abs_div_float32_exponent_lt q
    push_cast
    linarith
  have he := float32_exponent_ge q
  have hdef : round_float32 q =
      (round_half_even (q / 2 ^ float32_exponent q) : ℚ) * 2 ^ float32_exponent q := rfl
  rw [hdef]
  generalize round_half_even (q / 2 ^ float32_exponent q) = M at hM
  generalize float32_exponent q = ee at he
  rcases hM.lt_or_eq with hlt | heq
  · exact round_float32_of_dyadic M ee hlt he
  · have hcases : M = 2 ^ 24 ∨ M = -2 ^ 24 := by
      rcases abs_cases M with ⟨h1, _⟩ | ⟨h1, _⟩ <;> omega
    have h2 : (2 : ℚ) ^ (ee + 1) = 2 * 2 ^ ee := by
      rw [zpow_add₀ (by norm_num : (2 : ℚ) ≠ 0)]
      ring
    rcases hcases with h | h
    · have e1 : (M : ℚ) * 2 ^ ee = ((2 ^ 23 : Int) : ℚ) * 2 ^ (ee + 1) := by
        rw [h, h2]
        push_cast
        ring
      rw [e1]
      exact round_float32_of_dyadic (2 ^ 23) (ee + 1) (by norm_num) (by omega)
    · have e1 : (M : ℚ) * 2 ^ ee = ((-2 ^ 23 : Int) : ℚ) * 2 ^ (ee + 1) := by
        rw [h, h2]
        push_cast
        ring
      rw [e1]
      exact round_float32_of_dyadic (-2 ^ 23) (ee + 1) (by norm_num) (by omega)

/-- Rounding keeps a value within a bound that is itself a float32. -/
theorem round_float32_abs_le {q b : ℚ} (hb : round_float32 b = b) (h : |q| ≤ b) :
    |round_float32 q| ≤ b := by
  rw [abs_le] at h ⊢
  constructor
  · have := round_float32_mono h.1
    rw [round_float32_neg, hb] at this
    exact this
  · have := round_float32_mono h.2
    rw [hb] at this
    exact this

theorem round_float32_one : round_float32 1 = 1 := by
  have := round_float32_intCast 1 (by norm_num)
  simpa using this

theorem round_float32_neg_one : round_float32 (-1) = -1 := by
  rw [round_float32_neg, round_float32_one]

theorem float32_eq_some {q : ℚ} (h : |round_float32 q| < 2 ^ 128) :
    float32 q = some (round_float32 q) := by
  unfold float32
  rw [if_pos h]

theorem float32_eq_some_iff {q r : ℚ} :
    float32 q = some r ↔ r = round_float32 q ∧ |round_float32 q| < 2 ^ 128 := by
  unfold float32
  split_ifs with h
  · simp only [Option.some.injEq]
    constructor
    · intro e; exact ⟨e.symm, h⟩
    · intro e; exact e.1.symm
  · constructor
    · intro e; cases e
    · intro e; exact absurd e.2 h

/-- The float32 nearest to a positive `q`, from its binade `2^E ≤ q < 2^(E+1)` and
the nearest multiple `m` of the unit in the last place. -/
theorem round_float32_eq_of_pos {q : ℚ} (E m : Int) (h1 : 2 ^ E ≤ q) (h2 : q < 2 ^ (E + 1))
    (hE : -126 ≤ E) (hm1 : (m : ℚ) - 1 / 2 < q / 2 ^ (E - 23))
    (hm2 : q / 2 ^ (E - 23) < (m : ℚ) + 1 / 2) :
    round_float32 q = (m : ℚ) * 2 ^ (E - 23) := by
  have hq : 0 < q := lt_of_lt_of_le (two_zpow_pos E) h1
  apply round_float32_eq_of_close E m
  · rw [abs_of_pos hq]; exact h1
  · rw [abs_of_pos hq]; exact h2
  · exact hE
  · rw [abs_lt]
    constructor <;> linarith

/-- The constant `0.1f`. -/
theorem round_float32_one_tenth : round_float32 (1 / 10) = 13421773 / 134217728 := by
  rw [round_float32_eq_of_pos (-4) 13421773 (by norm_num) (by norm_num) (by norm_num)
    (by norm_num) (by norm_num)]
  norm_num

theorem float32_intCast (n : Int) (hn : |n| < 2 ^ 24) : float32 (n : ℚ) = some (n : ℚ) := by
  unfold float32
  rw [round_float32_intCast n hn, if_pos]
  have : ((|n| : Int) : ℚ) < ((2 ^ 24 : Int) : ℚ) := by exact_mod_cast hn
  rw [Int.cast_abs] at this
  calc |(n : ℚ)| < ((2 ^ 24 : Int) : ℚ) := this
    _ < 2 ^ 128 := by norm_num

theorem float32_of_dyadic (m e : Int) (hm : |m| < 2 ^ 24) (he : -149 ≤ e) (he2 : e ≤ 100) :
    float32 ((m : ℚ) * 2 ^ e) = some ((m : ℚ) * 2 ^ e) := by
  unfold float32
  rw [round_float32_of_dyadic m e hm he, if_pos]
  have h1 : ((|m| : Int) : ℚ) < ((2 ^ 24 : Int) : ℚ) := by exact_mod_cast hm
  rw [Int.cast_abs] at h1
  rw [abs_mul, abs_of_pos (two_zpow_pos e)]
  have h2 : (2 : ℚ) ^ e ≤ 2 ^ (100 : Int) := zpow_le_zpow_right₀ (by norm_num) he2
  calc |(m : ℚ)| * 2 ^ e ≤ ((2 ^ 24 : Int) : ℚ) * 2 ^ (100 : Int) :=
        mul_le_mul h1.le h2 (two_zpow_pos e).le (by positivity)
    _ < 2 ^ 128 := by norm_num

@[simp] theorem float32_zero : float32 0 = some 0 := by
  have := float32_intCast 0 (by norm_num)
  simpa using this

theorem float_to_int_intCast (i : Int) : float_to_int (i : ℚ) = i := by
  unfold float_to_int
  split <;> simp

theorem float_to_int_neg (q : ℚ) : float_to_int (-q) = -float_to_int q := by
  unfold float_to_int
  rcases lt_trichotomy q 0 with h | h | h
  · have h1 : (0 : ℚ) ≤ -q := by linarith
    have h2 : ¬ (0 : ℚ) ≤ q := by linarith
    simp [h1, h2, Int.floor_neg]
  · subst h; simp
  · have h1 : ¬ (0 : ℚ) ≤ -q := by linarith
    have h2 : (0 : ℚ) ≤ q := by linarith
    simp [h1, h2, Int.ceil_neg]

theorem float_to_int_nonneg {q : ℚ} (h : 0 ≤ q) : 0 ≤ float_to_int q := by
  unfold float_to_int
  simp [h, Int.floor_nonneg]

theorem float_to_int_le_of_nonneg {q : ℚ} (h : 0 ≤ q) : (float_to_int q : ℚ) ≤ q := by
  unfold float_to_int
  simp [h, Int.floor_le]

theorem glm_round_intCast (i : Int) : glm_round (i : ℚ) = i := by
  unfold glm_round
  split
  · rw [Int.floor_eq_iff]
    constructor <;> linarith
  · have : ⌊-(i : ℚ) + 1 / 2⌋ = -i := by
      rw [Int.floor_eq_iff]
      constructor <;> push_cast <;> linarith
    rw [this]; simp

theorem chunk_index_inj {G a b c a' b' c' : Nat} (ha : a < G) (hb : b < G)
    (ha' : a' < G) (hb' : b' < G)
    (h : chunk_index G a b c = chunk_index G a' b' c') : a = a' ∧ b = b' ∧ c = c' := by
  unfold chunk_index at h
  have hG : 0 < G := by omega
  have e1 : ∀ x y z : Nat, x < G → z * (G * G) + y * G + x = x + G * (y + G * z) := by
    intro x y z _; ring
  rw [e1 a b c ha, e1 a' b' c' ha'] at h
  have h1 := congrArg (· % G) h
  simp only [Nat.add_mul_mod_self_left, Nat.mod_eq_of_lt ha, Nat.mod_eq_of_lt ha'] at h1
  have h2 := congrArg (· / G) h
  simp only [Nat.add_mul_div_left _ _ hG, Nat.div_eq_of_lt ha, Nat.div_eq_of_lt ha',
    Nat.zero_add] at h2
  have h3 := congrArg (· % G) h2
  simp only [Nat.add_mul_mod_self_left, Nat.mod_eq_of_lt hb, Nat.mod_eq_of_lt hb'] at h3
  have h4 := congrArg (· / G) h2
  simp only [Nat.add_mul_div_left _ _ hG, Nat.div_eq_of_lt hb, Nat.div_eq_of_lt hb',
    Nat.zero_add] at h4
  exact ⟨h1, h3, h4⟩

theorem convert_3d_to_1d_index_of_lt {G cx cy cz : Nat} (hx : cx < G) (hy : cy < G)
    (hz : cz < G) :
    convert_3d_to_1d_index cx cy cz G = (chunk_index G cx cy cz : Int) := by
  have hw : is_voxel_coord_within_chunk ⟨cx, cy, cz⟩ G = true := by
    unfold is_voxel_coord_within_chunk
    simp only [decide_eq_true_eq]
    omega
  unfold convert_3d_to_1d_index chunk_index
  rw [if_pos hw]
  push_cast; ring

theorem convert_3d_to_1d_index_ne {G : Nat} {x y z : Int}
    (h : convert_3d_to_1d_index x y z G ≠ -1) :
    ∃ cx cy cz : Nat, cx < G ∧ cy < G ∧ cz < G ∧ x = cx ∧ y = cy ∧ z = cz := by
  unfold convert_3d_to_1d_index at h
  by_cases hw : is_voxel_coord_within_chunk ⟨x, y, z⟩ G = true
  · unfold is_voxel_coord_within_chunk at hw
    simp only [decide_eq_true_eq] at hw
    refine ⟨x.toNat, y.toNat, z.toNat, ?_, ?_, ?_, ?_, ?_, ?_⟩ <;> omega
  · simp [hw] at h

theorem in_grid_decompose {g : voxel_chunks_t} {p : ivector3_t} (h : in_grid g p) :
    ∃ cx cy cz lx ly lz : Nat, cx < g.grid_edge_size ∧ cy < g.grid_edge_size ∧
      cz < g.grid_edge_size ∧ lx < 16 ∧ ly < 16 ∧ lz < 16 ∧
      p = ⟨16 * (cx : Int) + lx, 16 * (cy : Int) + ly, 16 * (cz : Int) + lz⟩ := by
  obtain ⟨h1, h2, h3, h4, h5, h6⟩ := h
  refine ⟨(p.x / 16).toNat, (p.y / 16).toNat, (p.z / 16).toNat,
    (p.x % 16).toNat, (p.y % 16).toNat, (p.z % 16).toNat, ?_, ?_, ?_, ?_, ?_, ?_, ?_⟩
  · omega
  · omega
  · omega
  · omega
  · omega
  · omega
  · cases p with
    | mk x y z =>
      simp only at h1 h2 h3 h4 h5 h6 ⊢
      congr <;> omega

theorem voxel_at_decomposed (g : voxel_chunks_t) {cx cy cz lx ly lz : Nat}
    (hx : cx < g.grid_edge_size) (hy : cy < g.grid_edge_size) (hz : cz < g.grid_edge_size)
    (hlx : lx < 16) (hly : ly < 16) (hlz : lz < 16) :
    voxel_at g ⟨16 * (cx : Int) + lx, 16 * (cy : Int) + ly, 16 * (cz : Int) + lz⟩ =
      (g.chunks (chunk_index g.grid_edge_size cx cy cz)).map fun c => c.voxels lx ly lz := by
  have hw : is_voxel_coord_within_chunk
      ⟨16 * (cx : Int) + lx, 16 * (cy : Int) + ly, 16 * (cz : Int) + lz⟩
      (g.grid_edge_size * VOXEL_CHUNK_EDGE_LENGTH) = true := by
    unfold is_voxel_coord_within_chunk VOXEL_CHUNK_EDGE_LENGTH
    simp only [decide_eq_true_eq]
    push_cast
    omega
  have d1 : (16 * (cx : Int) + lx) / 16 = cx := by omega
  have d2 : (16 * (cy : Int) + ly) / 16 = cy := by omega
  have d3 : (16 * (cz : Int) + lz) / 16 = cz := by omega
  have m1 : ((16 * (cx : Int) + lx) % 16).toNat = lx := by omega
  have m2 : ((16 * (cy : Int) + ly) % 16).toNat = ly := by omega
  have m3 : ((16 * (cz : Int) + lz) % 16).toNat = lz := by omega
  unfold voxel_at
  rw [if_pos hw]
  simp only [d1, d2, d3, m1, m2, m3, convert_3d_to_1d_index_of_lt hx hy hz, Int.toNat_ofNat]
  cases g.chunks (chunk_index g.grid_edge_size cx cy cz) <;> rfl

theorem same_voxels_chunk {g g' : voxel_chunks_t} (h : same_voxels g g') {i : Nat}
    {c : voxel_chunk_t} (hc : g.chunks i = some c) :
    ∃ c', g'.chunks i = some c' ∧ c'.xs_bottom_corner = c.xs_bottom_corner ∧
      c'.chunk_coord = c.chunk_coord ∧ c'.voxels = c.voxels := by
  have := h.2 i
  rw [hc] at this
  cases hc' : g'.chunks i with
  | none => rw [hc'] at this; simp at this
  | some c' =>
    rw [hc'] at this
    simp only [Option.map_some', Option.some.injEq, Prod.mk.injEq] at this
    exact ⟨c', rfl, this.1, this.2.1, this.2.2⟩

theorem same_voxels_well_formed {g g' : voxel_chunks_t} (h : same_voxels g g')
    (hw : grid_well_formed g) : grid_well_formed g' := by
  intro cx cy cz hx hy hz
  rw [h.1] at hx hy hz ⊢
  obtain ⟨c, hc, h1, h2, h3⟩ := hw cx cy cz hx hy hz
  obtain ⟨c', hc', e1, e2, e3⟩ := same_voxels_chunk h hc
  exact ⟨c', hc', by rw [e1, h1], by rw [e2, h2], by rw [e3]; exact h3⟩

theorem same_voxels_voxel_at {g g' : voxel_chunks_t} (h : same_voxels g g') (p : ivector3_t) :
    voxel_at g' p = voxel_at g p := by
  unfold voxel_at
  rw [h.1]
  split
  · have := h.2 (convert_3d_to_1d_index (p.x / 16) (p.y / 16) (p.z / 16) g.grid_edge_size).toNat
    revert this
    cases g'.chunks (convert_3d_to_1d_index (p.x / 16) (p.y / 16) (p.z / 16)
        g.grid_edge_size).toNat <;>
      cases g.chunks (convert_3d_to_1d_index (p.x / 16) (p.y / 16) (p.z / 16)
        g.grid_edge_size).toNat <;> simp
    intro _ _ h3; rw [h3]
  · rfl

theorem ready_chunk_for_gpu_sync_spec {g : voxel_chunks_t} {p : Nat} {c : voxel_chunk_t}
    (hc : g.chunks p = some c) :
    ∃ g', ready_chunk_for_gpu_sync g (some p) = some g' ∧ same_voxels g g' := by
  unfold ready_chunk_for_gpu_sync
  simp only [hc]
  by_cases hs : c.should_do_gpu_sync = true
  · simp only [hs, Bool.not_true, Bool.false_eq_true, if_false]
    exact ⟨g, rfl, rfl, fun _ => rfl⟩
  · simp only [Bool.not_eq_true] at hs
    simp only [hs, Bool.not_false, if_true]
    refine ⟨_, rfl, rfl, ?_⟩
    intro i
    by_cases hi : i = p
    · subst hi; simp [hc]
    · simp [Function.update_noteq hi]

theorem clamp_density_le (v : Int) : clamp_density v ≤ 255 := by
  unfold clamp_density
  split
  · exact le_refl _
  · split <;> omega

theorem float_to_int32_eq_some {q : ℚ} {a : Int} (h : float_to_int32 q = some a) :
    a = float_to_int q := by
  unfold float_to_int32 at h
  split at h
  · exact (Option.some.inj h).symm
  · exact absurd h (by simp)

theorem float32_bind_eq_some {q : ℚ} {f : float32_t → Option float32_t} {r : float32_t}
    (h : (float32 q).bind f = some r) :
    |round_float32 q| < 2 ^ 128 ∧ f (round_float32 q) = some r := by
  unfold float32 at h
  split_ifs at h with hq
  · exact ⟨hq, h⟩
  · exact absurd h (by simp)

theorem terraform_new_value_eq_some {v : Nat} {p coefficient dt : ℚ} {val : Nat}
    (h : terraform_new_value v p coefficient dt = some val) :
    val = clamp_density (float_to_int
      (round_float32 (round_float32 (round_float32 (p * coefficient) * dt) * 700)) +
        (v : Int)) := by
  unfold terraform_new_value at h
  cases hprod : (float32 (p * coefficient)).bind fun signed =>
      (float32 (signed * dt)).bind fun scaled => float32 (scaled * 700) with
  | none => rw [hprod] at h; exact absurd h (by simp)
  | some product =>
    rw [hprod] at h
    simp only at h
    obtain ⟨_, h1⟩ := float32_bind_eq_some hprod
    obtain ⟨_, h2⟩ := float32_bind_eq_some h1
    obtain ⟨h3, _⟩ := float32_eq_some_iff.mp h2
    subst h3
    cases hq : float_to_int32
        (round_float32 (round_float32 (round_float32 (p * coefficient) * dt) * 700)) with
    | none => rw [hq] at h; exact absurd h (by simp)
    | some a =>
      rw [hq] at h
      have ha := float_to_int32_eq_some hq
      subst ha
      simp only at h
      unfold clamp_density
      split at h
      · exact absurd h (by simp)
      · split at h
        · rename_i h2
          rw [if_pos h2]; exact (Option.some.inj h).symm
        · rename_i h2
          rw [if_neg h2]
          split at h
          · rename_i h3
            rw [if_pos h3]; exact (Option.some.inj h).symm
          · rename_i h3
            rw [if_neg h3]
            have := Option.some.inj h
            omega

theorem terraform_write_eq_some {g g' : voxel_chunks_t} {chunk : Nat} {c : voxel_chunk_t}
    {cs : ivector3_t} {d2 r2 coefficient dt : ℚ}
    (hc : g.chunks chunk = some c)
    (h : terraform_write g chunk cs d2 r2 coefficient dt = some g') :
    is_voxel_coord_within_chunk cs = true ∧ r2 ≠ 0 ∧
    g' = { g with
      chunks := Function.update g.chunks chunk
        (some (c.set_voxel cs.x.toNat cs.y.toNat cs.z.toNat
          (terraform_density (c.voxels cs.x.toNat cs.y.toNat cs.z.toNat) d2 r2
            coefficient dt))) } := by
  unfold terraform_write at h
  rw [hc] at h
  simp only at h
  split at h
  · rename_i hw
    refine ⟨hw, ?_⟩
    unfold float32_div at h
    by_cases hr : r2 = 0
    · rw [if_pos hr] at h; exact absurd h (by simp)
    · rw [if_neg hr] at h
      refine ⟨hr, ?_⟩
      cases hratio : float32 (d2 / r2) with
      | none => rw [hratio] at h; exact absurd h (by simp)
      | some ratio =>
        rw [hratio] at h
        simp only at h
        obtain ⟨e1, _⟩ := float32_eq_some_iff.mp hratio
        subst e1
        cases hprop : float32 (1 - round_float32 (d2 / r2)) with
        | none => rw [hprop] at h; exact absurd h (by simp)
        | some proportion =>
          rw [hprop] at h
          simp only at h
          obtain ⟨e2, _⟩ := float32_eq_some_iff.mp hprop
          subst e2
          cases hv : terraform_new_value (c.voxels cs.x.toNat cs.y.toNat cs.z.toNat)
              (round_float32 (1 - round_float32 (d2 / r2))) coefficient dt with
          | none => rw [hv] at h; exact absurd h (by simp)
          | some val =>
            rw [hv] at h
            have := terraform_new_value_eq_some hv
            unfold terraform_density terraform_amount
            rw [← this]
            exact (Option.some.inj h).symm
  · exact absurd h (by simp)

theorem write_effect {g : voxel_chunks_t} (hw : grid_well_formed g) {kx ky kz lx ly lz : Nat}
    (hkx : kx < g.grid_edge_size) (hky : ky < g.grid_edge_size) (hkz : kz < g.grid_edge_size)
    (hlx : lx < 16) (hly : ly < 16) (hlz : lz < 16) {c : voxel_chunk_t}
    (hc : g.chunks (chunk_index g.grid_edge_size kx ky kz) = some c) (f : Nat → Nat)
    (hf : ∀ v, f v ≤ 255) (g' : voxel_chunks_t)
    (hg' : g' = { g with
      chunks := Function.update g.chunks (chunk_index g.grid_edge_size kx ky kz)
        (some (c.set_voxel lx ly lz (f (c.voxels lx ly lz)))) }) :
    grid_well_formed g' ∧ g'.grid_edge_size = g.grid_edge_size ∧
    ∀ p, in_grid g p → voxel_at g' p =
      if p = ⟨16 * (kx : Int) + lx, 16 * (ky : Int) + ly, 16 * (kz : Int) + lz⟩ then
        (voxel_at g p).map f
      else voxel_at g p := by
  have hG : g'.grid_edge_size = g.grid_edge_size := by rw [hg']
  have hch : ∀ i, g'.chunks i = if i = chunk_index g.grid_edge_size kx ky kz then
      some (c.set_voxel lx ly lz (f (c.voxels lx ly lz))) else g.chunks i := by
    intro i
    rw [hg']
    simp only [Function.update_apply]
  refine ⟨?_, hG, ?_⟩
  · intro cx cy cz hx hy hz
    rw [hG] at hx hy hz ⊢
    obtain ⟨c0, hc0, h1, h2, h3⟩ := hw cx cy cz hx hy hz
    rw [hch]
    by_cases hi : chunk_index g.grid_edge_size cx cy cz = chunk_index g.grid_edge_size kx ky kz
    · rw [if_pos hi]
      rw [hi, hc] at hc0
      have hcc : c = c0 := Option.some.inj hc0
      subst hcc
      refine ⟨_, rfl, h1, h2, ?_⟩
      intro x y z hx' hy' hz'
      unfold voxel_chunk_t.set_voxel
      simp only
      split
      · exact Nat.lt_of_le_of_lt (hf _) (by norm_num)
      · exact h3 x y z hx' hy' hz'
    · rw [if_neg hi]
      exact ⟨c0, hc0, h1, h2, h3⟩
  · intro p hp
    obtain ⟨cx, cy, cz, mx, my, mz, hx, hy, hz, hmx, hmy, hmz, rfl⟩ := in_grid_decompose hp
    have e1 := voxel_at_decomposed g hx hy hz hmx hmy hmz
    have hx' := hx
    have hy' := hy
    have hz' := hz
    rw [← hG] at hx' hy' hz'
    have e2 := voxel_at_decomposed g' hx' hy' hz' hmx hmy hmz
    rw [e1, e2, hG, hch]
    by_cases hi : chunk_index g.grid_edge_size cx cy cz = chunk_index g.grid_edge_size kx ky kz
    · obtain ⟨rfl, rfl, rfl⟩ := chunk_index_inj hx hy hkx hky hi
      rw [if_pos rfl, hc]
      simp only [Option.map_some']
      unfold voxel_chunk_t.set_voxel
      simp only
      by_cases hl : mx = lx ∧ my = ly ∧ mz = lz
      · obtain ⟨rfl, rfl, rfl⟩ := hl
        simp
      · rw [if_neg hl, if_neg]
        intro hcon
        injection hcon with a1 a2 a3
        apply hl
        refine ⟨?_, ?_, ?_⟩ <;> omega
    · rw [if_neg hi, if_neg]
      intro hcon
      injection hcon with a1 a2 a3
      apply hi
      have b1 : cx = kx := by omega
      have b2 : cy = ky := by omega
      have b3 : cz = kz := by omega
      rw [b1, b2, b3]

theorem v_f_to_ivector3 (b : ivector3_t) (o : Nat × Nat × Nat) :
    ((vector3_t.mk (o.1 : ℚ) (o.2.1 : ℚ) (o.2.2 : ℚ)).add b.to_vector3).to_ivector3 =
      voxel_position b o := by
  have e : ∀ (n : Nat) (i : Int), float_to_int ((n : ℚ) + (i : ℚ)) = (n : Int) + i := by
    intro n i
    have : ((n : ℚ) + (i : ℚ)) = (((n : Int) + i : Int) : ℚ) := by push_cast; rfl
    rw [this, float_to_int_intCast]
  simp only [vector3_t.add, ivector3_t.to_vector3, vector3_t.to_ivector3, voxel_position, e]

theorem v_f_dist (b c : ivector3_t) (o : Nat × Nat × Nat) :
    (((vector3_t.mk (o.1 : ℚ) (o.2.1 : ℚ) (o.2.2 : ℚ)).add b.to_vector3).sub c.to_vector3).dot
      (((vector3_t.mk (o.1 : ℚ) (o.2.1 : ℚ) (o.2.2 : ℚ)).add b.to_vector3).sub c.to_vector3) =
      ((dist_sq (voxel_position b o) c : Int) : ℚ) := by
  simp only [vector3_t.add, vector3_t.sub, vector3_t.dot, ivector3_t.to_vector3, dist_sq,
    voxel_position]
  push_cast
  ring

theorem get_chunk_encompassing_point_int (g : voxel_chunks_t) (v : ivector3_t) :
    get_chunk_encompassing_point g v.to_vector3 =
      get_voxel_chunk g (convert_3d_to_1d_index (v.x.tdiv 16) (v.y.tdiv 16) (v.z.tdiv 16)
        g.grid_edge_size) := by
  simp only [get_chunk_encompassing_point, ivector3_t.to_vector3, glm_round_intCast,
    VOXEL_CHUNK_EDGE_LENGTH]
  rfl

theorem get_voxel_chunk_eq_some {g : voxel_chunks_t} {i : Int} {p : Nat}
    (h : get_voxel_chunk g i = some p) : i ≠ -1 ∧ p = i.toNat ∧ ∃ c, g.chunks p = some c := by
  unfold get_voxel_chunk at h
  split at h
  · exact absurd h (by simp)
  · rename_i hi
    split at h
    · rename_i hs
      have hp := Option.some.inj h
      subst hp
      refine ⟨hi, rfl, ?_⟩
      cases hc : g.chunks i.toNat with
      | none => rw [hc] at hs; simp at hs
      | some c => exact ⟨c, rfl⟩
    · exact absurd h (by simp)

/-- A pointer returned for a voxel coordinate is the chunk of the grid cell at
the truncated quotient of the coordinate by 16. -/
theorem get_chunk_encompassing_point_eq_some {g : voxel_chunks_t} {v : ivector3_t} {p : Nat}
    (h : get_chunk_encompassing_point g v.to_vector3 = some p) :
    ∃ kx ky kz : Nat, kx < g.grid_edge_size ∧ ky < g.grid_edge_size ∧ kz < g.grid_edge_size ∧
      v.x.tdiv 16 = kx ∧ v.y.tdiv 16 = ky ∧ v.z.tdiv 16 = kz ∧
      p = chunk_index g.grid_edge_size kx ky kz ∧ ∃ c, g.chunks p = some c := by
  rw [get_chunk_encompassing_point_int] at h
  obtain ⟨h1, h2, h3⟩ := get_voxel_chunk_eq_some h
  obtain ⟨kx, ky, kz, hx, hy, hz, e1, e2, e3⟩ := convert_3d_to_1d_index_ne h1
  refine ⟨kx, ky, kz, hx, hy, hz, e1, e2, e3, ?_, h3⟩
  rw [h2, e1, e2, e3, convert_3d_to_1d_index_of_lt hx hy hz]
  simp

theorem get_chunk_encompassing_point_in_grid {g : voxel_chunks_t} (hw : grid_well_formed g)
    {v : ivector3_t} (hv : in_grid g v) :
    ∃ p, get_chunk_encompassing_point g v.to_vector3 = some p := by
  obtain ⟨cx, cy, cz, lx, ly, lz, hx, hy, hz, hlx, hly, hlz, rfl⟩ := in_grid_decompose hv
  rw [get_chunk_encompassing_point_int]
  have t1 : (16 * (cx : Int) + lx).tdiv 16 = cx := by
    rw [Int.tdiv_eq_ediv (by omega) (by norm_num)]; omega
  have t2 : (16 * (cy : Int) + ly).tdiv 16 = cy := by
    rw [Int.tdiv_eq_ediv (by omega) (by norm_num)]; omega
  have t3 : (16 * (cz : Int) + lz).tdiv 16 = cz := by
    rw [Int.tdiv_eq_ediv (by omega) (by norm_num)]; omega
  simp only [t1, t2, t3, convert_3d_to_1d_index_of_lt hx hy hz]
  obtain ⟨c, hc, _⟩ := hw cx cy cz hx hy hz
  unfold get_voxel_chunk
  have : ((chunk_index g.grid_edge_size cx cy cz : Nat) : Int) ≠ -1 := by omega
  rw [if_neg this]
  simp [hc]

theorem terraform_write_spec {g g1 : voxel_chunks_t} (hw : grid_well_formed g)
    {kx ky kz : Nat} (hkx : kx < g.grid_edge_size) (hky : ky < g.grid_edge_size)
    (hkz : kz < g.grid_edge_size) {c0 : voxel_chunk_t}
    (hc0 : g.chunks (chunk_index g.grid_edge_size kx ky kz) = some c0)
    {v : ivector3_t} {d2 r2 coefficient dt : ℚ}
    (h : terraform_write g (chunk_index g.grid_edge_size kx ky kz) (v.sub c0.xs_bottom_corner)
      d2 r2 coefficient dt = some g1) :
    grid_well_formed g1 ∧ g1.grid_edge_size = g.grid_edge_size ∧ in_grid g v ∧
    ∀ p, in_grid g p → voxel_at g1 p =
      if p = v then (voxel_at g p).map fun a => terraform_density a d2 r2 coefficient dt
      else voxel_at g p := by
  obtain ⟨c, hc, hb, _, _⟩ := hw kx ky kz hkx hky hkz
  rw [hc0] at hc
  have hcc := Option.some.inj hc
  subst hcc
  obtain ⟨hin, _, hg1⟩ := terraform_write_eq_some hc0 h
  unfold is_voxel_coord_within_chunk VOXEL_CHUNK_EDGE_LENGTH at hin
  simp only [decide_eq_true_eq, ivector3_t.sub, hb] at hin
  obtain ⟨i1, i2, i3, i4, i5, i6⟩ := hin
  have hlx : (v.x - 16 * (kx : Int)).toNat < 16 := by omega
  have hly : (v.y - 16 * (ky : Int)).toNat < 16 := by omega
  have hlz : (v.z - 16 * (kz : Int)).toNat < 16 := by omega
  have hv : v = ⟨16 * (kx : Int) + ((v.x - 16 * (kx : Int)).toNat : Nat),
      16 * (ky : Int) + ((v.y - 16 * (ky : Int)).toNat : Nat),
      16 * (kz : Int) + ((v.z - 16 * (kz : Int)).toNat : Nat)⟩ := by
    cases v with
    | mk x y z =>
      simp only at i1 i2 i3 i4 i5 i6 ⊢
      congr <;> omega
  simp only [ivector3_t.sub, hb] at hg1
  have key := write_effect hw hkx hky hkz hlx hly hlz hc0
    (fun a => terraform_density a d2 r2 coefficient dt) (fun a => clamp_density_le _) g1 hg1
  refine ⟨key.1, key.2.1, ?_, ?_⟩
  · unfold in_grid
    push_cast at i1 i2 i3 i4 i5 i6 ⊢
    omega
  · intro p hp
    rw [key.2.2 p hp, ← hv]

theorem terraform_step_spec {g g' : voxel_chunks_t} {chunk chunk' : Nat} {c b : ivector3_t}
    {r2 coefficient dt : ℚ} {o : Nat × Nat × Nat}
    (hinv : loop_inv g chunk)
    (h : terraform_step c b r2 coefficient dt (g, chunk) o = some (g', chunk')) :
    loop_inv g' chunk' ∧ g'.grid_edge_size = g.grid_edge_size ∧
    ∀ p, in_grid g p → voxel_at g' p =
      if p = voxel_position b o ∧ ((dist_sq p c : Int) : ℚ) ≤ r2 then
        (voxel_at g p).map fun a =>
          terraform_density a ((dist_sq p c : Int) : ℚ) r2 coefficient dt
      else voxel_at g p := by
  obtain ⟨hw, kx, ky, kz, hkx, hky, hkz, hchunk⟩ := hinv
  obtain ⟨c0, hc0, hb0, _, _⟩ := hw kx ky kz hkx hky hkz
  subst hchunk
  unfold terraform_step at h
  simp only [v_f_to_ivector3, v_f_dist] at h
  by_cases hd : ((dist_sq (voxel_position b o) c : Int) : ℚ) ≤ r2
  · rw [if_pos hd, hc0] at h
    simp only at h
    by_cases hin : is_voxel_coord_within_chunk
        ((voxel_position b o).sub c0.xs_bottom_corner) = true
    · rw [if_pos hin] at h
      cases hwr : terraform_write g (chunk_index g.grid_edge_size kx ky kz)
          ((voxel_position b o).sub c0.xs_bottom_corner)
          ((dist_sq (voxel_position b o) c : Int) : ℚ) r2 coefficient dt with
      | none => rw [hwr] at h; simp at h
      | some g1 =>
        rw [hwr] at h
        simp only [Option.map_some', Option.some.injEq, Prod.mk.injEq] at h
        obtain ⟨rfl, rfl⟩ := h
        obtain ⟨w1, w2, _, w4⟩ := terraform_write_spec hw hkx hky hkz hc0 hwr
        refine ⟨⟨w1, kx, ky, kz, ?_, ?_, ?_, ?_⟩, w2, ?_⟩
        · rw [w2]; exact hkx
        · rw [w2]; exact hky
        · rw [w2]; exact hkz
        · rw [w2]
        · intro p hp
          rw [w4 p hp]
          by_cases hpv : p = voxel_position b o
          · subst hpv; simp [hd]
          · simp [hpv]
    · rw [if_neg hin] at h
      cases hl : get_chunk_encompassing_point g (voxel_position b o).to_vector3 with
      | none =>
        rw [hl] at h
        simp only [Option.some.injEq, Prod.mk.injEq] at h
        obtain ⟨rfl, rfl⟩ := h
        refine ⟨⟨hw, kx, ky, kz, hkx, hky, hkz, rfl⟩, rfl, ?_⟩
        intro p hp
        by_cases hpv : p = voxel_position b o
        · subst hpv
          obtain ⟨q, hq⟩ := get_chunk_encompassing_point_in_grid hw hp
          rw [hq] at hl
          exact absurd hl (by simp)
        · simp [hpv]
      | some new_chunk =>
        rw [hl] at h
        simp only at h
        obtain ⟨nx, ny, nz, hnx, hny, hnz, _, _, _, hnew, cn, hcn⟩ :=
          get_chunk_encompassing_point_eq_some hl
        obtain ⟨g1, hr, hsv⟩ := ready_chunk_for_gpu_sync_spec hcn
        rw [hr] at h
        simp only at h
        obtain ⟨c1, hc1, _, _, _⟩ := same_voxels_chunk hsv hcn
        rw [hc1] at h
        simp only at h
        have hw1 := same_voxels_well_formed hsv hw
        have hG1 := hsv.1
        subst hnew
        cases hwr : terraform_write g1 (chunk_index g.grid_edge_size nx ny nz)
            ((voxel_position b o).sub c1.xs_bottom_corner)
            ((dist_sq (voxel_position b o) c : Int) : ℚ) r2 coefficient dt with
        | none => rw [hwr] at h; simp at h
        | some g2 =>
          rw [hwr] at h
          simp only [Option.map_some', Option.some.injEq, Prod.mk.injEq] at h
          obtain ⟨rfl, rfl⟩ := h
          rw [← hG1] at hwr hc1 hnx hny hnz
          obtain ⟨w1, w2, _, w4⟩ := terraform_write_spec hw1 hnx hny hnz hc1 hwr
          refine ⟨⟨w1, nx, ny, nz, ?_, ?_, ?_, ?_⟩, by rw [w2, hG1], ?_⟩
          · rw [w2]; exact hnx
          · rw [w2]; exact hny
          · rw [w2]; exact hnz
          · rw [w2, hG1]
          · intro p hp
            have hp1 : in_grid g1 p := by
              unfold in_grid at hp ⊢
              rw [hG1]; exact hp
            rw [w4 p hp1, same_voxels_voxel_at hsv]
            by_cases hpv : p = voxel_position b o
            · subst hpv; simp [hd]
            · simp [hpv]
  · rw [if_neg hd] at h
    simp only [Option.some.injEq, Prod.mk.injEq] at h
    obtain ⟨rfl, rfl⟩ := h
    refine ⟨⟨hw, kx, ky, kz, hkx, hky, hkz, rfl⟩, rfl, ?_⟩
    intro p hp
    by_cases hpv : p = voxel_position b o
    · subst hpv; simp [hd]
    · simp [hpv]

theorem mem_terraform_offsets {d : Nat} {o : Nat × Nat × Nat} :
    o ∈ terraform_offsets d ↔ o.1 < d ∧ o.2.1 < d ∧ o.2.2 < d := by
  obtain ⟨x, y, z⟩ := o
  simp only [terraform_offsets, List.mem_flatMap, List.mem_map, List.mem_range, Prod.mk.injEq]
  constructor
  · rintro ⟨z', hz, y', hy, x', hx, rfl, rfl, rfl⟩
    exact ⟨hx, hy, hz⟩
  · rintro ⟨hx, hy, hz⟩
    exact ⟨z, hz, y, hy, x, hx, rfl, rfl, rfl⟩

theorem terraform_offsets_nodup (d : Nat) : (terraform_offsets d).Nodup := by
  unfold terraform_offsets
  rw [List.nodup_flatMap]
  refine ⟨?_, ?_⟩
  · intro z _
    rw [List.nodup_flatMap]
    refine ⟨?_, ?_⟩
    · intro y _
      refine List.Nodup.map ?_ (List.nodup_range d)
      intro a b hab
      simpa using hab
    · refine List.Nodup.pairwise_of_forall_ne (List.nodup_range d) ?_
      intro a _ b _ hab
      simp only [Function.onFun, List.disjoint_left, List.mem_map, List.mem_range]
      rintro o ⟨x, _, rfl⟩ ⟨x', _, h⟩
      simp only [Prod.mk.injEq] at h
      exact hab h.2.1.symm
  · refine List.Nodup.pairwise_of_forall_ne (List.nodup_range d) ?_
    intro a _ b _ hab
    simp only [Function.onFun, List.disjoint_left, List.mem_flatMap, List.mem_map, List.mem_range]
    rintro o ⟨y, _, x, _, rfl⟩ ⟨y', _, x', _, h⟩
    simp only [Prod.mk.injEq] at h
    exact hab h.2.2.symm

theorem voxel_position_inj {b : ivector3_t} {o o' : Nat × Nat × Nat}
    (h : voxel_position b o = voxel_position b o') : o = o' := by
  obtain ⟨x, y, z⟩ := o
  obtain ⟨x', y', z'⟩ := o'
  unfold voxel_position at h
  injection h with h1 h2 h3
  simp only at h1 h2 h3
  have e1 : x = x' := by omega
  have e2 : y = y' := by omega
  have e3 : z = z' := by omega
  rw [e1, e2, e3]

theorem terraform_fold_spec {c b : ivector3_t} {r2 coefficient dt : ℚ} :
    ∀ (l : List (Nat × Nat × Nat)), l.Nodup →
    ∀ {g g' : voxel_chunks_t} {chunk chunk' : Nat}, loop_inv g chunk →
      l.foldlM (terraform_step c b r2 coefficient dt) (g, chunk) = some (g', chunk') →
      loop_inv g' chunk' ∧ g'.grid_edge_size = g.grid_edge_size ∧
      ∀ p, in_grid g p →
        (((∃ o ∈ l, p = voxel_position b o) ∧ ((dist_sq p c : Int) : ℚ) ≤ r2) →
          voxel_at g' p = (voxel_at g p).map fun a =>
            terraform_density a ((dist_sq p c : Int) : ℚ) r2 coefficient dt) ∧
        (¬ ((∃ o ∈ l, p = voxel_position b o) ∧ ((dist_sq p c : Int) : ℚ) ≤ r2) →
          voxel_at g' p = voxel_at g p) := by
  intro l
  induction l with
  | nil =>
    intro _ g g' chunk chunk' hinv h
    simp only [List.foldlM_nil, Option.pure_def, Option.some.injEq, Prod.mk.injEq] at h
    obtain ⟨rfl, rfl⟩ := h
    refine ⟨hinv, rfl, ?_⟩
    intro p _
    simp
  | cons o l ih =>
    intro hnd g g' chunk chunk' hinv h
    rw [List.nodup_cons] at hnd
    rw [List.foldlM_cons] at h
    cases hs : terraform_step c b r2 coefficient dt (g, chunk) o with
    | none => rw [hs] at h; simp at h
    | some st =>
      obtain ⟨g1, chunk1⟩ := st
      rw [hs] at h
      simp only [Option.bind_eq_bind, Option.some_bind] at h
      obtain ⟨s1, s2, s3⟩ := terraform_step_spec hinv hs
      obtain ⟨t1, t2, t3⟩ := ih hnd.2 s1 h
      refine ⟨t1, by rw [t2, s2], ?_⟩
      intro p hp
      have hp1 : in_grid g1 p := by
        unfold in_grid at hp ⊢
        rw [s2]; exact hp
      have hstep := s3 p hp
      obtain ⟨u1, u2⟩ := t3 p hp1
      by_cases hd : ((dist_sq p c : Int) : ℚ) ≤ r2
      · by_cases hpo : p = voxel_position b o
        · have hnot : ¬ ((∃ o' ∈ l, p = voxel_position b o') ∧ ((dist_sq p c : Int) : ℚ) ≤ r2) := by
            rintro ⟨⟨o', ho', hpo'⟩, _⟩
            rw [hpo] at hpo'
            have := voxel_position_inj hpo'
            subst this
            exact hnd.1 ho'
          rw [if_pos ⟨hpo, hd⟩] at hstep
          constructor
          · intro _
            rw [u2 hnot, hstep]
          · intro hcon
            exact absurd ⟨⟨o, List.mem_cons_self _ _, hpo⟩, hd⟩ hcon
        · rw [if_neg (fun hh => hpo hh.1)] at hstep
          constructor
          · rintro ⟨⟨o', ho', hpo'⟩, _⟩
            rw [List.mem_cons] at ho'
            rcases ho' with rfl | ho'
            · exact absurd hpo' hpo
            · rw [u1 ⟨⟨o', ho', hpo'⟩, hd⟩, hstep]
          · intro hcon
            have hnot : ¬ ((∃ o' ∈ l, p = voxel_position b o') ∧
                ((dist_sq p c : Int) : ℚ) ≤ r2) := by
              rintro ⟨⟨o', ho', hpo'⟩, _⟩
              exact hcon ⟨⟨o', List.mem_cons_of_mem _ ho', hpo'⟩, hd⟩
            rw [u2 hnot, hstep]
      · rw [if_neg (fun hh => hd hh.2)] at hstep
        constructor
        · intro hh; exact absurd hh.2 hd
        · intro _
          rw [u2 (fun hh => hd hh.2), hstep]

theorem abs_le_of_mul_self_le {a : Int} {r : Nat} (h : a * a ≤ (r : Int) * (r : Int)) :
    -(r : Int) ≤ a ∧ a ≤ (r : Int) := by
  have hr : (0 : Int) ≤ r := Int.ofNat_nonneg r
  constructor
  · by_contra hc
    push_neg at hc
    nlinarith
  · by_contra hc
    push_neg at hc
    nlinarith

theorem dist_sq_le_mem_offsets {p c : ivector3_t} {r : Nat}
    (h : dist_sq p c ≤ (r : Int) * (r : Int)) :
    ∃ o ∈ terraform_offsets (r * 2 + 1),
      p = voxel_position (c.sub ⟨(r : Int), (r : Int), (r : Int)⟩) o := by
  unfold dist_sq at h
  have hx : (p.x - c.x) * (p.x - c.x) ≤ (r : Int) * (r : Int) := by nlinarith [mul_self_nonneg (p.y - c.y), mul_self_nonneg (p.z - c.z)]
  have hy : (p.y - c.y) * (p.y - c.y) ≤ (r : Int) * (r : Int) := by nlinarith [mul_self_nonneg (p.x - c.x), mul_self_nonneg (p.z - c.z)]
  have hz : (p.z - c.z) * (p.z - c.z) ≤ (r : Int) * (r : Int) := by nlinarith [mul_self_nonneg (p.x - c.x), mul_self_nonneg (p.y - c.y)]
  obtain ⟨x1, x2⟩ := abs_le_of_mul_self_le hx
  obtain ⟨y1, y2⟩ := abs_le_of_mul_self_le hy
  obtain ⟨z1, z2⟩ := abs_le_of_mul_self_le hz
  refine ⟨((p.x - c.x + r).toNat, (p.y - c.y + r).toNat, (p.z - c.z + r).toNat), ?_, ?_⟩
  · rw [mem_terraform_offsets]
    simp only
    omega
  · cases p with
    | mk x y z =>
      simp only [voxel_position, ivector3_t.sub] at x1 x2 y1 y2 z1 z2 ⊢
      congr <;> omega

/-- Soundness of `terraform`: whenever the call is defined, every voxel of the
grid within the radius holds the clamped, truncated update of its old density
and every other voxel of the grid is unchanged. -/
theorem terraform_sound {g g' : voxel_chunks_t} {c : ivector3_t} {r : Nat} {destructive : Bool}
    {dt : ℚ} (hw : grid_well_formed g) (h : terraform g c r destructive dt = some g') :
    grid_well_formed g' ∧ g'.grid_edge_size = g.grid_edge_size ∧
    ∀ p, in_grid g p → voxel_at g' p =
      if dist_sq p c ≤ (r : Int) * (r : Int) then
        (voxel_at g p).map fun a =>
          terraform_density a ((dist_sq p c : Int) : ℚ) ((r : ℚ) * (r : ℚ))
            (if destructive then -1 else 1) dt
      else voxel_at g p := by
  unfold terraform at h
  simp only at h
  cases hl : get_chunk_encompassing_point g c.to_vector3 with
  | none => rw [hl] at h; simp at h
  | some chunk =>
    rw [hl] at h
    simp only at h
    obtain ⟨kx, ky, kz, hkx, hky, hkz, _, _, _, hchunk, c0, hc0⟩ :=
      get_chunk_encompassing_point_eq_some hl
    obtain ⟨g0, hr0, hsv0⟩ := ready_chunk_for_gpu_sync_spec hc0
    rw [hr0] at h
    simp only at h
    have hw0 := same_voxels_well_formed hsv0 hw
    have hinv0 : loop_inv g0 chunk :=
      ⟨hw0, kx, ky, kz, by rw [hsv0.1]; exact hkx, by rw [hsv0.1]; exact hky,
        by rw [hsv0.1]; exact hkz, by rw [hsv0.1]; exact hchunk⟩
    cases hf : (terraform_offsets (r * 2 + 1)).foldlM
        (terraform_step c (c.sub ⟨(r : Int), (r : Int), (r : Int)⟩) ((r : ℚ) * (r : ℚ))
          (if destructive then -1 else 1) dt) (g0, chunk) with
    | none => rw [hf] at h; simp at h
    | some st =>
      obtain ⟨g1, chunk1⟩ := st
      rw [hf] at h
      simp only at h
      obtain ⟨⟨hw1, k1x, k1y, k1z, h1x, h1y, h1z, hch1⟩, hG1, hv1⟩ :=
        terraform_fold_spec _ (terraform_offsets_nodup _) hinv0 hf
      obtain ⟨c1, hc1, _⟩ := hw1 k1x k1y k1z h1x h1y h1z
      rw [← hch1] at hc1
      obtain ⟨g2, hr2, hsv2⟩ := ready_chunk_for_gpu_sync_spec hc1
      rw [hr2] at h
      have := Option.some.inj h
      subst this
      refine ⟨same_voxels_well_formed hsv2 hw1, by rw [hsv2.1, hG1, hsv0.1], ?_⟩
      intro p hp
      have hp0 : in_grid g0 p := by
        unfold in_grid at hp ⊢
        rw [hsv0.1]; exact hp
      rw [same_voxels_voxel_at hsv2, ← same_voxels_voxel_at hsv0 p]
      obtain ⟨u1, u2⟩ := hv1 p hp0
      have hcast : (((dist_sq p c : Int) : ℚ) ≤ (r : ℚ) * (r : ℚ)) ↔
          dist_sq p c ≤ (r : Int) * (r : Int) := by
        constructor
        · intro hh; exact_mod_cast hh
        · intro hh; exact_mod_cast hh
      by_cases hd : dist_sq p c ≤ (r : Int) * (r : Int)
      · rw [if_pos hd]
        exact u1 ⟨dist_sq_le_mem_offsets hd, hcast.2 hd⟩
      · rw [if_neg hd]
        exact u2 (fun hh => hd (hcast.1 hh.2))

theorem float_to_int_bounds {q : ℚ} {m : Int} (h1 : -(m : ℚ) ≤ q) (h2 : q ≤ (m : ℚ)) :
    -m ≤ float_to_int q ∧ float_to_int q ≤ m := by
  unfold float_to_int
  split
  · rename_i h0
    constructor
    · have hf : (0 : Int) ≤ ⌊q⌋ := Int.floor_nonneg.mpr h0
      have hm : (0 : ℚ) ≤ (m : ℚ) := le_trans h0 h2
      have hm' : (0 : Int) ≤ m := by exact_mod_cast hm
      omega
    · have hf := Int.floor_le q
      exact_mod_cast le_trans hf h2
  · rename_i h0
    push_neg at h0
    constructor
    · have hc := Int.le_ceil q
      have hc' : (-(m : ℚ)) ≤ ((⌈q⌉ : Int) : ℚ) := le_trans h1 hc
      exact_mod_cast hc'
    · have hc : ⌈q⌉ ≤ 0 := Int.ceil_le.mpr (by simpa using h0.le)
      have hm : (0 : ℚ) ≤ (m : ℚ) := by linarith
      have hm' : (0 : Int) ≤ m := by exact_mod_cast hm
      omega

theorem round_float32_unit_interval {q : ℚ} (h0 : 0 ≤ q) (h1 : q ≤ 1) :
    0 ≤ round_float32 q ∧ round_float32 q ≤ 1 := by
  refine ⟨round_float32_nonneg h0, ?_⟩
  have := round_float32_mono h1
  rw [round_float32_one] at this
  exact this

/-- The float32 product of `terraform` stays within `2^30 + 128` when the
proportion lies in `[-1, 1]` and `|dt|·700 ≤ 2^30`. -/
theorem terraform_product_bounds {p coefficient dt : ℚ} (hp : |p| ≤ 1)
    (hcoef : coefficient = 1 ∨ coefficient = -1) (hdt : |dt| * 700 ≤ 2 ^ 30) :
    |round_float32 (p * coefficient)| ≤ 1 ∧
    |round_float32 (round_float32 (p * coefficient) * dt)| ≤ 1533917 ∧
    |round_float32 (round_float32 (round_float32 (p * coefficient) * dt) * 700)| ≤
      1073741952 := by
  have hB1 : round_float32 (1533917 : ℚ) = 1533917 := by
    have := round_float32_intCast 1533917 (by norm_num)
    simpa using this
  have hB2 : round_float32 (1073741952 : ℚ) = 1073741952 := by
    have := round_float32_of_dyadic (2 ^ 23 + 1) 7 (by norm_num) (by norm_num)
    norm_num at this
    exact this
  have h1 : |round_float32 (p * coefficient)| ≤ 1 := by
    apply round_float32_abs_le round_float32_one
    rcases hcoef with rfl | rfl
    · simpa using hp
    · simpa using hp
  have hdt' : |dt| ≤ 1533917 := by
    have : |dt| * 700 ≤ 1533917 * 700 := le_trans hdt (by norm_num)
    linarith
  have h2 : |round_float32 (round_float32 (p * coefficient) * dt)| ≤ 1533917 := by
    apply round_float32_abs_le hB1
    rw [abs_mul]
    calc |round_float32 (p * coefficient)| * |dt| ≤ 1 * |dt| :=
          mul_le_mul_of_nonneg_right h1 (abs_nonneg _)
      _ ≤ 1533917 := by rw [one_mul]; exact hdt'
  refine ⟨h1, h2, ?_⟩
  apply round_float32_abs_le hB2
  rw [abs_mul]
  have : |(700 : ℚ)| = 700 := abs_of_pos (by norm_num)
  rw [this]
  linarith

theorem terraform_new_value_total {v : Nat} {p coefficient dt : ℚ} (hv : v < 256)
    (hp : |p| ≤ 1) (hcoef : coefficient = 1 ∨ coefficient = -1)
    (hdt : |dt| * 700 ≤ 2 ^ 30) :
    ∃ val, terraform_new_value v p coefficient dt = some val := by
  obtain ⟨h1, h2, h3⟩ := terraform_product_bounds hp hcoef hdt
  have hq : -(((1073741952 : Int) : Int) : ℚ) ≤
        round_float32 (round_float32 (round_float32 (p * coefficient) * dt) * 700) ∧
      round_float32 (round_float32 (round_float32 (p * coefficient) * dt) * 700) ≤
        (((1073741952 : Int) : Int) : ℚ) := by
    push_cast
    exact abs_le.mp h3
  obtain ⟨b1, b2⟩ := float_to_int_bounds hq.1 hq.2
  unfold terraform_new_value
  rw [float32_eq_some (lt_of_le_of_lt h1 (by norm_num)), Option.some_bind,
    float32_eq_some (lt_of_le_of_lt h2 (by norm_num)), Option.some_bind,
    float32_eq_some (lt_of_le_of_lt h3 (by norm_num))]
  simp only
  unfold float_to_int32
  have hr : -(2 : Int) ^ 31 ≤ float_to_int
        (round_float32 (round_float32 (round_float32 (p * coefficient) * dt) * 700)) ∧
      float_to_int
        (round_float32 (round_float32 (round_float32 (p * coefficient) * dt) * 700)) <
          (2 : Int) ^ 31 := by
    norm_num at b1 b2 ⊢
    omega
  rw [if_pos hr]
  simp only
  have hn : ¬ (float_to_int
        (round_float32 (round_float32 (round_float32 (p * coefficient) * dt) * 700)) +
          (v : Int) < -(2 : Int) ^ 31 ∨
      (2 : Int) ^ 31 ≤ float_to_int
        (round_float32 (round_float32 (round_float32 (p * coefficient) * dt) * 700)) +
          (v : Int)) := by
    norm_num at b1 b2 ⊢
    omega
  rw [if_neg hn]
  split
  · exact ⟨_, rfl⟩
  · split
    · exact ⟨_, rfl⟩
    · exact ⟨_, rfl⟩

theorem terraform_write_total {g : voxel_chunks_t} {chunk : Nat} {c : voxel_chunk_t}
    {cs : ivector3_t} {d2 r2 coefficient dt : ℚ}
    (hc : g.chunks chunk = some c) (hin : is_voxel_coord_within_chunk cs = true)
    (hv : ∀ x y z, x < 16 → y < 16 → z < 16 → c.voxels x y z < 256)
    (hr2 : 0 < r2) (hd0 : 0 ≤ d2) (hd : d2 ≤ r2)
    (hcoef : coefficient = 1 ∨ coefficient = -1) (hdt : |dt| * 700 ≤ 2 ^ 30) :
    ∃ g', terraform_write g chunk cs d2 r2 coefficient dt = some g' := by
  unfold terraform_write
  rw [hc]
  simp only [hin, if_true]
  unfold float32_div
  rw [if_neg (ne_of_gt hr2)]
  have hin' := hin
  unfold is_voxel_coord_within_chunk VOXEL_CHUNK_EDGE_LENGTH at hin'
  simp only [decide_eq_true_eq] at hin'
  have hvb := hv cs.x.toNat cs.y.toNat cs.z.toNat (by omega) (by omega) (by omega)
  obtain ⟨hr0, hr1⟩ := round_float32_unit_interval (div_nonneg hd0 hr2.le)
    ((div_le_one hr2).mpr hd)
  have hratio : float32 (d2 / r2) = some (round_float32 (d2 / r2)) :=
    float32_eq_some (by rw [abs_of_nonneg hr0]; exact lt_of_le_of_lt hr1 (by norm_num))
  obtain ⟨hp0, hp1⟩ := round_float32_unit_interval
    (show (0 : ℚ) ≤ 1 - round_float32 (d2 / r2) by linarith)
    (show 1 - round_float32 (d2 / r2) ≤ 1 by linarith)
  have hprop : float32 (1 - round_float32 (d2 / r2)) =
      some (round_float32 (1 - round_float32 (d2 / r2))) :=
    float32_eq_some (by rw [abs_of_nonneg hp0]; exact lt_of_le_of_lt hp1 (by norm_num))
  rw [hratio]
  simp only
  rw [hprop]
  simp only
  obtain ⟨val, hval⟩ := @terraform_new_value_total (c.voxels cs.x.toNat cs.y.toNat cs.z.toNat)
    (round_float32 (1 - round_float32 (d2 / r2))) coefficient dt hvb
    (by rw [abs_of_nonneg hp0]; exact hp1) hcoef hdt
  rw [hval]
  exact ⟨_, rfl⟩

theorem terraform_step_total {g : voxel_chunks_t} {chunk : Nat} {c b : ivector3_t}
    {r2 coefficient dt : ℚ} (o : Nat × Nat × Nat)
    (hinv : loop_inv g chunk) (hb : 0 ≤ b.x ∧ 0 ≤ b.y ∧ 0 ≤ b.z) (hr2 : 0 < r2)
    (hcoef : coefficient = 1 ∨ coefficient = -1) (hdt : |dt| * 700 ≤ 2 ^ 30) :
    ∃ st, terraform_step c b r2 coefficient dt (g, chunk) o = some st := by
  obtain ⟨hw, kx, ky, kz, hkx, hky, hkz, hchunk⟩ := hinv
  obtain ⟨c0, hc0, hb0, _, hv0⟩ := hw kx ky kz hkx hky hkz
  subst hchunk
  have hd0 : (0 : ℚ) ≤ ((dist_sq (voxel_position b o) c : Int) : ℚ) := by
    have : (0 : Int) ≤ dist_sq (voxel_position b o) c := by
      unfold dist_sq
      nlinarith [mul_self_nonneg ((voxel_position b o).x - c.x),
        mul_self_nonneg ((voxel_position b o).y - c.y),
        mul_self_nonneg ((voxel_position b o).z - c.z)]
    exact_mod_cast this
  unfold terraform_step
  simp only [v_f_to_ivector3, v_f_dist]
  by_cases hd : ((dist_sq (voxel_position b o) c : Int) : ℚ) ≤ r2
  · rw [if_pos hd, hc0]
    simp only
    by_cases hin : is_voxel_coord_within_chunk
        ((voxel_position b o).sub c0.xs_bottom_corner) = true
    · rw [if_pos hin]
      obtain ⟨g1, hg1⟩ := @terraform_write_total g _ _ _ _ _ _ _ hc0 hin hv0 hr2 hd0 hd hcoef hdt
      rw [hg1]
      exact ⟨_, rfl⟩
    · rw [if_neg hin]
      cases hl : get_chunk_encompassing_point g (voxel_position b o).to_vector3 with
      | none => exact ⟨_, rfl⟩
      | some new_chunk =>
        simp only
        obtain ⟨nx, ny, nz, hnx, hny, hnz, e1, e2, e3, hnew, cn, hcn⟩ :=
          get_chunk_encompassing_point_eq_some hl
        obtain ⟨g1, hr, hsv⟩ := ready_chunk_for_gpu_sync_spec hcn
        rw [hr]
        simp only
        obtain ⟨c1, hc1, hb1, _, hvx1⟩ := same_voxels_chunk hsv hcn
        rw [hc1]
        simp only
        obtain ⟨cw, hcw, hbw, _, hvw⟩ := hw nx ny nz hnx hny hnz
        rw [← hnew, hcn] at hcw
        have := Option.some.inj hcw
        subst this
        have hin1 : is_voxel_coord_within_chunk
            ((voxel_position b o).sub c1.xs_bottom_corner) = true := by
          rw [hb1, hbw]
          unfold is_voxel_coord_within_chunk VOXEL_CHUNK_EDGE_LENGTH
          simp only [decide_eq_true_eq, ivector3_t.sub]
          have p1 : 0 ≤ (voxel_position b o).x := by unfold voxel_position; simp only; omega
          have p2 : 0 ≤ (voxel_position b o).y := by unfold voxel_position; simp only; omega
          have p3 : 0 ≤ (voxel_position b o).z := by unfold voxel_position; simp only; omega
          rw [Int.tdiv_eq_ediv p1 (by norm_num)] at e1
          rw [Int.tdiv_eq_ediv p2 (by norm_num)] at e2
          rw [Int.tdiv_eq_ediv p3 (by norm_num)] at e3
          push_cast
          omega
        have hv1 : ∀ x y z, x < 16 → y < 16 → z < 16 → c1.voxels x y z < 256 := by
          rw [hvx1]; exact hvw
        obtain ⟨g2, hg2⟩ := @terraform_write_total g1 _ _ _ _ _ _ _ hc1 hin1 hv1 hr2 hd0 hd hcoef hdt
        rw [hg2]
        exact ⟨_, rfl⟩
  · rw [if_neg hd]
    exact ⟨_, rfl⟩

theorem terraform_fold_total {c b : ivector3_t} {r2 coefficient dt : ℚ}
    (hb : 0 ≤ b.x ∧ 0 ≤ b.y ∧ 0 ≤ b.z) (hr2 : 0 < r2)
    (hcoef : coefficient = 1 ∨ coefficient = -1) (hdt : |dt| * 700 ≤ 2 ^ 30) :
    ∀ (l : List (Nat × Nat × Nat)) {g : voxel_chunks_t} {chunk : Nat}, loop_inv g chunk →
      ∃ g' chunk', l.foldlM (terraform_step c b r2 coefficient dt) (g, chunk) =
        some (g', chunk') ∧ loop_inv g' chunk' := by
  intro l
  induction l with
  | nil =>
    intro g chunk hinv
    exact ⟨g, chunk, rfl, hinv⟩
  | cons o l ih =>
    intro g chunk hinv
    obtain ⟨⟨g1, chunk1⟩, hs⟩ := @terraform_step_total _ _ c _ _ _ _ o hinv hb hr2 hcoef hdt
    obtain ⟨s1, _, _⟩ := terraform_step_spec hinv hs
    obtain ⟨g', chunk', hf, hinv'⟩ := ih s1
    refine ⟨g', chunk', ?_, hinv'⟩
    rw [List.foldlM_cons, hs]
    exact hf

/-- Totality of `terraform`: on a well-formed grid the call is defined when the
centre is a voxel of the grid at least `r` voxels from the low faces, the radius
is positive and the update amount fits the integer conversion. -/
theorem terraform_total {g : voxel_chunks_t} {c : ivector3_t} {r : Nat} (destructive : Bool)
    {dt : ℚ} (hw : grid_well_formed g) (hc : in_grid g c) (hr : 0 < r)
    (hlow : (r : Int) ≤ c.x ∧ (r : Int) ≤ c.y ∧ (r : Int) ≤ c.z)
    (hdt : |dt| * 700 ≤ 2 ^ 30) :
    ∃ g', terraform g c r destructive dt = some g' := by
  unfold terraform
  simp only
  obtain ⟨chunk, hl⟩ := get_chunk_encompassing_point_in_grid hw hc
  rw [hl]
  simp only
  obtain ⟨kx, ky, kz, hkx, hky, hkz, _, _, _, hchunk, c0, hc0⟩ :=
    get_chunk_encompassing_point_eq_some hl
  obtain ⟨g0, hr0, hsv0⟩ := ready_chunk_for_gpu_sync_spec hc0
  rw [hr0]
  simp only
  have hw0 := same_voxels_well_formed hsv0 hw
  have hinv0 : loop_inv g0 chunk :=
    ⟨hw0, kx, ky, kz, by rw [hsv0.1]; exact hkx, by rw [hsv0.1]; exact hky,
      by rw [hsv0.1]; exact hkz, by rw [hsv0.1]; exact hchunk⟩
  have hb : 0 ≤ (c.sub ⟨(r : Int), (r : Int), (r : Int)⟩).x ∧
      0 ≤ (c.sub ⟨(r : Int), (r : Int), (r : Int)⟩).y ∧
      0 ≤ (c.sub ⟨(r : Int), (r : Int), (r : Int)⟩).z := by
    simp only [ivector3_t.sub]
    omega
  have hr2 : (0 : ℚ) < (r : ℚ) * (r : ℚ) := by
    have : (0 : ℚ) < (r : ℚ) := by exact_mod_cast hr
    positivity
  have hcoef : (if destructive = true then (-1 : ℚ) else 1) = 1 ∨
      (if destructive = true then (-1 : ℚ) else 1) = -1 := by
    cases destructive <;> simp
  obtain ⟨g1, chunk1, hf, ⟨hw1, k1x, k1y, k1z, h1x, h1y, h1z, hch1⟩⟩ :=
    @terraform_fold_total c _ _ _ _ hb hr2 hcoef hdt (terraform_offsets (r * 2 + 1)) _ _ hinv0
  rw [hf]
  simp only
  obtain ⟨c1, hc1, _⟩ := hw1 k1x k1y k1z h1x h1y h1z
  rw [← hch1] at hc1
  obtain ⟨g2, hr2', _⟩ := ready_chunk_for_gpu_sync_spec hc1
  exact ⟨g2, hr2'⟩

theorem foldl_send_sent {α : Type} (f : α → serializer_t) (address : network_address_t) :
    ∀ (l : List α) (s : server_t),
      (l.foldl (fun st x => send_serialized_message st (f x) address) s).sent =
        s.sent ++ l.map fun x => { address := address, items := (f x).items } := by
  intro l
  induction l with
  | nil => intro s; simp
  | cons a l ih =>
    intro s
    rw [List.foldl_cons, ih]
    simp [send_serialized_message]

theorem range_flatMap_blocks {β : Type} (f : Nat → β) (q : Nat) :
    ((List.range q).map fun p => (List.range 8).map fun c => f (p * 8 + c)).flatten =
      (List.range (q * 8)).map f := by
  induction q with
  | zero => simp
  | succ q ih =>
    rw [show List.range (q + 1) = List.range q ++ [q] from List.range_succ q,
      List.map_append, List.flatten_append, ih]
    have : (q + 1) * 8 = q * 8 + 8 := by ring
    rw [this, List.range_add, List.map_append]
    simp [List.map_map, Function.comp_def]

theorem filterMap_some_eq_map {α β : Type} (f : α → β) (l : List α) :
    l.filterMap (fun x => some (f x)) = l.map f := by
  induction l with
  | nil => rfl
  | cons a l ih => simp [List.filterMap_cons, ih]

theorem send_serialized_message_sent (s : server_t) (serializer : serializer_t)
    (address : network_address_t) :
    (send_serialized_message s serializer address).sent =
      s.sent ++ [{ address := address, items := serializer.items }] := rfl

theorem chunks_hard_update_items (header : packet_header_t) (cc : chunks_count_t)
    (pointer : Nat → voxel_chunk_values_packet_t) (count : Nat) (address : network_address_t) :
    sent_message_t.chunks
      { address := address, items := hard_update_items header cc pointer count } =
      (List.range count).map pointer := by
  simp only [sent_message_t.chunks, hard_update_items, List.filterMap_append,
    List.filterMap_cons, List.filterMap_nil, List.nil_append, List.filterMap_map,
    Function.comp_def]
  exact filterMap_some_eq_map pointer _

theorem send_chunks_hard_update_packets_of_sent (fmt : wire_format) (s : server_t)
    (address : network_address_t) (arr : Nat → voxel_chunk_values_packet_t) (n : Nat) :
    (send_chunks_hard_update_packets_of fmt s address arr n).sent =
      s.sent ++ hard_update_messages fmt s.current_tick address arr n := by
  have hrem : n - 8 * (n / 8) = n % 8 := by omega
  unfold send_chunks_hard_update_packets_of hard_update_messages
  simp only [hrem, VOXEL_CHUNK_EDGE_LENGTH]
  by_cases h : n % 8 = 0
  · simp only [h, ne_eq, not_true_eq_false, if_false, List.append_nil]
    rw [foldl_send_sent]
  · simp only [h, ne_eq, not_false_eq_true, if_true]
    rw [send_serialized_message_sent, foldl_send_sent, List.append_assoc]

theorem send_serialized_message_network_state (s : server_t) (serializer : serializer_t)
    (address : network_address_t) :
    (send_serialized_message s serializer address).network_state = s.network_state := rfl

theorem foldl_send_network_state {α : Type} (f : α → serializer_t)
    (a : server_t → α → network_address_t) :
    ∀ (l : List α) (s : server_t),
      (l.foldl (fun st x => send_serialized_message st (f x) (a st x)) s).network_state =
        s.network_state := by
  intro l
  induction l with
  | nil => intro s; rfl
  | cons x l ih => intro s; rw [List.foldl_cons, ih]; rfl

theorem send_chunks_hard_update_packets_of_network_state (fmt : wire_format) (s : server_t)
    (address : network_address_t) (arr : Nat → voxel_chunk_values_packet_t) (n : Nat) :
    (send_chunks_hard_update_packets_of fmt s address arr n).network_state = s.network_state := by
  unfold send_chunks_hard_update_packets_of
  simp only
  split
  · rw [send_serialized_message_network_state]
    exact foldl_send_network_state _ (fun _ _ => address) _ s
  · exact foldl_send_network_state _ (fun _ _ => address) _ s

theorem dispatch_newcoming_client_to_clients_network_state (s : server_t) (i : Nat) :
    (dispatch_newcoming_client_to_clients s i).network_state = s.network_state := by
  unfold dispatch_newcoming_client_to_clients
  exact foldl_send_network_state (fun _ => _)
    (fun st client_index => (get_client st client_index).network_address) _ s

theorem store_modified_chunk_fields (c : client_t) (i : Nat) (r : client_modified_chunk_t) :
    (store_modified_chunk c i r).needs_to_acknowledge_prediction_error =
        c.needs_to_acknowledge_prediction_error ∧
    (store_modified_chunk c i r).received_input_commands = c.received_input_commands ∧
    (store_modified_chunk c i r).previous_client_tick = c.previous_client_tick ∧
    (store_modified_chunk c i r).modified_chunks_count = c.modified_chunks_count ∧
    (store_modified_chunk c i r).previous_received_player_state =
        c.previous_received_player_state := ⟨rfl, rfl, rfl, rfl, rfl⟩

theorem foldl_store_modified_chunk_fields (f : Nat → client_modified_chunk_t) :
    ∀ (l : List Nat) (c : client_t),
      (l.foldl (fun c i => store_modified_chunk c i (f i)) c).needs_to_acknowledge_prediction_error =
          c.needs_to_acknowledge_prediction_error ∧
      (l.foldl (fun c i => store_modified_chunk c i (f i)) c).received_input_commands =
          c.received_input_commands ∧
      (l.foldl (fun c i => store_modified_chunk c i (f i)) c).previous_client_tick =
          c.previous_client_tick ∧
      (l.foldl (fun c i => store_modified_chunk c i (f i)) c).modified_chunks_count =
          c.modified_chunks_count ∧
      (l.foldl (fun c i => store_modified_chunk c i (f i)) c).previous_received_player_state =
          c.previous_received_player_state := by
  intro l
  induction l with
  | nil => intro c; exact ⟨rfl, rfl, rfl, rfl, rfl⟩
  | cons i l ih =>
    intro c
    rw [List.foldl_cons]
    obtain ⟨h1, h2, h3, h4, h5⟩ := ih (store_modified_chunk c i (f i))
    obtain ⟨k1, k2, k3, k4, k5⟩ := store_modified_chunk_fields c i (f i)
    exact ⟨h1.trans k1, h2.trans k2, h3.trans k3, h4.trans k4, h5.trans k5⟩

theorem get_client_set_client (s : server_t) (i j : Nat) (c : client_t) :
    get_client (set_client s i c) j = if j = i then c else get_client s j := by
  unfold get_client set_client
  simp only [Function.update_apply]

theorem get_client_set_player (s : server_t) (h : Nat) (p : player_t) (j : Nat) :
    get_client (set_player s h p) j = get_client s j := rfl

/-- The latch of every client after a join is the latch it had before. -/
theorem handle_client_join_latch (fmt : wire_format) (s : server_t) (d : received_datagram_t)
    (i : Nat) :
    (get_client (handle_client_join fmt s d) i).needs_to_acknowledge_prediction_error =
      (get_client s i).needs_to_acknowledge_prediction_error := by
  unfold handle_client_join
  simp only [get_client, dispatch_newcoming_client_to_clients_network_state,
    send_chunks_hard_update_packets, send_chunks_hard_update_packets_of_network_state,
    send_serialized_message_network_state]
  simp only [set_player, set_client, spawn_player, Function.update_apply]
  split
  · rename_i h; rw [h]
  · rfl

theorem foldl_store_latch (f : Nat → client_modified_chunk_t) (l : List Nat) (c : client_t) :
    (l.foldl (fun c i => store_modified_chunk c i (f i)) c).needs_to_acknowledge_prediction_error =
      c.needs_to_acknowledge_prediction_error := (foldl_store_modified_chunk_fields f l c).1

theorem foldl_store_received (f : Nat → client_modified_chunk_t) (l : List Nat) (c : client_t) :
    (l.foldl (fun c i => store_modified_chunk c i (f i)) c).received_input_commands =
      c.received_input_commands := (foldl_store_modified_chunk_fields f l c).2.1

theorem foldl_store_tick (f : Nat → client_modified_chunk_t) (l : List Nat) (c : client_t) :
    (l.foldl (fun c i => store_modified_chunk c i (f i)) c).previous_client_tick =
      c.previous_client_tick := (foldl_store_modified_chunk_fields f l c).2.2.1

theorem foldl_store_count (f : Nat → client_modified_chunk_t) (l : List Nat) (c : client_t) :
    (l.foldl (fun c i => store_modified_chunk c i (f i)) c).modified_chunks_count =
      c.modified_chunks_count := (foldl_store_modified_chunk_fields f l c).2.2.2.1

theorem foldl_store_player_state (f : Nat → client_modified_chunk_t) (l : List Nat)
    (c : client_t) :
    (l.foldl (fun c i => store_modified_chunk c i (f i)) c).previous_received_player_state =
      c.previous_received_player_state := (foldl_store_modified_chunk_fields f l c).2.2.2.2

/-- The fields of the sending client after an accepted input-state packet. -/
theorem handle_input_state_client (s : server_t) (d : received_datagram_t)
    (h : (get_client s d.header.client_id).needs_to_acknowledge_prediction_error = false) :
    (get_client (handle_input_state s d) d.header.client_id).received_input_commands = true ∧
    (get_client (handle_input_state s d) d.header.client_id).previous_client_tick =
      d.header.current_tick ∧
    (get_client (handle_input_state s d) d.header.client_id).needs_to_acknowledge_prediction_error
      = false ∧
    (get_client (handle_input_state s d) d.header.client_id).modified_chunks_count =
      (get_client s d.header.client_id).modified_chunks_count +
        d.voxel_packet.modified_chunk_count ∧
    (get_client (handle_input_state s d) d.header.client_id).previous_received_player_state.ws_position
      = d.ws_position ∧
    (get_client (handle_input_state s d) d.header.client_id).previous_received_player_state.ws_direction
      = d.ws_direction := by
  unfold handle_input_state
  simp only [h, Bool.not_false, if_true, get_client_set_client, foldl_store_latch,
    foldl_store_received, foldl_store_tick, foldl_store_count, foldl_store_player_state,
    get_client_set_player, and_self]

theorem handle_input_state_latch (s : server_t) (d : received_datagram_t) (i : Nat) :
    (get_client (handle_input_state s d) i).needs_to_acknowledge_prediction_error =
      (get_client s i).needs_to_acknowledge_prediction_error := by
  unfold handle_input_state
  by_cases h : (get_client s d.header.client_id).needs_to_acknowledge_prediction_error = true
  · simp only [h, Bool.not_true, Bool.false_eq_true, if_false]
  · simp only [Bool.not_eq_true] at h
    simp only [h, Bool.not_false, if_true, get_client_set_client, get_client_set_player,
      foldl_store_latch]
    split
    · rename_i hi
      rw [hi, h]
    · rfl

theorem player_states_of_items_append (a b : List wire_item) :
    player_states_of_items (a ++ b) = player_states_of_items a ++ player_states_of_items b := by
  unfold player_states_of_items
  rw [List.filterMap_append]

theorem client_after_voxels_modifications (c0 : client_t) (f : Bool) :
    (client_after_voxels c0 f).previous_received_voxel_modifications =
      c0.previous_received_voxel_modifications := by
  cases f <;> rfl

theorem voxel_mismatch_client_after_voxels (g : voxel_chunks_t) (c0 : client_t) (f : Bool)
    (chunk voxel : Nat) :
    voxel_mismatch g (client_after_voxels c0 f) chunk voxel ↔ voxel_mismatch g c0 chunk voxel := by
  unfold voxel_mismatch
  rw [client_after_voxels_modifications]

theorem serialize_client_voxel_spec {g : voxel_chunks_t} {chunk voxel : Nat}
    {st st' : voxel_loop_t} {c0 : client_t}
    (hI : st.client = client_after_voxels c0 st.force_client_to_do_voxel_correction)
    (h : serialize_client_voxel g chunk st voxel = some st') :
    player_states_of_items st'.serializer.items = player_states_of_items st.serializer.items ∧
    (st'.force_client_to_do_voxel_correction = true ↔
      st.force_client_to_do_voxel_correction = true ∨ voxel_mismatch g c0 chunk voxel) ∧
    st'.client = client_after_voxels c0 st'.force_client_to_do_voxel_correction := by
  have hm := voxel_mismatch_client_after_voxels g c0 st.force_client_to_do_voxel_correction
    chunk voxel
  rw [← hI] at hm
  unfold voxel_mismatch at hm
  unfold serialize_client_voxel at h
  simp only at h
  cases ha : actual_voxel_value g (st.client.previous_received_voxel_modifications chunk).chunk_index
      ((st.client.previous_received_voxel_modifications chunk).modified_voxels voxel) with
  | none => rw [ha] at h; simp at h
  | some a =>
    rw [ha] at h hm
    simp only at h
    by_cases hne : a ≠ ((st.client.previous_received_voxel_modifications chunk).modified_voxels
        voxel).value
    · rw [if_pos hne] at h
      have := Option.some.inj h
      subst this
      refine ⟨?_, ?_, ?_⟩
      · simp [serializer_t.write, player_states_of_items, List.filterMap_append]
      · simp only [true_iff]
        right
        exact hm.mp (fun hcon => hne (Option.some.inj hcon))
      · simp only
        rw [hI]
        cases st.force_client_to_do_voxel_correction <;> rfl
    · rw [if_neg hne] at h
      have := Option.some.inj h
      subst this
      refine ⟨?_, ?_, ?_⟩
      · simp [serializer_t.write, player_states_of_items, List.filterMap_append]
      · simp only
        constructor
        · intro hf; exact Or.inl hf
        · rintro (hf | hmm)
          · exact hf
          · exfalso
            push_neg at hne
            exact hm.mpr hmm (by rw [hne])
      · exact hI

theorem serialize_client_voxels_spec (g : voxel_chunks_t) (chunk : Nat) (c0 : client_t) :
    ∀ (l : List Nat) {st st' : voxel_loop_t},
      st.client = client_after_voxels c0 st.force_client_to_do_voxel_correction →
      l.foldlM (serialize_client_voxel g chunk) st = some st' →
      player_states_of_items st'.serializer.items = player_states_of_items st.serializer.items ∧
      (st'.force_client_to_do_voxel_correction = true ↔
        st.force_client_to_do_voxel_correction = true ∨
          ∃ voxel ∈ l, voxel_mismatch g c0 chunk voxel) ∧
      st'.client = client_after_voxels c0 st'.force_client_to_do_voxel_correction := by
  intro l
  induction l with
  | nil =>
    intro st st' hI h
    simp only [List.foldlM_nil, Option.pure_def, Option.some.injEq] at h
    subst h
    exact ⟨rfl, by simp, hI⟩
  | cons v l ih =>
    intro st st' hI h
    rw [List.foldlM_cons] at h
    cases hs : serialize_client_voxel g chunk st v with
    | none => rw [hs] at h; simp at h
    | some st1 =>
      rw [hs] at h
      simp only [Option.bind_eq_bind, Option.some_bind] at h
      obtain ⟨a1, a2, a3⟩ := serialize_client_voxel_spec hI hs
      obtain ⟨b1, b2, b3⟩ := ih a3 h
      refine ⟨b1.trans a1, ?_, b3⟩
      rw [b2, a2]
      simp only [List.mem_cons, exists_eq_or_imp]
      exact or_assoc

theorem serialize_client_chunk_spec {g : voxel_chunks_t} {chunk : Nat}
    {st st' : voxel_loop_t} {c0 : client_t}
    (hI : st.client = client_after_voxels c0 st.force_client_to_do_voxel_correction)
    (h : serialize_client_chunk g st chunk = some st') :
    player_states_of_items st'.serializer.items = player_states_of_items st.serializer.items ∧
    (st'.force_client_to_do_voxel_correction = true ↔
      st.force_client_to_do_voxel_correction = true ∨
        ∃ voxel, voxel < (c0.previous_received_voxel_modifications chunk).modified_voxel_count ∧
          voxel_mismatch g c0 chunk voxel) ∧
    st'.client = client_after_voxels c0 st'.force_client_to_do_voxel_correction := by
  unfold serialize_client_chunk at h
  simp only at h
  have hmods : st.client.previous_received_voxel_modifications =
      c0.previous_received_voxel_modifications := by
    rw [hI, client_after_voxels_modifications]
  rw [hmods] at h
  obtain ⟨a1, a2, a3⟩ := serialize_client_voxels_spec g chunk c0 _ (by exact hI) h
  refine ⟨?_, ?_, a3⟩
  · rw [a1]
    simp [serializer_t.write, player_states_of_items, List.filterMap_append]
  · rw [a2]
    simp only [List.mem_range]

theorem serialize_client_chunks_spec (g : voxel_chunks_t) (c0 : client_t) :
    ∀ (l : List Nat) {st st' : voxel_loop_t},
      st.client = client_after_voxels c0 st.force_client_to_do_voxel_correction →
      l.foldlM (serialize_client_chunk g) st = some st' →
      player_states_of_items st'.serializer.items = player_states_of_items st.serializer.items ∧
      (st'.force_client_to_do_voxel_correction = true ↔
        st.force_client_to_do_voxel_correction = true ∨
          ∃ chunk ∈ l, ∃ voxel,
            voxel < (c0.previous_received_voxel_modifications chunk).modified_voxel_count ∧
            voxel_mismatch g c0 chunk voxel) ∧
      st'.client = client_after_voxels c0 st'.force_client_to_do_voxel_correction := by
  intro l
  induction l with
  | nil =>
    intro st st' hI h
    simp only [List.foldlM_nil, Option.pure_def, Option.some.injEq] at h
    subst h
    exact ⟨rfl, by simp, hI⟩
  | cons v l ih =>
    intro st st' hI h
    rw [List.foldlM_cons] at h
    cases hs : serialize_client_chunk g st v with
    | none => rw [hs] at h; simp at h
    | some st1 =>
      rw [hs] at h
      simp only [Option.bind_eq_bind, Option.some_bind] at h
      obtain ⟨a1, a2, a3⟩ := serialize_client_chunk_spec hI hs
      obtain ⟨b1, b2, b3⟩ := ih a3 h
      refine ⟨b1.trans a1, ?_, b3⟩
      rw [b2, a2]
      simp only [List.mem_cons, exists_eq_or_imp]
      exact or_assoc

theorem correct_own_snapshot_serializer (k : Nat) (st : player_loop_t) :
    (correct_own_snapshot k st).serializer = st.serializer := by
  unfold correct_own_snapshot
  simp only
  split
  · split <;> rfl
  · rfl

theorem correct_own_snapshot_other (k : Nat) (st : player_loop_t) {j : Nat} (h : j ≠ k) :
    (correct_own_snapshot k st).player_snapshots j = st.player_snapshots j := by
  unfold correct_own_snapshot
  simp only
  split
  · split <;> simp [Function.update_noteq h]
  · simp [Function.update_noteq h]

theorem correct_own_snapshot_with_serializer (k : Nat) (st : player_loop_t) (s : serializer_t) :
    (correct_own_snapshot k { st with serializer := s }).player_snapshots =
        (correct_own_snapshot k st).player_snapshots ∧
    (correct_own_snapshot k { st with serializer := s }).client =
        (correct_own_snapshot k st).client ∧
    (correct_own_snapshot k { st with serializer := s }).player =
        (correct_own_snapshot k st).player := by
  unfold correct_own_snapshot
  simp only
  split
  · split <;> exact ⟨rfl, rfl, rfl⟩
  · exact ⟨rfl, rfl, rfl⟩

/-- The closed form of the loop that serializes the player snapshots: the own
entry is corrected once, when the loop reaches the recipient, and every entry is
serialized with the flags it has after that correction. -/
theorem serialize_player_snapshots_spec (k : Nat) :
    ∀ (l : List Nat), l.Nodup → ∀ (st : player_loop_t),
      (l.foldl (serialize_player_snapshot k) st).serializer.items =
        st.serializer.items ++ l.map (fun i => wire_item.game_snapshot_player_state
          ((if k ∈ l then correct_own_snapshot k st else st).player_snapshots i)) ∧
      (l.foldl (serialize_player_snapshot k) st).player_snapshots =
        (if k ∈ l then correct_own_snapshot k st else st).player_snapshots ∧
      (l.foldl (serialize_player_snapshot k) st).client =
        (if k ∈ l then correct_own_snapshot k st else st).client ∧
      (l.foldl (serialize_player_snapshot k) st).player =
        (if k ∈ l then correct_own_snapshot k st else st).player := by
  intro l
  induction l with
  | nil => intro _ st; simp
  | cons i l ih =>
    intro hnd st
    rw [List.nodup_cons] at hnd
    rw [List.foldl_cons]
    obtain ⟨h1, h2, h3, h4⟩ := ih hnd.2 (serialize_player_snapshot k st i)
    rw [h1, h2, h3, h4]
    by_cases hik : i = k
    · subst hik
      have hkl : i ∉ l := hnd.1
      simp only [hkl, if_false, List.mem_cons, true_or, if_true]
      unfold serialize_player_snapshot
      simp only [if_true, serializer_t.write, correct_own_snapshot_serializer, List.map_cons,
        List.append_assoc, List.singleton_append, and_self]
    · have hki : k ≠ i := fun h => hik h.symm
      by_cases hkl : k ∈ l
      · simp only [hkl, if_true, List.mem_cons, or_true]
        unfold serialize_player_snapshot
        simp only [hik, if_false]
        obtain ⟨w1, w2, w3⟩ := correct_own_snapshot_with_serializer k st
          (st.serializer.write (wire_item.game_snapshot_player_state (st.player_snapshots i)))
        rw [w1, w2, w3]
        simp only [serializer_t.write, List.map_cons, List.append_assoc, List.singleton_append,
          correct_own_snapshot_other k st hik, and_self]
      · simp only [hkl, if_false, List.mem_cons, hki, or_self]
        unfold serialize_player_snapshot
        simp only [hik, if_false, serializer_t.write, List.map_cons, List.append_assoc,
          List.singleton_append, and_self]

theorem correct_own_snapshot_spec (k : Nat) (st : player_loop_t)
    (h : st.client.received_input_commands = true) :
    ((correct_own_snapshot k st).player_snapshots k).need_to_do_correction =
      ((st.player_snapshots k).need_to_do_correction ||
        (is_different st.client.previous_received_player_state.ws_position
            (st.player_snapshots k).ws_position ||
          is_different st.client.previous_received_player_state.ws_direction
            (st.player_snapshots k).ws_direction)) ∧
    ((correct_own_snapshot k st).player_snapshots k).need_to_do_voxel_correction =
      (st.player_snapshots k).need_to_do_voxel_correction ∧
    ((correct_own_snapshot k st).player_snapshots k).is_to_ignore = false ∧
    (correct_own_snapshot k st).client.needs_to_acknowledge_prediction_error =
      (st.client.needs_to_acknowledge_prediction_error ||
        (is_different st.client.previous_received_player_state.ws_position
            (st.player_snapshots k).ws_position ||
          is_different st.client.previous_received_player_state.ws_direction
            (st.player_snapshots k).ws_direction)) ∧
    (correct_own_snapshot k st).client.network_address = st.client.network_address := by
  unfold correct_own_snapshot
  simp only [h, if_true]
  by_cases hd : (is_different st.client.previous_received_player_state.ws_position
        (st.player_snapshots k).ws_position ||
      is_different st.client.previous_received_player_state.ws_direction
        (st.player_snapshots k).ws_direction) = true
  · simp only [hd, if_true, Function.update_same, Bool.or_true, and_self]
  · simp only [Bool.not_eq_true] at hd
    simp only [hd, Bool.false_eq_true, if_false, Function.update_same, Bool.or_false, and_self]

theorem force_voxel_correction_spec (k : Nat) (v : voxel_loop_t)
    (snaps : Nat → game_snapshot_player_state_packet_t) :
    (force_voxel_correction k v snaps).1.serializer = v.serializer ∧
    (force_voxel_correction k v snaps).1.client.received_input_commands =
      v.client.received_input_commands ∧
    (force_voxel_correction k v snaps).1.client.previous_received_player_state =
      v.client.previous_received_player_state ∧
    (force_voxel_correction k v snaps).1.client.network_address = v.client.network_address ∧
    (force_voxel_correction k v snaps).1.client.needs_to_acknowledge_prediction_error =
      (v.client.needs_to_acknowledge_prediction_error ||
        v.force_client_to_do_voxel_correction) ∧
    ((force_voxel_correction k v snaps).2 k).need_to_do_voxel_correction =
      ((snaps k).need_to_do_voxel_correction || v.force_client_to_do_voxel_correction) ∧
    ((force_voxel_correction k v snaps).2 k).need_to_do_correction =
      ((snaps k).need_to_do_correction || v.force_client_to_do_voxel_correction) ∧
    ((force_voxel_correction k v snaps).2 k).ws_position = (snaps k).ws_position ∧
    ((force_voxel_correction k v snaps).2 k).ws_direction = (snaps k).ws_direction ∧
    ∀ j, j ≠ k → (force_voxel_correction k v snaps).2 j = snaps j := by
  unfold force_voxel_correction
  by_cases hf : v.force_client_to_do_voxel_correction = true
  · simp only [hf, if_true, Function.update_same, Bool.or_true, true_and]
    intro j hj
    exact Function.update_noteq hj _ _
  · simp only [Bool.not_eq_true] at hf
    simp only [hf, Bool.false_eq_true, if_false, Bool.or_false, true_and]
    intro j _
    trivial

theorem client_after_voxels_fields (c : client_t) (f : Bool) :
    (client_after_voxels c f).received_input_commands = c.received_input_commands ∧
    (client_after_voxels c f).previous_received_player_state = c.previous_received_player_state ∧
    (client_after_voxels c f).network_address = c.network_address ∧
    (client_after_voxels c f).needs_to_acknowledge_prediction_error =
      (c.needs_to_acknowledge_prediction_error || f) := by
  cases f
  · simp [client_after_voxels]
  · simp [client_after_voxels]

theorem get_client_send_serialized_message (s : server_t) (serializer : serializer_t)
    (address : network_address_t) (j : Nat) :
    get_client (send_serialized_message s serializer address) j = get_client s j := rfl

theorem send_client_snapshot_spec (s : server_t) (k h : Nat) (p : player_loop_t) :
    (send_client_snapshot s k h p).server.sent =
      s.sent ++ [{ address := p.client.network_address, items := p.serializer.items }] ∧
    (get_client (send_client_snapshot s k h p).server k).needs_to_acknowledge_prediction_error =
      p.client.needs_to_acknowledge_prediction_error ∧
    (∀ j, j ≠ k → get_client (send_client_snapshot s k h p).server j = get_client s j) ∧
    (send_client_snapshot s k h p).player_snapshots = p.player_snapshots ∧
    (send_client_snapshot s k h p).server.voxel_chunks = s.voxel_chunks ∧
    (send_client_snapshot s k h p).server.network_state.client_count =
      s.network_state.client_count := by
  refine ⟨rfl, ?_, ?_, rfl, rfl, rfl⟩
  · simp only [send_client_snapshot, get_client_send_serialized_message, get_client_set_client,
      if_true]
  · intro j hj
    simp only [send_client_snapshot, get_client_send_serialized_message, get_client_set_client,
      hj, if_false, get_client_set_player]

theorem player_states_of_items_map (f : Nat → game_snapshot_player_state_packet_t)
    (l : List Nat) :
    player_states_of_items (l.map fun i => wire_item.game_snapshot_player_state (f i)) =
      l.map f := by
  unfold player_states_of_items
  rw [List.filterMap_map]
  exact filterMap_some_eq_map _ _

/-- The part of one iteration of the dispatch loop that follows the voxel
comparison, in closed form. -/
theorem player_phase_spec (k n : Nat) (hk : k < n) (v : voxel_loop_t)
    (snaps : Nat → game_snapshot_player_state_packet_t) (player : player_t)
    (hrec : v.client.received_input_commands = true) (p : player_loop_t)
    (hp : p = (List.range n).foldl (serialize_player_snapshot k)
      { serializer := (force_voxel_correction k v snaps).1.serializer,
        player_snapshots := (force_voxel_correction k v snaps).2,
        client := (force_voxel_correction k v snaps).1.client,
        player := player }) :
    player_states_of_items p.serializer.items =
      player_states_of_items v.serializer.items ++ (List.range n).map p.player_snapshots ∧
    (p.player_snapshots k).need_to_do_voxel_correction =
      ((snaps k).need_to_do_voxel_correction || v.force_client_to_do_voxel_correction) ∧
    (p.player_snapshots k).need_to_do_correction =
      (((snaps k).need_to_do_correction || v.force_client_to_do_voxel_correction) ||
        (is_different v.client.previous_received_player_state.ws_position (snaps k).ws_position ||
          is_different v.client.previous_received_player_state.ws_direction
            (snaps k).ws_direction)) ∧
    (p.player_snapshots k).is_to_ignore = false ∧
    p.client.needs_to_acknowledge_prediction_error =
      ((v.client.needs_to_acknowledge_prediction_error ||
          v.force_client_to_do_voxel_correction) ||
        (is_different v.client.previous_received_player_state.ws_position (snaps k).ws_position ||
          is_different v.client.previous_received_player_state.ws_direction
            (snaps k).ws_direction)) ∧
    p.client.network_address = v.client.network_address ∧
    ∀ j, j ≠ k → p.player_snapshots j = snaps j := by
  obtain ⟨f1, f2, f3, f4, f5, f6, f7, f8, f9, f10⟩ := force_voxel_correction_spec k v snaps
  have hkmem : k ∈ List.range n := List.mem_range.mpr hk
  obtain ⟨p1, p2, p3, p4⟩ := serialize_player_snapshots_spec k (List.range n)
    (List.nodup_range _)
    { serializer := (force_voxel_correction k v snaps).1.serializer,
      player_snapshots := (force_voxel_correction k v snaps).2,
      client := (force_voxel_correction k v snaps).1.client,
      player := player }
  rw [← hp] at p1 p2 p3 p4
  simp only [hkmem, if_true] at p1 p2 p3 p4
  obtain ⟨o1, o2, o3, o4, o5⟩ := correct_own_snapshot_spec k
    { serializer := (force_voxel_correction k v snaps).1.serializer,
      player_snapshots := (force_voxel_correction k v snaps).2,
      client := (force_voxel_correction k v snaps).1.client,
      player := player } (by rw [f2]; exact hrec)
  rw [← p2] at o1 o2 o3
  rw [← p3] at o4 o5
  simp only [f3, f6, f7, f8, f9] at o1
  simp only [f6] at o2
  simp only [f3, f5, f8, f9] at o4
  simp only [f4] at o5
  refine ⟨?_, o2, o1, o3, o4, o5, ?_⟩
  · rw [← p2] at p1
    rw [p1, player_states_of_items_append, f1, player_states_of_items_map]
  · intro j hj
    rw [p2, correct_own_snapshot_other k _ hj]
    exact f10 j hj

/-- One iteration of the dispatch loop for a client that sent input commands: a
single datagram is appended for it, the flags of its own entry and its latch are
decided by the voxel comparison and the position and direction comparison, and
the records of the other clients and their entries are untouched. -/
theorem dispatch_snapshot_to_client_spec {start : serializer_t} {st st' : dispatch_loop_t}
    {k : Nat} (hstart : player_states_of_items start.items = [])
    (hk : k < st.server.network_state.client_count)
    (hr : (get_client st.server k).received_input_commands = true)
    (h : dispatch_snapshot_to_client start st k = some st') :
    ∃ (m : sent_message_t) (e : game_snapshot_player_state_packet_t) (force : Bool),
      st'.server.sent = st.server.sent ++ [m] ∧
      m.address = (get_client st.server k).network_address ∧
      m.player_states[k]? = some e ∧
      (force = true ↔ has_voxel_mismatch st.server.voxel_chunks (get_client st.server k)) ∧
      e.need_to_do_voxel_correction =
        ((st.player_snapshots k).need_to_do_voxel_correction || force) ∧
      e.need_to_do_correction =
        (((st.player_snapshots k).need_to_do_correction || force) ||
          (is_different (get_client st.server k).previous_received_player_state.ws_position
              (st.player_snapshots k).ws_position ||
            is_different (get_client st.server k).previous_received_player_state.ws_direction
              (st.player_snapshots k).ws_direction)) ∧
      e.is_to_ignore = false ∧
      (get_client st'.server k).needs_to_acknowledge_prediction_error =
        ((((get_client st.server k).needs_to_acknowledge_prediction_error || force) || force) ||
          (is_different (get_client st.server k).previous_received_player_state.ws_position
              (st.player_snapshots k).ws_position ||
            is_different (get_client st.server k).previous_received_player_state.ws_direction
              (st.player_snapshots k).ws_direction)) ∧
      (∀ j, j ≠ k → get_client st'.server j = get_client st.server j) ∧
      (∀ j, j ≠ k → st'.player_snapshots j = st.player_snapshots j) ∧
      st'.server.voxel_chunks = st.server.voxel_chunks ∧
      st'.server.network_state.client_count = st.server.network_state.client_count := by
  unfold dispatch_snapshot_to_client at h
  simp only [hr, if_true] at h
  cases hv : (List.range (get_client st.server k).modified_chunks_count).foldlM
      (serialize_client_chunk st.server.voxel_chunks)
      { serializer := (start.write (wire_item.uint64
          (get_client st.server k).previous_client_tick)).write
          (wire_item.uint32 (get_client st.server k).modified_chunks_count),
        force_client_to_do_voxel_correction := false,
        client := get_client st.server k } with
  | none => rw [hv] at h; simp at h
  | some v =>
    rw [hv] at h
    simp only [Option.some.injEq] at h
    obtain ⟨a1, a2, a3⟩ := serialize_client_chunks_spec _ (get_client st.server k) _
      (by rfl) hv
    simp only [Bool.false_eq_true, false_or, List.mem_range] at a2
    have a1' : player_states_of_items v.serializer.items = [] := by
      rw [a1]
      simp only [serializer_t.write, player_states_of_items_append, hstart, List.nil_append]
      rfl
    obtain ⟨c1, c2, c3, c4⟩ := client_after_voxels_fields (get_client st.server k)
      v.force_client_to_do_voxel_correction
    rw [← a3] at c1 c2 c3 c4
    obtain ⟨q1, q2, q3, q4, q5, q6, q7⟩ := player_phase_spec k
      st.server.network_state.client_count hk v st.player_snapshots
      (get_player st.server (get_client st.server k).player_handle) (by rw [c1]; exact hr) _ rfl
    obtain ⟨s1, s2, s3, s4, s5, s6⟩ := send_client_snapshot_spec st.server k
      (get_client st.server k).player_handle
      ((List.range st.server.network_state.client_count).foldl (serialize_player_snapshot k)
        { serializer := (force_voxel_correction k v st.player_snapshots).1.serializer,
          player_snapshots := (force_voxel_correction k v st.player_snapshots).2,
          client := (force_voxel_correction k v st.player_snapshots).1.client,
          player := get_player st.server (get_client st.server k).player_handle })
    rw [h] at s1 s2 s3 s4 s5 s6
    rw [← s4] at q2 q3 q4 q7
    rw [c2] at q3 q5
    rw [c4] at q5
    refine ⟨_, st'.player_snapshots k, v.force_client_to_do_voxel_correction, s1, ?_, ?_, ?_,
      q2, q3, q4, ?_, s3, q7, s5, s6⟩
    · simp only [q6, c3]
    · simp only [sent_message_t.player_states, q1, a1', List.nil_append]
      rw [List.getElem?_map, List.getElem?_range hk, ← s4]
      rfl
    · constructor
      · intro hf
        obtain ⟨chunk, hc, voxel, hvx, hmm⟩ := a2.mp hf
        exact ⟨chunk, hc, voxel, hvx, hmm⟩
      · rintro ⟨chunk, hc, voxel, hvx, hmm⟩
        exact a2.mpr ⟨chunk, hc, voxel, hvx, hmm⟩
    · rw [s2, q5]

theorem dispatch_snapshot_to_client_skip {start : serializer_t} {st : dispatch_loop_t}
    {k : Nat} (hr : (get_client st.server k).received_input_commands = false) :
    dispatch_snapshot_to_client start st k = some st := by
  unfold dispatch_snapshot_to_client
  simp only [hr, Bool.false_eq_true, if_false]

theorem recipients_before_succ (s : server_t) (m : Nat) :
    recipients_before s (m + 1) =
      recipients_before s m + (if (get_client s m).received_input_commands then 1 else 0) := by
  unfold recipients_before
  rw [List.range_succ, List.filter_append, List.length_append]
  by_cases h : (get_client s m).received_input_commands = true
  · simp [h]
  · simp [h]

/-- The dispatch loop over the first `m` clients: it appends one datagram per
recipient, in client order, with the outcome stated by `snapshot_outcome`, and
it leaves the clients it has not reached, their entries, the grid and the
client count untouched. -/
theorem dispatch_fold_spec {start : serializer_t} {st0 : dispatch_loop_t}
    (hstart : player_states_of_items start.items = []) :
    ∀ (m : Nat), m ≤ st0.server.network_state.client_count → ∀ (stm : dispatch_loop_t),
      (List.range m).foldlM (dispatch_snapshot_to_client start) st0 = some stm →
      stm.server.network_state.client_count = st0.server.network_state.client_count ∧
      stm.server.voxel_chunks = st0.server.voxel_chunks ∧
      (∀ j, m ≤ j → get_client stm.server j = get_client st0.server j ∧
        stm.player_snapshots j = st0.player_snapshots j) ∧
      ∃ msgs : List sent_message_t, stm.server.sent = st0.server.sent ++ msgs ∧
        msgs.length = recipients_before st0.server m ∧
        ∀ k, k < m → (get_client st0.server k).received_input_commands = true →
          ∃ msg, msgs[recipients_before st0.server k]? = some msg ∧
            snapshot_outcome st0.server st0.player_snapshots k msg
              (get_client stm.server k).needs_to_acknowledge_prediction_error := by
  intro m
  induction m with
  | zero =>
    intro _ stm h
    simp only [List.range_zero, List.foldlM_nil, Option.pure_def, Option.some.injEq] at h
    subst h
    refine ⟨rfl, rfl, fun j _ => ⟨rfl, rfl⟩, [], by simp, rfl, ?_⟩
    intro k hk
    exact absurd hk (Nat.not_lt_zero k)
  | succ m ih =>
    intro hm stm1 h
    rw [List.range_succ, List.foldlM_append] at h
    cases hf : (List.range m).foldlM (dispatch_snapshot_to_client start) st0 with
    | none => rw [hf] at h; simp at h
    | some stm =>
      rw [hf] at h
      simp only [Option.bind_eq_bind, Option.some_bind, List.foldlM_cons, List.foldlM_nil,
        Option.pure_def, Option.bind_some] at h
      obtain ⟨i1, i2, i3, msgs, i4, i5, i6⟩ := ih (by omega) stm hf
      obtain ⟨im1, im2⟩ := i3 m (le_refl m)
      by_cases hr : (get_client st0.server m).received_input_commands = true
      · have hr' : (get_client stm.server m).received_input_commands = true := by
          rw [im1]; exact hr
        obtain ⟨msg, e, force, d1, d2, d3, d4, d5, d6, d7, d8, d9, d10, d11, d12⟩ :=
          dispatch_snapshot_to_client_spec hstart (by rw [i1]; omega) hr' h
        rw [im1, i2] at d4
        rw [im1] at d2 d6 d8
        rw [im2] at d5 d6 d8
        refine ⟨by rw [d12, i1], by rw [d11, i2], ?_, msgs ++ [msg], ?_, ?_, ?_⟩
        · intro j hj
          have hjm : j ≠ m := by omega
          obtain ⟨x1, x2⟩ := i3 j (by omega)
          exact ⟨by rw [d9 j hjm, x1], by rw [d10 j hjm, x2]⟩
        · rw [d1, i4, List.append_assoc]
        · rw [List.length_append, i5, recipients_before_succ]
          simp [hr]
        · intro k hk hrk
          by_cases hkm : k = m
          · subst hkm
            refine ⟨msg, ?_, e, force, d2, d3, d4, d5, d6, d7, d8⟩
            rw [← i5, List.getElem?_append_right (le_refl _)]
            simp
          · obtain ⟨msg0, g1, g2⟩ := i6 k (by omega) hrk
            refine ⟨msg0, ?_, ?_⟩
            · have hlt : recipients_before st0.server k < msgs.length := by
                by_contra hcon
                rw [List.getElem?_eq_none (by omega)] at g1
                exact absurd g1 (by simp)
              rw [List.getElem?_append_left hlt]
              exact g1
            · rw [d9 k hkm]
              exact g2
      · simp only [Bool.not_eq_true] at hr
        have hr' : (get_client stm.server m).received_input_commands = false := by
          rw [im1]; exact hr
        rw [dispatch_snapshot_to_client_skip hr'] at h
        have := Option.some.inj h
        subst this
        refine ⟨i1, i2, fun j hj => i3 j (by omega), msgs, i4, ?_, ?_⟩
        · rw [i5, recipients_before_succ]
          simp [hr]
        · intro k hk hrk
          by_cases hkm : k = m
          · subst hkm
            rw [hr] at hrk
            exact absurd hrk (by simp)
          · exact i6 k (by omega) hrk

theorem serialize_client_voxel_total {g : voxel_chunks_t} {chunk voxel : Nat}
    {st : voxel_loop_t} {c0 : client_t}
    (hI : st.client = client_after_voxels c0 st.force_client_to_do_voxel_correction)
    (hread : (actual_voxel_value g (c0.previous_received_voxel_modifications chunk).chunk_index
      ((c0.previous_received_voxel_modifications chunk).modified_voxels voxel)).isSome = true) :
    ∃ st', serialize_client_voxel g chunk st voxel = some st' := by
  have hmods : st.client.previous_received_voxel_modifications =
      c0.previous_received_voxel_modifications := by
    rw [hI, client_after_voxels_modifications]
  unfold serialize_client_voxel
  simp only [hmods]
  cases ha : actual_voxel_value g (c0.previous_received_voxel_modifications chunk).chunk_index
      ((c0.previous_received_voxel_modifications chunk).modified_voxels voxel) with
  | none => rw [ha] at hread; simp at hread
  | some a =>
    simp only
    split
    · exact ⟨_, rfl⟩
    · exact ⟨_, rfl⟩

theorem serialize_client_voxels_total (g : voxel_chunks_t) (chunk : Nat) (c0 : client_t) :
    ∀ (l : List Nat) {st : voxel_loop_t},
      st.client = client_after_voxels c0 st.force_client_to_do_voxel_correction →
      (∀ voxel ∈ l,
        (actual_voxel_value g (c0.previous_received_voxel_modifications chunk).chunk_index
          ((c0.previous_received_voxel_modifications chunk).modified_voxels voxel)).isSome
            = true) →
      ∃ st', l.foldlM (serialize_client_voxel g chunk) st = some st' := by
  intro l
  induction l with
  | nil => intro st _ _; exact ⟨st, rfl⟩
  | cons v l ih =>
    intro st hI hread
    obtain ⟨st1, hs⟩ := serialize_client_voxel_total hI (hread v (List.mem_cons_self _ _))
    obtain ⟨_, _, a3⟩ := serialize_client_voxel_spec hI hs
    obtain ⟨st', hf⟩ := ih a3 (fun w hw => hread w (List.mem_cons_of_mem _ hw))
    exact ⟨st', by rw [List.foldlM_cons, hs]; exact hf⟩

theorem serialize_client_chunks_total (g : voxel_chunks_t) (c0 : client_t) :
    ∀ (l : List Nat) {st : voxel_loop_t},
      st.client = client_after_voxels c0 st.force_client_to_do_voxel_correction →
      (∀ chunk ∈ l, ∀ voxel,
        voxel < (c0.previous_received_voxel_modifications chunk).modified_voxel_count →
        (actual_voxel_value g (c0.previous_received_voxel_modifications chunk).chunk_index
          ((c0.previous_received_voxel_modifications chunk).modified_voxels voxel)).isSome
            = true) →
      ∃ st', l.foldlM (serialize_client_chunk g) st = some st' := by
  intro l
  induction l with
  | nil => intro st _ _; exact ⟨st, rfl⟩
  | cons c l ih =>
    intro st hI hread
    have hmods : st.client.previous_received_voxel_modifications =
        c0.previous_received_voxel_modifications := by
      rw [hI, client_after_voxels_modifications]
    have hstep : ∃ st1, serialize_client_chunk g st c = some st1 := by
      unfold serialize_client_chunk
      simp only [hmods]
      exact serialize_client_voxels_total g c c0 _ (by exact hI)
        (fun voxel hv => hread c (List.mem_cons_self _ _) voxel (List.mem_range.mp hv))
    obtain ⟨st1, hs⟩ := hstep
    obtain ⟨_, _, a3⟩ := serialize_client_chunk_spec hI hs
    obtain ⟨st', hf⟩ := ih a3 (fun w hw => hread w (List.mem_cons_of_mem _ hw))
    exact ⟨st', by rw [List.foldlM_cons, hs]; exact hf⟩

theorem dispatch_snapshot_to_client_total (start : serializer_t) (st : dispatch_loop_t)
    (k : Nat)
    (hread : (get_client st.server k).received_input_commands = true →
      reported_voxels_readable st.server.voxel_chunks (get_client st.server k)) :
    ∃ st', dispatch_snapshot_to_client start st k = some st' := by
  by_cases hr : (get_client st.server k).received_input_commands = true
  · unfold dispatch_snapshot_to_client
    simp only [hr, if_true]
    obtain ⟨v, hv⟩ := @serialize_client_chunks_total st.server.voxel_chunks
      (get_client st.server k) (List.range (get_client st.server k).modified_chunks_count)
      { serializer := (start.write (wire_item.uint64
          (get_client st.server k).previous_client_tick)).write
          (wire_item.uint32 (get_client st.server k).modified_chunks_count),
        force_client_to_do_voxel_correction := false,
        client := get_client st.server k }
      (by rfl) (fun chunk hc voxel hvx => hread hr chunk (List.mem_range.mp hc) voxel hvx)
    rw [hv]
    exact ⟨_, rfl⟩
  · simp only [Bool.not_eq_true] at hr
    exact ⟨st, dispatch_snapshot_to_client_skip hr⟩

theorem dispatch_fold_total {start : serializer_t} {st0 : dispatch_loop_t}
    (hstart : player_states_of_items start.items = [])
    (hread : ∀ k, k < st0.server.network_state.client_count →
      (get_client st0.server k).received_input_commands = true →
      reported_voxels_readable st0.server.voxel_chunks (get_client st0.server k)) :
    ∀ (m : Nat), m ≤ st0.server.network_state.client_count →
      ∃ stm, (List.range m).foldlM (dispatch_snapshot_to_client start) st0 = some stm := by
  intro m
  induction m with
  | zero => intro _; exact ⟨st0, rfl⟩
  | succ m ih =>
    intro hm
    obtain ⟨stm, hf⟩ := ih (by omega)
    obtain ⟨_, i2, i3, _⟩ := dispatch_fold_spec hstart m (by omega) stm hf
    obtain ⟨im1, _⟩ := i3 m (le_refl m)
    obtain ⟨st', hs⟩ := dispatch_snapshot_to_client_total start stm m (by
      rw [im1, i2]
      exact hread m (by omega))
    refine ⟨st', ?_⟩
    rw [List.range_succ, List.foldlM_append, hf]
    simp only [Option.bind_eq_bind, Option.some_bind, List.foldlM_cons, List.foldlM_nil,
      Option.pure_def, Option.bind_some]
    exact hs

theorem is_different_iff (a b : vector3_t) :
    is_different a b = true ↔
      (|round_float32 (a.x - b.x)| > 13421773 / 134217728 ∨
        |round_float32 (a.y - b.y)| > 13421773 / 134217728 ∨
        |round_float32 (a.z - b.z)| > 13421773 / 134217728) := by
  unfold is_different
  simp only [decide_eq_true_eq, round_float32_one_tenth]

theorem prepared_player_snapshots_spec (s : server_t) {k : Nat}
    (hk : k < s.network_state.client_count) :
    (prepared_player_snapshots s k).need_to_do_correction = false ∧
    (prepared_player_snapshots s k).need_to_do_voxel_correction = false ∧
    (prepared_player_snapshots s k).ws_position =
      (get_player s (get_client s k).player_handle).ws_p ∧
    (prepared_player_snapshots s k).ws_direction =
      (get_player s (get_client s k).player_handle).ws_d := by
  unfold prepared_player_snapshots
  rw [if_pos hk]
  exact ⟨rfl, rfl, rfl, rfl⟩

/-- The dispatch as a whole: one datagram per recipient is appended, in client
order, and for every recipient `k` the flags of its own entry and its latch are
those of `snapshot_outcome`. -/
theorem dispatch_snapshot_to_clients_spec {fmt : wire_format} {s s' : server_t}
    {voxel_packet : game_snapshot_voxel_delta_packet_t}
    (h : dispatch_snapshot_to_clients fmt s voxel_packet = some s') :
    ∃ msgs : List sent_message_t, s'.sent = s.sent ++ msgs ∧
      msgs.length = recipients_before s s.network_state.client_count ∧
      ∀ k, k < s.network_state.client_count →
        (get_client s k).received_input_commands = true →
        ∃ msg, msgs[recipients_before s k]? = some msg ∧
          snapshot_outcome s (prepared_player_snapshots s) k msg
            (get_client s' k).needs_to_acknowledge_prediction_error := by
  unfold dispatch_snapshot_to_clients at h
  simp only [Option.map_eq_some'] at h
  obtain ⟨st, hf, rfl⟩ := h
  obtain ⟨_, _, _, msgs, i4, i5, i6⟩ := dispatch_fold_spec (by rfl) _ (le_refl _) st hf
  exact ⟨msgs, i4, i5, i6⟩

theorem dispatch_snapshot_to_clients_total (fmt : wire_format) (s : server_t)
    (voxel_packet : game_snapshot_voxel_delta_packet_t)
    (hread : ∀ k, k < s.network_state.client_count →
      (get_client s k).received_input_commands = true →
      reported_voxels_readable s.voxel_chunks (get_client s k)) :
    ∃ s', dispatch_snapshot_to_clients fmt s voxel_packet = some s' := by
  unfold dispatch_snapshot_to_clients
  simp only
  obtain ⟨st, hf⟩ := @dispatch_fold_total
    { items := [wire_item.header
        { packet_mode := packet_mode_t.PM_SERVER_MODE
          packet_type := packet_type_t.server server_packet_type_t.SPT_GAME_STATE_SNAPSHOT
          total_packet_size := fmt.sizeof_packet_header + 8 +
            fmt.sizeof_game_snapshot_voxel_delta_packet voxel_packet +
            fmt.sizeof_game_snapshot_player_state_packet * s.network_state.client_count
          current_tick := 0
          client_id := 0 },
        wire_item.game_snapshot_voxel_delta voxel_packet] }
    { server := s, player_snapshots := prepared_player_snapshots s } (by rfl) hread
    s.network_state.client_count (le_refl _)
  rw [hf]
  exact ⟨_, rfl⟩

theorem voxel_at_in_grid {g : voxel_chunks_t} (hw : grid_well_formed g) {p : ivector3_t}
    (hp : in_grid g p) : ∃ v, voxel_at g p = some v ∧ v < 256 := by
  obtain ⟨cx, cy, cz, lx, ly, lz, hx, hy, hz, hlx, hly, hlz, rfl⟩ := in_grid_decompose hp
  obtain ⟨c, hc, _, _, hv⟩ := hw cx cy cz hx hy hz
  rw [voxel_at_decomposed g hx hy hz hlx hly hlz, hc]
  exact ⟨_, rfl, hv lx ly lz hlx hly hlz⟩

theorem terraform_amount_additive (d2 r2 dt : ℚ) :
    terraform_amount d2 r2 1 dt = float32_terraform_amount d2 r2 dt := by
  unfold terraform_amount float32_terraform_amount
  rw [mul_one, round_float32_idem]

theorem terraform_amount_destructive (d2 r2 dt : ℚ) :
    terraform_amount d2 r2 (-1) dt = -float32_terraform_amount d2 r2 dt := by
  unfold terraform_amount float32_terraform_amount
  rw [mul_neg_one, round_float32_neg, round_float32_idem, neg_mul, round_float32_neg, neg_mul,
    round_float32_neg]

theorem terraform_density_eq_truncated (v : Nat) (d2 r2 : ℚ) (destructive : Bool) (dt : ℚ) :
    terraform_density v d2 r2 (if destructive then -1 else 1) dt =
      truncated_terraform_density v d2 r2 destructive dt := by
  unfold terraform_density truncated_terraform_density
  cases destructive
  · simp only [Bool.false_eq_true, if_false]
    rw [terraform_amount_additive, add_comm]
  · simp only [if_true]
    rw [terraform_amount_destructive, float_to_int_neg]
    congr 1
    ring

/-- At the centre of the sphere the proportion is 1 and the amount is the
float32 product `dt * 700`. -/
theorem float32_terraform_amount_centre (r2 dt : ℚ) :
    float32_terraform_amount 0 r2 dt = round_float32 (round_float32 dt * 700) := by
  unfold float32_terraform_amount
  rw [zero_div, round_float32_zero, sub_zero, round_float32_one, one_mul]

/-- At the tick time `dt = 0.02f` the float32 product `dt * 700` is `14.0f`,
although the exact product of the two float32 values lies below 14: at the
centre of the sphere `terraform` changes the density by 14. -/
theorem float32_terraform_amount_tick_example :
    round_float32 (1 / 50) = 5368709 / 268435456 ∧
    (5368709 / 268435456 : ℚ) * 700 < 14 ∧
    float32_terraform_amount 0 (2 * 2) (round_float32 (1 / 50)) = 14 := by
  have h1 : round_float32 (1 / 50) = 5368709 / 268435456 := by
    rw [round_float32_eq_of_pos (-6) 10737418 (by norm_num) (by norm_num) (by norm_num)
      (by norm_num) (by norm_num)]
    norm_num
  have h2 : round_float32 ((5368709 / 268435456 : ℚ) * 700) = 14 := by
    rw [round_float32_eq_of_pos (3) 14680064 (by norm_num) (by norm_num) (by norm_num)
      (by norm_num) (by norm_num)]
    norm_num
  refine ⟨h1, by norm_num, ?_⟩
  rw [float32_terraform_amount_centre, round_float32_idem, h1, h2]

theorem example_grid_well_formed : grid_well_formed example_grid := by
  intro cx cy cz hx hy hz
  have e1 : cx = 0 := by simp only [example_grid] at hx; omega
  have e2 : cy = 0 := by simp only [example_grid] at hy; omega
  have e3 : cz = 0 := by simp only [example_grid] at hz; omega
  subst e1 e2 e3
  refine ⟨example_chunk, rfl, rfl, rfl, ?_⟩
  intro x y z _ _ _
  simp [example_chunk]

theorem example_centre_in_grid : in_grid example_grid ⟨8, 8, 8⟩ := by
  simp [in_grid, example_grid]

theorem terraform_sound_value {g g' : voxel_chunks_t} {c : ivector3_t} {r : Nat}
    {destructive : Bool} {dt : ℚ} (hw : grid_well_formed g)
    (h : terraform g c r destructive dt = some g') {p : ivector3_t} (hp : in_grid g p) :
    ∃ v, voxel_at g p = some v ∧ v < 256 ∧ voxel_at g' p = some
      (if dist_sq p c ≤ (r : Int) * (r : Int) then
        truncated_terraform_density v ((dist_sq p c : Int) : ℚ) ((r : ℚ) * (r : ℚ)) destructive dt
      else v) := by
  obtain ⟨v, hv, hlt⟩ := voxel_at_in_grid hw hp
  refine ⟨v, hv, hlt, ?_⟩
  rw [(terraform_sound hw h).2.2 p hp, hv]
  split
  · simp only [Option.map_some', terraform_density_eq_truncated]
  · rfl

/-- C9 (amended): on a well-formed grid `terraform` is defined whenever its centre
is a voxel of the grid at least `r > 0` voxels from the low faces and the amount
fits the integer conversion; and whenever it is defined, every voxel of the grid
at squared distance `d2 ≤ r²` from the centre goes from density `v` to
`clamp(v + trunc(a), 0, 255)` (additive) or `clamp(v − trunc(a), 0, 255)`
(destructive), where `a` is the float32 product `(p * dt) * 700` with
`p = 1 − d2/r²` computed in float32, every operation rounding to the nearest
float32, and `trunc` is the truncation toward zero of the float-to-int cast,
while every voxel farther than the radius keeps its density. -/
theorem terraform_changes_density_by_truncated_amount (g : voxel_chunks_t) (c : ivector3_t)
    (r : Nat) (destructive : Bool) (dt : ℚ) (hw : grid_well_formed g) :
    (in_grid g c → 0 < r → ((r : Int) ≤ c.x ∧ (r : Int) ≤ c.y ∧ (r : Int) ≤ c.z) →
      |dt| * 700 ≤ 2 ^ 30 → ∃ g', terraform g c r destructive dt = some g') ∧
    ∀ g', terraform g c r destructive dt = some g' → ∀ p, in_grid g p →
      ∃ v, voxel_at g p = some v ∧ voxel_at g' p = some
        (if dist_sq p c ≤ (r : Int) * (r : Int) then
          truncated_terraform_density v ((dist_sq p c : Int) : ℚ) ((r : ℚ) * (r : ℚ))
            destructive dt
        else v) := by
  refine ⟨fun hc hr hlow hdt => terraform_total destructive hw hc hr hlow hdt, ?_⟩
  intro g' h p hp
  obtain ⟨v, hv, _, hv'⟩ := terraform_sound_value hw h hp
  exact ⟨v, hv, hv'⟩

theorem terraform_changes_density_by_truncated_amount_witness :
    grid_well_formed example_grid ∧
    ((in_grid example_grid ⟨8, 8, 8⟩ → 0 < 2 →
        (((2 : Nat) : Int) ≤ (8 : Int) ∧ ((2 : Nat) : Int) ≤ (8 : Int) ∧
          ((2 : Nat) : Int) ≤ (8 : Int)) →
        |(1 / 1024 : ℚ)| * 700 ≤ 2 ^ 30 →
        ∃ g', terraform example_grid ⟨8, 8, 8⟩ 2 false (1 / 1024) = some g') ∧
      ∀ g', terraform example_grid ⟨8, 8, 8⟩ 2 false (1 / 1024) = some g' →
        ∀ p, in_grid example_grid p →
        ∃ v, voxel_at example_grid p = some v ∧ voxel_at g' p = some
          (if dist_sq p ⟨8, 8, 8⟩ ≤ ((2 : Nat) : Int) * ((2 : Nat) : Int) then
            truncated_terraform_density v ((dist_sq p ⟨8, 8, 8⟩ : Int) : ℚ)
              (((2 : Nat) : ℚ) * ((2 : Nat) : ℚ)) false (1 / 1024)
          else v)) :=
  ⟨example_grid_well_formed,
    terraform_changes_density_by_truncated_amount example_grid ⟨8, 8, 8⟩ 2 false (1 / 1024)
      example_grid_well_formed⟩

/-- C9 (counterexample): an additive `terraform` of radius 2 with `dt = 1/1024`
centred on a voxel of density 100 leaves the centre voxel at 100, because the
amount `1·700/1024 ≈ 0.68` (a float32 value, every float operation being exact
here) is truncated to 0, whereas rounding to nearest gives the density 101 stated
by the specification. -/
theorem terraform_rounding_counterexample :
    ∃ g', terraform example_grid ⟨8, 8, 8⟩ 2 false (1 / 1024) = some g' ∧
      voxel_at example_grid ⟨8, 8, 8⟩ = some 100 ∧
      dist_sq ⟨8, 8, 8⟩ ⟨8, 8, 8⟩ = 0 ∧
      voxel_at g' ⟨8, 8, 8⟩ = some 100 ∧
      spec_terraform_density 100 0 (2 * 2) true (1 / 1024) = 101 := by
  obtain ⟨g', hg'⟩ := @terraform_total example_grid ⟨8, 8, 8⟩ 2 false (1 / 1024) example_grid_well_formed
    example_centre_in_grid (by norm_num : 0 < 2) (by norm_num) (by norm_num [abs_of_nonneg])
  obtain ⟨v, hv, _, hv'⟩ := terraform_sound_value example_grid_well_formed hg'
    example_centre_in_grid
  have h0 : voxel_at example_grid ⟨8, 8, 8⟩ = some 100 := by
    simp [voxel_at, example_grid, example_chunk, is_voxel_coord_within_chunk,
      VOXEL_CHUNK_EDGE_LENGTH, convert_3d_to_1d_index]
  rw [h0] at hv
  have hv100 : v = 100 := (Option.some.inj hv).symm
  subst hv100
  have hd : dist_sq ⟨8, 8, 8⟩ ⟨8, 8, 8⟩ = 0 := by simp [dist_sq]
  refine ⟨g', hg', h0, hd, ?_, ?_⟩
  · rw [hv', hd]
    have hdt : round_float32 (1 / 1024) = 1 / 1024 := by
      have := round_float32_two_zpow (-10) (by norm_num)
      norm_num at this
      exact this
    have hprod : round_float32 (1 / 1024 * 700) = 175 / 256 := by
      have := round_float32_of_dyadic 175 (-8) (by norm_num) (by norm_num)
      norm_num at this
      have e : (1 / 1024 * 700 : ℚ) = 175 / 256 := by norm_num
      rw [e]
      exact this
    have hf : float_to_int (175 / 256 : ℚ) = 0 := by
      unfold float_to_int
      rw [if_pos (by norm_num)]
      rw [Int.floor_eq_iff]
      constructor <;> norm_num
    have hamount : float32_terraform_amount ((0 : Int) : ℚ) (((2 : Nat) : ℚ) * ((2 : Nat) : ℚ))
        (1 / 1024) = 175 / 256 := by
      rw [Int.cast_zero, float32_terraform_amount_centre, hdt, hprod]
    unfold truncated_terraform_density
    rw [hamount, hf]
    simp [clamp_density]
  · have hr : round_to_nearest (700 * 1024⁻¹) = 1 := by
      unfold round_to_nearest
      rw [Int.floor_eq_iff]
      constructor <;> norm_num
    simp [spec_terraform_density, hr, clamp_density]

theorem float32_terraform_amount_nonneg {d r : Int} {dt : ℚ} (hd0 : 0 ≤ d) (hd : d ≤ r)
    (hdt : 0 ≤ dt) : 0 ≤ float32_terraform_amount (d : ℚ) (r : ℚ) dt := by
  have hd0' : (0 : ℚ) ≤ (d : ℚ) := by exact_mod_cast hd0
  have hd' : (d : ℚ) ≤ (r : ℚ) := by exact_mod_cast hd
  have hratio : (d : ℚ) / (r : ℚ) ≤ 1 := by
    by_cases hr : (r : ℚ) = 0
    · rw [hr, div_zero]; norm_num
    · have hr0 : (0 : ℚ) < (r : ℚ) := lt_of_le_of_ne (le_trans hd0' hd') (Ne.symm hr)
      exact (div_le_one hr0).mpr hd'
  have h1 : round_float32 ((d : ℚ) / (r : ℚ)) ≤ 1 := by
    have := round_float32_mono hratio
    rw [round_float32_one] at this
    exact this
  have hp : 0 ≤ round_float32 (1 - round_float32 ((d : ℚ) / (r : ℚ))) :=
    round_float32_nonneg (by linarith)
  unfold float32_terraform_amount
  exact round_float32_nonneg (mul_nonneg (round_float32_nonneg (mul_nonneg hp hdt))
    (by norm_num))

theorem terraform_amount_nonneg {d r : Int} {dt : ℚ} (hd0 : 0 ≤ d) (hd : d ≤ r) (hdt : 0 ≤ dt) :
    0 ≤ float_to_int (float32_terraform_amount (d : ℚ) (r : ℚ) dt) :=
  float_to_int_nonneg (float32_terraform_amount_nonneg hd0 hd hdt)

theorem dist_sq_nonneg (p c : ivector3_t) : 0 ≤ dist_sq p c := by
  unfold dist_sq
  nlinarith [mul_self_nonneg (p.x - c.x), mul_self_nonneg (p.y - c.y),
    mul_self_nonneg (p.z - c.z)]

/-- C10: for `dt ≥ 0`, on a well-formed grid, `terraform` is defined whenever its
centre is a voxel of the grid at least `r > 0` voxels from the low faces and the
amount fits the integer conversion; and whenever it is defined every voxel of the
grid ends with a density in `[0, 255]`, a destructive call increases no density
and leaves density 0 at 0, and an additive call decreases no density and leaves
density 255 at 255. -/
theorem terraform_density_stays_in_range (g : voxel_chunks_t) (c : ivector3_t)
    (r : Nat) (destructive : Bool) (dt : ℚ) (hw : grid_well_formed g) (hdt : 0 ≤ dt) :
    (in_grid g c → 0 < r → ((r : Int) ≤ c.x ∧ (r : Int) ≤ c.y ∧ (r : Int) ≤ c.z) →
      dt * 700 ≤ 2 ^ 30 → ∃ g', terraform g c r destructive dt = some g') ∧
    ∀ g', terraform g c r destructive dt = some g' → ∀ p, in_grid g p →
      ∃ v v', voxel_at g p = some v ∧ voxel_at g' p = some v' ∧ v' ≤ 255 ∧
        (destructive = true → v' ≤ v ∧ (v = 0 → v' = 0)) ∧
        (destructive = false → v ≤ v' ∧ (v = 255 → v' = 255)) := by
  refine ⟨fun hc hr hlow hb => terraform_total destructive hw hc hr hlow
    (by rw [abs_of_nonneg hdt]; exact hb), ?_⟩
  intro g' h p hp
  obtain ⟨v, hv, hlt, hv'⟩ := terraform_sound_value hw h hp
  refine ⟨v, _, hv, hv', ?_⟩
  by_cases hd : dist_sq p c ≤ (r : Int) * (r : Int)
  · rw [if_pos hd]
    have ht : 0 ≤ float_to_int (float32_terraform_amount ((dist_sq p c : Int) : ℚ)
        ((r : ℚ) * (r : ℚ)) dt) := by
      have := @terraform_amount_nonneg (dist_sq p c) ((r : Int) * (r : Int)) dt
        (dist_sq_nonneg p c) hd hdt
      push_cast at this
      exact this
    unfold truncated_terraform_density clamp_density
    cases destructive
    · simp only [Bool.false_eq_true, if_false]
      refine ⟨?_, ?_, ?_⟩
      · split
        · exact le_refl _
        · split <;> omega
      · intro hcon; exact absurd hcon (by simp)
      · intro _
        constructor
        · split
          · omega
          · split <;> omega
        · intro h255
          split
          · rfl
          · split <;> omega
    · simp only [if_true]
      refine ⟨?_, ?_, ?_⟩
      · split
        · exact le_refl _
        · split <;> omega
      · intro _
        constructor
        · split
          · omega
          · split <;> omega
        · intro h0
          split
          · omega
          · split <;> omega
      · intro hcon; exact absurd hcon (by simp)
  · rw [if_neg hd]
    refine ⟨by omega, fun _ => ⟨le_refl _, fun h0 => h0⟩, fun _ => ⟨le_refl _, fun h0 => h0⟩⟩

theorem terraform_density_stays_in_range_witness :
    grid_well_formed example_grid ∧ (0 : ℚ) ≤ 1 / 10 ∧
    ((in_grid example_grid ⟨8, 8, 8⟩ → 0 < 2 →
        (((2 : Nat) : Int) ≤ (8 : Int) ∧ ((2 : Nat) : Int) ≤ (8 : Int) ∧
          ((2 : Nat) : Int) ≤ (8 : Int)) →
        (1 / 10 : ℚ) * 700 ≤ 2 ^ 30 →
        ∃ g', terraform example_grid ⟨8, 8, 8⟩ 2 true (1 / 10) = some g') ∧
      ∀ g', terraform example_grid ⟨8, 8, 8⟩ 2 true (1 / 10) = some g' →
        ∀ p, in_grid example_grid p →
        ∃ v v', voxel_at example_grid p = some v ∧ voxel_at g' p = some v' ∧ v' ≤ 255 ∧
          (true = true → v' ≤ v ∧ (v = 0 → v' = 0)) ∧
          (true = false → v ≤ v' ∧ (v = 255 → v' = 255))) :=
  ⟨example_grid_well_formed, by norm_num,
    terraform_density_stays_in_range example_grid ⟨8, 8, 8⟩ 2 true (1 / 10)
      example_grid_well_formed (by norm_num)⟩

theorem hard_update_messages_chunks (fmt : wire_format) (tick : Nat)
    (address : network_address_t) (arr : Nat → voxel_chunk_values_packet_t) (n : Nat) :
    ((hard_update_messages fmt tick address arr n).map sent_message_t.chunks).flatten =
      (List.range n).map arr := by
  have hn : n = n / 8 * 8 + n % 8 := by omega
  unfold hard_update_messages
  rw [List.map_append, List.flatten_append, List.map_map]
  have h1 : (sent_message_t.chunks ∘ fun packet =>
      ({ address := address
         items := hard_update_items
          { packet_mode := packet_mode_t.PM_SERVER_MODE
            packet_type := packet_type_t.server server_packet_type_t.SPT_CHUNK_VOXELS_HARD_UPDATE
            total_packet_size := fmt.sizeof_packet_header + 4 + 1 * 16 * 16 * 16 * 8
            current_tick := tick
            client_id := 0 }
          { is_first := decide (packet = 0), count := n % 2 ^ 31 }
          (fun chunk => arr (packet * 8 + chunk)) 8 } : sent_message_t)) =
      fun p => (List.range 8).map fun c => arr (p * 8 + c) := by
    funext p
    exact chunks_hard_update_items _ _ _ _ _
  rw [h1, range_flatMap_blocks]
  conv_rhs => rw [hn, List.range_add, List.map_append, List.map_map]
  congr 1
  by_cases h : n % 8 = 0
  · simp [h]
  · simp only [h, ne_eq, not_false_eq_true, if_true, List.map_cons, List.map_nil,
      List.flatten_cons, List.flatten_nil, List.append_nil]
    rw [chunks_hard_update_items]
    rfl

/-- C7: for every chunk count `n` that fits the 31-bit `count` field,
`send_chunks_hard_update_packets` sends exactly `⌈n/8⌉` datagrams to the given
address; each carries between 1 and 8 chunks and states that number, the numbers
sum to `n`, the chunks of the datagrams taken in sending order are the chunks of
the array in array order (each exactly once), every datagram carries the total
`n`, and `is_first` is set in the first datagram and in no other. -/
theorem send_chunks_hard_update_packets_batches (fmt : wire_format) (s : server_t)
    (address : network_address_t) (arr : Nat → voxel_chunk_values_packet_t) (n : Nat)
    (hn : n < 2 ^ 31) :
    ∃ msgs : List sent_message_t,
      (send_chunks_hard_update_packets_of fmt s address arr n).sent = s.sent ++ msgs ∧
      msgs.length = (n + 7) / 8 ∧
      (∀ m ∈ msgs, m.address = address ∧
        ∃ k, m.chunk_count = some k ∧ 1 ≤ k ∧ k ≤ 8 ∧ m.chunks.length = k) ∧
      (msgs.map fun m => m.chunks.length).sum = n ∧
      (msgs.map sent_message_t.chunks).flatten = (List.range n).map arr ∧
      (∀ i m, msgs[i]? = some m →
        ∃ cc, m.to_update_count = some cc ∧ cc.count = n ∧ (cc.is_first = true ↔ i = 0)) := by
  have hcount : n % 2 ^ 31 = n := Nat.mod_eq_of_lt hn
  refine ⟨hard_update_messages fmt s.current_tick address arr n,
    send_chunks_hard_update_packets_of_sent fmt s address arr n, ?_, ?_, ?_, ?_, ?_⟩
  · unfold hard_update_messages
    rw [List.length_append, List.length_map, List.length_range]
    by_cases h : n % 8 = 0
    · simp only [h, ne_eq, not_true_eq_false, if_false, List.length_nil]; omega
    · simp only [h, ne_eq, not_false_eq_true, if_true, List.length_cons, List.length_nil]
      omega
  · intro m hm
    unfold hard_update_messages at hm
    rw [List.mem_append] at hm
    rcases hm with hm | hm
    · rw [List.mem_map] at hm
      obtain ⟨packet, _, rfl⟩ := hm
      refine ⟨rfl, 8, rfl, by norm_num, by norm_num, ?_⟩
      rw [chunks_hard_update_items]
      simp
    · by_cases h : n % 8 = 0
      · simp [h] at hm
      · simp only [h, ne_eq, not_false_eq_true, if_true, List.mem_singleton] at hm
        subst hm
        refine ⟨rfl, n % 8, rfl, by omega, by omega, ?_⟩
        rw [chunks_hard_update_items]
        simp
  · have := congrArg List.length (hard_update_messages_chunks fmt s.current_tick address arr n)
    rw [List.length_flatten, List.map_map, List.length_map, List.length_range] at this
    exact this
  · exact hard_update_messages_chunks fmt s.current_tick address arr n
  · intro i m hm
    unfold hard_update_messages at hm
    by_cases hi : i < n / 8
    · rw [List.getElem?_append_left (by simpa using hi)] at hm
      rw [List.getElem?_map, List.getElem?_range hi] at hm
      simp only [Option.map_some', Option.some.injEq] at hm
      subst hm
      exact ⟨_, rfl, hcount, by simp⟩
    · rw [List.getElem?_append_right (by simpa using hi)] at hm
      simp only [List.length_map, List.length_range] at hm
      by_cases h : n % 8 = 0
      · simp [h] at hm
      · simp only [h, ne_eq, not_false_eq_true, if_true] at hm
        have hi0 : i - n / 8 = 0 := by
          by_contra hne
          rw [List.getElem?_eq_none (by simp; omega)] at hm
          exact absurd hm (by simp)
        rw [hi0] at hm
        simp only [List.getElem?_cons_zero, Option.some.injEq] at hm
        subst hm
        refine ⟨_, rfl, hcount, ?_⟩
        simp only [decide_eq_true_eq]
        omega

theorem send_chunks_hard_update_packets_batches_witness :
    (20 : Nat) < 2 ^ 31 ∧
    ∃ msgs : List sent_message_t,
      (send_chunks_hard_update_packets_of
        { sizeof_packet_header := 16, voxel_chunk_values_bytes := 4099,
          player_state_initialize_bytes := fun _ => 0, game_state_initialize_bytes := fun _ => 0,
          sizeof_game_snapshot_voxel_delta_packet := fun _ => 0,
          sizeof_game_snapshot_player_state_packet := 0,
          sizeof_voxel_state_initialize_packet_t := 0,
          sizeof_game_state_initialize_counts := 0,
          sizeof_player_state_initialize_packet_t := 0 }
        example_server ⟨0, 0⟩ (initialize_chunk_values_packets example_grid).1 20).sent =
        example_server.sent ++ msgs ∧
      msgs.length = (20 + 7) / 8 ∧
      (∀ m ∈ msgs, m.address = ⟨0, 0⟩ ∧
        ∃ k, m.chunk_count = some k ∧ 1 ≤ k ∧ k ≤ 8 ∧ m.chunks.length = k) ∧
      (msgs.map fun m => m.chunks.length).sum = 20 ∧
      (msgs.map sent_message_t.chunks).flatten =
        (List.range 20).map (initialize_chunk_values_packets example_grid).1 ∧
      (∀ i m, msgs[i]? = some m →
        ∃ cc, m.to_update_count = some cc ∧ cc.count = 20 ∧ (cc.is_first = true ↔ i = 0)) :=
  ⟨by norm_num, send_chunks_hard_update_packets_batches _ example_server ⟨0, 0⟩
    (initialize_chunk_values_packets example_grid).1 20 (by norm_num)⟩

/-- C1: a received datagram whose header declares a size different from the
number of bytes received, or whose packet mode is not the client mode, or whose
packet type is no client packet type, leaves the whole server state unchanged
(the client count, every client record, every player and command ring, and the
list of sent datagrams). -/
theorem handle_datagram_drops_malformed (fmt : wire_format) (s : server_t)
    (d : received_datagram_t)
    (h : (d.header.total_packet_size : Int) ≠ d.bytes_received ∨
      d.header.packet_mode ≠ packet_mode_t.PM_CLIENT_MODE ∨
      ∀ t, d.header.packet_type ≠ packet_type_t.client t) :
    handle_datagram fmt s d = s := by
  unfold handle_datagram
  by_cases h1 : d.bytes_received > 0
  · rw [if_pos h1]
    by_cases h2 : (d.header.total_packet_size : Int) = d.bytes_received
    · rw [if_pos h2]
      by_cases h3 : d.header.packet_mode = packet_mode_t.PM_CLIENT_MODE
      · rw [if_pos h3]
        rcases h with h | h | h
        · exact absurd h2 h
        · exact absurd h3 h
        · cases hpt : d.header.packet_type with
          | client t => exact absurd hpt (h t)
          | server t => rfl
          | other raw => rfl
      · rw [if_neg h3]
    · rw [if_neg h2]
  · rw [if_neg h1]

theorem handle_datagram_drops_malformed_witness :
    handle_datagram example_wire_format latched_server
        { example_datagram (packet_type_t.client client_packet_type_t.CPT_INPUT_STATE) with
          bytes_received := 23 } = latched_server ∧
    handle_datagram example_wire_format latched_server
        { example_datagram (packet_type_t.client client_packet_type_t.CPT_CLIENT_JOIN) with
          header :=
            { packet_mode := packet_mode_t.PM_SERVER_MODE,
              packet_type := packet_type_t.client client_packet_type_t.CPT_CLIENT_JOIN,
              total_packet_size := 24, current_tick := 7, client_id := 0 } } = latched_server ∧
    handle_datagram example_wire_format latched_server
        (example_datagram (packet_type_t.other 200)) = latched_server :=
  ⟨handle_datagram_drops_malformed _ _ _ (Or.inl (by decide)),
   handle_datagram_drops_malformed _ _ _ (Or.inr (Or.inl (by decide))),
   handle_datagram_drops_malformed _ _ _ (Or.inr (Or.inr (fun t hcon => by
     simp [example_datagram] at hcon)))⟩

/-- C5: an `INPUT_STATE` datagram from a client whose
`needs_to_acknowledge_prediction_error` latch is set leaves the server state
unchanged: nothing is pushed to the command ring, and `commands_to_flush`,
`previous_client_tick`, `previous_received_player_state`,
`received_input_commands`, the stored voxel modifications and
`modified_chunks_count` keep their values. -/
theorem handle_datagram_ignores_input_state_while_latched (fmt : wire_format) (s : server_t)
    (d : received_datagram_t)
    (ht : d.header.packet_type = packet_type_t.client client_packet_type_t.CPT_INPUT_STATE)
    (hl : (get_client s d.header.client_id).needs_to_acknowledge_prediction_error = true) :
    handle_datagram fmt s d = s := by
  unfold handle_datagram
  rw [ht]
  simp only
  unfold handle_input_state
  simp only [hl, Bool.not_true, Bool.false_eq_true, if_false, ite_self]

theorem handle_datagram_ignores_input_state_while_latched_witness :
    (example_datagram (packet_type_t.client client_packet_type_t.CPT_INPUT_STATE)).header.packet_type
      = packet_type_t.client client_packet_type_t.CPT_INPUT_STATE ∧
    (get_client latched_server
      (example_datagram (packet_type_t.client
        client_packet_type_t.CPT_INPUT_STATE)).header.client_id).needs_to_acknowledge_prediction_error
      = true ∧
    handle_datagram example_wire_format latched_server
      (example_datagram (packet_type_t.client client_packet_type_t.CPT_INPUT_STATE)) =
      latched_server :=
  ⟨rfl, rfl, handle_datagram_ignores_input_state_while_latched example_wire_format
    latched_server (example_datagram (packet_type_t.client client_packet_type_t.CPT_INPUT_STATE))
    rfl rfl⟩

/-- C6: an accepted `PREDICTION_ERROR_CORRECTION` datagram clears the sender's
`needs_to_acknowledge_prediction_error` latch and sets its `previous_client_tick`
to the tick of the packet body; an `INPUT_STATE` datagram of that client handled
next is accepted (it marks `received_input_commands`, records its tick and its
voxel modification count); and handling a datagram of any other packet type
leaves a set latch set. -/
theorem prediction_error_correction_clears_latch (fmt : wire_format) (s : server_t)
    (d : received_datagram_t) (hb : d.bytes_received > 0)
    (hs : (d.header.total_packet_size : Int) = d.bytes_received)
    (hm : d.header.packet_mode = packet_mode_t.PM_CLIENT_MODE)
    (ht : d.header.packet_type =
      packet_type_t.client client_packet_type_t.CPT_PREDICTION_ERROR_CORRECTION) :
    (get_client (handle_datagram fmt s d) d.header.client_id).needs_to_acknowledge_prediction_error
      = false ∧
    (get_client (handle_datagram fmt s d) d.header.client_id).previous_client_tick = d.tick ∧
    (∀ d2 : received_datagram_t, d2.bytes_received > 0 →
      (d2.header.total_packet_size : Int) = d2.bytes_received →
      d2.header.packet_mode = packet_mode_t.PM_CLIENT_MODE →
      d2.header.packet_type = packet_type_t.client client_packet_type_t.CPT_INPUT_STATE →
      d2.header.client_id = d.header.client_id →
      (get_client (handle_datagram fmt (handle_datagram fmt s d) d2)
        d.header.client_id).received_input_commands = true ∧
      (get_client (handle_datagram fmt (handle_datagram fmt s d) d2)
        d.header.client_id).previous_client_tick = d2.header.current_tick ∧
      (get_client (handle_datagram fmt (handle_datagram fmt s d) d2)
        d.header.client_id).modified_chunks_count =
        (get_client s d.header.client_id).modified_chunks_count +
          d2.voxel_packet.modified_chunk_count) ∧
    (∀ (s0 : server_t) (d0 : received_datagram_t) (i : Nat),
      d0.header.packet_type ≠
        packet_type_t.client client_packet_type_t.CPT_PREDICTION_ERROR_CORRECTION →
      (get_client s0 i).needs_to_acknowledge_prediction_error = true →
      (get_client (handle_datagram fmt s0 d0) i).needs_to_acknowledge_prediction_error = true) := by
  have hd : handle_datagram fmt s d = handle_prediction_error_correction s d := by
    unfold handle_datagram
    rw [if_pos hb, if_pos hs, if_pos hm, ht]
  have hl : (get_client (handle_prediction_error_correction s d)
      d.header.client_id).needs_to_acknowledge_prediction_error = false := by
    unfold handle_prediction_error_correction
    rw [get_client_set_client, if_pos rfl]
  have hc : (get_client (handle_prediction_error_correction s d)
      d.header.client_id).modified_chunks_count =
      (get_client s d.header.client_id).modified_chunks_count := by
    unfold handle_prediction_error_correction
    rw [get_client_set_client, if_pos rfl]
  refine ⟨?_, ?_, ?_, ?_⟩
  · rw [hd]; exact hl
  · rw [hd]
    unfold handle_prediction_error_correction
    rw [get_client_set_client, if_pos rfl]
  · intro d2 hb2 hs2 hm2 ht2 hid
    have hd2 : handle_datagram fmt (handle_datagram fmt s d) d2 =
        handle_input_state (handle_prediction_error_correction s d) d2 := by
      rw [hd]
      unfold handle_datagram
      rw [if_pos hb2, if_pos hs2, if_pos hm2, ht2]
    rw [hd2, ← hid]
    rw [← hid] at hl hc
    obtain ⟨a1, a2, _, a4, _, _⟩ := handle_input_state_client _ d2 hl
    exact ⟨a1, a2, by rw [a4, hc]⟩
  · intro s0 d0 i hne hset
    unfold handle_datagram
    by_cases h1 : d0.bytes_received > 0
    · rw [if_pos h1]
      by_cases h2 : (d0.header.total_packet_size : Int) = d0.bytes_received
      · rw [if_pos h2]
        by_cases h3 : d0.header.packet_mode = packet_mode_t.PM_CLIENT_MODE
        · rw [if_pos h3]
          cases hpt : d0.header.packet_type with
          | client t =>
            cases t with
            | CPT_CLIENT_JOIN => simp only; rw [handle_client_join_latch]; exact hset
            | CPT_INPUT_STATE => simp only; rw [handle_input_state_latch]; exact hset
            | CPT_PREDICTION_ERROR_CORRECTION => exact absurd hpt hne
            | CPT_ACKNOWLEDGED_GAME_STATE_RECEPTION => exact hset
          | server t => exact hset
          | other raw => exact hset
        · rw [if_neg h3]; exact hset
      · rw [if_neg h2]; exact hset
    · rw [if_neg h1]; exact hset

theorem prediction_error_correction_clears_latch_witness :
    (get_client (handle_datagram example_wire_format latched_server
      (example_datagram (packet_type_t.client
        client_packet_type_t.CPT_PREDICTION_ERROR_CORRECTION))) 0).needs_to_acknowledge_prediction_error
      = false ∧
    (get_client (handle_datagram example_wire_format latched_server
      (example_datagram (packet_type_t.client
        client_packet_type_t.CPT_PREDICTION_ERROR_CORRECTION))) 0).previous_client_tick = 9 :=
  ⟨(prediction_error_correction_clears_latch example_wire_format latched_server
      (example_datagram (packet_type_t.client
        client_packet_type_t.CPT_PREDICTION_ERROR_CORRECTION))
      (by decide) (by decide) rfl rfl).1,
   (prediction_error_correction_clears_latch example_wire_format latched_server
      (example_datagram (packet_type_t.client
        client_packet_type_t.CPT_PREDICTION_ERROR_CORRECTION))
      (by decide) (by decide) rfl rfl).2.1⟩

/-- The own entry of a recipient without a voxel mismatch: its flag
`need_to_do_correction` is the float32 comparison of the reported state with the
state of the server, and the flag entails the latch. -/
theorem own_entry_correction_spec (fmt : wire_format) (s : server_t)
    (voxel_packet : game_snapshot_voxel_delta_packet_t) (k : Nat)
    (hk : k < s.network_state.client_count)
    (hr : (get_client s k).received_input_commands = true)
    (hno : ¬ has_voxel_mismatch s.voxel_chunks (get_client s k)) :
    ∀ s', dispatch_snapshot_to_clients fmt s voxel_packet = some s' →
      ∃ (msgs : List sent_message_t) (msg : sent_message_t)
        (e : game_snapshot_player_state_packet_t),
        s'.sent = s.sent ++ msgs ∧ msgs[recipients_before s k]? = some msg ∧
        msg.address = (get_client s k).network_address ∧
        msg.player_states[k]? = some e ∧
        (e.need_to_do_correction = true ↔
          (|round_float32 ((get_client s k).previous_received_player_state.ws_position.x -
              (get_player s (get_client s k).player_handle).ws_p.x)| > 13421773 / 134217728 ∨
            |round_float32 ((get_client s k).previous_received_player_state.ws_position.y -
              (get_player s (get_client s k).player_handle).ws_p.y)| > 13421773 / 134217728 ∨
            |round_float32 ((get_client s k).previous_received_player_state.ws_position.z -
              (get_player s (get_client s k).player_handle).ws_p.z)| > 13421773 / 134217728) ∨
          (|round_float32 ((get_client s k).previous_received_player_state.ws_direction.x -
              (get_player s (get_client s k).player_handle).ws_d.x)| > 13421773 / 134217728 ∨
            |round_float32 ((get_client s k).previous_received_player_state.ws_direction.y -
              (get_player s (get_client s k).player_handle).ws_d.y)| > 13421773 / 134217728 ∨
            |round_float32 ((get_client s k).previous_received_player_state.ws_direction.z -
              (get_player s (get_client s k).player_handle).ws_d.z)| > 13421773 / 134217728)) ∧
        (e.need_to_do_correction = true →
          (get_client s' k).needs_to_acknowledge_prediction_error = true) := by
  intro s' h
  obtain ⟨msgs, m1, _, m3⟩ := dispatch_snapshot_to_clients_spec h
  obtain ⟨msg, g1, e, force, o1, o2, o3, _, o5, _, o7⟩ := m3 k hk hr
  obtain ⟨q1, _, q3, q4⟩ := prepared_player_snapshots_spec s hk
  have hforce : force = false := by
    cases force
    · rfl
    · exact absurd (o3.mp rfl) hno
  subst hforce
  rw [q1, q3, q4] at o5
  rw [q3, q4] at o7
  simp only [Bool.or_false, Bool.false_or] at o5 o7
  refine ⟨msgs, msg, e, m1, g1, o1, o2, ?_, ?_⟩
  · rw [o5, Bool.or_eq_true, is_different_iff, is_different_iff]
  · intro he
    rw [o7, ← o5, he, Bool.or_true]

/-- C2 (amended): in `dispatch_snapshot_to_clients`, for a recipient `k` none of
whose reported voxels mismatches the server, the flag `need_to_do_correction` of
its own entry in its snapshot is set if and only if some component of the
float32 difference `reported position − server position` or
`reported direction − server direction` has an absolute value strictly greater
than the float32 constant `0.1f = 13421773/2^27`, and whenever the flag is set
the latch `needs_to_acknowledge_prediction_error` of the client is set after the
dispatch.  The dispatch is defined when the voxels reported by the recipients
can be read from the grid. -/
theorem snapshot_requests_correction_iff_float32_difference_exceeds_precision
    (fmt : wire_format) (s : server_t)
    (voxel_packet : game_snapshot_voxel_delta_packet_t) (k : Nat)
    (hk : k < s.network_state.client_count)
    (hr : (get_client s k).received_input_commands = true)
    (hno : ¬ has_voxel_mismatch s.voxel_chunks (get_client s k)) :
    ((∀ j, j < s.network_state.client_count →
        (get_client s j).received_input_commands = true →
        reported_voxels_readable s.voxel_chunks (get_client s j)) →
      ∃ s', dispatch_snapshot_to_clients fmt s voxel_packet = some s') ∧
    ∀ s', dispatch_snapshot_to_clients fmt s voxel_packet = some s' →
      ∃ (msgs : List sent_message_t) (msg : sent_message_t)
        (e : game_snapshot_player_state_packet_t),
        s'.sent = s.sent ++ msgs ∧ msgs[recipients_before s k]? = some msg ∧
        msg.address = (get_client s k).network_address ∧
        msg.player_states[k]? = some e ∧
        (e.need_to_do_correction = true ↔
          (|round_float32 ((get_client s k).previous_received_player_state.ws_position.x -
              (get_player s (get_client s k).player_handle).ws_p.x)| > 13421773 / 134217728 ∨
            |round_float32 ((get_client s k).previous_received_player_state.ws_position.y -
              (get_player s (get_client s k).player_handle).ws_p.y)| > 13421773 / 134217728 ∨
            |round_float32 ((get_client s k).previous_received_player_state.ws_position.z -
              (get_player s (get_client s k).player_handle).ws_p.z)| > 13421773 / 134217728) ∨
          (|round_float32 ((get_client s k).previous_received_player_state.ws_direction.x -
              (get_player s (get_client s k).player_handle).ws_d.x)| > 13421773 / 134217728 ∨
            |round_float32 ((get_client s k).previous_received_player_state.ws_direction.y -
              (get_player s (get_client s k).player_handle).ws_d.y)| > 13421773 / 134217728 ∨
            |round_float32 ((get_client s k).previous_received_player_state.ws_direction.z -
              (get_player s (get_client s k).player_handle).ws_d.z)| > 13421773 / 134217728)) ∧
        (e.need_to_do_correction = true →
          (get_client s' k).needs_to_acknowledge_prediction_error = true) :=
  ⟨dispatch_snapshot_to_clients_total fmt s voxel_packet,
    own_entry_correction_spec fmt s voxel_packet k hk hr hno⟩

theorem snapshot_requests_correction_iff_float32_difference_exceeds_precision_witness :
    (0 : Nat) < (one_client_server ⟨1, 0, 0⟩).network_state.client_count ∧
    (get_client (one_client_server ⟨1, 0, 0⟩) 0).received_input_commands = true ∧
    ¬ has_voxel_mismatch (one_client_server ⟨1, 0, 0⟩).voxel_chunks
      (get_client (one_client_server ⟨1, 0, 0⟩) 0) ∧
    (∃ s', dispatch_snapshot_to_clients example_wire_format (one_client_server ⟨1, 0, 0⟩)
        { modified_chunks := [] } = some s') ∧
    ∀ s', dispatch_snapshot_to_clients example_wire_format (one_client_server ⟨1, 0, 0⟩)
        { modified_chunks := [] } = some s' →
      ∃ (msgs : List sent_message_t) (msg : sent_message_t)
        (e : game_snapshot_player_state_packet_t),
        s'.sent = (one_client_server ⟨1, 0, 0⟩).sent ++ msgs ∧
        msgs[recipients_before (one_client_server ⟨1, 0, 0⟩) 0]? = some msg ∧
        msg.player_states[0]? = some e ∧
        (e.need_to_do_correction = true →
          (get_client s' 0).needs_to_acknowledge_prediction_error = true) := by
  have hk : (0 : Nat) < (one_client_server ⟨1, 0, 0⟩).network_state.client_count := by decide
  have hr : (get_client (one_client_server ⟨1, 0, 0⟩) 0).received_input_commands = true := rfl
  have hno : ¬ has_voxel_mismatch (one_client_server ⟨1, 0, 0⟩).voxel_chunks
      (get_client (one_client_server ⟨1, 0, 0⟩) 0) := by
    rintro ⟨chunk, hc, _⟩
    exact absurd hc (Nat.not_lt_zero chunk)
  refine ⟨hk, hr, hno, ?_, ?_⟩
  · apply (snapshot_requests_correction_iff_float32_difference_exceeds_precision
      example_wire_format (one_client_server ⟨1, 0, 0⟩) { modified_chunks := [] } 0 hk hr hno).1
    intro j _ _ chunk hc
    exact absurd hc (Nat.not_lt_zero chunk)
  · intro s' h
    obtain ⟨msgs, msg, e, a1, a2, _, a4, _, a6⟩ :=
      (snapshot_requests_correction_iff_float32_difference_exceeds_precision
        example_wire_format (one_client_server ⟨1, 0, 0⟩) { modified_chunks := [] } 0 hk hr
        hno).2 s' h
    exact ⟨msgs, msg, e, a1, a2, a4, a6⟩

/-- C2 (counterexample): the client reported the position `(0, 0, 0)` and the
player of the server is at `(0.1f, 0, 0)`, `0.1f = 13421773/2^27` being the
float32 nearest to `1/10`.  The difference `0.1f` is strictly greater than `0.1`,
yet the dispatch is defined and the own entry of the client carries
`need_to_do_correction = 0`, and the latch stays clear: the code compares with
the float32 constant `0.1f`, which the difference does not exceed. -/
theorem snapshot_correction_threshold_counterexample :
    |(get_client (one_client_server ⟨13421773 / 134217728, 0, 0⟩)
        0).previous_received_player_state.ws_position.x -
      (get_player (one_client_server ⟨13421773 / 134217728, 0, 0⟩)
        (get_client (one_client_server ⟨13421773 / 134217728, 0, 0⟩) 0).player_handle).ws_p.x| >
      1 / 10 ∧
    (∃ s', dispatch_snapshot_to_clients example_wire_format
        (one_client_server ⟨13421773 / 134217728, 0, 0⟩) { modified_chunks := [] } =
          some s') ∧
    ∀ s', dispatch_snapshot_to_clients example_wire_format
        (one_client_server ⟨13421773 / 134217728, 0, 0⟩) { modified_chunks := [] } = some s' →
      ∃ (msgs : List sent_message_t) (msg : sent_message_t)
        (e : game_snapshot_player_state_packet_t),
        s'.sent = (one_client_server ⟨13421773 / 134217728, 0, 0⟩).sent ++ msgs ∧
        msgs[recipients_before (one_client_server ⟨13421773 / 134217728, 0, 0⟩) 0]? =
          some msg ∧
        msg.player_states[0]? = some e ∧ e.need_to_do_correction = false := by
  have hk : (0 : Nat) <
      (one_client_server ⟨13421773 / 134217728, 0, 0⟩).network_state.client_count := by decide
  have hr : (get_client (one_client_server ⟨13421773 / 134217728, 0, 0⟩)
      0).received_input_commands = true := rfl
  have hno : ¬ has_voxel_mismatch
      (one_client_server ⟨13421773 / 134217728, 0, 0⟩).voxel_chunks
      (get_client (one_client_server ⟨13421773 / 134217728, 0, 0⟩) 0) := by
    rintro ⟨chunk, hc, _⟩
    exact absurd hc (Nat.not_lt_zero chunk)
  have hfix : round_float32 (13421773 / 134217728) = 13421773 / 134217728 := by
    have := round_float32_idem (1 / 10)
    rw [round_float32_one_tenth] at this
    exact this
  have hrep : (get_client (one_client_server ⟨13421773 / 134217728, 0, 0⟩)
      0).previous_received_player_state = player_state_t.zero := rfl
  have hpl : (get_player (one_client_server ⟨13421773 / 134217728, 0, 0⟩)
      (get_client (one_client_server ⟨13421773 / 134217728, 0, 0⟩) 0).player_handle).ws_p =
      ⟨13421773 / 134217728, 0, 0⟩ := rfl
  have hpd : (get_player (one_client_server ⟨13421773 / 134217728, 0, 0⟩)
      (get_client (one_client_server ⟨13421773 / 134217728, 0, 0⟩) 0).player_handle).ws_d =
      ⟨0, 0, 0⟩ := rfl
  refine ⟨?_, ?_, ?_⟩
  · rw [hrep, hpl]
    norm_num [player_state_t.zero, vector3_t.zero, abs_of_pos]
  · apply dispatch_snapshot_to_clients_total
    intro j _ _ chunk hc
    exact absurd hc (Nat.not_lt_zero chunk)
  · intro s' h
    obtain ⟨msgs, msg, e, a1, a2, _, a4, a5, _⟩ :=
      own_entry_correction_spec example_wire_format
        (one_client_server ⟨13421773 / 134217728, 0, 0⟩) { modified_chunks := [] } 0 hk hr hno
        s' h
    refine ⟨msgs, msg, e, a1, a2, a4, ?_⟩
    cases he : e.need_to_do_correction with
    | false => rfl
    | true =>
      exfalso
      have hc := a5.mp he
      rw [hrep, hpl, hpd] at hc
      simp only [player_state_t.zero, vector3_t.zero, zero_sub, sub_zero, round_float32_neg,
        hfix, round_float32_zero, abs_neg, abs_zero] at hc
      rw [abs_of_pos (by norm_num)] at hc
      norm_num at hc

/-- C4: in `dispatch_snapshot_to_clients`, if at least one voxel reported by a
recipient differs from the voxel of the server at that position, the recipient's
own entry in its snapshot has `need_to_do_voxel_correction` and
`need_to_do_correction` set and the latch
`needs_to_acknowledge_prediction_error` of the client is set; if no reported
voxel differs, `need_to_do_voxel_correction` is not set.  The dispatch is
defined when the voxels reported by the recipients can be read from the grid. -/
theorem voxel_mismatch_forces_correction (fmt : wire_format) (s : server_t)
    (voxel_packet : game_snapshot_voxel_delta_packet_t) (k : Nat)
    (hk : k < s.network_state.client_count)
    (hr : (get_client s k).received_input_commands = true) :
    ((∀ j, j < s.network_state.client_count →
        (get_client s j).received_input_commands = true →
        reported_voxels_readable s.voxel_chunks (get_client s j)) →
      ∃ s', dispatch_snapshot_to_clients fmt s voxel_packet = some s') ∧
    ∀ s', dispatch_snapshot_to_clients fmt s voxel_packet = some s' →
      ∃ (msgs : List sent_message_t) (msg : sent_message_t)
        (e : game_snapshot_player_state_packet_t),
        s'.sent = s.sent ++ msgs ∧ msgs[recipients_before s k]? = some msg ∧
        msg.address = (get_client s k).network_address ∧
        msg.player_states[k]? = some e ∧
        (has_voxel_mismatch s.voxel_chunks (get_client s k) →
          e.need_to_do_voxel_correction = true ∧ e.need_to_do_correction = true ∧
          (get_client s' k).needs_to_acknowledge_prediction_error = true) ∧
        (¬ has_voxel_mismatch s.voxel_chunks (get_client s k) →
          e.need_to_do_voxel_correction = false) := by
  refine ⟨dispatch_snapshot_to_clients_total fmt s voxel_packet, ?_⟩
  intro s' h
  obtain ⟨msgs, m1, _, m3⟩ := dispatch_snapshot_to_clients_spec h
  obtain ⟨msg, g1, e, force, o1, o2, o3, o4, o5, _, o7⟩ := m3 k hk hr
  obtain ⟨q1, q2, _, _⟩ := prepared_player_snapshots_spec s hk
  rw [q2] at o4
  rw [q1] at o5
  refine ⟨msgs, msg, e, m1, g1, o1, o2, ?_, ?_⟩
  · intro hm
    have hf : force = true := o3.mpr hm
    subst hf
    refine ⟨?_, ?_, ?_⟩
    · rw [o4]; rfl
    · rw [o5]; rfl
    · rw [o7]; simp
  · intro hm
    have hf : force = false := by
      cases force
      · rfl
      · exact absurd (o3.mp rfl) hm
    subst hf
    rw [o4]; rfl

theorem voxel_mismatch_forces_correction_witness :
    (0 : Nat) < (reporting_server 200).network_state.client_count ∧
    (get_client (reporting_server 200) 0).received_input_commands = true ∧
    ∃ s', dispatch_snapshot_to_clients example_wire_format (reporting_server 200)
        { modified_chunks := [] } = some s' := by
  have hk : (0 : Nat) < (reporting_server 200).network_state.client_count := by decide
  have hr : (get_client (reporting_server 200) 0).received_input_commands = true := rfl
  refine ⟨hk, hr, ?_⟩
  apply (voxel_mismatch_forces_correction example_wire_format (reporting_server 200)
    { modified_chunks := [] } 0 hk hr).1
  intro j _ _ chunk _ voxel _
  simp [reporting_server, get_client, actual_voxel_value, get_voxel_chunk, solid_grid]

/-- C3 (evaluation at the failing input): the server holds density 255 at voxel
`(0, 0, 0)` of chunk 0.  For a client that reported the value 200 there (a wrong
prediction) the snapshot carries the bytes `0, 0, 0, 255`, and for a client that
reported 255 (a correct prediction) it carries the same bytes: the authoritative
value 255 is serialized as the byte that also marks a correct prediction. -/
theorem snapshot_value_byte_collides_with_sentinel :
    actual_voxel_value solid_grid 0 ⟨0, 0, 0, 200⟩ = some 255 ∧
    (dispatch_snapshot_to_clients example_wire_format (reporting_server 200)
        { modified_chunks := [] }).map
      (fun s' => s'.sent.map sent_message_t.uint8_values) = some [[0, 0, 0, 255]] ∧
    (dispatch_snapshot_to_clients example_wire_format (reporting_server 255)
        { modified_chunks := [] }).map
      (fun s' => s'.sent.map sent_message_t.uint8_values) = some [[0, 0, 0, 255]] := by
  have hv : ∀ value, actual_voxel_value solid_grid 0 ⟨0, 0, 0, value⟩ = some 255 := by
    intro value
    simp [actual_voxel_value, get_voxel_chunk, solid_grid, solid_chunk]
  refine ⟨hv 200, ?_, ?_⟩
  · norm_num [dispatch_snapshot_to_clients, dispatch_snapshot_to_client, reporting_server,
      example_server, get_client, get_player, List.range_succ, serialize_client_chunk,
      serialize_client_voxel, hv, client_t.zero, force_voxel_correction,
      serialize_player_snapshot, send_client_snapshot, send_serialized_message,
      sent_message_t.uint8_values, serializer_t.write, set_client, set_player,
      correct_own_snapshot, prepared_player_snapshots, prepare_player_snapshot, player_t.zero,
      player_state_t.zero, vector3_t.zero, is_different, round_float32_zero, round_float32_one_tenth,
      game_snapshot_player_state_packet_t.zero]
    rfl
  · norm_num [dispatch_snapshot_to_clients, dispatch_snapshot_to_client, reporting_server,
      example_server, get_client, get_player, List.range_succ, serialize_client_chunk,
      serialize_client_voxel, hv, client_t.zero, force_voxel_correction,
      serialize_player_snapshot, send_client_snapshot, send_serialized_message,
      sent_message_t.uint8_values, serializer_t.write, set_client, set_player,
      correct_own_snapshot, prepared_player_snapshots, prepare_player_snapshot, player_t.zero,
      player_state_t.zero, vector3_t.zero, is_different, round_float32_zero, round_float32_one_tenth,
      game_snapshot_player_state_packet_t.zero]
    rfl

/-- C8 (evaluation at the failing input): for a hard update of 8 chunks, whatever
the byte sizes of the header and of a serialized chunk,
`send_chunks_hard_update_packets` sends one datagram whose header declares
`sizeof_packet_header + 4 + 16³·8` bytes while
`sizeof_packet_header + 4 + 4 + 8·(bytes of a chunk)` bytes are serialized, and
the two differ.  With the 16-byte header the `CLIENT_JOINED` datagram declares 0
bytes and has 46, and the snapshot of a single client that reported no voxel
declares 99 bytes and has 103. -/
theorem declared_size_differs_from_bytes_sent (fmt : wire_format) (s : server_t)
    (address : network_address_t) (arr : Nat → voxel_chunk_values_packet_t) :
    (∃ m, (send_chunks_hard_update_packets_of fmt s address arr 8).sent = s.sent ++ [m] ∧
      m.declared_size = some (fmt.sizeof_packet_header + 4 + 16 * 16 * 16 * 8) ∧
      m.bytes fmt = fmt.sizeof_packet_header + 4 + 4 + 8 * fmt.voxel_chunk_values_bytes ∧
      m.declared_size ≠ some (m.bytes fmt)) ∧
    (dispatch_newcoming_client_to_clients (one_client_server ⟨0, 0, 0⟩) 0).sent.map
      (fun m => (m.declared_size, m.bytes example_wire_format)) = [(some 0, 46)] ∧
    (dispatch_snapshot_to_clients example_wire_format (one_client_server ⟨0, 0, 0⟩)
        { modified_chunks := [] }).map
      (fun s' => s'.sent.map fun m => (m.declared_size, m.bytes example_wire_format)) =
      some [(some 99, 103)] := by
  refine ⟨?_, ?_, ?_⟩
  · refine ⟨(⟨address, hard_update_items
        ⟨packet_mode_t.PM_SERVER_MODE,
          packet_type_t.server server_packet_type_t.SPT_CHUNK_VOXELS_HARD_UPDATE,
          fmt.sizeof_packet_header + 4 + 1 * 16 * 16 * 16 * 8, s.current_tick, 0⟩
        ⟨true, 8⟩ (fun chunk => arr (0 * 8 + chunk)) 8⟩ : sent_message_t), ?_, ?_, ?_, ?_⟩
    · rw [send_chunks_hard_update_packets_of_sent]
      simp [hard_update_messages, List.range_succ]
    · simp [sent_message_t.declared_size, hard_update_items]
    · simp [sent_message_t.bytes, hard_update_items, wire_item.bytes, List.range_succ]
      ring
    · simp [sent_message_t.declared_size, sent_message_t.bytes, hard_update_items,
        wire_item.bytes, List.range_succ]
      omega
  · simp [dispatch_newcoming_client_to_clients, one_client_server, example_server,
      List.range_succ, send_serialized_message, sent_message_t.declared_size,
      sent_message_t.bytes, wire_item.bytes, example_wire_format]
  · norm_num [dispatch_snapshot_to_clients, dispatch_snapshot_to_client, one_client_server,
      example_server, get_client, get_player, List.range_succ, serialize_client_chunk,
      serialize_client_voxel, client_t.zero, force_voxel_correction,
      serialize_player_snapshot, send_client_snapshot, send_serialized_message,
      sent_message_t.declared_size, sent_message_t.bytes, wire_item.bytes, serializer_t.write,
      set_client, set_player, correct_own_snapshot, prepared_player_snapshots,
      prepare_player_snapshot, player_t.zero, player_state_t.zero, vector3_t.zero, is_different, round_float32_zero, round_float32_one_tenth,
      game_snapshot_player_state_packet_t.zero, example_wire_format]

theorem ray_sample_zero (start dir : vector3_t) (step : ℚ) :
    ray_sample start dir step 0 = some start := rfl

theorem ray_sample_succ {start dir : vector3_t} {step : ℚ} {k : Nat} {p : vector3_t}
    (h : ray_sample start dir step k = some p) :
    ray_sample start dir step (k + 1) = ray_next dir step p := by
  rw [ray_sample, h]
  rfl

theorem ray_outcome_ne_out_of_fuel (g : voxel_chunks_t) (p : vector3_t) (b : Option Bool)
    (dt : ℚ) (S : Nat) (destructive : Bool) :
    ray_outcome g p b dt S destructive ≠ run_result.out_of_fuel := by
  unfold ray_outcome
  split
  · simp
  · simp
  · split
    · unfold run_result.of_option
      split <;> simp
    · simp

/-- One evaluation of the condition of the loop of `ray_cast_terraform`. -/
theorem ray_cast_terraform_loop_succ (g : voxel_chunks_t) (start dir : vector3_t)
    (step reach2 dt : ℚ) (S : Nat) (destructive : Bool) (fuel : Nat) (q : vector3_t) :
    ray_cast_terraform_loop g start dir step reach2 dt S destructive (fuel + 1) q =
      match ray_distance_squared start q with
      | none => run_result.undefined
      | some distance_squared =>
        if distance_squared < reach2 then
          match ray_hits g q S with
          | none => run_result.undefined
          | some true => run_result.of_option (terraform g q.to_ivector3 2 destructive dt)
          | some false =>
            match ray_next dir step q with
            | none => run_result.undefined
            | some next_ray_position =>
              ray_cast_terraform_loop g start dir step reach2 dt S destructive fuel
                next_ray_position
        else run_result.done g := rfl

theorem ray_in_reach_eq_some_true {start p : vector3_t} {reach2 : ℚ}
    (h : ray_in_reach start reach2 p = some true) :
    ∃ d, ray_distance_squared start p = some d ∧ d < reach2 := by
  unfold ray_in_reach at h
  cases hd : ray_distance_squared start p with
  | none => rw [hd] at h; exact absurd h (by simp)
  | some d =>
    rw [hd] at h
    simp only [Option.map_some', Option.some.injEq, decide_eq_true_eq] at h
    exact ⟨d, rfl, h⟩

/-- The loop at sample `i` with enough fuel moves on to sample `i + j` when the
samples `i, ..., i + j - 1` are within reach and are not hits. -/
theorem ray_cast_terraform_loop_skip (g : voxel_chunks_t) (start dir : vector3_t)
    (step reach2 dt : ℚ) (S : Nat) (destructive : Bool) (p : Nat → vector3_t) :
    ∀ (j i m : Nat),
      (∀ k, i ≤ k → k ≤ i + j → ray_sample start dir step k = some (p k)) →
      (∀ k, i ≤ k → k < i + j → ray_in_reach start reach2 (p k) = some true ∧
        ray_hits g (p k) S = some false) →
      ray_cast_terraform_loop g start dir step reach2 dt S destructive (j + m) (p i) =
        ray_cast_terraform_loop g start dir step reach2 dt S destructive m (p (i + j)) := by
  intro j
  induction j with
  | zero => intro i m _ _; simp
  | succ j ih =>
    intro i m hp h
    obtain ⟨h1, h2⟩ := h i (le_refl _) (by omega)
    obtain ⟨d, hd, hlt⟩ := ray_in_reach_eq_some_true h1
    have hnext : ray_next dir step (p i) = some (p (i + 1)) := by
      rw [← ray_sample_succ (hp i (le_refl _) (by omega))]
      exact hp (i + 1) (by omega) (by omega)
    have e : j + 1 + m = (j + m) + 1 := by omega
    rw [e, ray_cast_terraform_loop_succ, hd]
    simp only
    rw [if_pos hlt, h2]
    simp only
    rw [hnext]
    simp only
    rw [ih (i + 1) m (fun k hk1 hk2 => hp k (by omega) (by omega))
      (fun k hk1 hk2 => h k (by omega) (by omega))]
    congr 2
    omega

theorem ray_cast_terraform_loop_stop (g : voxel_chunks_t) (start dir : vector3_t)
    (step reach2 dt : ℚ) (S : Nat) (destructive : Bool) (q : vector3_t) (m : Nat)
    (h : ray_in_reach start reach2 q ≠ some true ∨ ray_hits g q S ≠ some false) :
    ray_cast_terraform_loop g start dir step reach2 dt S destructive (m + 1) q =
      ray_outcome g q (ray_in_reach start reach2 q) dt S destructive := by
  rw [ray_cast_terraform_loop_succ]
  unfold ray_outcome ray_in_reach
  cases hd : ray_distance_squared start q with
  | none => rfl
  | some d =>
    simp only [Option.map_some']
    by_cases hlt : d < reach2
    · rw [if_pos hlt]
      have hdec : decide (d < reach2) = true := decide_eq_true hlt
      rw [hdec]
      simp only
      have hr : ray_in_reach start reach2 q = some true := by
        unfold ray_in_reach
        rw [hd]
        simp only [Option.map_some', hdec]
      rcases h with h | h
      · exact absurd hr h
      · cases hh : ray_hits g q S with
        | none => rfl
        | some b =>
          cases b with
          | true => rfl
          | false => exact absurd hh h
    · rw [if_neg hlt]
      have hdec : decide (d < reach2) = false := decide_eq_false hlt
      rw [hdec]

/-- The loop of `ray_cast_terraform` started at the ray origin stops at the first
sample that is out of reach or is not a plain miss. -/
theorem ray_cast_terraform_loop_spec (g : voxel_chunks_t) (start dir : vector3_t)
    (step reach2 dt : ℚ) (S : Nat) (destructive : Bool) (n fuel : Nat) (hf : n < fuel)
    (p : Nat → vector3_t)
    (hp : ∀ k, k ≤ n → ray_sample start dir step k = some (p k))
    (hskip : ∀ k, k < n → ray_in_reach start reach2 (p k) = some true ∧
      ray_hits g (p k) S = some false)
    (hstop : ray_in_reach start reach2 (p n) ≠ some true ∨ ray_hits g (p n) S ≠ some false) :
    ray_cast_terraform_loop g start dir step reach2 dt S destructive fuel start =
      ray_outcome g (p n) (ray_in_reach start reach2 (p n)) dt S destructive := by
  obtain ⟨m, rfl⟩ : ∃ m, fuel = n + (m + 1) := ⟨fuel - n - 1, by omega⟩
  have hp0 : p 0 = start := by
    have := hp 0 (Nat.zero_le _)
    rw [ray_sample_zero] at this
    exact (Option.some.inj this).symm
  have h0 := ray_cast_terraform_loop_skip g start dir step reach2 dt S destructive p n 0 (m + 1)
    (fun k _ hk => hp k (by omega)) (fun k _ hk => hskip k (by omega))
  rw [hp0, Nat.zero_add] at h0
  rw [h0]
  exact ray_cast_terraform_loop_stop g start dir step reach2 dt S destructive (p n) m hstop

/-- While the samples are within reach and are not hits, the loop has not ended:
`j` evaluations of its condition do not suffice. -/
theorem ray_cast_terraform_loop_out_of_fuel (g : voxel_chunks_t) (start dir : vector3_t)
    (step reach2 dt : ℚ) (S : Nat) (destructive : Bool) (j : Nat) (p : Nat → vector3_t)
    (hp : ∀ k, k ≤ j → ray_sample start dir step k = some (p k))
    (hskip : ∀ k, k < j → ray_in_reach start reach2 (p k) = some true ∧
      ray_hits g (p k) S = some false) :
    ray_cast_terraform_loop g start dir step reach2 dt S destructive j start =
      run_result.out_of_fuel := by
  have hp0 : p 0 = start := by
    have := hp 0 (Nat.zero_le _)
    rw [ray_sample_zero] at this
    exact (Option.some.inj this).symm
  have h0 := ray_cast_terraform_loop_skip g start dir step reach2 dt S destructive p j 0 0
    (fun k _ hk => hp k (by omega)) (fun k _ hk => hskip k (by omega))
  rw [hp0, Nat.zero_add, Nat.add_zero] at h0
  rw [h0]
  rfl

theorem get_chunk_encompassing_point_rounded (g : voxel_chunks_t) (p : vector3_t) :
    get_chunk_encompassing_point g p =
      get_chunk_encompassing_point g (rounded_position p).to_vector3 := by
  simp only [get_chunk_encompassing_point, rounded_position, ivector3_t.to_vector3,
    glm_round_intCast]

/-- A position at which the test of `ray_cast_terraform` succeeds rounds to a
voxel of the grid, and the density tested is the density of that voxel. -/
theorem ray_hits_eq_some_true {g : voxel_chunks_t} {p : vector3_t}
    {S : Nat} (h : ray_hits g p S = some true) :
    in_grid g (rounded_position p) ∧
      ∃ v, voxel_at g (rounded_position p) = some v ∧ S < v := by
  unfold ray_hits at h
  rw [get_chunk_encompassing_point_rounded] at h
  cases hq : get_chunk_encompassing_point g (rounded_position p).to_vector3 with
  | none => rw [hq] at h; simp at h
  | some chunk =>
    rw [hq] at h
    obtain ⟨kx, ky, kz, hx, hy, hz, e1, e2, e3, hchunk, c, hc⟩ :=
      get_chunk_encompassing_point_eq_some hq
    simp only [hc] at h
    by_cases hin : is_voxel_coord_within_chunk (get_voxel_coord p) = true
    · rw [if_pos hin] at h
      simp only [Option.some.injEq, decide_eq_true_eq] at h
      unfold is_voxel_coord_within_chunk get_voxel_coord VOXEL_CHUNK_EDGE_LENGTH at hin
      simp only [decide_eq_true_eq, Nat.cast_ofNat] at hin
      obtain ⟨i1, i2, i3, i4, i5, i6⟩ := hin
      have dx := Int.tdiv_add_tmod (glm_round p.x) 16
      have dy := Int.tdiv_add_tmod (glm_round p.y) 16
      have dz := Int.tdiv_add_tmod (glm_round p.z) 16
      simp only [rounded_position] at e1 e2 e3
      rw [e1] at dx
      rw [e2] at dy
      rw [e3] at dz
      have hpx : rounded_position p =
          ⟨16 * (kx : Int) + (((glm_round p.x).tmod 16).toNat : Nat),
           16 * (ky : Int) + (((glm_round p.y).tmod 16).toNat : Nat),
           16 * (kz : Int) + (((glm_round p.z).tmod 16).toNat : Nat)⟩ := by
        unfold rounded_position
        congr 1 <;> omega
      have hlx : ((glm_round p.x).tmod 16).toNat < 16 := by omega
      have hly : ((glm_round p.y).tmod 16).toNat < 16 := by omega
      have hlz : ((glm_round p.z).tmod 16).toNat < 16 := by omega
      constructor
      · rw [hpx]
        unfold in_grid
        simp only
        omega
      · rw [hpx, voxel_at_decomposed g hx hy hz hlx hly hlz, ← hchunk, hc]
        refine ⟨_, rfl, ?_⟩
        simp only [get_voxel_coord, VOXEL_CHUNK_EDGE_LENGTH, Nat.cast_ofNat] at h
        exact h
    · rw [if_neg hin] at h
      simp at h

theorem dist_sq_self (t : ivector3_t) : dist_sq t t = 0 := by
  unfold dist_sq
  ring

theorem float32_of_round {q r : ℚ} (h : round_float32 q = r) (hb : |r| < 2 ^ 128) :
    float32 q = some r := by
  unfold float32
  rw [h, if_pos hb]

theorem float32_eight : float32 8 = some 8 := by
  have := float32_intCast 8 (by norm_num)
  simpa using this

theorem float32_add_eq_some {a b : vector3_t} {x y z : ℚ} (hx : float32 (a.x + b.x) = some x)
    (hy : float32 (a.y + b.y) = some y) (hz : float32 (a.z + b.z) = some z) :
    a.float32_add b = some ⟨x, y, z⟩ := by
  unfold vector3_t.float32_add
  rw [hx, hy, hz]

theorem float32_sub_eq_some {a b : vector3_t} {x y z : ℚ} (hx : float32 (a.x - b.x) = some x)
    (hy : float32 (a.y - b.y) = some y) (hz : float32 (a.z - b.z) = some z) :
    a.float32_sub b = some ⟨x, y, z⟩ := by
  unfold vector3_t.float32_sub
  rw [hx, hy, hz]

theorem float32_scale_eq_some {v : vector3_t} {s x y z : ℚ} (hx : float32 (s * v.x) = some x)
    (hy : float32 (s * v.y) = some y) (hz : float32 (s * v.z) = some z) :
    v.float32_scale s = some ⟨x, y, z⟩ := by
  unfold vector3_t.float32_scale
  rw [hx, hy, hz]

theorem float32_div_scalar_eq_some {v : vector3_t} {s x y z : ℚ}
    (hx : float32_div v.x s = some x) (hy : float32_div v.y s = some y)
    (hz : float32_div v.z s = some z) :
    v.float32_div_scalar s = some ⟨x, y, z⟩ := by
  unfold vector3_t.float32_div_scalar
  rw [hx, hy, hz]

theorem float32_dot_eq_some {a b : vector3_t} {x y z s r : ℚ} (hx : float32 (a.x * b.x) = some x)
    (hy : float32 (a.y * b.y) = some y) (hz : float32 (a.z * b.z) = some z)
    (hs : float32 (x + y) = some s) (hr : float32 (s + z) = some r) :
    a.float32_dot b = some r := by
  unfold vector3_t.float32_dot
  rw [hx, hy, hz]
  simp only
  rw [hs, Option.some_bind, hr]

/-- The increment of a ray along the first axis at height and depth 8. -/
theorem ray_next_axis {x x' step : ℚ} (hs : round_float32 step = step) (hsb : |step| < 2 ^ 128)
    (hx : round_float32 (x + step) = x') (hxb : |x'| < 2 ^ 128) :
    ray_next ⟨1, 0, 0⟩ step ⟨x, 8, 8⟩ = some ⟨x', 8, 8⟩ := by
  have h1 : (vector3_t.mk 1 0 0).float32_scale step = some ⟨step, 0, 0⟩ :=
    float32_scale_eq_some (by rw [mul_one]; exact float32_of_round hs hsb)
      (by rw [mul_zero]; exact float32_zero) (by rw [mul_zero]; exact float32_zero)
  have h2 : (vector3_t.mk x 8 8).float32_add ⟨step, 0, 0⟩ = some ⟨x', 8, 8⟩ :=
    float32_add_eq_some (float32_of_round hx hxb) (by rw [add_zero]; exact float32_eight)
      (by rw [add_zero]; exact float32_eight)
  unfold ray_next
  rw [h1, Option.some_bind, h2]

/-- The squared distance from the start of a ray along the first axis. -/
theorem ray_distance_squared_axis {s x d dd : ℚ} (hd : round_float32 (x - s) = d)
    (hdb : |d| < 2 ^ 128) (hdd : round_float32 (d * d) = dd) (hddb : |dd| < 2 ^ 128) :
    ray_distance_squared ⟨s, 8, 8⟩ ⟨x, 8, 8⟩ = some dd := by
  have hfix : round_float32 dd = dd := by rw [← hdd, round_float32_idem]
  have h1 : (vector3_t.mk x 8 8).float32_sub ⟨s, 8, 8⟩ = some ⟨d, 0, 0⟩ :=
    float32_sub_eq_some (float32_of_round hd hdb) (by rw [sub_self]; exact float32_zero)
      (by rw [sub_self]; exact float32_zero)
  have h2 : (vector3_t.mk d 0 0).float32_dot ⟨d, 0, 0⟩ = some dd :=
    float32_dot_eq_some (float32_of_round hdd hddb) (by rw [mul_zero]; exact float32_zero)
      (by rw [mul_zero]; exact float32_zero)
      (by rw [add_zero]; exact float32_of_round hfix hddb)
      (by rw [add_zero]; exact float32_of_round hfix hddb)
  unfold ray_distance_squared
  rw [h1, Option.some_bind, h2]

theorem ray_in_reach_axis {s x d dd reach2 : ℚ} (hd : round_float32 (x - s) = d)
    (hdb : |d| < 2 ^ 128) (hdd : round_float32 (d * d) = dd) (hddb : |dd| < 2 ^ 128) :
    ray_in_reach ⟨s, 8, 8⟩ reach2 ⟨x, 8, 8⟩ = some (decide (dd < reach2)) := by
  unfold ray_in_reach
  rw [ray_distance_squared_axis hd hdb hdd hddb]
  rfl

theorem get_voxel_world_origin_example :
    get_voxel_world_origin example_grid = some ⟨-72, -72, -72⟩ := by
  unfold get_voxel_world_origin
  have h1 : round_float32 ((example_grid.grid_edge_size : Nat) : ℚ) = 1 := by
    have : ((example_grid.grid_edge_size : Nat) : ℚ) = 1 := by simp [example_grid]
    rw [this, round_float32_one]
  have h2 : float32 (-72 : ℚ) = some (-72) := by
    have := float32_intCast (-72) (by norm_num)
    simpa using this
  have e : -((1 : ℚ) / 2) * ((VOXEL_CHUNK_EDGE_LENGTH : Nat) : ℚ) * example_grid.size = -72 := by
    simp only [VOXEL_CHUNK_EDGE_LENGTH, example_grid]
    norm_num
  rw [h1, e, h2]
  rfl

/-- In `example_grid` the world position `(w, 0, 0)` is the voxel-space position
`(x, 8, 8)`, `x` being the float32 quotient by 9 of the float32 sum `w + 72`. -/
theorem ws_to_xs_example_axis {w a x : ℚ} (ha : round_float32 (w + 72) = a)
    (hab : |a| < 2 ^ 128) (hx : round_float32 (a / 9) = x) (hxb : |x| < 2 ^ 128) :
    ws_to_xs example_grid ⟨w, 0, 0⟩ = some ⟨x, 8, 8⟩ := by
  have h72 : float32 (72 : ℚ) = some 72 := by
    have := float32_intCast 72 (by norm_num)
    simpa using this
  have hs : example_grid.size = 9 := rfl
  have h1 : (vector3_t.mk w 0 0).float32_sub ⟨-72, -72, -72⟩ = some ⟨a, 72, 72⟩ :=
    float32_sub_eq_some (by rw [sub_neg_eq_add]; exact float32_of_round ha hab)
      (by rw [sub_neg_eq_add, zero_add]; exact h72) (by rw [sub_neg_eq_add, zero_add]; exact h72)
  have e8 : (72 : ℚ) / 9 = 8 := by norm_num
  have h8 : float32_div 72 9 = some 8 := by
    unfold float32_div
    rw [if_neg (by norm_num), e8]
    exact float32_eight
  have h2 : (vector3_t.mk a 72 72).float32_div_scalar 9 = some ⟨x, 8, 8⟩ :=
    float32_div_scalar_eq_some
      (by unfold float32_div; rw [if_neg (by norm_num)]; exact float32_of_round hx hxb) h8 h8
  unfold ws_to_xs
  rw [get_voxel_world_origin_example]
  simp only
  rw [h1]
  simp only
  rw [hs, h2]

theorem ws_to_xs_example : ws_to_xs example_grid ⟨0, 0, 0⟩ = some ⟨8, 8, 8⟩ := by
  apply @ws_to_xs_example_axis 0 72 8
  · have := round_float32_intCast 72 (by norm_num)
    rw [zero_add]
    simpa using this
  · norm_num [abs_of_pos]
  · have := round_float32_intCast 8 (by norm_num)
    have e8 : (72 : ℚ) / 9 = 8 := by norm_num
    rw [e8]
    simpa using this
  · norm_num [abs_of_pos]

/-- The twelve positions of the ray from `(8, 8, 8)` along the first axis with the
float32 step `0.2f`: each is the float32 sum of the previous one and the step. -/
theorem example_ray_increments :
    round_float32 (8 + 13421773 / 67108864) = 8598323 / 1048576 ∧
    round_float32 (8598323 / 1048576 + 13421773 / 67108864) = 4404019 / 524288 ∧
    round_float32 (4404019 / 524288 + 13421773 / 67108864) = 9017753 / 1048576 ∧
    round_float32 (9017753 / 1048576 + 13421773 / 67108864) = 2306867 / 262144 ∧
    round_float32 (2306867 / 262144 + 13421773 / 67108864) = 9437183 / 1048576 ∧
    round_float32 (9437183 / 1048576 + 13421773 / 67108864) = 4823449 / 524288 ∧
    round_float32 (4823449 / 524288 + 13421773 / 67108864) = 9856613 / 1048576 ∧
    round_float32 (9856613 / 1048576 + 13421773 / 67108864) = 1258291 / 131072 ∧
    round_float32 (1258291 / 131072 + 13421773 / 67108864) = 10276043 / 1048576 ∧
    round_float32 (10276043 / 1048576 + 13421773 / 67108864) = 5242879 / 524288 ∧
    round_float32 (5242879 / 524288 + 13421773 / 67108864) = 10695473 / 1048576 := by
  have h0 : round_float32 (8 + 13421773 / 67108864) = 8598323 / 1048576 := by
    rw [round_float32_eq_of_pos (3) 8598323 (by norm_num) (by norm_num) (by norm_num)
      (by norm_num) (by norm_num)]
    norm_num
  have h1 : round_float32 (8598323 / 1048576 + 13421773 / 67108864) = 4404019 / 524288 := by
    rw [round_float32_eq_of_pos (3) 8808038 (by norm_num) (by norm_num) (by norm_num)
      (by norm_num) (by norm_num)]
    norm_num
  have h2 : round_float32 (4404019 / 524288 + 13421773 / 67108864) = 9017753 / 1048576 := by
    rw [round_float32_eq_of_pos (3) 9017753 (by norm_num) (by norm_num) (by norm_num)
      (by norm_num) (by norm_num)]
    norm_num
  have h3 : round_float32 (9017753 / 1048576 + 13421773 / 67108864) = 2306867 / 262144 := by
    rw [round_float32_eq_of_pos (3) 9227468 (by norm_num) (by norm_num) (by norm_num)
      (by norm_num) (by norm_num)]
    norm_num
  have h4 : round_float32 (2306867 / 262144 + 13421773 / 67108864) = 9437183 / 1048576 := by
    rw [round_float32_eq_of_pos (3) 9437183 (by norm_num) (by norm_num) (by norm_num)
      (by norm_num) (by norm_num)]
    norm_num
  have h5 : round_float32 (9437183 / 1048576 + 13421773 / 67108864) = 4823449 / 524288 := by
    rw [round_float32_eq_of_pos (3) 9646898 (by norm_num) (by norm_num) (by norm_num)
      (by norm_num) (by norm_num)]
    norm_num
  have h6 : round_float32 (4823449 / 524288 + 13421773 / 67108864) = 9856613 / 1048576 := by
    rw [round_float32_eq_of_pos (3) 9856613 (by norm_num) (by norm_num) (by norm_num)
      (by norm_num) (by norm_num)]
    norm_num
  have h7 : round_float32 (9856613 / 1048576 + 13421773 / 67108864) = 1258291 / 131072 := by
    rw [round_float32_eq_of_pos (3) 10066328 (by norm_num) (by norm_num) (by norm_num)
      (by norm_num) (by norm_num)]
    norm_num
  have h8 : round_float32 (1258291 / 131072 + 13421773 / 67108864) = 10276043 / 1048576 := by
    rw [round_float32_eq_of_pos (3) 10276043 (by norm_num) (by norm_num) (by norm_num)
      (by norm_num) (by norm_num)]
    norm_num
  have h9 : round_float32 (10276043 / 1048576 + 13421773 / 67108864) = 5242879 / 524288 := by
    rw [round_float32_eq_of_pos (3) 10485758 (by norm_num) (by norm_num) (by norm_num)
      (by norm_num) (by norm_num)]
    norm_num
  have h10 : round_float32 (5242879 / 524288 + 13421773 / 67108864) = 10695473 / 1048576 := by
    rw [round_float32_eq_of_pos (3) 10695473 (by norm_num) (by norm_num) (by norm_num)
      (by norm_num) (by norm_num)]
    norm_num
  exact ⟨h0, h1, h2, h3, h4, h5, h6, h7, h8, h9, h10⟩

/-- The float32 squared distances of these positions from the start. -/
theorem example_ray_distances :
    (round_float32 (8 - 8) = 0 ∧
      round_float32 ((0 : ℚ) * (0 : ℚ)) = 0) ∧
    (round_float32 (8598323 / 1048576 - 8) = 209715 / 1048576 ∧
      round_float32 ((209715 / 1048576 : ℚ) * (209715 / 1048576 : ℚ)) = 5368699 / 134217728) ∧
    (round_float32 (4404019 / 524288 - 8) = 209715 / 524288 ∧
      round_float32 ((209715 / 524288 : ℚ) * (209715 / 524288 : ℚ)) = 5368699 / 33554432) ∧
    (round_float32 (9017753 / 1048576 - 8) = 629145 / 1048576 ∧
      round_float32 ((629145 / 1048576 : ℚ) * (629145 / 1048576 : ℚ)) = 3019893 / 8388608) ∧
    (round_float32 (2306867 / 262144 - 8) = 209715 / 262144 ∧
      round_float32 ((209715 / 262144 : ℚ) * (209715 / 262144 : ℚ)) = 5368699 / 8388608) ∧
    (round_float32 (9437183 / 1048576 - 8) = 1048575 / 1048576 ∧
      round_float32 ((1048575 / 1048576 : ℚ) * (1048575 / 1048576 : ℚ)) = 524287 / 524288) ∧
    (round_float32 (4823449 / 524288 - 8) = 629145 / 524288 ∧
      round_float32 ((629145 / 524288 : ℚ) * (629145 / 524288 : ℚ)) = 3019893 / 2097152) ∧
    (round_float32 (9856613 / 1048576 - 8) = 1468005 / 1048576 ∧
      round_float32 ((1468005 / 1048576 : ℚ) * (1468005 / 1048576 : ℚ)) = 2055205 / 1048576) ∧
    (round_float32 (1258291 / 131072 - 8) = 209715 / 131072 ∧
      round_float32 ((209715 / 131072 : ℚ) * (209715 / 131072 : ℚ)) = 5368699 / 2097152) ∧
    (round_float32 (10276043 / 1048576 - 8) = 1887435 / 1048576 ∧
      round_float32 ((1887435 / 1048576 : ℚ) * (1887435 / 1048576 : ℚ)) = 13589519 / 4194304) ∧
    (round_float32 (5242879 / 524288 - 8) = 1048575 / 524288 ∧
      round_float32 ((1048575 / 524288 : ℚ) * (1048575 / 524288 : ℚ)) = 524287 / 131072) ∧
    (round_float32 (10695473 / 1048576 - 8) = 2306865 / 1048576 ∧
      round_float32 ((2306865 / 1048576 : ℚ) * (2306865 / 1048576 : ℚ)) = 2537549 / 524288) := by
  have hd0 : round_float32 (8 - 8) = 0 := by
    have e : (8 - 8 : ℚ) = 0 := by norm_num
    rw [e, round_float32_zero]
  have hdd0 : round_float32 ((0 : ℚ) * (0 : ℚ)) = 0 := by
    have e : ((0 : ℚ) * (0 : ℚ) : ℚ) = 0 := by norm_num
    rw [e, round_float32_zero]
  have hd1 : round_float32 (8598323 / 1048576 - 8) = 209715 / 1048576 := by
    rw [round_float32_eq_of_pos (-3) 13421760 (by norm_num) (by norm_num) (by norm_num)
      (by norm_num) (by norm_num)]
    norm_num
  have hdd1 : round_float32 ((209715 / 1048576 : ℚ) * (209715 / 1048576 : ℚ)) = 5368699 / 134217728 := by
    rw [round_float32_eq_of_pos (-5) 10737398 (by norm_num) (by norm_num) (by norm_num)
      (by norm_num) (by norm_num)]
    norm_num
  have hd2 : round_float32 (4404019 / 524288 - 8) = 209715 / 524288 := by
    rw [round_float32_eq_of_pos (-2) 13421760 (by norm_num) (by norm_num) (by norm_num)
      (by norm_num) (by norm_num)]
    norm_num
  have hdd2 : round_float32 ((209715 / 524288 : ℚ) * (209715 / 524288 : ℚ)) = 5368699 / 33554432 := by
    rw [round_float32_eq_of_pos (-3) 10737398 (by norm_num) (by norm_num) (by norm_num)
      (by norm_num) (by norm_num)]
    norm_num
  have hd3 : round_float32 (9017753 / 1048576 - 8) = 629145 / 1048576 := by
    rw [round_float32_eq_of_pos (-1) 10066320 (by norm_num) (by norm_num) (by norm_num)
      (by norm_num) (by norm_num)]
    norm_num
  have hdd3 : round_float32 ((629145 / 1048576 : ℚ) * (629145 / 1048576 : ℚ)) = 3019893 / 8388608 := by
    rw [round_float32_eq_of_pos (-2) 12079572 (by norm_num) (by norm_num) (by norm_num)
      (by norm_num) (by norm_num)]
    norm_num
  have hd4 : round_float32 (2306867 / 262144 - 8) = 209715 / 262144 := by
    rw [round_float32_eq_of_pos (-1) 13421760 (by norm_num) (by norm_num) (by norm_num)
      (by norm_num) (by norm_num)]
    norm_num
  have hdd4 : round_float32 ((209715 / 262144 : ℚ) * (209715 / 262144 : ℚ)) = 5368699 / 8388608 := by
    rw [round_float32_eq_of_pos (-1) 10737398 (by norm_num) (by norm_num) (by norm_num)
      (by norm_num) (by norm_num)]
    norm_num
  have hd5 : round_float32 (9437183 / 1048576 - 8) = 1048575 / 1048576 := by
    rw [round_float32_eq_of_pos (-1) 16777200 (by norm_num) (by norm_num) (by norm_num)
      (by norm_num) (by norm_num)]
    norm_num
  have hdd5 : round_float32 ((1048575 / 1048576 : ℚ) * (1048575 / 1048576 : ℚ)) = 524287 / 524288 := by
    rw [round_float32_eq_of_pos (-1) 16777184 (by norm_num) (by norm_num) (by norm_num)
      (by norm_num) (by norm_num)]
    norm_num
  have hd6 : round_float32 (4823449 / 524288 - 8) = 629145 / 524288 := by
    rw [round_float32_eq_of_pos (0) 10066320 (by norm_num) (by norm_num) (by norm_num)
      (by norm_num) (by norm_num)]
    norm_num
  have hdd6 : round_float32 ((629145 / 524288 : ℚ) * (629145 / 524288 : ℚ)) = 3019893 / 2097152 := by
    rw [round_float32_eq_of_pos (0) 12079572 (by norm_num) (by norm_num) (by norm_num)
      (by norm_num) (by norm_num)]
    norm_num
  have hd7 : round_float32 (9856613 / 1048576 - 8) = 1468005 / 1048576 := by
    rw [round_float32_eq_of_pos (0) 11744040 (by norm_num) (by norm_num) (by norm_num)
      (by norm_num) (by norm_num)]
    norm_num
  have hdd7 : round_float32 ((1468005 / 1048576 : ℚ) * (1468005 / 1048576 : ℚ)) = 2055205 / 1048576 := by
    rw [round_float32_eq_of_pos (0) 16441640 (by norm_num) (by norm_num) (by norm_num)
      (by norm_num) (by norm_num)]
    norm_num
  have hd8 : round_float32 (1258291 / 131072 - 8) = 209715 / 131072 := by
    rw [round_float32_eq_of_pos (0) 13421760 (by norm_num) (by norm_num) (by norm_num)
      (by norm_num) (by norm_num)]
    norm_num
  have hdd8 : round_float32 ((209715 / 131072 : ℚ) * (209715 / 131072 : ℚ)) = 5368699 / 2097152 := by
    rw [round_float32_eq_of_pos (1) 10737398 (by norm_num) (by norm_num) (by norm_num)
      (by norm_num) (by norm_num)]
    norm_num
  have hd9 : round_float32 (10276043 / 1048576 - 8) = 1887435 / 1048576 := by
    rw [round_float32_eq_of_pos (0) 15099480 (by norm_num) (by norm_num) (by norm_num)
      (by norm_num) (by norm_num)]
    norm_num
  have hdd9 : round_float32 ((1887435 / 1048576 : ℚ) * (1887435 / 1048576 : ℚ)) = 13589519 / 4194304 := by
    rw [round_float32_eq_of_pos (1) 13589519 (by norm_num) (by norm_num) (by norm_num)
      (by norm_num) (by norm_num)]
    norm_num
  have hd10 : round_float32 (5242879 / 524288 - 8) = 1048575 / 524288 := by
    rw [round_float32_eq_of_pos (0) 16777200 (by norm_num) (by norm_num) (by norm_num)
      (by norm_num) (by norm_num)]
    norm_num
  have hdd10 : round_float32 ((1048575 / 524288 : ℚ) * (1048575 / 524288 : ℚ)) = 524287 / 131072 := by
    rw [round_float32_eq_of_pos (1) 16777184 (by norm_num) (by norm_num) (by norm_num)
      (by norm_num) (by norm_num)]
    norm_num
  have hd11 : round_float32 (10695473 / 1048576 - 8) = 2306865 / 1048576 := by
    rw [round_float32_eq_of_pos (1) 9227460 (by norm_num) (by norm_num) (by norm_num)
      (by norm_num) (by norm_num)]
    norm_num
  have hdd11 : round_float32 ((2306865 / 1048576 : ℚ) * (2306865 / 1048576 : ℚ)) = 2537549 / 524288 := by
    rw [round_float32_eq_of_pos (2) 10150196 (by norm_num) (by norm_num) (by norm_num)
      (by norm_num) (by norm_num)]
    norm_num
  exact ⟨⟨hd0, hdd0⟩, ⟨hd1, hdd1⟩, ⟨hd2, hdd2⟩, ⟨hd3, hdd3⟩, ⟨hd4, hdd4⟩, ⟨hd5, hdd5⟩, ⟨hd6, hdd6⟩, ⟨hd7, hdd7⟩, ⟨hd8, hdd8⟩, ⟨hd9, hdd9⟩, ⟨hd10, hdd10⟩, ⟨hd11, hdd11⟩⟩

/-- In `example_grid` the test of the ray at a position that rounds to a voxel of
the chunk compares the density 100 with the surface level. -/
theorem ray_hits_example_level {p : vector3_t} {a b c : Nat} (ha : a < 16) (hb : b < 16)
    (hc : c < 16) (hp : rounded_position p = ⟨(a : Int), (b : Int), (c : Int)⟩) (S : Nat) :
    ray_hits example_grid p S = some (decide (100 > S)) := by
  unfold rounded_position at hp
  simp only [ivector3_t.mk.injEq] at hp
  obtain ⟨h1, h2, h3⟩ := hp
  have da : ((a : Int)).tdiv 16 = 0 := by
    rw [Int.tdiv_eq_ediv (by omega) (by norm_num)]; omega
  have db : ((b : Int)).tdiv 16 = 0 := by
    rw [Int.tdiv_eq_ediv (by omega) (by norm_num)]; omega
  have dc : ((c : Int)).tdiv 16 = 0 := by
    rw [Int.tdiv_eq_ediv (by omega) (by norm_num)]; omega
  have ma : ((a : Int)).tmod 16 = a := by
    rw [Int.tmod_eq_emod (by omega) (by norm_num)]; omega
  have mb : ((b : Int)).tmod 16 = b := by
    rw [Int.tmod_eq_emod (by omega) (by norm_num)]; omega
  have mc : ((c : Int)).tmod 16 = c := by
    rw [Int.tmod_eq_emod (by omega) (by norm_num)]; omega
  have hq : get_chunk_encompassing_point example_grid p = some 0 := by
    simp only [get_chunk_encompassing_point, h1, h2, h3, VOXEL_CHUNK_EDGE_LENGTH, Nat.cast_ofNat,
      da, db, dc]
    rfl
  unfold ray_hits
  rw [hq]
  have hch : example_grid.chunks 0 = some example_chunk := rfl
  simp only [hch, get_voxel_coord, h1, h2, h3, VOXEL_CHUNK_EDGE_LENGTH, Nat.cast_ofNat, ma, mb, mc]
  have hin : is_voxel_coord_within_chunk ⟨(a : Int), (b : Int), (c : Int)⟩ 16 = true := by
    unfold is_voxel_coord_within_chunk
    simp only [decide_eq_true_eq, Nat.cast_ofNat]
    omega
  rw [if_pos hin]
  simp [example_chunk]

theorem glm_round_eight : glm_round (8 : ℚ) = ((8 : Nat) : Int) := by
  have := glm_round_intCast 8
  simpa using this

theorem ray_hits_example_axis {x : ℚ} (h0 : 0 ≤ x) (h1 : x < 15) (S : Nat) :
    ray_hits example_grid ⟨x, 8, 8⟩ S = some (decide (100 > S)) := by
  have hfl0 : (0 : Int) ≤ ⌊x + 1 / 2⌋ := Int.floor_nonneg.mpr (by linarith)
  have hfl1 : ⌊x + 1 / 2⌋ < 16 := by
    rw [Int.floor_lt]
    push_cast
    linarith
  have hr : glm_round x = ((⌊x + 1 / 2⌋.toNat : Nat) : Int) := by
    unfold glm_round
    rw [if_pos h0, Int.toNat_of_nonneg hfl0]
  apply @ray_hits_example_level _ ⌊x + 1 / 2⌋.toNat 8 8 (by omega) (by norm_num) (by norm_num)
  unfold rounded_position
  rw [hr, glm_round_eight]

/-- One turn of the loop of `ray_cast_terraform` at a position within reach whose
test is a plain miss. -/
theorem ray_cast_terraform_loop_step (g : voxel_chunks_t) (start dir : vector3_t)
    (step reach2 dt : ℚ) (S : Nat) (destructive : Bool) (fuel : Nat) {q q' : vector3_t}
    (hr : ray_in_reach start reach2 q = some true) (hh : ray_hits g q S = some false)
    (hn : ray_next dir step q = some q') :
    ray_cast_terraform_loop g start dir step reach2 dt S destructive (fuel + 1) q =
      ray_cast_terraform_loop g start dir step reach2 dt S destructive fuel q' := by
  obtain ⟨d, hd, hlt⟩ := ray_in_reach_eq_some_true hr
  rw [ray_cast_terraform_loop_succ, hd]
  simp only
  rw [if_pos hlt, hh]
  simp only
  rw [hn]

theorem ray_cast_terraform_eq_loop {g : voxel_chunks_t} {ws start : vector3_t}
    {m reach step reach2 : ℚ} (h : ws_to_xs g ws = some start)
    (hreach : float32_div m g.size = some reach) (hstep : float32 (reach / 10) = some step)
    (hreach2 : float32 (reach * reach) = some reach2) (fuel : Nat) (dir : vector3_t) (dt : ℚ)
    (S : Nat) (destructive : Bool) :
    ray_cast_terraform fuel g ws dir m dt S destructive =
      ray_cast_terraform_loop g start dir step reach2 dt S destructive fuel start := by
  unfold ray_cast_terraform
  rw [h]
  simp only
  rw [hreach]
  simp only
  rw [hstep, hreach2]

theorem abs_lt_float32_range {r : ℚ} (h0 : -16 < r) (h1 : r < 16) : |r| < 2 ^ 128 := by
  rw [abs_lt]
  constructor
  · linarith [show (0 : ℚ) < 2 ^ 128 by positivity]
  · exact lt_trans h1 (by norm_num)

/-- C11 (amended): `ray_cast_terraform` starts at `start = ws_to_xs(ws_position)`
and, with the float32 values `reach = max_reach_distance / size`,
`step = reach / 10` and `reach² = reach * reach`, examines the samples
`p 0 = start`, `p (k + 1) = p k + step·dir` (every operation rounded to float32)
in that order, as long as the float32 squared distance from the start is below
`reach²`.  If the samples before `p n` are within reach and are plain misses, and
`p n` is out of reach or its test is not a plain miss, then the loop ends within
`n + 1` evaluations of its condition: out of reach it returns without touching
the grid, and at a sample whose voxel density exceeds the surface level it makes
one call of `terraform` with radius 2 there and examines no later sample. -/
theorem ray_cast_terraform_stops_at_first_hit (g : voxel_chunks_t)
    (ws_position ws_direction : vector3_t) (max_reach_distance dt : ℚ) (surface_level : Nat)
    (destructive : Bool) (start : vector3_t) (reach step reach2 : ℚ)
    (hstart : ws_to_xs g ws_position = some start)
    (hreach : float32_div max_reach_distance g.size = some reach)
    (hstep : float32 (reach / 10) = some step)
    (hreach2 : float32 (reach * reach) = some reach2)
    (n fuel : Nat) (hf : n < fuel) (p : Nat → vector3_t)
    (hp : ∀ k, k ≤ n → ray_sample start ws_direction step k = some (p k))
    (hskip : ∀ k, k < n → ray_in_reach start reach2 (p k) = some true ∧
      ray_hits g (p k) surface_level = some false)
    (hstop : ray_in_reach start reach2 (p n) ≠ some true ∨
      ray_hits g (p n) surface_level ≠ some false) :
    ray_cast_terraform fuel g ws_position ws_direction max_reach_distance dt surface_level
        destructive =
      ray_outcome g (p n) (ray_in_reach start reach2 (p n)) dt surface_level destructive ∧
    ray_cast_terraform fuel g ws_position ws_direction max_reach_distance dt surface_level
        destructive ≠ run_result.out_of_fuel ∧
    (ray_in_reach start reach2 (p n) = some false →
      ray_cast_terraform fuel g ws_position ws_direction max_reach_distance dt surface_level
        destructive = run_result.done g) ∧
    (ray_in_reach start reach2 (p n) = some true →
      ray_hits g (p n) surface_level = some true →
      ray_cast_terraform fuel g ws_position ws_direction max_reach_distance dt surface_level
        destructive =
          run_result.of_option (terraform g (p n).to_ivector3 2 destructive dt)) := by
  have e : ray_cast_terraform fuel g ws_position ws_direction max_reach_distance dt
      surface_level destructive =
      ray_outcome g (p n) (ray_in_reach start reach2 (p n)) dt surface_level destructive := by
    rw [ray_cast_terraform_eq_loop hstart hreach hstep hreach2]
    exact ray_cast_terraform_loop_spec g start ws_direction step reach2 dt surface_level
      destructive n fuel hf p hp hskip hstop
  refine ⟨e, ?_, ?_, ?_⟩
  · rw [e]
    exact ray_outcome_ne_out_of_fuel _ _ _ _ _ _
  · intro hr
    rw [e, hr]
    rfl
  · intro hr hh
    rw [e, hr]
    unfold ray_outcome
    simp only [hh]

theorem float32_div_nine_example : float32_div 9 example_grid.size = some 1 := by
  have hs : example_grid.size = 9 := rfl
  unfold float32_div
  rw [hs, if_neg (by norm_num), div_self (by norm_num)]
  exact float32_of_round round_float32_one (by norm_num)

theorem float32_one_tenth : float32 ((1 : ℚ) / 10) = some (13421773 / 134217728) :=
  float32_of_round round_float32_one_tenth (abs_lt_float32_range (by norm_num) (by norm_num))

theorem float32_one_squared : float32 ((1 : ℚ) * 1) = some 1 := by
  rw [mul_one]
  exact float32_of_round round_float32_one (by norm_num)

theorem ray_hits_example_start : ray_hits example_grid ⟨8, 8, 8⟩ 60 = some true := by
  rw [ray_hits_example_axis (by norm_num) (by norm_num) 60]
  rfl

theorem ray_cast_terraform_stops_at_first_hit_witness :
    ws_to_xs example_grid ⟨0, 0, 0⟩ = some ⟨8, 8, 8⟩ ∧
    float32_div 9 example_grid.size = some 1 ∧
    float32 ((1 : ℚ) / 10) = some (13421773 / 134217728) ∧
    float32 ((1 : ℚ) * 1) = some 1 ∧
    ray_hits example_grid ⟨8, 8, 8⟩ 60 = some true ∧
    ray_cast_terraform 1 example_grid ⟨0, 0, 0⟩ ⟨1, 0, 0⟩ 9 (1 / 64) 60 true =
      ray_outcome example_grid ⟨8, 8, 8⟩ (ray_in_reach ⟨8, 8, 8⟩ 1 ⟨8, 8, 8⟩) (1 / 64) 60 true ∧
    ray_cast_terraform 1 example_grid ⟨0, 0, 0⟩ ⟨1, 0, 0⟩ 9 (1 / 64) 60 true ≠
      run_result.out_of_fuel ∧
    (ray_in_reach ⟨8, 8, 8⟩ 1 ⟨8, 8, 8⟩ = some false →
      ray_cast_terraform 1 example_grid ⟨0, 0, 0⟩ ⟨1, 0, 0⟩ 9 (1 / 64) 60 true =
        run_result.done example_grid) ∧
    (ray_in_reach ⟨8, 8, 8⟩ 1 ⟨8, 8, 8⟩ = some true →
      ray_hits example_grid ⟨8, 8, 8⟩ 60 = some true →
      ray_cast_terraform 1 example_grid ⟨0, 0, 0⟩ ⟨1, 0, 0⟩ 9 (1 / 64) 60 true =
        run_result.of_option
          (terraform example_grid (vector3_t.mk 8 8 8).to_ivector3 2 true (1 / 64))) :=
  ⟨ws_to_xs_example, float32_div_nine_example, float32_one_tenth, float32_one_squared,
    ray_hits_example_start,
    ray_cast_terraform_stops_at_first_hit example_grid ⟨0, 0, 0⟩ ⟨1, 0, 0⟩ 9 (1 / 64) 60 true
      ⟨8, 8, 8⟩ 1 (13421773 / 134217728) 1 ws_to_xs_example float32_div_nine_example
      float32_one_tenth float32_one_squared 0 1 (by norm_num) (fun _ => ⟨8, 8, 8⟩)
      (fun k hk => by
        have hk0 : k = 0 := by omega
        subst hk0
        rfl)
      (fun k hk => absurd hk (by omega))
      (Or.inr (by rw [ray_hits_example_start]; simp))⟩

/-- The ray of reach 2 from `(8, 8, 8)` along `(1, 0, 0)` with the float32 step
`0.2f` in `example_grid`, surface level 100 (which no voxel exceeds): the samples
0 to 10 are within reach and are plain misses, and the loop moves from each to
the next; the sample 11 is out of reach. -/
theorem example_ray_steps (dt : ℚ) (destructive : Bool) :
    (∀ fuel, ray_cast_terraform_loop example_grid ⟨8, 8, 8⟩ ⟨1, 0, 0⟩ (13421773 / 67108864) 4 dt 100
        destructive (fuel + 11) ⟨8, 8, 8⟩ =
      ray_cast_terraform_loop example_grid ⟨8, 8, 8⟩ ⟨1, 0, 0⟩ (13421773 / 67108864) 4 dt 100
        destructive fuel ⟨10695473 / 1048576, 8, 8⟩) ∧
    ray_sample ⟨8, 8, 8⟩ ⟨1, 0, 0⟩ (13421773 / 67108864) 10 = some ⟨5242879 / 524288, 8, 8⟩ ∧
    ray_in_reach ⟨8, 8, 8⟩ 4 ⟨5242879 / 524288, 8, 8⟩ = some true ∧
    ray_in_reach ⟨8, 8, 8⟩ 4 ⟨10695473 / 1048576, 8, 8⟩ = some false := by
  obtain ⟨hx0, hx1, hx2, hx3, hx4, hx5, hx6, hx7, hx8, hx9, hx10⟩ := example_ray_increments
  obtain ⟨⟨hd0, hdd0⟩, ⟨hd1, hdd1⟩, ⟨hd2, hdd2⟩, ⟨hd3, hdd3⟩, ⟨hd4, hdd4⟩, ⟨hd5, hdd5⟩, ⟨hd6, hdd6⟩, ⟨hd7, hdd7⟩, ⟨hd8, hdd8⟩, ⟨hd9, hdd9⟩, ⟨hd10, hdd10⟩, ⟨hd11, hdd11⟩⟩ := example_ray_distances
  have hs : round_float32 (13421773 / 67108864) = 13421773 / 67108864 := by
    have := round_float32_of_dyadic 13421773 (-26) (by norm_num) (by norm_num)
    norm_num at this
    exact this
  have hsb : |(13421773 / 67108864 : ℚ)| < 2 ^ 128 := abs_lt_float32_range (by norm_num) (by norm_num)
  have r0 : ray_in_reach ⟨8, 8, 8⟩ 4 ⟨8, 8, 8⟩ = some true := by
    rw [ray_in_reach_axis hd0 (abs_lt_float32_range (by norm_num) (by norm_num)) hdd0 (abs_lt_float32_range (by norm_num) (by norm_num))]
    exact congrArg some (decide_eq_true (by norm_num))
  have r1 : ray_in_reach ⟨8, 8, 8⟩ 4 ⟨8598323 / 1048576, 8, 8⟩ = some true := by
    rw [ray_in_reach_axis hd1 (abs_lt_float32_range (by norm_num) (by norm_num)) hdd1 (abs_lt_float32_range (by norm_num) (by norm_num))]
    exact congrArg some (decide_eq_true (by norm_num))
  have r2 : ray_in_reach ⟨8, 8, 8⟩ 4 ⟨4404019 / 524288, 8, 8⟩ = some true := by
    rw [ray_in_reach_axis hd2 (abs_lt_float32_range (by norm_num) (by norm_num)) hdd2 (abs_lt_float32_range (by norm_num) (by norm_num))]
    exact congrArg some (decide_eq_true (by norm_num))
  have r3 : ray_in_reach ⟨8, 8, 8⟩ 4 ⟨9017753 / 1048576, 8, 8⟩ = some true := by
    rw [ray_in_reach_axis hd3 (abs_lt_float32_range (by norm_num) (by norm_num)) hdd3 (abs_lt_float32_range (by norm_num) (by norm_num))]
    exact congrArg some (decide_eq_true (by norm_num))
  have r4 : ray_in_reach ⟨8, 8, 8⟩ 4 ⟨2306867 / 262144, 8, 8⟩ = some true := by
    rw [ray_in_reach_axis hd4 (abs_lt_float32_range (by norm_num) (by norm_num)) hdd4 (abs_lt_float32_range (by norm_num) (by norm_num))]
    exact congrArg some (decide_eq_true (by norm_num))
  have r5 : ray_in_reach ⟨8, 8, 8⟩ 4 ⟨9437183 / 1048576, 8, 8⟩ = some true := by
    rw [ray_in_reach_axis hd5 (abs_lt_float32_range (by norm_num) (by norm_num)) hdd5 (abs_lt_float32_range (by norm_num) (by norm_num))]
    exact congrArg some (decide_eq_true (by norm_num))
  have r6 : ray_in_reach ⟨8, 8, 8⟩ 4 ⟨4823449 / 524288, 8, 8⟩ = some true := by
    rw [ray_in_reach_axis hd6 (abs_lt_float32_range (by norm_num) (by norm_num)) hdd6 (abs_lt_float32_range (by norm_num) (by norm_num))]
    exact congrArg some (decide_eq_true (by norm_num))
  have r7 : ray_in_reach ⟨8, 8, 8⟩ 4 ⟨9856613 / 1048576, 8, 8⟩ = some true := by
    rw [ray_in_reach_axis hd7 (abs_lt_float32_range (by norm_num) (by norm_num)) hdd7 (abs_lt_float32_range (by norm_num) (by norm_num))]
    exact congrArg some (decide_eq_true (by norm_num))
  have r8 : ray_in_reach ⟨8, 8, 8⟩ 4 ⟨1258291 / 131072, 8, 8⟩ = some true := by
    rw [ray_in_reach_axis hd8 (abs_lt_float32_range (by norm_num) (by norm_num)) hdd8 (abs_lt_float32_range (by norm_num) (by norm_num))]
    exact congrArg some (decide_eq_true (by norm_num))
  have r9 : ray_in_reach ⟨8, 8, 8⟩ 4 ⟨10276043 / 1048576, 8, 8⟩ = some true := by
    rw [ray_in_reach_axis hd9 (abs_lt_float32_range (by norm_num) (by norm_num)) hdd9 (abs_lt_float32_range (by norm_num) (by norm_num))]
    exact congrArg some (decide_eq_true (by norm_num))
  have r10 : ray_in_reach ⟨8, 8, 8⟩ 4 ⟨5242879 / 524288, 8, 8⟩ = some true := by
    rw [ray_in_reach_axis hd10 (abs_lt_float32_range (by norm_num) (by norm_num)) hdd10 (abs_lt_float32_range (by norm_num) (by norm_num))]
    exact congrArg some (decide_eq_true (by norm_num))
  have r11 : ray_in_reach ⟨8, 8, 8⟩ 4 ⟨10695473 / 1048576, 8, 8⟩ = some false := by
    rw [ray_in_reach_axis hd11 (abs_lt_float32_range (by norm_num) (by norm_num)) hdd11 (abs_lt_float32_range (by norm_num) (by norm_num))]
    exact congrArg some (decide_eq_false (by norm_num))
  have n0 : ray_next ⟨1, 0, 0⟩ (13421773 / 67108864) ⟨8, 8, 8⟩ = some ⟨8598323 / 1048576, 8, 8⟩ :=
    ray_next_axis hs hsb hx0 (abs_lt_float32_range (by norm_num) (by norm_num))
  have m0 : ray_hits example_grid ⟨8, 8, 8⟩ 100 = some false := by
    rw [ray_hits_example_axis (by norm_num) (by norm_num) 100]
    rfl
  have s0 : ∀ fuel, ray_cast_terraform_loop example_grid ⟨8, 8, 8⟩ ⟨1, 0, 0⟩ (13421773 / 67108864) 4 dt
      100 destructive (fuel + 1) ⟨8, 8, 8⟩ =
      ray_cast_terraform_loop example_grid ⟨8, 8, 8⟩ ⟨1, 0, 0⟩ (13421773 / 67108864) 4 dt 100 destructive
        fuel ⟨8598323 / 1048576, 8, 8⟩ := fun fuel =>
    ray_cast_terraform_loop_step example_grid ⟨8, 8, 8⟩ ⟨1, 0, 0⟩ (13421773 / 67108864) 4 dt 100
      destructive fuel r0 m0 n0
  have n1 : ray_next ⟨1, 0, 0⟩ (13421773 / 67108864) ⟨8598323 / 1048576, 8, 8⟩ = some ⟨4404019 / 524288, 8, 8⟩ :=
    ray_next_axis hs hsb hx1 (abs_lt_float32_range (by norm_num) (by norm_num))
  have m1 : ray_hits example_grid ⟨8598323 / 1048576, 8, 8⟩ 100 = some false := by
    rw [ray_hits_example_axis (by norm_num) (by norm_num) 100]
    rfl
  have s1 : ∀ fuel, ray_cast_terraform_loop example_grid ⟨8, 8, 8⟩ ⟨1, 0, 0⟩ (13421773 / 67108864) 4 dt
      100 destructive (fuel + 1) ⟨8598323 / 1048576, 8, 8⟩ =
      ray_cast_terraform_loop example_grid ⟨8, 8, 8⟩ ⟨1, 0, 0⟩ (13421773 / 67108864) 4 dt 100 destructive
        fuel ⟨4404019 / 524288, 8, 8⟩ := fun fuel =>
    ray_cast_terraform_loop_step example_grid ⟨8, 8, 8⟩ ⟨1, 0, 0⟩ (13421773 / 67108864) 4 dt 100
      destructive fuel r1 m1 n1
  have n2 : ray_next ⟨1, 0, 0⟩ (13421773 / 67108864) ⟨4404019 / 524288, 8, 8⟩ = some ⟨9017753 / 1048576, 8, 8⟩ :=
    ray_next_axis hs hsb hx2 (abs_lt_float32_range (by norm_num) (by norm_num))
  have m2 : ray_hits example_grid ⟨4404019 / 524288, 8, 8⟩ 100 = some false := by
    rw [ray_hits_example_axis (by norm_num) (by norm_num) 100]
    rfl
  have s2 : ∀ fuel, ray_cast_terraform_loop example_grid ⟨8, 8, 8⟩ ⟨1, 0, 0⟩ (13421773 / 67108864) 4 dt
      100 destructive (fuel + 1) ⟨4404019 / 524288, 8, 8⟩ =
      ray_cast_terraform_loop example_grid ⟨8, 8, 8⟩ ⟨1, 0, 0⟩ (13421773 / 67108864) 4 dt 100 destructive
        fuel ⟨9017753 / 1048576, 8, 8⟩ := fun fuel =>
    ray_cast_terraform_loop_step example_grid ⟨8, 8, 8⟩ ⟨1, 0, 0⟩ (13421773 / 67108864) 4 dt 100
      destructive fuel r2 m2 n2
  have n3 : ray_next ⟨1, 0, 0⟩ (13421773 / 67108864) ⟨9017753 / 1048576, 8, 8⟩ = some ⟨2306867 / 262144, 8, 8⟩ :=
    ray_next_axis hs hsb hx3 (abs_lt_float32_range (by norm_num) (by norm_num))
  have m3 : ray_hits example_grid ⟨9017753 / 1048576, 8, 8⟩ 100 = some false := by
    rw [ray_hits_example_axis (by norm_num) (by norm_num) 100]
    rfl
  have s3 : ∀ fuel, ray_cast_terraform_loop example_grid ⟨8, 8, 8⟩ ⟨1, 0, 0⟩ (13421773 / 67108864) 4 dt
      100 destructive (fuel + 1) ⟨9017753 / 1048576, 8, 8⟩ =
      ray_cast_terraform_loop example_grid ⟨8, 8, 8⟩ ⟨1, 0, 0⟩ (13421773 / 67108864) 4 dt 100 destructive
        fuel ⟨2306867 / 262144, 8, 8⟩ := fun fuel =>
    ray_cast_terraform_loop_step example_grid ⟨8, 8, 8⟩ ⟨1, 0, 0⟩ (13421773 / 67108864) 4 dt 100
      destructive fuel r3 m3 n3
  have n4 : ray_next ⟨1, 0, 0⟩ (13421773 / 67108864) ⟨2306867 / 262144, 8, 8⟩ = some ⟨9437183 / 1048576, 8, 8⟩ :=
    ray_next_axis hs hsb hx4 (abs_lt_float32_range (by norm_num) (by norm_num))
  have m4 : ray_hits example_grid ⟨2306867 / 262144, 8, 8⟩ 100 = some false := by
    rw [ray_hits_example_axis (by norm_num) (by norm_num) 100]
    rfl
  have s4 : ∀ fuel, ray_cast_terraform_loop example_grid ⟨8, 8, 8⟩ ⟨1, 0, 0⟩ (13421773 / 67108864) 4 dt
      100 destructive (fuel + 1) ⟨2306867 / 262144, 8, 8⟩ =
      ray_cast_terraform_loop example_grid ⟨8, 8, 8⟩ ⟨1, 0, 0⟩ (13421773 / 67108864) 4 dt 100 destructive
        fuel ⟨9437183 / 1048576, 8, 8⟩ := fun fuel =>
    ray_cast_terraform_loop_step example_grid ⟨8, 8, 8⟩ ⟨1, 0, 0⟩ (13421773 / 67108864) 4 dt 100
      destructive fuel r4 m4 n4
  have n5 : ray_next ⟨1, 0, 0⟩ (13421773 / 67108864) ⟨9437183 / 1048576, 8, 8⟩ = some ⟨4823449 / 524288, 8, 8⟩ :=
    ray_next_axis hs hsb hx5 (abs_lt_float32_range (by norm_num) (by norm_num))
  have m5 : ray_hits example_grid ⟨9437183 / 1048576, 8, 8⟩ 100 = some false := by
    rw [ray_hits_example_axis (by norm_num) (by norm_num) 100]
    rfl
  have s5 : ∀ fuel, ray_cast_terraform_loop example_grid ⟨8, 8, 8⟩ ⟨1, 0, 0⟩ (13421773 / 67108864) 4 dt
      100 destructive (fuel + 1) ⟨9437183 / 1048576, 8, 8⟩ =
      ray_cast_terraform_loop example_grid ⟨8, 8, 8⟩ ⟨1, 0, 0⟩ (13421773 / 67108864) 4 dt 100 destructive
        fuel ⟨4823449 / 524288, 8, 8⟩ := fun fuel =>
    ray_cast_terraform_loop_step example_grid ⟨8, 8, 8⟩ ⟨1, 0, 0⟩ (13421773 / 67108864) 4 dt 100
      destructive fuel r5 m5 n5
  have n6 : ray_next ⟨1, 0, 0⟩ (13421773 / 67108864) ⟨4823449 / 524288, 8, 8⟩ = some ⟨9856613 / 1048576, 8, 8⟩ :=
    ray_next_axis hs hsb hx6 (abs_lt_float32_range (by norm_num) (by norm_num))
  have m6 : ray_hits example_grid ⟨4823449 / 524288, 8, 8⟩ 100 = some false := by
    rw [ray_hits_example_axis (by norm_num) (by norm_num) 100]
    rfl
  have s6 : ∀ fuel, ray_cast_terraform_loop example_grid ⟨8, 8, 8⟩ ⟨1, 0, 0⟩ (13421773 / 67108864) 4 dt
      100 destructive (fuel + 1) ⟨4823449 / 524288, 8, 8⟩ =
      ray_cast_terraform_loop example_grid ⟨8, 8, 8⟩ ⟨1, 0, 0⟩ (13421773 / 67108864) 4 dt 100 destructive
        fuel ⟨9856613 / 1048576, 8, 8⟩ := fun fuel =>
    ray_cast_terraform_loop_step example_grid ⟨8, 8, 8⟩ ⟨1, 0, 0⟩ (13421773 / 67108864) 4 dt 100
      destructive fuel r6 m6 n6
  have n7 : ray_next ⟨1, 0, 0⟩ (13421773 / 67108864) ⟨9856613 / 1048576, 8, 8⟩ = some ⟨1258291 / 131072, 8, 8⟩ :=
    ray_next_axis hs hsb hx7 (abs_lt_float32_range (by norm_num) (by norm_num))
  have m7 : ray_hits example_grid ⟨9856613 / 1048576, 8, 8⟩ 100 = some false := by
    rw [ray_hits_example_axis (by norm_num) (by norm_num) 100]
    rfl
  have s7 : ∀ fuel, ray_cast_terraform_loop example_grid ⟨8, 8, 8⟩ ⟨1, 0, 0⟩ (13421773 / 67108864) 4 dt
      100 destructive (fuel + 1) ⟨9856613 / 1048576, 8, 8⟩ =
      ray_cast_terraform_loop example_grid ⟨8, 8, 8⟩ ⟨1, 0, 0⟩ (13421773 / 67108864) 4 dt 100 destructive
        fuel ⟨1258291 / 131072, 8, 8⟩ := fun fuel =>
    ray_cast_terraform_loop_step example_grid ⟨8, 8, 8⟩ ⟨1, 0, 0⟩ (13421773 / 67108864) 4 dt 100
      destructive fuel r7 m7 n7
  have n8 : ray_next ⟨1, 0, 0⟩ (13421773 / 67108864) ⟨1258291 / 131072, 8, 8⟩ = some ⟨10276043 / 1048576, 8, 8⟩ :=
    ray_next_axis hs hsb hx8 (abs_lt_float32_range (by norm_num) (by norm_num))
  have m8 : ray_hits example_grid ⟨1258291 / 131072, 8, 8⟩ 100 = some false := by
    rw [ray_hits_example_axis (by norm_num) (by norm_num) 100]
    rfl
  have s8 : ∀ fuel, ray_cast_terraform_loop example_grid ⟨8, 8, 8⟩ ⟨1, 0, 0⟩ (13421773 / 67108864) 4 dt
      100 destructive (fuel + 1) ⟨1258291 / 131072, 8, 8⟩ =
      ray_cast_terraform_loop example_grid ⟨8, 8, 8⟩ ⟨1, 0, 0⟩ (13421773 / 67108864) 4 dt 100 destructive
        fuel ⟨10276043 / 1048576, 8, 8⟩ := fun fuel =>
    ray_cast_terraform_loop_step example_grid ⟨8, 8, 8⟩ ⟨1, 0, 0⟩ (13421773 / 67108864) 4 dt 100
      destructive fuel r8 m8 n8
  have n9 : ray_next ⟨1, 0, 0⟩ (13421773 / 67108864) ⟨10276043 / 1048576, 8, 8⟩ = some ⟨5242879 / 524288, 8, 8⟩ :=
    ray_next_axis hs hsb hx9 (abs_lt_float32_range (by norm_num) (by norm_num))
  have m9 : ray_hits example_grid ⟨10276043 / 1048576, 8, 8⟩ 100 = some false := by
    rw [ray_hits_example_axis (by norm_num) (by norm_num) 100]
    rfl
  have s9 : ∀ fuel, ray_cast_terraform_loop example_grid ⟨8, 8, 8⟩ ⟨1, 0, 0⟩ (13421773 / 67108864) 4 dt
      100 destructive (fuel + 1) ⟨10276043 / 1048576, 8, 8⟩ =
      ray_cast_terraform_loop example_grid ⟨8, 8, 8⟩ ⟨1, 0, 0⟩ (13421773 / 67108864) 4 dt 100 destructive
        fuel ⟨5242879 / 524288, 8, 8⟩ := fun fuel =>
    ray_cast_terraform_loop_step example_grid ⟨8, 8, 8⟩ ⟨1, 0, 0⟩ (13421773 / 67108864) 4 dt 100
      destructive fuel r9 m9 n9
  have n10 : ray_next ⟨1, 0, 0⟩ (13421773 / 67108864) ⟨5242879 / 524288, 8, 8⟩ = some ⟨10695473 / 1048576, 8, 8⟩ :=
    ray_next_axis hs hsb hx10 (abs_lt_float32_range (by norm_num) (by norm_num))
  have m10 : ray_hits example_grid ⟨5242879 / 524288, 8, 8⟩ 100 = some false := by
    rw [ray_hits_example_axis (by norm_num) (by norm_num) 100]
    rfl
  have s10 : ∀ fuel, ray_cast_terraform_loop example_grid ⟨8, 8, 8⟩ ⟨1, 0, 0⟩ (13421773 / 67108864) 4 dt
      100 destructive (fuel + 1) ⟨5242879 / 524288, 8, 8⟩ =
      ray_cast_terraform_loop example_grid ⟨8, 8, 8⟩ ⟨1, 0, 0⟩ (13421773 / 67108864) 4 dt 100 destructive
        fuel ⟨10695473 / 1048576, 8, 8⟩ := fun fuel =>
    ray_cast_terraform_loop_step example_grid ⟨8, 8, 8⟩ ⟨1, 0, 0⟩ (13421773 / 67108864) 4 dt 100
      destructive fuel r10 m10 n10
  have q0 : ray_sample ⟨8, 8, 8⟩ ⟨1, 0, 0⟩ (13421773 / 67108864) 0 = some ⟨8, 8, 8⟩ := rfl
  have q1 : ray_sample ⟨8, 8, 8⟩ ⟨1, 0, 0⟩ (13421773 / 67108864) (0 + 1) = some ⟨8598323 / 1048576, 8, 8⟩ :=
    (ray_sample_succ q0).trans n0
  have q2 : ray_sample ⟨8, 8, 8⟩ ⟨1, 0, 0⟩ (13421773 / 67108864) (1 + 1) = some ⟨4404019 / 524288, 8, 8⟩ :=
    (ray_sample_succ q1).trans n1
  have q3 : ray_sample ⟨8, 8, 8⟩ ⟨1, 0, 0⟩ (13421773 / 67108864) (2 + 1) = some ⟨9017753 / 1048576, 8, 8⟩ :=
    (ray_sample_succ q2).trans n2
  have q4 : ray_sample ⟨8, 8, 8⟩ ⟨1, 0, 0⟩ (13421773 / 67108864) (3 + 1) = some ⟨2306867 / 262144, 8, 8⟩ :=
    (ray_sample_succ q3).trans n3
  have q5 : ray_sample ⟨8, 8, 8⟩ ⟨1, 0, 0⟩ (13421773 / 67108864) (4 + 1) = some ⟨9437183 / 1048576, 8, 8⟩ :=
    (ray_sample_succ q4).trans n4
  have q6 : ray_sample ⟨8, 8, 8⟩ ⟨1, 0, 0⟩ (13421773 / 67108864) (5 + 1) = some ⟨4823449 / 524288, 8, 8⟩ :=
    (ray_sample_succ q5).trans n5
  have q7 : ray_sample ⟨8, 8, 8⟩ ⟨1, 0, 0⟩ (13421773 / 67108864) (6 + 1) = some ⟨9856613 / 1048576, 8, 8⟩ :=
    (ray_sample_succ q6).trans n6
  have q8 : ray_sample ⟨8, 8, 8⟩ ⟨1, 0, 0⟩ (13421773 / 67108864) (7 + 1) = some ⟨1258291 / 131072, 8, 8⟩ :=
    (ray_sample_succ q7).trans n7
  have q9 : ray_sample ⟨8, 8, 8⟩ ⟨1, 0, 0⟩ (13421773 / 67108864) (8 + 1) = some ⟨10276043 / 1048576, 8, 8⟩ :=
    (ray_sample_succ q8).trans n8
  have q10 : ray_sample ⟨8, 8, 8⟩ ⟨1, 0, 0⟩ (13421773 / 67108864) (9 + 1) = some ⟨5242879 / 524288, 8, 8⟩ :=
    (ray_sample_succ q9).trans n9
  refine ⟨fun fuel => ?_, q10, r10, r11⟩
  exact (s0 (fuel + 10)).trans ((s1 (fuel + 9)).trans ((s2 (fuel + 8)).trans ((s3 (fuel + 7)).trans ((s4 (fuel + 6)).trans ((s5 (fuel + 5)).trans ((s6 (fuel + 4)).trans ((s7 (fuel + 3)).trans ((s8 (fuel + 2)).trans ((s9 (fuel + 1)).trans (s10 fuel))))))))))

theorem float32_div_eighteen_example : float32_div 18 example_grid.size = some 2 := by
  have hs : example_grid.size = 9 := rfl
  have e : (18 : ℚ) / 9 = ((2 : Int) : ℚ) := by norm_num
  unfold float32_div
  rw [hs, if_neg (by norm_num), e]
  have := float32_intCast 2 (by norm_num)
  simpa using this

theorem float32_one_fifth : float32 ((2 : ℚ) / 10) = some (13421773 / 67108864) := by
  apply float32_of_round _ (abs_lt_float32_range (by norm_num) (by norm_num))
  rw [round_float32_eq_of_pos (-3) 13421773 (by norm_num) (by norm_num) (by norm_num)
    (by norm_num) (by norm_num)]
  norm_num

theorem float32_two_squared : float32 ((2 : ℚ) * 2) = some 4 := by
  have e : (2 : ℚ) * 2 = ((4 : Int) : ℚ) := by norm_num
  rw [e]
  have := float32_intCast 4 (by norm_num)
  simpa using this

theorem ws_to_xs_far_example :
    ws_to_xs example_grid ⟨1073741824, 0, 0⟩ = some ⟨119304664, 8, 8⟩ := by
  apply @ws_to_xs_example_axis 1073741824 1073741952 119304664
  · rw [round_float32_eq_of_pos 30 8388609 (by norm_num) (by norm_num) (by norm_num)
      (by norm_num) (by norm_num)]
    norm_num
  · rw [abs_lt]; constructor <;> norm_num
  · rw [round_float32_eq_of_pos 26 14913083 (by norm_num) (by norm_num) (by norm_num)
      (by norm_num) (by norm_num)]
    norm_num
  · rw [abs_lt]; constructor <;> norm_num

/-- A position so far from the grid that adding the step `0.1f` does not change
its float32 value: the loop stays at it for ever. -/
theorem example_ray_stuck (dt : ℚ) (S : Nat) (destructive : Bool) :
    ray_next ⟨1, 0, 0⟩ (13421773 / 134217728) ⟨119304664, 8, 8⟩ = some ⟨119304664, 8, 8⟩ ∧
    ray_in_reach ⟨119304664, 8, 8⟩ 1 ⟨119304664, 8, 8⟩ = some true ∧
    ray_hits example_grid ⟨119304664, 8, 8⟩ S = some false ∧
    ∀ fuel, ray_cast_terraform_loop example_grid ⟨119304664, 8, 8⟩ ⟨1, 0, 0⟩
      (13421773 / 134217728) 1 dt S destructive fuel ⟨119304664, 8, 8⟩ =
        run_result.out_of_fuel := by
  have hs : round_float32 (13421773 / 134217728) = 13421773 / 134217728 := by
    have := round_float32_idem (1 / 10)
    rw [round_float32_one_tenth] at this
    exact this
  have hx : round_float32 (119304664 + 13421773 / 134217728) = 119304664 := by
    rw [round_float32_eq_of_pos 26 14913083 (by norm_num) (by norm_num) (by norm_num)
      (by norm_num) (by norm_num)]
    norm_num
  have hb : |(119304664 : ℚ)| < 2 ^ 128 := by
    rw [abs_lt]; constructor <;> norm_num
  have hd : round_float32 ((119304664 : ℚ) - 119304664) = 0 := by
    rw [sub_self, round_float32_zero]
  have hdd : round_float32 ((0 : ℚ) * 0) = 0 := by
    rw [mul_zero, round_float32_zero]
  have h0b : |(0 : ℚ)| < 2 ^ 128 := by norm_num
  have hn : ray_next ⟨1, 0, 0⟩ (13421773 / 134217728) ⟨119304664, 8, 8⟩ =
      some ⟨119304664, 8, 8⟩ :=
    ray_next_axis hs (abs_lt_float32_range (by norm_num) (by norm_num)) hx hb
  have hr : ray_in_reach ⟨119304664, 8, 8⟩ 1 ⟨119304664, 8, 8⟩ = some true := by
    rw [ray_in_reach_axis hd h0b hdd h0b]
    exact congrArg some (decide_eq_true (by norm_num))
  have hg : glm_round (119304664 : ℚ) = 119304664 := by
    have := glm_round_intCast 119304664
    simpa using this
  have hh : ray_hits example_grid ⟨119304664, 8, 8⟩ S = some false := by
    have ht : Int.tdiv 119304664 16 = 7456541 := rfl
    have hq : get_chunk_encompassing_point example_grid ⟨119304664, 8, 8⟩ = none := by
      simp [get_chunk_encompassing_point, hg, glm_round_eight, VOXEL_CHUNK_EDGE_LENGTH,
        convert_3d_to_1d_index, is_voxel_coord_within_chunk, example_grid, get_voxel_chunk, ht]
    unfold ray_hits
    rw [hq]
  refine ⟨hn, hr, hh, ?_⟩
  intro fuel
  induction fuel with
  | zero => rfl
  | succ fuel ih =>
    rw [ray_cast_terraform_loop_step example_grid ⟨119304664, 8, 8⟩ ⟨1, 0, 0⟩
      (13421773 / 134217728) 1 dt S destructive fuel hr hh hn]
    exact ih

/-- C11 (counterexample): on `example_grid` (size 9, density 100) with the unit
direction `(1, 0, 0)` and surface level 100.  From the world position
`(0, 0, 0)` with reach 18 the voxel-space start is `(8, 8, 8)`, the reach 2 and
the step `0.2f`; the eleventh sample (index 10) is `(5242879/524288, 8, 8)`, its
float32 squared distance from the start is below 4, so it is examined: eleven
evaluations of the condition do not end the loop and twelve do, leaving the grid
untouched.  From the world position `(2^30, 0, 0)` with reach 9 the start is
`(119304664, 8, 8)`, where adding the step `0.1f` changes nothing: the loop does
not end, whatever the number of evaluations. -/
theorem ray_cast_terraform_eleven_samples_counterexample :
    vector3_t.dot ⟨1, 0, 0⟩ ⟨1, 0, 0⟩ = 1 ∧
    ws_to_xs example_grid ⟨0, 0, 0⟩ = some ⟨8, 8, 8⟩ ∧
    float32_div 18 example_grid.size = some 2 ∧
    float32 ((2 : ℚ) / 10) = some (13421773 / 67108864) ∧
    float32 ((2 : ℚ) * 2) = some 4 ∧
    ray_sample ⟨8, 8, 8⟩ ⟨1, 0, 0⟩ (13421773 / 67108864) 10 = some ⟨5242879 / 524288, 8, 8⟩ ∧
    ray_in_reach ⟨8, 8, 8⟩ 4 ⟨5242879 / 524288, 8, 8⟩ = some true ∧
    ray_cast_terraform 11 example_grid ⟨0, 0, 0⟩ ⟨1, 0, 0⟩ 18 (1 / 64) 100 true =
      run_result.out_of_fuel ∧
    ray_cast_terraform 12 example_grid ⟨0, 0, 0⟩ ⟨1, 0, 0⟩ 18 (1 / 64) 100 true =
      run_result.done example_grid ∧
    ws_to_xs example_grid ⟨1073741824, 0, 0⟩ = some ⟨119304664, 8, 8⟩ ∧
    ∀ fuel, ray_cast_terraform fuel example_grid ⟨1073741824, 0, 0⟩ ⟨1, 0, 0⟩ 9 (1 / 64) 100
      true = run_result.out_of_fuel := by
  obtain ⟨hsteps, hq10, hr10, hr11⟩ := example_ray_steps (1 / 64) true
  obtain ⟨_, _, _, hstuck⟩ := example_ray_stuck (1 / 64) 100 true
  refine ⟨by norm_num [vector3_t.dot], ws_to_xs_example, float32_div_eighteen_example,
    float32_one_fifth, float32_two_squared, hq10, hr10, ?_, ?_, ws_to_xs_far_example, ?_⟩
  · rw [ray_cast_terraform_eq_loop ws_to_xs_example float32_div_eighteen_example
      float32_one_fifth float32_two_squared]
    exact (hsteps 0).trans rfl
  · rw [ray_cast_terraform_eq_loop ws_to_xs_example float32_div_eighteen_example
      float32_one_fifth float32_two_squared]
    refine (hsteps 1).trans ?_
    rw [ray_cast_terraform_loop_stop example_grid ⟨8, 8, 8⟩ ⟨1, 0, 0⟩ (13421773 / 67108864) 4
      (1 / 64) 100 true ⟨10695473 / 1048576, 8, 8⟩ 0 (Or.inl (by rw [hr11]; simp)), hr11]
    rfl
  · intro fuel
    rw [ray_cast_terraform_eq_loop ws_to_xs_far_example float32_div_nine_example
      float32_one_tenth float32_one_squared]
    exact hstuck fuel

/-- C12 (amended): when `ray_cast_terraform` hits at a sample whose truncation
equals its rounding, the call of `terraform` is centred on the voxel whose
density was tested, and a destructive hit takes the density `v` of that voxel to
`clamp(v − trunc(a), 0, 255)`, `a` being the float32 product `dt * 700` (`dt`
rounded to float32, the product rounded to float32) and `trunc` the truncation of
the float-to-int cast; this holds on a well-formed grid for a target at least 2
voxels from the low faces and an amount that fits the integer conversion. -/
theorem ray_cast_terraform_hit_reduces_target (g : voxel_chunks_t)
    (ws_position ws_direction : vector3_t) (max_reach_distance dt : ℚ) (surface_level : Nat)
    (start : vector3_t) (reach step reach2 : ℚ) (n fuel : Nat) (p : Nat → vector3_t)
    (hw : grid_well_formed g)
    (hstart : ws_to_xs g ws_position = some start)
    (hreach : float32_div max_reach_distance g.size = some reach)
    (hstep : float32 (reach / 10) = some step)
    (hreach2 : float32 (reach * reach) = some reach2)
    (hf : n < fuel)
    (hp : ∀ k, k ≤ n → ray_sample start ws_direction step k = some (p k))
    (hskip : ∀ k, k < n → ray_in_reach start reach2 (p k) = some true ∧
      ray_hits g (p k) surface_level = some false)
    (hin_reach : ray_in_reach start reach2 (p n) = some true)
    (hhit : ray_hits g (p n) surface_level = some true)
    (htrunc : (p n).to_ivector3 = rounded_position (p n))
    (hlow : 2 ≤ (rounded_position (p n)).x ∧ 2 ≤ (rounded_position (p n)).y ∧
      2 ≤ (rounded_position (p n)).z)
    (hdt : |dt| * 700 ≤ 2 ^ 30) :
    ∃ v g',
      voxel_at g (rounded_position (p n)) = some v ∧
      surface_level < v ∧
      terraform g (rounded_position (p n)) 2 true dt = some g' ∧
      ray_cast_terraform fuel g ws_position ws_direction max_reach_distance dt surface_level
        true = run_result.done g' ∧
      voxel_at g' (rounded_position (p n)) =
        some (clamp_density ((v : Int) -
          float_to_int (round_float32 (round_float32 dt * 700)))) := by
  obtain ⟨hin, v, hv, hS⟩ := ray_hits_eq_some_true hhit
  obtain ⟨g', hg'⟩ := @terraform_total g _ 2 true dt hw hin (by norm_num) hlow hdt
  obtain ⟨v', hv', _, hval⟩ := terraform_sound_value hw hg' hin
  rw [hv] at hv'
  have hvv : v' = v := (Option.some.inj hv').symm
  subst hvv
  refine ⟨v', g', hv, hS, hg', ?_, ?_⟩
  · rw [ray_cast_terraform_eq_loop hstart hreach hstep hreach2,
      ray_cast_terraform_loop_spec g start ws_direction step reach2 dt surface_level true n fuel
        hf p hp hskip (Or.inr (by rw [hhit]; simp))]
    unfold ray_outcome
    rw [hin_reach, hhit]
    simp only
    rw [htrunc, hg']
    rfl
  · rw [hval, dist_sq_self, if_pos (by positivity)]
    unfold truncated_terraform_density
    rw [if_pos rfl, Int.cast_zero, float32_terraform_amount_centre]

theorem ray_hits_example {p : vector3_t} {a b c : Nat} (ha : a < 16) (hb : b < 16) (hc : c < 16)
    (hp : rounded_position p = ⟨(a : Int), (b : Int), (c : Int)⟩) :
    ray_hits example_grid p 60 = some true := by
  rw [ray_hits_example_level ha hb hc hp 60]
  rfl

theorem ray_in_reach_start_axis (x : ℚ) :
    ray_in_reach ⟨x, 8, 8⟩ 1 ⟨x, 8, 8⟩ = some true := by
  have hd : round_float32 (x - x) = 0 := by rw [sub_self, round_float32_zero]
  have hdd : round_float32 ((0 : ℚ) * 0) = 0 := by rw [mul_zero, round_float32_zero]
  have h0b : |(0 : ℚ)| < 2 ^ 128 := by norm_num
  rw [ray_in_reach_axis hd h0b hdd h0b]
  exact congrArg some (decide_eq_true (by norm_num))

theorem ray_cast_example {ws : vector3_t} {x : ℚ} (dt : ℚ)
    (hs : ws_to_xs example_grid ws = some ⟨x, 8, 8⟩)
    (hh : ray_hits example_grid ⟨x, 8, 8⟩ 60 = some true) :
    ray_cast_terraform 11 example_grid ws ⟨1, 0, 0⟩ 9 dt 60 true =
      run_result.of_option
        (terraform example_grid (vector3_t.mk x 8 8).to_ivector3 2 true dt) := by
  rw [ray_cast_terraform_eq_loop hs float32_div_nine_example float32_one_tenth
    float32_one_squared,
    ray_cast_terraform_loop_stop example_grid ⟨x, 8, 8⟩ ⟨1, 0, 0⟩ (13421773 / 134217728) 1 dt
      60 true ⟨x, 8, 8⟩ 10 (Or.inr (by rw [hh]; simp))]
  unfold ray_outcome
  rw [ray_in_reach_start_axis, hh]

theorem rounded_position_8 : rounded_position ⟨8, 8, 8⟩ = ⟨((8 : Nat) : Int), ((8 : Nat) : Int),
    ((8 : Nat) : Int)⟩ := by
  have h : glm_round (8 : ℚ) = 8 := by
    have := glm_round_intCast 8
    simpa using this
  simp [rounded_position, h]

theorem rounded_position_8_625 : rounded_position ⟨69 / 8, 8, 8⟩ =
    ⟨((9 : Nat) : Int), ((8 : Nat) : Int), ((8 : Nat) : Int)⟩ := by
  have h : glm_round (8 : ℚ) = 8 := by
    have := glm_round_intCast 8
    simpa using this
  have h9 : glm_round (69 / 8 : ℚ) = 9 := by
    unfold glm_round
    rw [if_pos (by norm_num), Int.floor_eq_iff]
    constructor <;> norm_num
  simp [rounded_position, h, h9]

theorem to_ivector3_8 : (vector3_t.mk 8 8 8).to_ivector3 = ⟨8, 8, 8⟩ := by
  have h : float_to_int (8 : ℚ) = 8 := by
    have := float_to_int_intCast 8
    simpa using this
  simp [vector3_t.to_ivector3, h]

theorem to_ivector3_8_625 : (vector3_t.mk (69 / 8) 8 8).to_ivector3 = ⟨8, 8, 8⟩ := by
  have h : float_to_int (8 : ℚ) = 8 := by
    have := float_to_int_intCast 8
    simpa using this
  have h8 : float_to_int (69 / 8 : ℚ) = 8 := by
    unfold float_to_int
    rw [if_pos (by norm_num), Int.floor_eq_iff]
    constructor <;> norm_num
  simp [vector3_t.to_ivector3, h, h8]

theorem ws_to_xs_example_8_625 :
    ws_to_xs example_grid ⟨45 / 8, 0, 0⟩ = some ⟨69 / 8, 8, 8⟩ := by
  apply @ws_to_xs_example_axis (45 / 8) (621 / 8) (69 / 8)
  · have := round_float32_of_dyadic 621 (-3) (by norm_num) (by norm_num)
    norm_num at this
    have e : (45 / 8 + 72 : ℚ) = 621 / 8 := by norm_num
    rw [e]
    exact this
  · rw [abs_lt]; constructor <;> norm_num
  · have := round_float32_of_dyadic 69 (-3) (by norm_num) (by norm_num)
    norm_num at this
    have e : (621 / 8 / 9 : ℚ) = 69 / 8 := by norm_num
    rw [e]
    exact this
  · exact abs_lt_float32_range (by norm_num) (by norm_num)

/-- The float32 amount of `terraform` at squared distance 1 of a sphere of radius
2 with `dt = 1/64`: every intermediate value is a float32. -/
theorem float32_terraform_amount_example :
    float32_terraform_amount ((1 : Int) : ℚ) (((2 : Nat) : ℚ) * ((2 : Nat) : ℚ)) (1 / 64) =
      525 / 64 := by
  have h1 : round_float32 (1 / 4) = 1 / 4 := by
    have := round_float32_two_zpow (-2) (by norm_num)
    norm_num at this
    exact this
  have h2 : round_float32 (3 / 4) = 3 / 4 := by
    have := round_float32_of_dyadic 3 (-2) (by norm_num) (by norm_num)
    norm_num at this
    exact this
  have h3 : round_float32 (3 / 256) = 3 / 256 := by
    have := round_float32_of_dyadic 3 (-8) (by norm_num) (by norm_num)
    norm_num at this
    exact this
  have h4 : round_float32 (525 / 64) = 525 / 64 := by
    have := round_float32_of_dyadic 525 (-6) (by norm_num) (by norm_num)
    norm_num at this
    exact this
  have e1 : ((1 : Int) : ℚ) / (((2 : Nat) : ℚ) * ((2 : Nat) : ℚ)) = 1 / 4 := by norm_num
  have e2 : (1 : ℚ) - 1 / 4 = 3 / 4 := by norm_num
  have e3 : (3 / 4 : ℚ) * (1 / 64) = 3 / 256 := by norm_num
  have e4 : (3 / 256 : ℚ) * 700 = 525 / 64 := by norm_num
  unfold float32_terraform_amount
  rw [e1, h1, e2, h2, e3, h3, e4, h4]

theorem float32_terraform_amount_small_example :
    float32_terraform_amount ((0 : Int) : ℚ) (((2 : Nat) : ℚ) * ((2 : Nat) : ℚ)) (1 / 1024) =
      175 / 256 := by
  have hdt : round_float32 (1 / 1024) = 1 / 1024 := by
    have := round_float32_two_zpow (-10) (by norm_num)
    norm_num at this
    exact this
  have hprod : round_float32 (175 / 256) = 175 / 256 := by
    have := round_float32_of_dyadic 175 (-8) (by norm_num) (by norm_num)
    norm_num at this
    exact this
  have e : (1 / 1024 * 700 : ℚ) = 175 / 256 := by norm_num
  rw [Int.cast_zero, float32_terraform_amount_centre, hdt, e, hprod]

theorem voxel_at_example {a b c : Nat} (ha : a < 16) (hb : b < 16) (hc : c < 16) :
    voxel_at example_grid ⟨(a : Int), (b : Int), (c : Int)⟩ = some 100 := by
  have h := @voxel_at_decomposed example_grid 0 0 0 a b c (by decide) (by decide) (by decide)
    ha hb hc
  simp only [Nat.cast_zero, mul_zero, zero_add] at h
  rw [h]
  rfl

/-- C12 (counterexample): a destructive `ray_cast_terraform` of reach 9 (one voxel
space unit) along `(1, 0, 0)` over a grid of density 100, surface level 60.
From the world position `(5.625, 0, 0)`, the voxel-space position
`(8.625, 8, 8)`, with `dt = 1/64` the voxel tested is `(9, 8, 8)` but `terraform`
is centred on the truncation `(8, 8, 8)`: the tested voxel has proportion `3/4`,
the amount `0.75·(1/64)·700 = 8.203125` is truncated to 8 and the voxel goes to
92, while the density the claim states is `100 − round(700/64) = 89`.  From the
position `(8, 8, 8)` with `dt = 1/1024` the tested voxel is the centre and keeps
the density 100, while the claim states `100 − round(700/1024) = 99`.  All the
values are float32 values and every float operation is exact. -/
theorem ray_cast_terraform_target_counterexample :
    (∃ g', ws_to_xs example_grid ⟨45 / 8, 0, 0⟩ = some ⟨69 / 8, 8, 8⟩ ∧
      rounded_position ⟨69 / 8, 8, 8⟩ = ⟨9, 8, 8⟩ ∧
      (vector3_t.mk (69 / 8) 8 8).to_ivector3 = ⟨8, 8, 8⟩ ∧
      ray_hits example_grid ⟨69 / 8, 8, 8⟩ 60 = some true ∧
      ray_cast_terraform 11 example_grid ⟨45 / 8, 0, 0⟩ ⟨1, 0, 0⟩ 9 (1 / 64) 60 true =
        run_result.done g' ∧
      terraform example_grid ⟨8, 8, 8⟩ 2 true (1 / 64) = some g' ∧
      voxel_at example_grid ⟨9, 8, 8⟩ = some 100 ∧
      voxel_at g' ⟨9, 8, 8⟩ = some 92 ∧
      spec_terraform_density 100 0 (2 * 2) false (1 / 64) = 89) ∧
    (∃ g', ws_to_xs example_grid ⟨0, 0, 0⟩ = some ⟨8, 8, 8⟩ ∧
      rounded_position ⟨8, 8, 8⟩ = ⟨8, 8, 8⟩ ∧
      (vector3_t.mk 8 8 8).to_ivector3 = ⟨8, 8, 8⟩ ∧
      ray_hits example_grid ⟨8, 8, 8⟩ 60 = some true ∧
      ray_cast_terraform 11 example_grid ⟨0, 0, 0⟩ ⟨1, 0, 0⟩ 9 (1 / 1024) 60 true =
        run_result.done g' ∧
      voxel_at example_grid ⟨8, 8, 8⟩ = some 100 ∧
      voxel_at g' ⟨8, 8, 8⟩ = some 100 ∧
      spec_terraform_density 100 0 (2 * 2) false (1 / 1024) = 99) := by
  have hit1 : ray_hits example_grid ⟨69 / 8, 8, 8⟩ 60 = some true :=
    ray_hits_example (by norm_num) (by norm_num) (by norm_num) rounded_position_8_625
  have hit2 : ray_hits example_grid ⟨8, 8, 8⟩ 60 = some true :=
    ray_hits_example (by norm_num) (by norm_num) (by norm_num) rounded_position_8
  constructor
  · obtain ⟨g', hg'⟩ := @terraform_total example_grid ⟨8, 8, 8⟩ 2 true (1 / 64)
      example_grid_well_formed example_centre_in_grid (by norm_num : 0 < 2) (by norm_num)
      (by norm_num [abs_of_nonneg])
    have hin : in_grid example_grid ⟨9, 8, 8⟩ := by simp [in_grid, example_grid]
    obtain ⟨v, hv, _, hv'⟩ := terraform_sound_value example_grid_well_formed hg' hin
    have h0 : voxel_at example_grid ⟨9, 8, 8⟩ = some 100 :=
      @voxel_at_example 9 8 8 (by norm_num) (by norm_num) (by norm_num)
    rw [h0] at hv
    have hv100 : v = 100 := (Option.some.inj hv).symm
    subst hv100
    refine ⟨g', ws_to_xs_example_8_625, by simpa using rounded_position_8_625,
      to_ivector3_8_625, hit1, ?_, hg', h0, ?_, ?_⟩
    · rw [ray_cast_example (1 / 64) ws_to_xs_example_8_625 hit1, to_ivector3_8_625, hg']
      rfl
    · rw [hv']
      have hd : dist_sq ⟨9, 8, 8⟩ ⟨8, 8, 8⟩ = 1 := by simp [dist_sq]
      have hf : float_to_int (525 / 64 : ℚ) = 8 := by
        unfold float_to_int
        rw [if_pos (by norm_num), Int.floor_eq_iff]
        constructor <;> norm_num
      rw [hd, if_pos (by norm_num)]
      unfold truncated_terraform_density
      rw [float32_terraform_amount_example, hf]
      simp [clamp_density]
    · have hr : round_to_nearest (175 / 16 : ℚ) = 11 := by
        unfold round_to_nearest
        rw [Int.floor_eq_iff]
        constructor <;> norm_num
      have he : (1 - (0 : ℚ) / (2 * 2)) * 700 * (1 / 64) = 175 / 16 := by norm_num
      unfold spec_terraform_density
      rw [he, hr]
      simp [clamp_density]
  · obtain ⟨g', hg'⟩ := @terraform_total example_grid ⟨8, 8, 8⟩ 2 true (1 / 1024)
      example_grid_well_formed example_centre_in_grid (by norm_num : 0 < 2) (by norm_num)
      (by norm_num [abs_of_nonneg])
    obtain ⟨v, hv, _, hv'⟩ := terraform_sound_value example_grid_well_formed hg'
      example_centre_in_grid
    have h0 : voxel_at example_grid ⟨8, 8, 8⟩ = some 100 :=
      @voxel_at_example 8 8 8 (by norm_num) (by norm_num) (by norm_num)
    rw [h0] at hv
    have hv100 : v = 100 := (Option.some.inj hv).symm
    subst hv100
    refine ⟨g', ws_to_xs_example, by simpa using rounded_position_8, to_ivector3_8, hit2, ?_, h0,
      ?_, ?_⟩
    · rw [ray_cast_example (1 / 1024) ws_to_xs_example hit2, to_ivector3_8, hg']
      rfl
    · rw [hv', dist_sq_self, if_pos (by norm_num)]
      have hf : float_to_int (175 / 256 : ℚ) = 0 := by
        unfold float_to_int
        rw [if_pos (by norm_num), Int.floor_eq_iff]
        constructor <;> norm_num
      unfold truncated_terraform_density
      rw [float32_terraform_amount_small_example, hf]
      simp [clamp_density]
    · have hr : round_to_nearest (175 / 256 : ℚ) = 1 := by
        unfold round_to_nearest
        rw [Int.floor_eq_iff]
        constructor <;> norm_num
      have he : (1 - (0 : ℚ) / (2 * 2)) * 700 * (1 / 1024) = 175 / 256 := by norm_num
      unfold spec_terraform_density
      rw [he, hr]
      simp [clamp_density]

theorem ray_cast_terraform_hit_reduces_target_witness :
    grid_well_formed example_grid ∧ ws_to_xs example_grid ⟨0, 0, 0⟩ = some ⟨8, 8, 8⟩ ∧
    float32_div 9 example_grid.size = some 1 ∧
    float32 ((1 : ℚ) / 10) = some (13421773 / 134217728) ∧
    float32 ((1 : ℚ) * 1) = some 1 ∧
    ray_in_reach ⟨8, 8, 8⟩ 1 ⟨8, 8, 8⟩ = some true ∧
    ray_hits example_grid ⟨8, 8, 8⟩ 60 = some true ∧
    ∃ v g',
      voxel_at example_grid (rounded_position ⟨8, 8, 8⟩) = some v ∧
      60 < v ∧
      terraform example_grid (rounded_position ⟨8, 8, 8⟩) 2 true (1 / 64) = some g' ∧
      ray_cast_terraform 11 example_grid ⟨0, 0, 0⟩ ⟨1, 0, 0⟩ 9 (1 / 64) 60 true =
        run_result.done g' ∧
      voxel_at g' (rounded_position ⟨8, 8, 8⟩) =
        some (clamp_density ((v : Int) -
          float_to_int (round_float32 (round_float32 (1 / 64) * 700)))) :=
  ⟨example_grid_well_formed, ws_to_xs_example, float32_div_nine_example, float32_one_tenth,
    float32_one_squared, ray_in_reach_start_axis 8, ray_hits_example_start,
    ray_cast_terraform_hit_reduces_target example_grid ⟨0, 0, 0⟩ ⟨1, 0, 0⟩ 9 (1 / 64) 60
      ⟨8, 8, 8⟩ 1 (13421773 / 134217728) 1 0 11 (fun _ => ⟨8, 8, 8⟩) example_grid_well_formed
      ws_to_xs_example float32_div_nine_example float32_one_tenth float32_one_squared
      (by norm_num)
      (fun k hk => by
        have hk0 : k = 0 := by omega
        subst hk0
        rfl)
      (fun k hk => absurd hk (by omega))
      (ray_in_reach_start_axis 8) ray_hits_example_start
      (by
        rw [to_ivector3_8]
        simpa using rounded_position_8.symm)
      (by
        have := rounded_position_8
        simp only [Nat.cast_ofNat] at this
        rw [this]
        norm_num)
      (by norm_num [abs_of_nonneg])⟩

theorem get_chunk_encompassing_point_of_int (g : voxel_chunks_t) (p : vector3_t) (a b c : Int)
    (hp : rounded_position p = ⟨a, b, c⟩) :
    get_chunk_encompassing_point g p =
      get_voxel_chunk g (convert_3d_to_1d_index (a.tdiv 16) (b.tdiv 16) (c.tdiv 16)
        g.grid_edge_size) := by
  unfold rounded_position at hp
  simp only [ivector3_t.mk.injEq] at hp
  obtain ⟨h1, h2, h3⟩ := hp
  simp only [get_chunk_encompassing_point, h1, h2, h3, VOXEL_CHUNK_EDGE_LENGTH]
  rfl

theorem rounded_position_int (a b c : Int) :
    rounded_position ⟨(a : ℚ), (b : ℚ), (c : ℚ)⟩ = ⟨a, b, c⟩ := by
  simp only [rounded_position, glm_round_intCast]

/-- C13 (evaluation at the failing input): on a grid of edge size 1, whose voxels
have the coordinates 0 to 15, the voxel-space point `(-1, 0, 0)` rounds to the
coordinate `-1`, outside the grid, and `get_chunk_encompassing_point` returns the
chunk of cell `(0, 0, 0)` for it (the quotient `-1 / 16` is truncated to 0), as it
does for `(-15, 0, 0)`; for `(-16, 0, 0)` and `(16, 0, 0)` it returns null. -/
theorem get_chunk_encompassing_point_returns_chunk_below_zero :
    rounded_position ⟨-1, 0, 0⟩ = ⟨-1, 0, 0⟩ ∧
    ¬ in_grid example_grid ⟨-1, 0, 0⟩ ∧
    get_chunk_encompassing_point example_grid ⟨-1, 0, 0⟩ = some 0 ∧
    get_chunk_encompassing_point example_grid ⟨-15, 0, 0⟩ = some 0 ∧
    example_grid.chunks 0 = some example_chunk ∧
    get_chunk_encompassing_point example_grid ⟨-16, 0, 0⟩ = none ∧
    get_chunk_encompassing_point example_grid ⟨16, 0, 0⟩ = none := by
  have r1 : rounded_position ⟨-1, 0, 0⟩ = ⟨-1, 0, 0⟩ := by
    simpa using rounded_position_int (-1) 0 0
  have r15 : rounded_position ⟨-15, 0, 0⟩ = ⟨-15, 0, 0⟩ := by
    simpa using rounded_position_int (-15) 0 0
  have r16 : rounded_position ⟨-16, 0, 0⟩ = ⟨-16, 0, 0⟩ := by
    simpa using rounded_position_int (-16) 0 0
  have s16 : rounded_position ⟨16, 0, 0⟩ = ⟨16, 0, 0⟩ := by
    simpa using rounded_position_int 16 0 0
  refine ⟨r1, ?_, ?_, ?_, rfl, ?_, ?_⟩
  · simp [in_grid]
  · rw [get_chunk_encompassing_point_of_int _ _ _ _ _ r1]
    decide
  · rw [get_chunk_encompassing_point_of_int _ _ _ _ _ r15]
    decide
  · rw [get_chunk_encompassing_point_of_int _ _ _ _ _ r16]
    decide
  · rw [get_chunk_encompassing_point_of_int _ _ _ _ _ s16]
    decide

theorem bit_combination_all_over {vals : Nat → Nat} {S : Nat} (h : ∀ i, i < 8 → vals i > S) :
    bit_combination vals S = 255 := by
  unfold bit_combination
  have h0 := h 0 (by norm_num)
  have h1 := h 1 (by norm_num)
  have h2 := h 2 (by norm_num)
  have h3 := h 3 (by norm_num)
  have h4 := h 4 (by norm_num)
  have h5 := h 5 (by norm_num)
  have h6 := h 6 (by norm_num)
  have h7 := h 7 (by norm_num)
  simp [List.range_succ, h0, h1, h2, h3, h4, h5, h6, h7]

theorem bit_combination_none_over {vals : Nat → Nat} {S : Nat} (h : ∀ i, i < 8 → ¬ vals i > S) :
    bit_combination vals S = 0 := by
  unfold bit_combination
  have h0 := h 0 (by norm_num)
  have h1 := h 1 (by norm_num)
  have h2 := h 2 (by norm_num)
  have h3 := h 3 (by norm_num)
  have h4 := h 4 (by norm_num)
  have h5 := h 5 (by norm_num)
  have h6 := h 6 (by norm_num)
  have h7 := h 7 (by norm_num)
  simp [List.range_succ, h0, h1, h2, h3, h4, h5, h6, h7]

/-- A voxel pair whose table row is empty (begins with `-1`) leaves the chunk as
it is. -/
theorem update_chunk_mesh_voxel_pair_empty_row (t : mesh_tables) (vals : Nat → Nat)
    (chunk : voxel_chunk_t) (x y z S : Nat) {rest : List Int}
    (h : t.TRIANGLE_TABLE (bit_combination vals S) = -1 :: rest) :
    update_chunk_mesh_voxel_pair t vals chunk x y z S = some chunk := by
  unfold update_chunk_mesh_voxel_pair
  rw [h, update_chunk_mesh_voxel_pair_loop]
  simp

theorem push_vertex_to_triangle_array_ok (t : mesh_tables) (v0 v1 : Nat)
    (vertices : Nat → vector3_t) (chunk : voxel_chunk_t) (vals : Nat → Nat) (S : Nat)
    (hne : vals v0 ≠ vals v1) (hc : chunk.vertex_count < t.MAX_VERTICES_PER_VOXEL_CHUNK) :
    ∃ c', push_vertex_to_triangle_array t v0 v1 vertices chunk vals S = some c' ∧
      c'.vertex_count = chunk.vertex_count + 1 ∧ c'.voxels = chunk.voxels ∧
      c'.chunk_coord = chunk.chunk_coord := by
  have hq : ((vals v0 : ℚ)) ≠ (vals v1 : ℚ) := by exact_mod_cast hne
  unfold push_vertex_to_triangle_array lerp float_div
  by_cases hs : (vals v0 : ℚ) > (vals v1 : ℚ)
  · have h1 : ((vals v0 : ℚ)) - (vals v1 : ℚ) ≠ 0 := sub_ne_zero.mpr hq
    simp only [hs, decide_True, if_true, h1, if_false, hc]
    exact ⟨_, rfl, rfl, rfl, rfl⟩
  · have h1 : ((vals v1 : ℚ)) - (vals v0 : ℚ) ≠ 0 := sub_ne_zero.mpr (Ne.symm hq)
    simp only [hs, decide_False, Bool.false_eq_true, if_false, h1, hc, if_true]
    exact ⟨_, rfl, rfl, rfl, rfl⟩

theorem push_edge_vertex_ok (t : mesh_tables) (ep : Nat → Int) (vertices : Nat → vector3_t)
    (vals : Nat → Nat) (S : Nat) (chunk : voxel_chunk_t) (i v0 v1 : Nat)
    (he : edge_corners (ep i) = some (v0, v1)) (hne : vals v0 ≠ vals v1)
    (hc : chunk.vertex_count < t.MAX_VERTICES_PER_VOXEL_CHUNK) :
    ∃ c', push_edge_vertex t ep vertices vals S chunk i = some c' ∧
      c'.vertex_count = chunk.vertex_count + 1 ∧ c'.voxels = chunk.voxels ∧
      c'.chunk_coord = chunk.chunk_coord := by
  unfold push_edge_vertex
  rw [he]
  exact push_vertex_to_triangle_array_ok t v0 v1 vertices chunk vals S hne hc

theorem push_triangle_ok (t : mesh_tables) (ep : Nat → Int) (vertices : Nat → vector3_t)
    (vals : Nat → Nat) (S : Nat) (chunk : voxel_chunk_t)
    (h : ∀ i, i < 3 → ∃ v0 v1, edge_corners (ep i) = some (v0, v1) ∧ vals v0 ≠ vals v1)
    (hc : chunk.vertex_count + 3 ≤ t.MAX_VERTICES_PER_VOXEL_CHUNK) :
    ∃ c', (List.range 3).foldlM (push_edge_vertex t ep vertices vals S) chunk = some c' ∧
      c'.vertex_count = chunk.vertex_count + 3 ∧ c'.voxels = chunk.voxels ∧
      c'.chunk_coord = chunk.chunk_coord := by
  obtain ⟨a0, b0, e0, n0⟩ := h 0 (by norm_num)
  obtain ⟨a1, b1, e1, n1⟩ := h 1 (by norm_num)
  obtain ⟨a2, b2, e2, n2⟩ := h 2 (by norm_num)
  obtain ⟨c1, p1, k1, x1, y1⟩ := push_edge_vertex_ok t ep vertices vals S chunk 0 a0 b0 e0 n0
    (by omega)
  obtain ⟨c2, p2, k2, x2, y2⟩ := push_edge_vertex_ok t ep vertices vals S c1 1 a1 b1 e1 n1
    (by omega)
  obtain ⟨c3, p3, k3, x3, y3⟩ := push_edge_vertex_ok t ep vertices vals S c2 2 a2 b2 e2 n2
    (by omega)
  refine ⟨c3, ?_, by omega, by rw [x3, x2, x1], by rw [y3, y2, y1]⟩
  have hr : List.range 3 = [0, 1, 2] := by decide
  rw [hr]
  simp only [List.foldlM_cons, List.foldlM_nil, Option.bind_eq_bind, p1, Option.some_bind, p2, p3]
  rfl

theorem update_chunk_mesh_voxel_pair_153 {vals : Nat → Nat}
    (hv : vals 0 = 255 ∧ vals 1 = 0 ∧ vals 2 = 0 ∧ vals 3 = 255 ∧ vals 4 = 255 ∧ vals 5 = 0 ∧
      vals 6 = 0 ∧ vals 7 = 255) (c : voxel_chunk_t) (x y z : Nat)
    (hc : c.vertex_count + 6 ≤ 16875) :
    ∃ c', update_chunk_mesh_voxel_pair example_tables vals c x y z 60 = some c' ∧
      c'.vertex_count = c.vertex_count + 6 ∧ c'.voxels = c.voxels ∧
      c'.chunk_coord = c.chunk_coord := by
  obtain ⟨v0, v1, v2, v3, v4, v5, v6, v7⟩ := hv
  have hm : bit_combination vals 60 = 153 := by
    unfold bit_combination
    simp [List.range_succ, v0, v1, v2, v3, v4, v5, v6, v7]
  have hrow : example_tables.TRIANGLE_TABLE 153 =
      [0, 2, 4, 4, 2, 6, -1, -1, -1, -1, -1, -1, -1, -1, -1, -1] := rfl
  have hmax : example_tables.MAX_VERTICES_PER_VOXEL_CHUNK = 16875 := rfl
  unfold update_chunk_mesh_voxel_pair
  rw [hm, hrow]
  obtain ⟨c1, p1, k1, x1, y1⟩ := push_triangle_ok example_tables
    (Function.update (Function.update (fun _ => (0 : Int)) 1 2) 2 4)
    (voxel_pair_vertices x y z) vals 60 c
    (by
      intro i hi
      interval_cases i
      · exact ⟨0, 1, by simp [edge_corners, Function.update], by rw [v0, v1]; norm_num⟩
      · exact ⟨2, 3, by simp [edge_corners, Function.update], by rw [v2, v3]; norm_num⟩
      · exact ⟨4, 5, by simp [edge_corners, Function.update], by rw [v4, v5]; norm_num⟩)
    (by rw [hmax]; omega)
  obtain ⟨c2, p2, k2, x2, y2⟩ := push_triangle_ok example_tables
    (Function.update (Function.update (Function.update
      (Function.update (Function.update (fun _ => (0 : Int)) 1 2) 2 4)
      0 4) 1 2) 2 6)
    (voxel_pair_vertices x y z) vals 60 c1
    (by
      intro i hi
      interval_cases i
      · exact ⟨4, 5, by simp [edge_corners, Function.update], by rw [v4, v5]; norm_num⟩
      · exact ⟨2, 3, by simp [edge_corners, Function.update], by rw [v2, v3]; norm_num⟩
      · exact ⟨6, 7, by simp [edge_corners, Function.update], by rw [v6, v7]; norm_num⟩)
    (by rw [hmax]; omega)
  refine ⟨c2, ?_, by omega, by rw [x2, x1], by rw [y2, y1]⟩
  simp only [update_chunk_mesh_voxel_pair_loop]
  norm_num
  rw [p1]
  simp only
  rw [p2]

theorem chunk_edge_voxel_value_boundary {c : voxel_chunk_t} (hc : is_boundary_chunk_1 c)
    {x y z : Nat} (hx : x ≤ 16) (hy : y ≤ 16) (hz : z ≤ 16) :
    chunk_edge_voxel_value boundary_grid c x y z =
      if x = 16 then some (0, true) else some (255, false) := by
  obtain ⟨_, hcoord⟩ := hc
  unfold chunk_edge_voxel_value
  rw [hcoord]
  by_cases ex : x = 16 <;> by_cases ey : y = 16 <;> by_cases ez : z = 16 <;>
    simp [ex, ey, ez, VOXEL_CHUNK_EDGE_LENGTH, convert_3d_to_1d_index,
      is_voxel_coord_within_chunk, get_voxel_chunk, boundary_grid, boundary_chunk] <;> omega

theorem push_edge_boundary {c : voxel_chunk_t} (hc : is_boundary_chunk_1 c)
    (st : voxel_values_t) {x y z : Nat} (hx : x ≤ 16) (hy : y ≤ 16) (hz : z ≤ 16) :
    st.push_edge boundary_grid c x y z =
      some { values := st.values ++ [if x = 16 then 0 else 255],
             doesnt_exist := decide (x = 16) } := by
  unfold voxel_values_t.push_edge
  rw [chunk_edge_voxel_value_boundary hc hx hy hz]
  by_cases ex : x = 16 <;> simp [ex]

theorem y_superior_voxel_values_boundary {c : voxel_chunk_t} (hc : is_boundary_chunk_1 c)
    {x z : Nat} (hx : x ≤ 15) (hz : z ≤ 15) :
    y_superior_voxel_values boundary_grid c x 15 z =
      some { values := [255, if x = 15 then 0 else 255, if x = 15 then 0 else 255, 255, 255,
               if x = 15 then 0 else 255, if x = 15 then 0 else 255, 255],
             doesnt_exist := false } := by
  have hv : c.voxels x 15 z = 255 := by rw [hc.1]
  have hx15 : x ≠ 16 := by omega
  unfold y_superior_voxel_values voxel_values_t.push_own
  simp only [Option.some_bind, hv, List.nil_append,
    push_edge_boundary hc _ (by omega : x + 1 ≤ 16) (by omega : 15 ≤ 16) (by omega : z ≤ 16),
    push_edge_boundary hc _ (by omega : x + 1 ≤ 16) (by omega : 15 ≤ 16) (by omega : z + 1 ≤ 16),
    push_edge_boundary hc _ (by omega : x ≤ 16) (by omega : 15 ≤ 16) (by omega : z + 1 ≤ 16),
    push_edge_boundary hc _ (by omega : x ≤ 16) (by omega : 15 + 1 ≤ 16) (by omega : z ≤ 16),
    push_edge_boundary hc _ (by omega : x + 1 ≤ 16) (by omega : 15 + 1 ≤ 16) (by omega : z ≤ 16),
    push_edge_boundary hc _ (by omega : x + 1 ≤ 16) (by omega : 15 + 1 ≤ 16)
      (by omega : z + 1 ≤ 16),
    push_edge_boundary hc _ (by omega : x ≤ 16) (by omega : 15 + 1 ≤ 16) (by omega : z + 1 ≤ 16)]
  by_cases e : x = 15
  · subst e; simp
  · have : ¬ x + 1 = 16 := by omega
    simp [e, this, hx15]

theorem z_superior_voxel_values_boundary {c : voxel_chunk_t} (hc : is_boundary_chunk_1 c)
    {x y : Nat} (hx : x < 15) (hy : y < 15) :
    x_superior_voxel_values boundary_grid c x y 15 =
      some { values := [255, 255, 255, 255, 255, 255, 255, 255], doesnt_exist := false } := by
  have hv : ∀ a b d, c.voxels a b d = 255 := by intro a b d; rw [hc.1]
  have hx16 : x ≠ 16 := by omega
  have hx17 : ¬ x + 1 = 16 := by omega
  unfold x_superior_voxel_values voxel_values_t.push_own
  simp only [Option.some_bind, hv, List.nil_append,
    push_edge_boundary hc _ (by omega : x + 1 ≤ 16) (by omega : y ≤ 16) (by omega : 15 ≤ 16),
    push_edge_boundary hc _ (by omega : x + 1 ≤ 16) (by omega : y ≤ 16) (by omega : 15 + 1 ≤ 16),
    push_edge_boundary hc _ (by omega : x ≤ 16) (by omega : y ≤ 16) (by omega : 15 + 1 ≤ 16),
    push_edge_boundary hc _ (by omega : x + 1 ≤ 16) (by omega : y + 1 ≤ 16) (by omega : 15 ≤ 16),
    push_edge_boundary hc _ (by omega : x + 1 ≤ 16) (by omega : y + 1 ≤ 16)
      (by omega : 15 + 1 ≤ 16),
    push_edge_boundary hc _ (by omega : x ≤ 16) (by omega : y + 1 ≤ 16) (by omega : 15 + 1 ≤ 16)]
  simp [hx16, hx17]

theorem example_tables_row_255 : example_tables.TRIANGLE_TABLE 255 = -1 :: List.replicate 15 (-1) :=
  rfl

theorem example_tables_row_0 : example_tables.TRIANGLE_TABLE 0 = -1 :: List.replicate 15 (-1) :=
  rfl

/-- A voxel pair whose corners all hold 255 adds no vertex under `example_tables`. -/
theorem update_chunk_mesh_voxel_pair_solid (st : voxel_values_t)
    (hst : st.values = [255, 255, 255, 255, 255, 255, 255, 255]) (c : voxel_chunk_t)
    (x y z : Nat) :
    update_chunk_mesh_voxel_pair example_tables st.value_at c x y z 60 = some c := by
  have hm : bit_combination st.value_at 60 = 255 := by
    apply bit_combination_all_over
    intro i hi
    unfold voxel_values_t.value_at
    rw [hst]
    interval_cases i <;> simp
  have hrow : example_tables.TRIANGLE_TABLE (bit_combination st.value_at 60) =
      -1 :: List.replicate 15 (-1) := by
    rw [hm]
    exact example_tables_row_255
  exact update_chunk_mesh_voxel_pair_empty_row example_tables _ c x y z 60 hrow

/-- The weight of a pair of the `+y` face loop of chunk 1 of `boundary_grid`: the
number of vertices it adds. -/
theorem y_superior_pair_boundary {c : voxel_chunk_t} (hc : is_boundary_chunk_1 c)
    {x z : Nat} (hx : x ≤ 15) (hz : z ≤ 15)
    (hcount : c.vertex_count + (if x = 15 then 6 else 0) ≤ 16875) :
    ∃ c', y_superior_pair example_tables boundary_grid 60 c (x, z) = some c' ∧
      is_boundary_chunk_1 c' ∧
      c'.vertex_count = c.vertex_count + (if x = 15 then 6 else 0) := by
  unfold y_superior_pair mesh_face_pair
  simp only [VOXEL_CHUNK_EDGE_LENGTH, Nat.add_one_sub_one]
  rw [y_superior_voxel_values_boundary hc hx hz]
  simp only [Bool.not_false, if_true]
  by_cases e : x = 15
  · subst e
    simp only [if_true] at hcount ⊢
    obtain ⟨c', h1, h2, h3, h4⟩ := @update_chunk_mesh_voxel_pair_153
      (voxel_values_t.value_at { values := [255, 0, 0, 255, 255, 0, 0, 255], doesnt_exist := false })
      (by simp [voxel_values_t.value_at]) c 15 15 z hcount
    exact ⟨c', h1, ⟨by rw [h3]; exact hc.1, by rw [h4]; exact hc.2⟩, h2⟩
  · simp only [e, if_false, Nat.add_zero]
    exact ⟨c, update_chunk_mesh_voxel_pair_solid _ rfl c x 15 z, hc, rfl⟩

theorem z_superior_pair_boundary {c : voxel_chunk_t} (hc : is_boundary_chunk_1 c)
    {x y : Nat} (hx : x < 15) (hy : y < 15) :
    z_superior_pair example_tables boundary_grid 60 c (x, y) = some c := by
  unfold z_superior_pair mesh_face_pair
  simp only [VOXEL_CHUNK_EDGE_LENGTH, Nat.add_one_sub_one]
  rw [z_superior_voxel_values_boundary hc hx hy]
  simp only [Bool.not_false, if_true]
  exact update_chunk_mesh_voxel_pair_solid _ rfl c x y 15

theorem interior_pair_boundary {c : voxel_chunk_t} (hc : is_boundary_chunk_1 c)
    (xyz : Nat × Nat × Nat) :
    interior_pair example_tables 60 c xyz = some c := by
  unfold interior_pair
  apply update_chunk_mesh_voxel_pair_solid
  simp [interior_voxel_values, hc.1]

/-- A loop over pairs that each add a known number of vertices adds their sum. -/
theorem foldlM_vertex_count {α : Type} (f : voxel_chunk_t → α → Option voxel_chunk_t)
    (I : voxel_chunk_t → Prop) (w : α → Nat) (M : Nat) :
    ∀ (l : List α),
      (∀ a, a ∈ l → ∀ c, I c → c.vertex_count + w a ≤ M →
        ∃ c', f c a = some c' ∧ I c' ∧ c'.vertex_count = c.vertex_count + w a) →
      ∀ c, I c → c.vertex_count + (l.map w).sum ≤ M →
        ∃ c', l.foldlM f c = some c' ∧ I c' ∧
          c'.vertex_count = c.vertex_count + (l.map w).sum := by
  intro l
  induction l with
  | nil =>
    intro _ c hc _
    exact ⟨c, rfl, hc, by simp⟩
  | cons a l ih =>
    intro hstep c hc hM
    simp only [List.map_cons, List.sum_cons] at hM
    obtain ⟨c1, h1, i1, k1⟩ := hstep a (List.mem_cons_self a l) c hc (by omega)
    obtain ⟨c2, h2, i2, k2⟩ := ih (fun b hb => hstep b (List.mem_cons_of_mem a hb)) c1 i1
      (by omega)
    refine ⟨c2, ?_, i2, ?_⟩
    · simp only [List.foldlM_cons, Option.bind_eq_bind, h1, Option.some_bind, h2]
    · simp only [List.map_cons, List.sum_cons]
      omega

theorem sum_map_flatMap {α β : Type} (w : β → Nat) (f : α → List β) (l : List α) :
    ((l.flatMap f).map w).sum = (l.map fun a => ((f a).map w).sum).sum := by
  induction l with
  | nil => rfl
  | cons a l ih => simp [List.flatMap_cons, ih]

theorem list_map_const_sum {α : Type} (l : List α) (k : Nat) :
    (l.map fun _ => k).sum = l.length * k := by
  induction l with
  | nil => simp
  | cons a l ih => simp [ih, Nat.succ_mul, Nat.add_comm]

theorem y_superior_anchors_weight :
    (y_superior_anchors.map fun a => if a.1 = 15 then 6 else 0).sum = 96 := by
  unfold y_superior_anchors VOXEL_CHUNK_EDGE_LENGTH
  rw [sum_map_flatMap]
  have inner : ∀ z : Nat,
      (((List.range 16).map fun x => (x, z)).map fun a : Nat × Nat =>
        if a.1 = 15 then 6 else 0).sum = 6 := by
    intro z
    simp [List.range_succ]
  simp only [inner]
  rw [list_map_const_sum]
  simp

theorem mem_y_superior_anchors {a : Nat × Nat} (h : a ∈ y_superior_anchors) :
    a.1 ≤ 15 ∧ a.2 ≤ 15 := by
  unfold y_superior_anchors VOXEL_CHUNK_EDGE_LENGTH at h
  simp only [List.mem_flatMap, List.mem_map, List.mem_range] at h
  obtain ⟨z, hz, x, hx, rfl⟩ := h
  exact ⟨by simp only; omega, by simp only; omega⟩

theorem mem_z_superior_anchors {a : Nat × Nat} (h : a ∈ z_superior_anchors) :
    a.1 < 15 ∧ a.2 < 15 := by
  unfold z_superior_anchors VOXEL_CHUNK_EDGE_LENGTH at h
  simp only [List.mem_flatMap, List.mem_map, List.mem_range] at h
  obtain ⟨y, hy, x, hx, rfl⟩ := h
  exact ⟨by simp only; omega, by simp only; omega⟩

theorem list_map_zero_sum {α : Type} (l : List α) : (l.map fun _ => 0).sum = 0 := by
  induction l with
  | nil => rfl
  | cons a l ih => simp [ih]

theorem update_chunk_mesh_loops_boundary {c : voxel_chunk_t} (hI0 : is_boundary_chunk_1 c)
    (h0 : c.vertex_count = 0) :
    ∃ c', update_chunk_mesh_loops example_tables boundary_grid c 60 = some c' ∧
      is_boundary_chunk_1 c' ∧ c'.vertex_count = 96 := by
  have hx : get_voxel_chunk boundary_grid (convert_3d_to_1d_index (c.chunk_coord.x + 1)
      c.chunk_coord.y c.chunk_coord.z boundary_grid.grid_edge_size) = none := by
    rw [hI0.2]
    decide
  have hy : get_voxel_chunk boundary_grid (convert_3d_to_1d_index c.chunk_coord.x
      (c.chunk_coord.y + 1) c.chunk_coord.z boundary_grid.grid_edge_size) = some 3 := by
    rw [hI0.2]
    decide
  have hz : get_voxel_chunk boundary_grid (convert_3d_to_1d_index c.chunk_coord.x
      c.chunk_coord.y (c.chunk_coord.z + 1) boundary_grid.grid_edge_size) = some 5 := by
    rw [hI0.2]
    decide
  obtain ⟨c1, f1, i1, k1⟩ := foldlM_vertex_count (y_superior_pair example_tables boundary_grid 60)
    is_boundary_chunk_1 (fun a => if a.1 = 15 then 6 else 0) 16875 y_superior_anchors
    (fun a ha c hc hM => by
      obtain ⟨h1, h2⟩ := mem_y_superior_anchors ha
      exact y_superior_pair_boundary hc h1 h2 hM)
    c hI0 (by rw [y_superior_anchors_weight, h0]; norm_num)
  obtain ⟨c2, f2, i2, k2⟩ := foldlM_vertex_count (z_superior_pair example_tables boundary_grid 60)
    is_boundary_chunk_1 (fun _ => 0) 16875 z_superior_anchors
    (fun a ha c hc _ => by
      obtain ⟨h1, h2⟩ := mem_z_superior_anchors ha
      exact ⟨c, z_superior_pair_boundary hc h1 h2, hc, rfl⟩)
    c1 i1 (by rw [list_map_zero_sum, k1, y_superior_anchors_weight, h0]; norm_num)
  obtain ⟨c3, f3, i3, k3⟩ := foldlM_vertex_count (interior_pair example_tables 60)
    is_boundary_chunk_1 (fun _ => 0) 16875 interior_anchors
    (fun a _ c hc _ => ⟨c, interior_pair_boundary hc a, hc, rfl⟩)
    c2 i2 (by
      rw [list_map_zero_sum, k2, list_map_zero_sum, k1, y_superior_anchors_weight, h0]
      norm_num)
  refine ⟨c3, ?_, i3, ?_⟩
  · unfold update_chunk_mesh_loops
    simp only [hx, hy, hz]
    rw [if_neg (by simp), Option.some_bind, if_pos (by simp), f1, Option.some_bind,
      if_pos (by simp), f2, Option.some_bind, f3]
  · rw [k3, list_map_zero_sum, k2, list_map_zero_sum, k1, y_superior_anchors_weight, h0]

/-- The passes of `update_chunk_mesh` over chunk 1 of `boundary_grid`, the solid
chunk of the cell `(1, 0, 0)`, whose `+x` neighbour is absent and whose `+y`
neighbour exists: the 16 pairs at `x = 15` of the `+y` face each add 6 vertices. -/
theorem update_chunk_mesh_passes_boundary :
    ∃ c', update_chunk_mesh_passes example_tables boundary_grid (boundary_chunk 1) 60 = some c' ∧
      is_boundary_chunk_1 c' ∧ c'.vertex_count = 96 :=
  update_chunk_mesh_loops_boundary ⟨rfl, by simp [boundary_chunk]⟩ rfl

theorem ready_chunk_for_gpu_sync_vertex_count {g : voxel_chunks_t} {p : Nat} {c : voxel_chunk_t}
    (hc : g.chunks p = some c) :
    ∃ g' c', ready_chunk_for_gpu_sync g (some p) = some g' ∧ g'.chunks p = some c' ∧
      c'.vertex_count = c.vertex_count := by
  unfold ready_chunk_for_gpu_sync
  simp only [hc]
  by_cases hs : c.should_do_gpu_sync = true
  · simp only [hs, Bool.not_true, Bool.false_eq_true, if_false]
    exact ⟨g, c, rfl, hc, rfl⟩
  · simp only [hs, Bool.not_false, if_true]
    exact ⟨_, { c with should_do_gpu_sync := true }, rfl, by simp, rfl⟩

theorem update_chunk_mesh_eq {t : mesh_tables} {g : voxel_chunks_t} {p S : Nat}
    {c0 c1 : voxel_chunk_t} (h0 : g.chunks p = some c0)
    (h1 : update_chunk_mesh_passes t g c0 S = some c1) :
    update_chunk_mesh t g p S =
      ready_chunk_for_gpu_sync { g with chunks := Function.update g.chunks p (some c1) }
        (some p) := by
  unfold update_chunk_mesh
  rw [h0]
  simp only [h1]

/-- C14 (evaluation at the failing input): in a grid of edge size 2 the chunk of
the cell `(1, 0, 0)` has no `+x` neighbour and has a `+y` neighbour.  For the
pair at `(15, 15, 0)` of its `+y` face the corner lookup at `(16, 15, 0)` finds
the neighbour chunk absent, yet `doesnt_exist` is overwritten by the later
lookups and is false after the last one, at `(15, 16, 1)`: the pair is not
skipped but meshed with the absent corners taken as 0, whatever the table, and
with `example_tables` it adds 6 vertices. -/
theorem y_superior_pair_with_absent_corner_is_meshed :
    chunk_edge_voxel_value boundary_grid (boundary_chunk 1) 16 15 0 = some (0, true) ∧
    chunk_edge_voxel_value boundary_grid (boundary_chunk 1) 15 16 1 = some (255, false) ∧
    (∀ t : mesh_tables,
      y_superior_pair t boundary_grid 60 (boundary_chunk 1) (15, 0) =
        update_chunk_mesh_voxel_pair t
          (voxel_values_t.value_at
            { values := [255, 0, 0, 255, 255, 0, 0, 255], doesnt_exist := false })
          (boundary_chunk 1) 15 15 0 60) ∧
    ∃ c', y_superior_pair example_tables boundary_grid 60 (boundary_chunk 1) (15, 0) = some c' ∧
      c'.vertex_count = (boundary_chunk 1).vertex_count + 6 := by
  have hI : is_boundary_chunk_1 (boundary_chunk 1) := ⟨rfl, by simp [boundary_chunk]⟩
  refine ⟨?_, ?_, ?_, ?_⟩
  · rw [chunk_edge_voxel_value_boundary hI (by norm_num) (by norm_num) (by norm_num)]
    simp
  · rw [chunk_edge_voxel_value_boundary hI (by norm_num) (by norm_num) (by norm_num)]
    simp
  · intro t
    unfold y_superior_pair mesh_face_pair
    simp only [VOXEL_CHUNK_EDGE_LENGTH, Nat.add_one_sub_one]
    rw [y_superior_voxel_values_boundary hI (by norm_num) (by norm_num)]
    simp
  · obtain ⟨c', h1, _, h3⟩ := @y_superior_pair_boundary (boundary_chunk 1) hI 15 0 (by norm_num)
      (by norm_num) (by simp [boundary_chunk])
    exact ⟨c', h1, by simpa using h3⟩

/-- C15 (evaluation at the failing input): with `example_tables`, whose rows 0 and
255 are empty, and surface level 60, `update_chunk_mesh` on the chunk of the cell
`(1, 0, 0)` of a grid of edge size 2 in which every voxel of every chunk is 255
ends with `vertex_count = 96`, not 0: the 16 pairs at `x = 15` of the `+y` face are
meshed with the corners of the absent `+x` neighbour taken as 0. -/
theorem update_chunk_mesh_solid_boundary_chunk_has_vertices :
    example_tables.TRIANGLE_TABLE 0 = -1 :: List.replicate 15 (-1) ∧
    example_tables.TRIANGLE_TABLE 255 = -1 :: List.replicate 15 (-1) ∧
    (∀ i x y z, ((boundary_grid.chunks i).map fun c => c.voxels x y z) =
      if i < 8 then some 255 else none) ∧
    ∃ g' c', update_chunk_mesh example_tables boundary_grid 1 60 = some g' ∧
      g'.chunks 1 = some c' ∧ c'.vertex_count = 96 := by
  refine ⟨rfl, rfl, ?_, ?_⟩
  · intro i x y z
    unfold boundary_grid
    simp only
    split
    · rfl
    · rfl
  · obtain ⟨c1, h1, _, k1⟩ := update_chunk_mesh_passes_boundary
    obtain ⟨g', c', h2, h3, h4⟩ := @ready_chunk_for_gpu_sync_vertex_count
      { boundary_grid with chunks := Function.update boundary_grid.chunks 1 (some c1) } 1 c1
      (by simp)
    have hch : boundary_grid.chunks 1 = some (boundary_chunk 1) := rfl
    refine ⟨g', c', ?_, h3, by rw [h4, k1]⟩
    rw [update_chunk_mesh_eq hch h1]
    exact h2

/-- One iteration of the dispatch loop for a recipient: the datagram it sends
carries the whole array `player_snapshots` as it is after the iteration, in
which only the recipient's own entry was written, with `is_to_ignore = 0`. -/
theorem dispatch_snapshot_to_client_entries {start : serializer_t} {st st' : dispatch_loop_t}
    {k : Nat} (hstart : player_states_of_items start.items = [])
    (hk : k < st.server.network_state.client_count)
    (hr : (get_client st.server k).received_input_commands = true)
    (h : dispatch_snapshot_to_client start st k = some st') :
    ∃ m : sent_message_t,
      st'.server.sent = st.server.sent ++ [m] ∧
      m.player_states =
        (List.range st.server.network_state.client_count).map st'.player_snapshots ∧
      (st'.player_snapshots k).is_to_ignore = false ∧
      (∀ j, j ≠ k → st'.player_snapshots j = st.player_snapshots j) := by
  unfold dispatch_snapshot_to_client at h
  simp only [hr, if_true] at h
  cases hv : (List.range (get_client st.server k).modified_chunks_count).foldlM
      (serialize_client_chunk st.server.voxel_chunks)
      { serializer := (start.write (wire_item.uint64
          (get_client st.server k).previous_client_tick)).write
          (wire_item.uint32 (get_client st.server k).modified_chunks_count),
        force_client_to_do_voxel_correction := false,
        client := get_client st.server k } with
  | none => rw [hv] at h; simp at h
  | some v =>
    rw [hv] at h
    simp only [Option.some.injEq] at h
    obtain ⟨a1, _, a3⟩ := serialize_client_chunks_spec _ (get_client st.server k) _
      (by rfl) hv
    have a1' : player_states_of_items v.serializer.items = [] := by
      rw [a1]
      simp only [serializer_t.write, player_states_of_items_append, hstart, List.nil_append]
      rfl
    obtain ⟨c1, _, _, _⟩ := client_after_voxels_fields (get_client st.server k)
      v.force_client_to_do_voxel_correction
    rw [← a3] at c1
    obtain ⟨q1, _, _, q4, _, _, q7⟩ := player_phase_spec k
      st.server.network_state.client_count hk v st.player_snapshots
      (get_player st.server (get_client st.server k).player_handle) (by rw [c1]; exact hr) _ rfl
    obtain ⟨s1, _, _, s4, _, _⟩ := send_client_snapshot_spec st.server k
      (get_client st.server k).player_handle
      ((List.range st.server.network_state.client_count).foldl (serialize_player_snapshot k)
        { serializer := (force_voxel_correction k v st.player_snapshots).1.serializer,
          player_snapshots := (force_voxel_correction k v st.player_snapshots).2,
          client := (force_voxel_correction k v st.player_snapshots).1.client,
          player := get_player st.server (get_client st.server k).player_handle })
    rw [h] at s1 s4
    rw [← s4] at q1 q4 q7
    refine ⟨_, s1, ?_, q4, q7⟩
    simp only [sent_message_t.player_states, q1, a1', List.nil_append]

/-- The dispatch loop over the first `m` clients sends only datagrams whose
player entries are the `client_count` entries of the array, none of them flagged
`is_to_ignore`, when the array starts without a flagged entry. -/
theorem dispatch_fold_entries {start : serializer_t} {st0 : dispatch_loop_t}
    (hstart : player_states_of_items start.items = [])
    (h0 : never_ignored st0.player_snapshots) :
    ∀ (m : Nat), m ≤ st0.server.network_state.client_count → ∀ (stm : dispatch_loop_t),
      (List.range m).foldlM (dispatch_snapshot_to_client start) st0 = some stm →
      never_ignored stm.player_snapshots ∧
      ∃ msgs : List sent_message_t, stm.server.sent = st0.server.sent ++ msgs ∧
        ∀ msg, msg ∈ msgs →
          msg.player_states.length = st0.server.network_state.client_count ∧
          ∀ e, e ∈ msg.player_states → e.is_to_ignore = false := by
  intro m
  induction m with
  | zero =>
    intro _ stm h
    simp only [List.range_zero, List.foldlM_nil, Option.pure_def, Option.some.injEq] at h
    subst h
    exact ⟨h0, [], by simp, fun msg hm => absurd hm (List.not_mem_nil msg)⟩
  | succ m ih =>
    intro hm stm1 h
    rw [List.range_succ, List.foldlM_append] at h
    cases hf : (List.range m).foldlM (dispatch_snapshot_to_client start) st0 with
    | none => rw [hf] at h; simp at h
    | some stm =>
      rw [hf] at h
      simp only [Option.bind_eq_bind, Option.some_bind, List.foldlM_cons, List.foldlM_nil,
        Option.pure_def, Option.bind_some] at h
      obtain ⟨i1, i2, i3, _⟩ := dispatch_fold_spec hstart m (by omega) stm hf
      obtain ⟨n1, msgs, n2, n3⟩ := ih (by omega) stm hf
      by_cases hr : (get_client stm.server m).received_input_commands = true
      · obtain ⟨msg, e1, e2, e3, e4⟩ :=
          dispatch_snapshot_to_client_entries hstart (by rw [i1]; omega) hr h
        have hn : never_ignored stm1.player_snapshots := by
          intro j
          by_cases hj : j = m
          · rw [hj]; exact e3
          · rw [e4 j hj]; exact n1 j
        refine ⟨hn, msgs ++ [msg], by rw [e1, n2, List.append_assoc], ?_⟩
        intro msg' hmem
        rcases List.mem_append.mp hmem with hmem | hmem
        · exact n3 msg' hmem
        · have hmm : msg' = msg := by simpa using hmem
          subst hmm
          rw [e2, i1]
          refine ⟨by simp, ?_⟩
          intro e he
          obtain ⟨j, _, rfl⟩ := List.mem_map.mp he
          exact hn j
      · simp only [Bool.not_eq_true] at hr
        rw [dispatch_snapshot_to_client_skip hr] at h
        have := Option.some.inj h
        subst this
        exact ⟨n1, msgs, n2, n3⟩

theorem never_ignored_prepared (s : server_t) : never_ignored (prepared_player_snapshots s) := by
  intro j
  unfold prepared_player_snapshots
  split
  · rfl
  · rfl

/-- Every datagram of a dispatch carries one entry per client, and no entry is
flagged `is_to_ignore`. -/
theorem dispatch_snapshot_to_clients_entries {fmt : wire_format} {s s' : server_t}
    {voxel_packet : game_snapshot_voxel_delta_packet_t}
    (h : dispatch_snapshot_to_clients fmt s voxel_packet = some s') :
    ∃ msgs : List sent_message_t, s'.sent = s.sent ++ msgs ∧
      msgs.length = recipients_before s s.network_state.client_count ∧
      ∀ msg, msg ∈ msgs →
        msg.player_states.length = s.network_state.client_count ∧
        ∀ e, e ∈ msg.player_states → e.is_to_ignore = false := by
  obtain ⟨msgs0, u1, u2, _⟩ := dispatch_snapshot_to_clients_spec h
  unfold dispatch_snapshot_to_clients at h
  simp only [Option.map_eq_some'] at h
  obtain ⟨st, hf, rfl⟩ := h
  obtain ⟨_, msgs, j1, j2⟩ := dispatch_fold_entries (by rfl) (never_ignored_prepared s) _
    (le_refl _) st hf
  have hsame : msgs = msgs0 := List.append_cancel_left (j1.symm.trans u1)
  subst hsame
  exact ⟨msgs, j1, u2, j2⟩

/-- C16 (evaluation at the failing input): of two clients, client 0 has sent
input commands in the interval and client 1 has sent none.  The dispatch sends
one datagram, to client 0, and the entry of client 1 in it has `is_to_ignore = 0`:
the only store of 1 to `is_to_ignore` is in the `else` of a test of
`received_input_commands` that is nested in the `if` of the same test. -/
theorem snapshot_never_flags_is_to_ignore :
    (get_client two_client_server 0).received_input_commands = true ∧
    (get_client two_client_server 1).received_input_commands = false ∧
    (dispatch_snapshot_to_clients example_wire_format two_client_server
        { modified_chunks := [] }).map
      (fun s' => s'.sent.map fun m =>
        (m.address, m.player_states.map fun e => (e.client_id, e.is_to_ignore))) =
      some [((get_client two_client_server 0).network_address, [(0, false), (1, false)])] := by
  refine ⟨rfl, rfl, ?_⟩
  · norm_num [dispatch_snapshot_to_clients, dispatch_snapshot_to_client, two_client_server,
      example_server, get_client, get_player, List.range_succ, client_t.zero,
      force_voxel_correction,
      serialize_player_snapshot, send_client_snapshot, send_serialized_message,
      sent_message_t.player_states, player_states_of_items, serializer_t.write, set_client,
      set_player,
      correct_own_snapshot, prepared_player_snapshots, prepare_player_snapshot, player_t.zero,
      player_state_t.zero, vector3_t.zero, is_different, round_float32_zero, round_float32_one_tenth,
      game_snapshot_player_state_packet_t.zero]
    rfl

theorem foldl_store_voxels (r : Nat → local_client_modified_voxel_t) :
    ∀ (n : Nat) (c : client_modified_chunk_nl_t),
      ((List.range n).foldl (fun c voxel =>
        ({ c with
          modified_voxels := Function.update c.modified_voxels voxel
            ({ x := (r voxel).x
               y := (r voxel).y
               z := (r voxel).z
               value := (r voxel).value } : local_client_modified_voxel_t) } :
          client_modified_chunk_nl_t)) c) =
      { c with modified_voxels := fun v => if v < n then r v else c.modified_voxels v } := by
  intro n
  induction n with
  | zero => intro c; simp
  | succ n ih =>
    intro c
    rw [List.range_succ, List.foldl_append, ih]
    simp only [List.foldl_cons, List.foldl_nil]
    congr 1
    funext v
    by_cases hv : v = n
    · subst hv
      simp
    · rw [Function.update_noteq hv]
      have : (v < n + 1) ↔ (v < n) := by omega
      simp only [this]

theorem store_modified_chunk_slot (c : client_t) (i : Nat) (r : client_modified_chunk_t)
    (j : Nat) :
    (store_modified_chunk c i r).previous_received_voxel_modifications j =
      if j = i + c.modified_chunks_count then
        stored_chunk (c.previous_received_voxel_modifications j) r
      else c.previous_received_voxel_modifications j := by
  unfold store_modified_chunk
  simp only [foldl_store_voxels]
  by_cases hj : j = i + c.modified_chunks_count
  · subst hj
    simp only [Function.update_same, if_true]
    rfl
  · simp only [Function.update_noteq hj, hj, if_false]

/-- The loop that stores the reported chunks writes the slots
`count, ..., count + n - 1` and leaves every other slot as it was. -/
theorem foldl_store_modified_chunk_slots (f : Nat → client_modified_chunk_t) :
    ∀ (n : Nat) (c : client_t) (j : Nat),
      ((List.range n).foldl (fun c i => store_modified_chunk c i (f i)) c).previous_received_voxel_modifications
          j =
        if c.modified_chunks_count ≤ j ∧ j < c.modified_chunks_count + n then
          stored_chunk (c.previous_received_voxel_modifications j) (f (j - c.modified_chunks_count))
        else c.previous_received_voxel_modifications j := by
  intro n
  induction n with
  | zero =>
    intro c j
    have : ¬ (c.modified_chunks_count ≤ j ∧ j < c.modified_chunks_count + 0) := by omega
    rw [if_neg this]
    rfl
  | succ n ih =>
    intro c j
    rw [List.range_succ, List.foldl_append]
    simp only [List.foldl_cons, List.foldl_nil]
    rw [store_modified_chunk_slot, foldl_store_count, ih]
    by_cases hj : j = n + c.modified_chunks_count
    · subst hj
      have h1 : ¬ (c.modified_chunks_count ≤ n + c.modified_chunks_count ∧
          n + c.modified_chunks_count < c.modified_chunks_count + n) := by omega
      have h2 : c.modified_chunks_count ≤ n + c.modified_chunks_count ∧
          n + c.modified_chunks_count < c.modified_chunks_count + (n + 1) := by omega
      rw [if_pos rfl, if_neg h1, if_pos h2, Nat.add_sub_cancel]
    · rw [if_neg hj]
      have h3 : (c.modified_chunks_count ≤ j ∧ j < c.modified_chunks_count + (n + 1)) ↔
          (c.modified_chunks_count ≤ j ∧ j < c.modified_chunks_count + n) := by omega
      simp only [h3]

/-- The slots of the sending client after an accepted input-state packet. -/
theorem handle_input_state_slots (s : server_t) (d : received_datagram_t)
    (h : (get_client s d.header.client_id).needs_to_acknowledge_prediction_error = false)
    (j : Nat) :
    (get_client (handle_input_state s d) d.header.client_id).previous_received_voxel_modifications
        j =
      if (get_client s d.header.client_id).modified_chunks_count ≤ j ∧
          j < (get_client s d.header.client_id).modified_chunks_count +
            d.voxel_packet.modified_chunk_count then
        stored_chunk ((get_client s d.header.client_id).previous_received_voxel_modifications j)
          (d.voxel_packet.modified_chunks
            (j - (get_client s d.header.client_id).modified_chunks_count))
      else (get_client s d.header.client_id).previous_received_voxel_modifications j := by
  unfold handle_input_state
  simp only [h, Bool.not_false, if_true, get_client_set_client, get_client_set_player]
  rw [foldl_store_modified_chunk_slots]

theorem handle_datagram_accepted_input_state (fmt : wire_format) (s : server_t)
    (d : received_datagram_t) (h : accepted_input_state s d) :
    handle_datagram fmt s d = handle_input_state s d := by
  obtain ⟨h1, h2, h3, h4, _⟩ := h
  unfold handle_datagram
  rw [if_pos h1, if_pos h2, if_pos h3, h4]

/-- C17 (amended): on an accepted `INPUT_STATE` the server appends the reported
chunks after the modifications already stored for the client: the stored count
of chunks grows by the number of reported chunks, the slots already in use are
untouched, and the slot of the `i`-th reported chunk holds its chunk index and
its first `min(count, 80)` reported `(x, y, z, value)` entries, in order and
unchanged; for a count of at most 80 the stored `modified_voxel_count` is the
number of entries stored. -/
theorem input_state_stores_first_eighty_voxels (fmt : wire_format) (s : server_t)
    (d : received_datagram_t) (h : accepted_input_state s d) :
    (get_client (handle_datagram fmt s d) d.header.client_id).modified_chunks_count =
      (get_client s d.header.client_id).modified_chunks_count +
        d.voxel_packet.modified_chunk_count ∧
    (∀ j, j < (get_client s d.header.client_id).modified_chunks_count →
      (get_client (handle_datagram fmt s d)
          d.header.client_id).previous_received_voxel_modifications j =
        (get_client s d.header.client_id).previous_received_voxel_modifications j) ∧
    ∀ i, i < d.voxel_packet.modified_chunk_count →
      ((get_client (handle_datagram fmt s d) d.header.client_id).previous_received_voxel_modifications
          ((get_client s d.header.client_id).modified_chunks_count + i)).chunk_index =
        (d.voxel_packet.modified_chunks i).chunk_index ∧
      (∀ v, v < min (d.voxel_packet.modified_chunks i).modified_voxel_count 80 →
        ((get_client (handle_datagram fmt s d)
            d.header.client_id).previous_received_voxel_modifications
          ((get_client s d.header.client_id).modified_chunks_count + i)).modified_voxels v =
          (d.voxel_packet.modified_chunks i).modified_voxels v) ∧
      ((d.voxel_packet.modified_chunks i).modified_voxel_count ≤ 80 →
        ((get_client (handle_datagram fmt s d)
            d.header.client_id).previous_received_voxel_modifications
          ((get_client s d.header.client_id).modified_chunks_count + i)).modified_voxel_count =
          min (d.voxel_packet.modified_chunks i).modified_voxel_count 80) := by
  have hl := h.2.2.2.2
  rw [handle_datagram_accepted_input_state fmt s d h]
  refine ⟨(handle_input_state_client s d hl).2.2.2.1, ?_, ?_⟩
  · intro j hj
    rw [handle_input_state_slots s d hl, if_neg (by omega)]
  · intro i hi
    rw [handle_input_state_slots s d hl, if_pos (by omega), Nat.add_sub_cancel_left]
    refine ⟨rfl, ?_, ?_⟩
    · intro v hv
      simp only [stored_chunk, hv, if_true]
    · intro hc
      simp only [stored_chunk]
      omega

theorem accepted_long_report :
    accepted_input_state (one_client_server ⟨0, 0, 0⟩) long_report_datagram :=
  ⟨by decide, by decide, rfl, rfl, rfl⟩

theorem input_state_stores_first_eighty_voxels_witness :
    accepted_input_state (one_client_server ⟨0, 0, 0⟩) long_report_datagram ∧
    ((get_client (handle_datagram example_wire_format (one_client_server ⟨0, 0, 0⟩)
        long_report_datagram) long_report_datagram.header.client_id).modified_chunks_count =
      (get_client (one_client_server ⟨0, 0, 0⟩)
          long_report_datagram.header.client_id).modified_chunks_count +
        long_report_datagram.voxel_packet.modified_chunk_count ∧
    (∀ j, j < (get_client (one_client_server ⟨0, 0, 0⟩)
        long_report_datagram.header.client_id).modified_chunks_count →
      (get_client (handle_datagram example_wire_format (one_client_server ⟨0, 0, 0⟩)
          long_report_datagram)
          long_report_datagram.header.client_id).previous_received_voxel_modifications j =
        (get_client (one_client_server ⟨0, 0, 0⟩)
          long_report_datagram.header.client_id).previous_received_voxel_modifications j) ∧
    ∀ i, i < long_report_datagram.voxel_packet.modified_chunk_count →
      ((get_client (handle_datagram example_wire_format (one_client_server ⟨0, 0, 0⟩)
          long_report_datagram)
          long_report_datagram.header.client_id).previous_received_voxel_modifications
          ((get_client (one_client_server ⟨0, 0, 0⟩)
            long_report_datagram.header.client_id).modified_chunks_count + i)).chunk_index =
        (long_report_datagram.voxel_packet.modified_chunks i).chunk_index ∧
      (∀ v, v < min (long_report_datagram.voxel_packet.modified_chunks i).modified_voxel_count
          80 →
        ((get_client (handle_datagram example_wire_format (one_client_server ⟨0, 0, 0⟩)
            long_report_datagram)
            long_report_datagram.header.client_id).previous_received_voxel_modifications
          ((get_client (one_client_server ⟨0, 0, 0⟩)
            long_report_datagram.header.client_id).modified_chunks_count + i)).modified_voxels
            v =
          (long_report_datagram.voxel_packet.modified_chunks i).modified_voxels v) ∧
      ((long_report_datagram.voxel_packet.modified_chunks i).modified_voxel_count ≤ 80 →
        ((get_client (handle_datagram example_wire_format (one_client_server ⟨0, 0, 0⟩)
            long_report_datagram)
            long_report_datagram.header.client_id).previous_received_voxel_modifications
          ((get_client (one_client_server ⟨0, 0, 0⟩)
            long_report_datagram.header.client_id).modified_chunks_count +
              i)).modified_voxel_count =
          min (long_report_datagram.voxel_packet.modified_chunks i).modified_voxel_count 80)) :=
  ⟨accepted_long_report,
    input_state_stores_first_eighty_voxels example_wire_format (one_client_server ⟨0, 0, 0⟩)
      long_report_datagram accepted_long_report⟩

/-- C17 (counterexample): client 0 reports one chunk with 81 modified voxels, the
last one being `(0, 5, 1)` with value 7.  The server accepts the packet and stores
the count 81, but entry 80 of the slot is not the reported entry: it keeps the
zero content the slot had before, so 80 entries were stored. -/
theorem input_state_drops_voxels_above_eighty :
    accepted_input_state (one_client_server ⟨0, 0, 0⟩) long_report_datagram ∧
    (long_report_datagram.voxel_packet.modified_chunks 0).modified_voxel_count = 81 ∧
    (long_report_datagram.voxel_packet.modified_chunks 0).modified_voxels 80 = ⟨0, 5, 1, 7⟩ ∧
    ((get_client (handle_datagram example_wire_format (one_client_server ⟨0, 0, 0⟩)
      long_report_datagram) 0).previous_received_voxel_modifications 0).modified_voxel_count =
      81 ∧
    ((get_client (handle_datagram example_wire_format (one_client_server ⟨0, 0, 0⟩)
      long_report_datagram) 0).previous_received_voxel_modifications 0).modified_voxels 80 =
      ⟨0, 0, 0, 0⟩ ∧
    ((get_client (handle_datagram example_wire_format (one_client_server ⟨0, 0, 0⟩)
      long_report_datagram) 0).previous_received_voxel_modifications 0).modified_voxels 79 =
      ⟨15, 4, 1, 7⟩ := by
  have hacc := accepted_long_report
  have hid : long_report_datagram.header.client_id = 0 := rfl
  have hslot := handle_input_state_slots (one_client_server ⟨0, 0, 0⟩) long_report_datagram
    hacc.2.2.2.2 0
  rw [hid] at hslot
  have hcount : (get_client (one_client_server ⟨0, 0, 0⟩) 0).modified_chunks_count = 0 := rfl
  have hn : long_report_datagram.voxel_packet.modified_chunk_count = 1 := rfl
  rw [hcount, hn, if_pos (by omega)] at hslot
  rw [handle_datagram_accepted_input_state _ _ _ hacc, hslot]
  refine ⟨hacc, rfl, rfl, rfl, ?_, ?_⟩
  · simp [stored_chunk, long_report_datagram, one_client_server, get_client, client_t.zero]
  · simp [stored_chunk, long_report_datagram]

theorem foldl_send_sent_prefix {α : Type} (f : α → serializer_t)
    (a : server_t → α → network_address_t) :
    ∀ (l : List α) (s : server_t), ∃ extra,
      (l.foldl (fun st x => send_serialized_message st (f x) (a st x)) s).sent =
        s.sent ++ extra := by
  intro l
  induction l with
  | nil => intro s; exact ⟨[], by simp⟩
  | cons x l ih =>
    intro s
    rw [List.foldl_cons]
    obtain ⟨extra, h⟩ := ih (send_serialized_message s (f x) (a s x))
    exact ⟨{ address := a s x, items := (f x).items } :: extra, by
      rw [h, send_serialized_message_sent]; simp⟩

theorem handle_datagram_accepted_join (fmt : wire_format) (s : server_t)
    (d : received_datagram_t) (h : accepted_join d = true) :
    handle_datagram fmt s d = handle_client_join fmt s d := by
  unfold accepted_join at h
  simp only [decide_eq_true_eq] at h
  obtain ⟨h1, h2, h3, h4⟩ := h
  unfold handle_datagram
  rw [if_pos h1, if_pos h2, if_pos h3, h4]

/-- The client table after a join: the count grows by one, the new record holds
the old count as its `client_id`, and the other records are untouched. -/
theorem handle_client_join_clients (fmt : wire_format) (s : server_t) (d : received_datagram_t) :
    (handle_client_join fmt s d).network_state.client_count =
      s.network_state.client_count + 1 ∧
    (get_client (handle_client_join fmt s d) s.network_state.client_count).client_id =
      s.network_state.client_count ∧
    ∀ j, j ≠ s.network_state.client_count →
      get_client (handle_client_join fmt s d) j = get_client s j := by
  unfold handle_client_join
  simp only [get_client, dispatch_newcoming_client_to_clients_network_state,
    send_chunks_hard_update_packets, send_chunks_hard_update_packets_of_network_state,
    send_serialized_message_network_state]
  simp only [set_player, set_client, spawn_player, Function.update_apply]
  refine ⟨trivial, ?_, ?_⟩
  · simp
  · intro j hj
    simp [hj]

/-- The first datagram a join sends is the handshake, and it carries the
`client_id` assigned to the joiner. -/
theorem handle_client_join_handshake (fmt : wire_format) (s : server_t)
    (d : received_datagram_t) :
    ((handle_client_join fmt s d).sent[s.sent.length]?).bind handshake_client_index =
      some s.network_state.client_count := by
  unfold handle_client_join dispatch_newcoming_client_to_clients send_chunks_hard_update_packets
  simp only
  obtain ⟨extra, he⟩ := foldl_send_sent_prefix (fun _ : Nat => _)
    (fun st client_index => (get_client st client_index).network_address) _ _
  rw [he, send_chunks_hard_update_packets_of_sent, send_serialized_message_sent]
  simp only [set_player, set_client, spawn_player, List.append_assoc]
  rw [List.getElem?_append_right (le_refl _)]
  simp [handshake_client_index, initialize_game_state_initialize_packet]

theorem foldl_store_client_id (f : Nat → client_modified_chunk_t) (l : List Nat) (c : client_t) :
    (l.foldl (fun c i => store_modified_chunk c i (f i)) c).client_id = c.client_id := by
  induction l generalizing c with
  | nil => rfl
  | cons i l ih => rw [List.foldl_cons, ih]; rfl

theorem handle_input_state_clients (s : server_t) (d : received_datagram_t) :
    (handle_input_state s d).network_state.client_count = s.network_state.client_count ∧
    ∀ j, (get_client (handle_input_state s d) j).client_id = (get_client s j).client_id := by
  unfold handle_input_state
  by_cases h : (get_client s d.header.client_id).needs_to_acknowledge_prediction_error = true
  · simp only [h, Bool.not_true, Bool.false_eq_true, if_false, implies_true, and_self]
  · simp only [Bool.not_eq_true] at h
    simp only [h, Bool.not_false, if_true]
    refine ⟨rfl, ?_⟩
    intro j
    rw [get_client_set_client]
    split
    · rename_i hj
      rw [hj]
      simp only [foldl_store_client_id]
    · rfl

theorem handle_prediction_error_correction_clients (s : server_t) (d : received_datagram_t) :
    (handle_prediction_error_correction s d).network_state.client_count =
      s.network_state.client_count ∧
    ∀ j, (get_client (handle_prediction_error_correction s d) j).client_id =
      (get_client s j).client_id := by
  unfold handle_prediction_error_correction
  refine ⟨rfl, ?_⟩
  intro j
  rw [get_client_set_client]
  split
  · rename_i hj
    rw [hj]
  · rfl

/-- A datagram that is not an accepted join leaves the client count and every
`client_id` as they were. -/
theorem handle_datagram_not_join (fmt : wire_format) (s : server_t) (d : received_datagram_t)
    (h : accepted_join d = false) :
    (handle_datagram fmt s d).network_state.client_count = s.network_state.client_count ∧
    ∀ j, (get_client (handle_datagram fmt s d) j).client_id = (get_client s j).client_id := by
  unfold accepted_join at h
  simp only [decide_eq_false_iff_not] at h
  unfold handle_datagram
  by_cases h1 : d.bytes_received > 0
  · rw [if_pos h1]
    by_cases h2 : (d.header.total_packet_size : Int) = d.bytes_received
    · rw [if_pos h2]
      by_cases h3 : d.header.packet_mode = packet_mode_t.PM_CLIENT_MODE
      · rw [if_pos h3]
        cases ht : d.header.packet_type with
        | client t =>
          cases t with
          | CPT_CLIENT_JOIN => exact absurd ⟨h1, h2, h3, ht⟩ h
          | CPT_INPUT_STATE => exact handle_input_state_clients s d
          | CPT_PREDICTION_ERROR_CORRECTION => exact handle_prediction_error_correction_clients s d
          | CPT_ACKNOWLEDGED_GAME_STATE_RECEPTION => exact ⟨rfl, fun _ => rfl⟩
        | server t => exact ⟨rfl, fun _ => rfl⟩
        | other raw => exact ⟨rfl, fun _ => rfl⟩
      · rw [if_neg h3]
        exact ⟨rfl, fun _ => rfl⟩
    · rw [if_neg h2]
      exact ⟨rfl, fun _ => rfl⟩
  · rw [if_neg h1]
    exact ⟨rfl, fun _ => rfl⟩

theorem handle_datagram_client_ids (fmt : wire_format) (s : server_t) (d : received_datagram_t)
    (hs : client_ids_in_order s) :
    (handle_datagram fmt s d).network_state.client_count =
      s.network_state.client_count + (if accepted_join d then 1 else 0) ∧
    client_ids_in_order (handle_datagram fmt s d) := by
  by_cases h : accepted_join d = true
  · rw [handle_datagram_accepted_join fmt s d h]
    obtain ⟨a1, a2, a3⟩ := handle_client_join_clients fmt s d
    refine ⟨by rw [a1]; simp [h], ?_⟩
    intro i hi
    rw [a1] at hi
    by_cases hin : i = s.network_state.client_count
    · rw [hin]; exact a2
    · rw [a3 i hin]
      exact hs i (by omega)
  · simp only [Bool.not_eq_true] at h
    obtain ⟨b1, b2⟩ := handle_datagram_not_join fmt s d h
    refine ⟨by rw [b1]; simp [h], ?_⟩
    intro i hi
    rw [b1] at hi
    rw [b2 i]
    exact hs i hi

theorem process_datagrams_client_ids (fmt : wire_format) :
    ∀ (ds : List received_datagram_t) (s : server_t), client_ids_in_order s →
      (process_datagrams fmt s ds).network_state.client_count =
        s.network_state.client_count + (ds.filter accepted_join).length ∧
      client_ids_in_order (process_datagrams fmt s ds) := by
  intro ds
  induction ds with
  | nil => intro s hs; exact ⟨by simp [process_datagrams], hs⟩
  | cons d ds ih =>
    intro s hs
    obtain ⟨a1, a2⟩ := handle_datagram_client_ids fmt s d hs
    obtain ⟨b1, b2⟩ := ih (handle_datagram fmt s d) a2
    unfold process_datagrams at b1 b2 ⊢
    rw [List.foldl_cons]
    refine ⟨?_, b2⟩
    rw [b1, a1, List.filter_cons]
    by_cases h : accepted_join d = true
    · simp [h]; omega
    · simp [h]

/-- C19: starting from a server with no clients and handling any sequence of
datagrams, the client count is the number of accepted `CLIENT_JOIN`s, every
client record in use holds its index as `client_id`, and a `CLIENT_JOIN` accepted
after `k` earlier joins raises the count from `k` to `k + 1`, stores `client_id = k`
in record `k` and answers with a handshake that carries the client index `k` (the
first joiner gets 0). -/
theorem client_join_assigns_next_client_id (fmt : wire_format) (s0 : server_t)
    (h0 : s0.network_state.client_count = 0) (ds : List received_datagram_t) :
    (process_datagrams fmt s0 ds).network_state.client_count =
      (ds.filter accepted_join).length ∧
    client_ids_in_order (process_datagrams fmt s0 ds) ∧
    ∀ d, accepted_join d = true →
      (handle_datagram fmt (process_datagrams fmt s0 ds) d).network_state.client_count =
        (ds.filter accepted_join).length + 1 ∧
      (get_client (handle_datagram fmt (process_datagrams fmt s0 ds) d)
        (ds.filter accepted_join).length).client_id = (ds.filter accepted_join).length ∧
      ((handle_datagram fmt (process_datagrams fmt s0 ds) d).sent[
          (process_datagrams fmt s0 ds).sent.length]?).bind handshake_client_index =
        some (ds.filter accepted_join).length := by
  have hs0 : client_ids_in_order s0 := by
    intro i hi
    rw [h0] at hi
    exact absurd hi (Nat.not_lt_zero i)
  obtain ⟨c1, c2⟩ := process_datagrams_client_ids fmt ds s0 hs0
  rw [h0, Nat.zero_add] at c1
  refine ⟨c1, c2, ?_⟩
  intro d hd
  rw [handle_datagram_accepted_join fmt _ d hd]
  obtain ⟨a1, a2, _⟩ := handle_client_join_clients fmt (process_datagrams fmt s0 ds) d
  have a3 := handle_client_join_handshake fmt (process_datagrams fmt s0 ds) d
  rw [c1] at a1 a2 a3
  exact ⟨a1, a2, a3⟩

theorem client_join_assigns_next_client_id_witness :
    example_server.network_state.client_count = 0 ∧
    ((process_datagrams example_wire_format example_server
        [example_datagram (packet_type_t.client client_packet_type_t.CPT_CLIENT_JOIN),
         example_datagram (packet_type_t.client client_packet_type_t.CPT_INPUT_STATE)]
      ).network_state.client_count =
      (List.filter accepted_join
        [example_datagram (packet_type_t.client client_packet_type_t.CPT_CLIENT_JOIN),
         example_datagram (packet_type_t.client client_packet_type_t.CPT_INPUT_STATE)]).length ∧
    client_ids_in_order (process_datagrams example_wire_format example_server
        [example_datagram (packet_type_t.client client_packet_type_t.CPT_CLIENT_JOIN),
         example_datagram (packet_type_t.client client_packet_type_t.CPT_INPUT_STATE)]) ∧
    ∀ d, accepted_join d = true →
      (handle_datagram example_wire_format (process_datagrams example_wire_format example_server
        [example_datagram (packet_type_t.client client_packet_type_t.CPT_CLIENT_JOIN),
         example_datagram (packet_type_t.client client_packet_type_t.CPT_INPUT_STATE)])
        d).network_state.client_count =
        (List.filter accepted_join
          [example_datagram (packet_type_t.client client_packet_type_t.CPT_CLIENT_JOIN),
           example_datagram (packet_type_t.client client_packet_type_t.CPT_INPUT_STATE)]).length
          + 1 ∧
      (get_client (handle_datagram example_wire_format
        (process_datagrams example_wire_format example_server
          [example_datagram (packet_type_t.client client_packet_type_t.CPT_CLIENT_JOIN),
           example_datagram (packet_type_t.client client_packet_type_t.CPT_INPUT_STATE)]) d)
        (List.filter accepted_join
          [example_datagram (packet_type_t.client client_packet_type_t.CPT_CLIENT_JOIN),
           example_datagram (packet_type_t.client client_packet_type_t.CPT_INPUT_STATE)]).length
        ).client_id =
        (List.filter accepted_join
          [example_datagram (packet_type_t.client client_packet_type_t.CPT_CLIENT_JOIN),
           example_datagram (packet_type_t.client client_packet_type_t.CPT_INPUT_STATE)]).length ∧
      ((handle_datagram example_wire_format (process_datagrams example_wire_format example_server
          [example_datagram (packet_type_t.client client_packet_type_t.CPT_CLIENT_JOIN),
           example_datagram (packet_type_t.client client_packet_type_t.CPT_INPUT_STATE)])
          d).sent[
          (process_datagrams example_wire_format example_server
            [example_datagram (packet_type_t.client client_packet_type_t.CPT_CLIENT_JOIN),
             example_datagram (packet_type_t.client client_packet_type_t.CPT_INPUT_STATE)]
            ).sent.length]?).bind handshake_client_index =
        some (List.filter accepted_join
          [example_datagram (packet_type_t.client client_packet_type_t.CPT_CLIENT_JOIN),
           example_datagram (packet_type_t.client client_packet_type_t.CPT_INPUT_STATE)]).length) :=
  ⟨rfl,
    client_join_assigns_next_client_id example_wire_format example_server rfl
      [example_datagram (packet_type_t.client client_packet_type_t.CPT_CLIENT_JOIN),
       example_datagram (packet_type_t.client client_packet_type_t.CPT_INPUT_STATE)]⟩

theorem same_history_refl (g : voxel_chunks_t) : same_history g g := ⟨rfl, fun _ => rfl⟩

theorem same_history_trans {g1 g2 g3 : voxel_chunks_t} (h12 : same_history g1 g2)
    (h23 : same_history g2 g3) : same_history g1 g3 :=
  ⟨h23.1.trans h12.1, fun i => (h23.2 i).trans (h12.2 i)⟩

theorem same_history_update {g g' : voxel_chunks_t} {p : Nat} {c c' : voxel_chunk_t}
    (hc : g.chunks p = some c) (hh : chunk_history c' = chunk_history c)
    (hG : g'.grid_edge_size = g.grid_edge_size)
    (hch : g'.chunks = Function.update g.chunks p (some c')) : same_history g g' := by
  refine ⟨hG, ?_⟩
  intro i
  rw [hch]
  by_cases hi : i = p
  · subst hi
    rw [Function.update_same, hc]
    simp [hh]
  · rw [Function.update_noteq hi]

theorem ready_chunk_for_gpu_sync_same_history {g g' : voxel_chunks_t} {x : Option Nat}
    (h : ready_chunk_for_gpu_sync g x = some g') : same_history g g' := by
  unfold ready_chunk_for_gpu_sync at h
  cases x with
  | none => simp at h
  | some p =>
    simp only at h
    cases hc : g.chunks p with
    | none => rw [hc] at h; simp at h
    | some c =>
      rw [hc] at h
      simp only at h
      split at h
      · have hg := Option.some.inj h
        subst hg
        exact @same_history_update _ _ _ _ { c with should_do_gpu_sync := true } hc rfl rfl rfl
      · have hg := Option.some.inj h
        subst hg
        exact same_history_refl g

theorem terraform_write_same_history {g g' : voxel_chunks_t} {chunk : Nat} {cs : ivector3_t}
    {d2 r2 coefficient dt : ℚ}
    (h : terraform_write g chunk cs d2 r2 coefficient dt = some g') : same_history g g' := by
  cases hc : g.chunks chunk with
  | none =>
    unfold terraform_write at h
    rw [hc] at h
    simp at h
  | some c =>
    obtain ⟨_, _, hg⟩ := terraform_write_eq_some hc h
    subst hg
    exact @same_history_update _ _ _ _ (c.set_voxel _ _ _ _) hc rfl rfl rfl

theorem terraform_step_same_history {c b : ivector3_t} {r2 coefficient dt : ℚ}
    {st st' : voxel_chunks_t × Nat} {o : Nat × Nat × Nat}
    (h : terraform_step c b r2 coefficient dt st o = some st') : same_history st.1 st'.1 := by
  unfold terraform_step at h
  simp only at h
  split at h
  · cases hc : st.1.chunks st.2 with
    | none => rw [hc] at h; simp at h
    | some c0 =>
      rw [hc] at h
      simp only at h
      split at h
      · simp only [Option.map_eq_some'] at h
        obtain ⟨g1, hw, rfl⟩ := h
        exact terraform_write_same_history hw
      · split at h
        · have := Option.some.inj h
          subst this
          exact same_history_refl _
        · rename_i new_chunk _
          cases hr : ready_chunk_for_gpu_sync st.1 (some new_chunk) with
          | none => rw [hr] at h; simp at h
          | some g1 =>
            rw [hr] at h
            simp only at h
            cases hc1 : g1.chunks new_chunk with
            | none => rw [hc1] at h; simp at h
            | some c1 =>
              rw [hc1] at h
              simp only [Option.map_eq_some'] at h
              obtain ⟨g2, hw, rfl⟩ := h
              exact same_history_trans (ready_chunk_for_gpu_sync_same_history hr)
                (terraform_write_same_history hw)
  · have := Option.some.inj h
    subst this
    exact same_history_refl _

theorem terraform_fold_same_history {c b : ivector3_t} {r2 coefficient dt : ℚ} :
    ∀ (l : List (Nat × Nat × Nat)) {st st' : voxel_chunks_t × Nat},
      l.foldlM (terraform_step c b r2 coefficient dt) st = some st' →
      same_history st.1 st'.1 := by
  intro l
  induction l with
  | nil =>
    intro st st' h
    simp only [List.foldlM_nil, Option.pure_def, Option.some.injEq] at h
    subst h
    exact same_history_refl _
  | cons o l ih =>
    intro st st' h
    rw [List.foldlM_cons] at h
    cases hs : terraform_step c b r2 coefficient dt st o with
    | none => rw [hs] at h; simp at h
    | some st1 =>
      rw [hs] at h
      simp only [Option.bind_eq_bind, Option.some_bind] at h
      exact same_history_trans (terraform_step_same_history hs) (ih h)

/-- The function `terraform` writes no modification list and no history buffer. -/
theorem terraform_same_history {g g' : voxel_chunks_t} {c : ivector3_t} {r : Nat}
    {destructive : Bool} {dt : ℚ} (h : terraform g c r destructive dt = some g') :
    same_history g g' := by
  unfold terraform at h
  simp only at h
  cases hl : get_chunk_encompassing_point g c.to_vector3 with
  | none => rw [hl] at h; simp at h
  | some chunk =>
    rw [hl] at h
    simp only at h
    cases hr : ready_chunk_for_gpu_sync g (some chunk) with
    | none => rw [hr] at h; simp at h
    | some g0 =>
      rw [hr] at h
      simp only at h
      cases hf : (terraform_offsets (r * 2 + 1)).foldlM
          (terraform_step c
            (c.sub ⟨(r : Int), (r : Int), (r : Int)⟩) ((r : ℚ) * (r : ℚ))
            (if destructive then -1 else 1) dt) (g0, chunk) with
      | none => rw [hf] at h; simp at h
      | some st =>
        rw [hf] at h
        simp only at h
        exact same_history_trans (ready_chunk_for_gpu_sync_same_history hr)
          (same_history_trans (terraform_fold_same_history _ hf)
            (ready_chunk_for_gpu_sync_same_history h))

theorem get_modified_voxel_chunks_eq_nil {g : voxel_chunks_t}
    (h : ∀ i c, g.chunks i = some c → c.modified_voxels_list_count = 0) :
    get_modified_voxel_chunks g = [] := by
  unfold get_modified_voxel_chunks
  rw [List.filterMap_eq_nil_iff]
  intro i _
  cases hc : g.chunks i with
  | none => rfl
  | some c => simp [h i c hc]

theorem same_history_count {g g' : voxel_chunks_t} (hs : same_history g g')
    (h : ∀ i c, g.chunks i = some c → c.modified_voxels_list_count = 0) :
    ∀ i c, g'.chunks i = some c → c.modified_voxels_list_count = 0 := by
  intro i c' hc'
  have := hs.2 i
  rw [hc'] at this
  cases hc : g.chunks i with
  | none => rw [hc] at this; simp at this
  | some c =>
    rw [hc] at this
    simp only [Option.map_some', Option.some.injEq, chunk_history, Prod.mk.injEq] at this
    rw [this.1]
    exact h i c hc

/-- C18 (evaluation at the failing input): an additive `terraform` of radius 2
with `dt = 1/4` at the voxel `(8, 8, 8)` of a grid of density 100 whose
modification lists are empty raises the voxel to 255, and afterwards the
modification list of the chunk is still empty: the voxel delta that
`dispatch_snapshot_to_clients` prepares lists no chunk, before and after the
write. -/
theorem terraform_records_no_history :
    ∃ g', terraform example_grid ⟨8, 8, 8⟩ 2 false (1 / 4) = some g' ∧
      voxel_at example_grid ⟨8, 8, 8⟩ = some 100 ∧
      voxel_at g' ⟨8, 8, 8⟩ = some 255 ∧
      (prepare_voxel_delta_packet example_grid).modified_chunks = [] ∧
      (prepare_voxel_delta_packet g').modified_chunks = [] ∧
      ((g'.chunks 0).map fun c => c.modified_voxels_list_count) = some 0 := by
  obtain ⟨g', hg'⟩ := @terraform_total example_grid ⟨8, 8, 8⟩ 2 false (1 / 4)
    example_grid_well_formed example_centre_in_grid (by norm_num : 0 < 2) (by norm_num)
    (by norm_num [abs_of_nonneg])
  obtain ⟨v, hv, _, hv'⟩ := terraform_sound_value example_grid_well_formed hg'
    example_centre_in_grid
  have h0 : voxel_at example_grid ⟨8, 8, 8⟩ = some 100 :=
    @voxel_at_example 8 8 8 (by norm_num) (by norm_num) (by norm_num)
  rw [h0] at hv
  have hv100 : v = 100 := (Option.some.inj hv).symm
  subst hv100
  have hs := terraform_same_history hg'
  have hzero : ∀ i c, example_grid.chunks i = some c → c.modified_voxels_list_count = 0 := by
    intro i c hc
    unfold example_grid at hc
    simp only at hc
    split at hc
    · have := Option.some.inj hc
      subst this
      rfl
    · exact absurd hc (by simp)
  have hzero' := same_history_count hs hzero
  refine ⟨g', hg', h0, ?_, ?_, ?_, ?_⟩
  · rw [hv', dist_sq_self, if_pos (by norm_num)]
    have hf : float_to_int (175 : ℚ) = 175 := by
      have := float_to_int_intCast 175
      simpa using this
    have hdt : round_float32 (1 / 4) = 1 / 4 := by
      have := round_float32_two_zpow (-2) (by norm_num)
      norm_num at this
      exact this
    have hprod : round_float32 (175 : ℚ) = 175 := by
      have := round_float32_intCast 175 (by norm_num)
      simpa using this
    have he : (1 / 4 * 700 : ℚ) = 175 := by norm_num
    unfold truncated_terraform_density
    rw [Int.cast_zero, float32_terraform_amount_centre, hdt, he, hprod, hf]
    simp [clamp_density]
  · unfold prepare_voxel_delta_packet
    rw [get_modified_voxel_chunks_eq_nil hzero]
    rfl
  · unfold prepare_voxel_delta_packet
    rw [get_modified_voxel_chunks_eq_nil hzero']
    rfl
  · have h1 := hs.2 0
    have hc0 : example_grid.chunks 0 = some example_chunk := rfl
    rw [hc0] at h1
    cases hc : g'.chunks 0 with
    | none => rw [hc] at h1; simp at h1
    | some c =>
      rw [hc] at h1
      simp only [Option.map_some', Option.some.injEq, chunk_history, Prod.mk.injEq] at h1
      simp only [Option.map_some', h1.1]
      rfl

theorem uint32_to_int32_small {n : Nat} (h : n < 2 ^ 31) : uint32_to_int32 n = (n : Int) := by
  unfold uint32_to_int32
  have h1 : n % 2 ^ 32 = n := Nat.mod_eq_of_lt (by omega)
  rw [h1, if_pos h]

theorem uint32_to_int32_large {n : Nat} (h1 : 2 ^ 31 ≤ n) (h2 : n < 2 ^ 32) :
    uint32_to_int32 n < 0 := by
  unfold uint32_to_int32
  have h3 : n % 2 ^ 32 = n := Nat.mod_eq_of_lt h2
  rw [h3, if_neg (by omega)]
  omega

theorem index_lt_cube {e x y z : Nat} (hx : x < e) (hy : y < e) (hz : z < e) :
    z * (e * e) + y * e + x < e * e * e := by
  have h1 : z * (e * e) + y * e + x < z * (e * e) + (y + 1) * e := by nlinarith
  have h2 : (y + 1) * e ≤ e * e := Nat.mul_le_mul_right e hy
  have h3 : z * (e * e) + e * e = (z + 1) * (e * e) := by ring
  have h4 : (z + 1) * (e * e) ≤ e * (e * e) := Nat.mul_le_mul_right (e * e) hz
  calc z * (e * e) + y * e + x < z * (e * e) + (y + 1) * e := h1
    _ ≤ z * (e * e) + e * e := by omega
    _ = (z + 1) * (e * e) := h3
    _ ≤ e * (e * e) := h4
    _ = e * e * e := by ring

theorem cube_le_of_le {e : Nat} (he : e ≤ 1290) : e * e * e < 2 ^ 31 := by
  have h1 : e * e ≤ 1290 * 1290 := Nat.mul_le_mul he he
  have h2 : e * e * e ≤ 1290 * 1290 * 1290 := Nat.mul_le_mul h1 he
  omega

theorem convert_3d_to_1d_index_uint32_in_range {e x y z : Nat} (he : e ≤ 1290) (hx : x < e)
    (hy : y < e) (hz : z < e) :
    convert_3d_to_1d_index_uint32 x y z e = ((z * (e * e) + y * e + x : Nat) : Int) := by
  have hc := cube_le_of_le he
  have hi := index_lt_cube hx hy hz
  unfold convert_3d_to_1d_index_uint32
  rw [uint32_to_int32_small (by omega : x < 2 ^ 31), uint32_to_int32_small (by omega : y < 2 ^ 31),
    uint32_to_int32_small (by omega : z < 2 ^ 31)]
  have hw : is_voxel_coord_within_chunk ⟨(x : Int), (y : Int), (z : Int)⟩ e = true := by
    unfold is_voxel_coord_within_chunk
    simp only [decide_eq_true_eq]
    omega
  rw [if_pos hw]
  have hm : (z * (e * e) + y * e + x) % 2 ^ 32 = z * (e * e) + y * e + x :=
    Nat.mod_eq_of_lt (by omega)
  rw [hm, uint32_to_int32_small (by omega)]

theorem convert_3d_to_1d_index_uint32_out_of_range {e x y z : Nat}
    (hx32 : x < 2 ^ 32) (hy32 : y < 2 ^ 32) (hz32 : z < 2 ^ 32)
    (h : ¬ (x < e ∧ y < e ∧ z < e)) :
    convert_3d_to_1d_index_uint32 x y z e = -1 := by
  unfold convert_3d_to_1d_index_uint32
  have key : ∀ n : Nat, n < 2 ^ 32 → ¬ n < e →
      ¬ (uint32_to_int32 n ≥ 0 ∧ uint32_to_int32 n < (e : Int)) := by
    intro n hn32 hn
    by_cases hs : n < 2 ^ 31
    · rw [uint32_to_int32_small hs]
      omega
    · have := uint32_to_int32_large (by omega : 2 ^ 31 ≤ n) hn32
      omega
  have hw : is_voxel_coord_within_chunk
      ⟨uint32_to_int32 x, uint32_to_int32 y, uint32_to_int32 z⟩ e = false := by
    unfold is_voxel_coord_within_chunk
    simp only [decide_eq_false_iff_not]
    intro hcon
    by_cases h1 : x < e
    · by_cases h2 : y < e
      · have h3 : ¬ z < e := fun h3 => h ⟨h1, h2, h3⟩
        exact key z hz32 h3 ⟨hcon.2.2.2.2.1, hcon.2.2.2.2.2⟩
      · exact key y hy32 h2 ⟨hcon.2.2.1, hcon.2.2.2.1⟩
    · exact key x hx32 h1 ⟨hcon.1, hcon.2.1⟩
  rw [hw]
  simp

theorem index_injective {e x y z x' y' z' : Nat} (hx : x < e) (hy : y < e)
    (hx' : x' < e) (hy' : y' < e)
    (h : z * (e * e) + y * e + x = z' * (e * e) + y' * e + x') :
    x = x' ∧ y = y' ∧ z = z' := by
  have h' : chunk_index e x y z = chunk_index e x' y' z' := h
  exact chunk_index_inj hx hy hx' hy' h'

theorem convert_3d_to_1d_index_uint32_eq {e x y z : Nat} (he : e ≤ 1290) (hx : x < e)
    (hy : y < e) (hz : z < e) :
    convert_3d_to_1d_index_uint32 x y z e = convert_3d_to_1d_index (x : Int) (y : Int) (z : Int) e := by
  rw [convert_3d_to_1d_index_uint32_in_range he hx hy hz]
  unfold convert_3d_to_1d_index
  have hw : is_voxel_coord_within_chunk ⟨(x : Int), (y : Int), (z : Int)⟩ e = true := by
    unfold is_voxel_coord_within_chunk
    simp only [decide_eq_true_eq]
    omega
  rw [if_pos hw]
  push_cast
  ring

theorem same_chunk_body_refl (c : voxel_chunk_t) : same_chunk_body c c :=
  ⟨rfl, rfl, rfl, rfl, rfl, rfl, rfl⟩

theorem same_chunk_body_trans {a b c : voxel_chunk_t} (h1 : same_chunk_body a b)
    (h2 : same_chunk_body b c) : same_chunk_body a c :=
  ⟨h2.1.trans h1.1, h2.2.1.trans h1.2.1, h2.2.2.1.trans h1.2.2.1,
    h2.2.2.2.1.trans h1.2.2.2.1, h2.2.2.2.2.1.trans h1.2.2.2.2.1,
    h2.2.2.2.2.2.1.trans h1.2.2.2.2.2.1, h2.2.2.2.2.2.2.trans h1.2.2.2.2.2.2⟩

theorem foldlM_same_chunk_body {α : Type} (f : voxel_chunk_t → α → Option voxel_chunk_t)
    (hf : ∀ c a c', f c a = some c' → same_chunk_body c c') :
    ∀ (l : List α) (c c' : voxel_chunk_t), l.foldlM f c = some c' → same_chunk_body c c' := by
  intro l
  induction l with
  | nil =>
    intro c c' h
    simp only [List.foldlM_nil] at h
    cases h
    exact same_chunk_body_refl c
  | cons a l ih =>
    intro c c' h
    rw [List.foldlM_cons] at h
    cases h1 : f c a with
    | none =>
      rw [h1] at h
      cases h
    | some c1 =>
      rw [h1] at h
      exact same_chunk_body_trans (hf c a c1 h1) (ih c1 c' h)

theorem push_vertex_to_triangle_array_same_body {t : mesh_tables} {v0 v1 : Nat}
    {vertices : Nat → vector3_t} {c c' : voxel_chunk_t} {vals : Nat → Nat} {S : Nat}
    (h : push_vertex_to_triangle_array t v0 v1 vertices c vals S = some c') :
    same_chunk_body c c' := by
  unfold push_vertex_to_triangle_array at h
  by_cases hc : c.vertex_count < t.MAX_VERTICES_PER_VOXEL_CHUNK
  · simp only [hc, if_true] at h
    split at h
    · cases h
    · cases h
      exact ⟨rfl, rfl, rfl, rfl, rfl, rfl, rfl⟩
  · simp only [hc, if_false] at h
    split at h
    · cases h
    · cases h

theorem push_edge_vertex_same_body {t : mesh_tables} {ep : Nat → Int}
    {vertices : Nat → vector3_t} {vals : Nat → Nat} {S : Nat} {c c' : voxel_chunk_t} {i : Nat}
    (h : push_edge_vertex t ep vertices vals S c i = some c') : same_chunk_body c c' := by
  unfold push_edge_vertex at h
  split at h
  · cases h
    exact same_chunk_body_refl c
  · exact push_vertex_to_triangle_array_same_body h

theorem update_chunk_mesh_voxel_pair_loop_same_body (t : mesh_tables) (vals : Nat → Nat)
    (x y z S : Nat) :
    ∀ (row : List Int) (edge : Nat) (ep : Nat → Int) (c c' : voxel_chunk_t),
      update_chunk_mesh_voxel_pair_loop t vals x y z S row edge ep c = some c' →
      same_chunk_body c c' := by
  intro row
  induction row with
  | nil =>
    intro edge ep c c' h
    simp [update_chunk_mesh_voxel_pair_loop] at h
  | cons e rest ih =>
    intro edge ep c c' h
    unfold update_chunk_mesh_voxel_pair_loop at h
    by_cases he : e = -1
    · rw [if_pos he] at h
      cases h
      exact same_chunk_body_refl c
    · rw [if_neg he] at h
      by_cases h3 : edge % 3 = 2
      · simp only [h3, if_true] at h
        cases hf : (List.range 3).foldlM
            (push_edge_vertex t (Function.update ep 2 e) (voxel_pair_vertices x y z) vals S) c with
        | none =>
          rw [hf] at h
          cases h
        | some c1 =>
          rw [hf] at h
          have s1 := foldlM_same_chunk_body _ (fun _ _ _ hh => push_edge_vertex_same_body hh)
            _ _ _ hf
          exact same_chunk_body_trans s1 (ih _ _ _ _ h)
      · simp only [h3, if_false] at h
        exact ih _ _ _ _ h

theorem update_chunk_mesh_voxel_pair_same_body {t : mesh_tables} {vals : Nat → Nat}
    {c c' : voxel_chunk_t} {x y z S : Nat}
    (h : update_chunk_mesh_voxel_pair t vals c x y z S = some c') : same_chunk_body c c' :=
  update_chunk_mesh_voxel_pair_loop_same_body t vals x y z S _ _ _ _ _ h

theorem mesh_face_pair_same_body {t : mesh_tables} {S : Nat} {c c' : voxel_chunk_t}
    {vv : Option voxel_values_t} {x y z : Nat}
    (h : mesh_face_pair t S c vv x y z = some c') : same_chunk_body c c' := by
  unfold mesh_face_pair at h
  split at h
  · cases h
  · split at h
    · exact update_chunk_mesh_voxel_pair_same_body h
    · cases h
      exact same_chunk_body_refl c

theorem mesh_pair_at_same_body {t : mesh_tables} {g : voxel_chunks_t} {S : Nat}
    {c c' : voxel_chunk_t} {a : Nat × Nat × Nat}
    (h : mesh_pair_at t g S c a = some c') : same_chunk_body c c' := by
  unfold mesh_pair_at at h
  split at h
  · cases h
  · exact update_chunk_mesh_voxel_pair_same_body h

theorem ite_foldlM_same_body {α : Type} (b : Prop) [Decidable b]
    (f : voxel_chunk_t → α → Option voxel_chunk_t)
    (hf : ∀ c a c', f c a = some c' → same_chunk_body c c') (l : List α) (c c' : voxel_chunk_t)
    (h : (if b then l.foldlM f c else some c) = some c') : same_chunk_body c c' := by
  by_cases hb : b
  · rw [if_pos hb] at h
    exact foldlM_same_chunk_body f hf l c c' h
  · rw [if_neg hb] at h
    cases h
    exact same_chunk_body_refl c

theorem update_chunk_mesh_loops_same_body {t : mesh_tables} {g : voxel_chunks_t}
    {c c' : voxel_chunk_t} {S : Nat}
    (h : update_chunk_mesh_loops t g c S = some c') : same_chunk_body c c' := by
  unfold update_chunk_mesh_loops at h
  simp only [Option.bind_eq_some] at h
  obtain ⟨c3, ⟨c2, ⟨c1, h1, h2⟩, h3⟩, h4⟩ := h
  have s1 : same_chunk_body c c1 :=
    ite_foldlM_same_body _ _ (fun _ _ _ hh => mesh_face_pair_same_body hh) _ _ _ h1
  have s2 : same_chunk_body c1 c2 :=
    ite_foldlM_same_body _ _ (fun _ _ _ hh => mesh_face_pair_same_body hh) _ _ _ h2
  have s3 : same_chunk_body c2 c3 :=
    ite_foldlM_same_body _ _ (fun _ _ _ hh => mesh_face_pair_same_body hh) _ _ _ h3
  have s4 : same_chunk_body c3 c' :=
    foldlM_same_chunk_body _ (fun _ _ _ hh => update_chunk_mesh_voxel_pair_same_body hh) _ _ _ h4
  exact same_chunk_body_trans (same_chunk_body_trans (same_chunk_body_trans s1 s2) s3) s4

theorem foldlM_congr_of_invariant {α β : Type} (P : β → Prop) (Q : α → Prop)
    (f f' : β → α → Option β)
    (hP : ∀ c a c', P c → f c a = some c' → P c')
    (heq : ∀ c a, P c → Q a → f c a = f' c a) :
    ∀ (l : List α) (c : β), (∀ a ∈ l, Q a) → P c →
      l.foldlM f c = l.foldlM f' c ∧ ∀ c', l.foldlM f c = some c' → P c' := by
  intro l
  induction l with
  | nil =>
    intro c _ hc
    refine ⟨rfl, ?_⟩
    intro c' h
    simp only [List.foldlM_nil] at h
    cases h
    exact hc
  | cons a l ih =>
    intro c hQ hc
    have hq : Q a := hQ a (List.mem_cons_self a l)
    have hl : ∀ b ∈ l, Q b := fun b hb => hQ b (List.mem_cons_of_mem a hb)
    rw [List.foldlM_cons, List.foldlM_cons, ← heq c a hc hq]
    cases h1 : f c a with
    | none =>
      refine ⟨rfl, ?_⟩
      intro c' h
      cases h
    | some c1 =>
      exact ih c1 hl (hP c a c1 hc h1)

theorem get_voxel_chunk_some {g : voxel_chunks_t} {index : Int} {p : Nat}
    (h : get_voxel_chunk g index = some p) : ∃ c, g.chunks p = some c := by
  unfold get_voxel_chunk at h
  by_cases h1 : index = -1
  · rw [if_pos h1] at h
    cases h
  · rw [if_neg h1] at h
    by_cases h2 : (g.chunks index.toNat).isSome = true
    · rw [if_pos h2] at h
      cases h
      exact Option.isSome_iff_exists.mp h2
    · rw [if_neg h2] at h
      cases h

theorem chunk_edge_voxel_value_of_neighbours {g : voxel_chunks_t} {c : voxel_chunk_t}
    (hN : neighbours_exist g c.chunk_coord) {x y z : Nat} (hx : x ≤ 16) (hy : y ≤ 16)
    (hz : z ≤ 16) : ∃ v, chunk_edge_voxel_value g c x y z = some (v, false) := by
  have h := hN (if x = 16 then 1 else 0) (if y = 16 then 1 else 0) (if z = 16 then 1 else 0)
    (by split_ifs <;> omega) (by split_ifs <;> omega) (by split_ifs <;> omega)
  have ex : (((if x = 16 then 1 else 0 : Nat)) : Int) = if x = 16 then 1 else 0 := by
    split_ifs <;> rfl
  have ey : (((if y = 16 then 1 else 0 : Nat)) : Int) = if y = 16 then 1 else 0 := by
    split_ifs <;> rfl
  have ez : (((if z = 16 then 1 else 0 : Nat)) : Int) = if z = 16 then 1 else 0 := by
    split_ifs <;> rfl
  rw [ex, ey, ez] at h
  obtain ⟨p, hp⟩ := Option.isSome_iff_exists.mp h
  obtain ⟨c2, hc2⟩ := get_voxel_chunk_some hp
  have hfin : (if x = 16 then 0 else x) < 16 ∧ (if y = 16 then 0 else y) < 16 ∧
      (if z = 16 then 0 else z) < 16 := by
    refine ⟨?_, ?_, ?_⟩ <;> split_ifs <;> omega
  refine ⟨c2.voxels (if x = 16 then 0 else x) (if y = 16 then 0 else y)
    (if z = 16 then 0 else z), ?_⟩
  unfold chunk_edge_voxel_value
  simp only [VOXEL_CHUNK_EDGE_LENGTH]
  rw [hp]
  simp only [hc2]
  rw [if_pos hfin]

theorem push_edge_of_neighbours {g : voxel_chunks_t} {c : voxel_chunk_t}
    (hN : neighbours_exist g c.chunk_coord) (st : voxel_values_t) {x y z : Nat} (hx : x ≤ 16)
    (hy : y ≤ 16) (hz : z ≤ 16) :
    ∃ v, st.push_edge g c x y z = some { values := st.values ++ [v], doesnt_exist := false } := by
  obtain ⟨v, hv⟩ := chunk_edge_voxel_value_of_neighbours hN hx hy hz
  refine ⟨v, ?_⟩
  unfold voxel_values_t.push_edge
  rw [hv]
  rfl

theorem x_superior_voxel_values_of_neighbours {g : voxel_chunks_t} {c : voxel_chunk_t}
    (hN : neighbours_exist g c.chunk_coord) {x y z : Nat} (hx : x ≤ 15) (hy : y ≤ 15)
    (hz : z ≤ 15) :
    ∃ st, x_superior_voxel_values g c x y z = some st ∧ st.doesnt_exist = false := by
  unfold x_superior_voxel_values voxel_values_t.push_own
  simp only [Option.some_bind]
  obtain ⟨v1, h1⟩ := push_edge_of_neighbours hN ⟨[] ++ [c.voxels x y z], false⟩
    (by omega : x + 1 ≤ 16) (by omega : y ≤ 16) (by omega : z ≤ 16)
  rw [h1]
  simp only [Option.some_bind]
  obtain ⟨v2, h2⟩ := push_edge_of_neighbours hN ⟨([] ++ [c.voxels x y z]) ++ [v1], false⟩
    (by omega : x + 1 ≤ 16) (by omega : y ≤ 16) (by omega : z + 1 ≤ 16)
  rw [h2]
  simp only [Option.some_bind]
  obtain ⟨v3, h3⟩ := push_edge_of_neighbours hN
    ⟨(([] ++ [c.voxels x y z]) ++ [v1]) ++ [v2], false⟩
    (by omega : x ≤ 16) (by omega : y ≤ 16) (by omega : z + 1 ≤ 16)
  rw [h3]
  simp only [Option.some_bind]
  obtain ⟨v5, h5⟩ := push_edge_of_neighbours hN
    ⟨((((([] ++ [c.voxels x y z]) ++ [v1]) ++ [v2]) ++ [v3]) ++ [c.voxels x (y + 1) z]), false⟩
    (by omega : x + 1 ≤ 16) (by omega : y + 1 ≤ 16) (by omega : z ≤ 16)
  rw [h5]
  simp only [Option.some_bind]
  obtain ⟨v6, h6⟩ := push_edge_of_neighbours hN
    ⟨(((((([] ++ [c.voxels x y z]) ++ [v1]) ++ [v2]) ++ [v3]) ++ [c.voxels x (y + 1) z]) ++ [v5]),
      false⟩
    (by omega : x + 1 ≤ 16) (by omega : y + 1 ≤ 16) (by omega : z + 1 ≤ 16)
  rw [h6]
  simp only [Option.some_bind]
  obtain ⟨v7, h7⟩ := push_edge_of_neighbours hN
    ⟨((((((([] ++ [c.voxels x y z]) ++ [v1]) ++ [v2]) ++ [v3]) ++ [c.voxels x (y + 1) z]) ++
      [v5]) ++ [v6]), false⟩
    (by omega : x ≤ 16) (by omega : y + 1 ≤ 16) (by omega : z + 1 ≤ 16)
  rw [h7]
  exact ⟨_, rfl, rfl⟩

theorem y_superior_voxel_values_of_neighbours {g : voxel_chunks_t} {c : voxel_chunk_t}
    (hN : neighbours_exist g c.chunk_coord) {x y z : Nat} (hx : x ≤ 15) (hy : y ≤ 15)
    (hz : z ≤ 15) :
    ∃ st, y_superior_voxel_values g c x y z = some st ∧ st.doesnt_exist = false := by
  unfold y_superior_voxel_values voxel_values_t.push_own
  simp only [Option.some_bind]
  obtain ⟨v1, h1⟩ := push_edge_of_neighbours hN ⟨[] ++ [c.voxels x y z], false⟩
    (by omega : x + 1 ≤ 16) (by omega : y ≤ 16) (by omega : z ≤ 16)
  rw [h1]
  simp only [Option.some_bind]
  obtain ⟨v2, h2⟩ := push_edge_of_neighbours hN ⟨([] ++ [c.voxels x y z]) ++ [v1], false⟩
    (by omega : x + 1 ≤ 16) (by omega : y ≤ 16) (by omega : z + 1 ≤ 16)
  rw [h2]
  simp only [Option.some_bind]
  obtain ⟨v3, h3⟩ := push_edge_of_neighbours hN
    ⟨(([] ++ [c.voxels x y z]) ++ [v1]) ++ [v2], false⟩
    (by omega : x ≤ 16) (by omega : y ≤ 16) (by omega : z + 1 ≤ 16)
  rw [h3]
  simp only [Option.some_bind]
  obtain ⟨v4, h4⟩ := push_edge_of_neighbours hN
    ⟨((([] ++ [c.voxels x y z]) ++ [v1]) ++ [v2]) ++ [v3], false⟩
    (by omega : x ≤ 16) (by omega : y + 1 ≤ 16) (by omega : z ≤ 16)
  rw [h4]
  simp only [Option.some_bind]
  obtain ⟨v5, h5⟩ := push_edge_of_neighbours hN
    ⟨(((([] ++ [c.voxels x y z]) ++ [v1]) ++ [v2]) ++ [v3]) ++ [v4], false⟩
    (by omega : x + 1 ≤ 16) (by omega : y + 1 ≤ 16) (by omega : z ≤ 16)
  rw [h5]
  simp only [Option.some_bind]
  obtain ⟨v6, h6⟩ := push_edge_of_neighbours hN
    ⟨((((([] ++ [c.voxels x y z]) ++ [v1]) ++ [v2]) ++ [v3]) ++ [v4]) ++ [v5], false⟩
    (by omega : x + 1 ≤ 16) (by omega : y + 1 ≤ 16) (by omega : z + 1 ≤ 16)
  rw [h6]
  simp only [Option.some_bind]
  obtain ⟨v7, h7⟩ := push_edge_of_neighbours hN
    ⟨(((((([] ++ [c.voxels x y z]) ++ [v1]) ++ [v2]) ++ [v3]) ++ [v4]) ++ [v5]) ++ [v6], false⟩
    (by omega : x ≤ 16) (by omega : y + 1 ≤ 16) (by omega : z + 1 ≤ 16)
  rw [h7]
  exact ⟨_, rfl, rfl⟩

theorem x_superior_pair_eq_mesh_pair_at {t : mesh_tables} {g : voxel_chunks_t} {S : Nat}
    {c : voxel_chunk_t} (hN : neighbours_exist g c.chunk_coord) {y z : Nat} (hy : y < 15)
    (hz : z < 16) :
    x_superior_pair t g S c (y, z) = mesh_pair_at t g S c (15, y, z) := by
  unfold x_superior_pair mesh_pair_at mesh_pair_voxel_values
  simp only [VOXEL_CHUNK_EDGE_LENGTH]
  rw [if_neg (by omega : ¬ y = 16 - 1), if_pos True.intro]
  obtain ⟨st, hst, hd⟩ := @x_superior_voxel_values_of_neighbours g c hN 15 y z (by omega) (by omega) (by omega)
  show mesh_face_pair t S c (x_superior_voxel_values g c 15 y z) 15 y z = _
  rw [hst]
  unfold mesh_face_pair
  simp only [hd, Bool.not_false, if_true]

theorem y_superior_pair_eq_mesh_pair_at {t : mesh_tables} {g : voxel_chunks_t} {S : Nat}
    {c : voxel_chunk_t} (hN : neighbours_exist g c.chunk_coord) {x z : Nat} (hx : x < 16)
    (hz : z < 16) :
    y_superior_pair t g S c (x, z) = mesh_pair_at t g S c (x, 15, z) := by
  unfold y_superior_pair mesh_pair_at mesh_pair_voxel_values
  simp only [VOXEL_CHUNK_EDGE_LENGTH]
  rw [if_pos True.intro]
  obtain ⟨st, hst, hd⟩ := @y_superior_voxel_values_of_neighbours g c hN x 15 z (by omega) (by omega) (by omega)
  show mesh_face_pair t S c (y_superior_voxel_values g c x 15 z) x 15 z = _
  rw [hst]
  unfold mesh_face_pair
  simp only [hd, Bool.not_false, if_true]

theorem z_superior_pair_eq_mesh_pair_at {t : mesh_tables} {g : voxel_chunks_t} {S : Nat}
    {c : voxel_chunk_t} (hN : neighbours_exist g c.chunk_coord) {x y : Nat} (hx : x < 15)
    (hy : y < 15) :
    z_superior_pair t g S c (x, y) = mesh_pair_at t g S c (x, y, 15) := by
  unfold z_superior_pair mesh_pair_at mesh_pair_voxel_values
  simp only [VOXEL_CHUNK_EDGE_LENGTH]
  rw [if_neg (by omega : ¬ y = 16 - 1), if_neg (by omega : ¬ x = 16 - 1),
    if_pos True.intro]
  obtain ⟨st, hst, hd⟩ := @x_superior_voxel_values_of_neighbours g c hN x y 15 (by omega) (by omega) (by omega)
  show mesh_face_pair t S c (x_superior_voxel_values g c x y 15) x y 15 = _
  rw [hst]
  unfold mesh_face_pair
  simp only [hd, Bool.not_false, if_true]

theorem interior_pair_eq_mesh_pair_at {t : mesh_tables} {g : voxel_chunks_t} {S : Nat}
    {c : voxel_chunk_t} {x y z : Nat} (hx : x < 15) (hy : y < 15) (hz : z < 15) :
    interior_pair t S c (x, y, z) = mesh_pair_at t g S c (x, y, z) := by
  unfold interior_pair mesh_pair_at mesh_pair_voxel_values
  simp only [VOXEL_CHUNK_EDGE_LENGTH]
  rw [if_neg (by omega : ¬ y = 16 - 1), if_neg (by omega : ¬ x = 16 - 1),
    if_neg (by omega : ¬ z = 16 - 1)]

theorem mem_x_superior_anchors_iff {y z : Nat} : (y, z) ∈ x_superior_anchors ↔ y < 15 ∧ z < 16 := by
  unfold x_superior_anchors
  simp only [VOXEL_CHUNK_EDGE_LENGTH, List.mem_flatMap, List.mem_range, List.mem_map,
    Prod.mk.injEq]
  constructor
  · rintro ⟨z', hz', y', hy', rfl, rfl⟩
    exact ⟨by omega, hz'⟩
  · rintro ⟨hy, hz⟩
    exact ⟨z, hz, y, by omega, rfl, rfl⟩

theorem mem_interior_anchors_iff {x y z : Nat} :
    (x, y, z) ∈ interior_anchors ↔ x < 15 ∧ y < 15 ∧ z < 15 := by
  unfold interior_anchors
  simp only [VOXEL_CHUNK_EDGE_LENGTH, List.mem_flatMap, List.mem_range, List.mem_map,
    Prod.mk.injEq]
  constructor
  · rintro ⟨z', hz', y', hy', x', hx', rfl, rfl, rfl⟩
    exact ⟨by omega, by omega, by omega⟩
  · rintro ⟨hx, hy, hz⟩
    exact ⟨z, by omega, y, by omega, x, by omega, rfl, rfl, rfl⟩

theorem mem_y_superior_anchors_iff {x z : Nat} :
    (x, z) ∈ y_superior_anchors ↔ x < 16 ∧ z < 16 := by
  unfold y_superior_anchors
  simp only [VOXEL_CHUNK_EDGE_LENGTH, List.mem_flatMap, List.mem_range, List.mem_map,
    Prod.mk.injEq]
  constructor
  · rintro ⟨z', hz', x', hx', rfl, rfl⟩
    exact ⟨hx', hz'⟩
  · rintro ⟨hx, hz⟩
    exact ⟨z, hz, x, hx, rfl, rfl⟩

theorem mem_z_superior_anchors_iff {x y : Nat} :
    (x, y) ∈ z_superior_anchors ↔ x < 15 ∧ y < 15 := by
  unfold z_superior_anchors
  simp only [VOXEL_CHUNK_EDGE_LENGTH, List.mem_flatMap, List.mem_range, List.mem_map,
    Prod.mk.injEq]
  constructor
  · rintro ⟨y', hy', x', hx', rfl, rfl⟩
    exact ⟨by omega, by omega⟩
  · rintro ⟨hx, hy⟩
    exact ⟨y, by omega, x, by omega, rfl, rfl⟩

theorem nodup_flatMap_range {α : Type} (n : Nat) (f : Nat → List α)
    (h1 : ∀ i, (f i).Nodup) (h2 : ∀ i j a, a ∈ f i → a ∈ f j → i = j) :
    ((List.range n).flatMap f).Nodup := by
  rw [List.nodup_flatMap]
  refine ⟨fun i _ => h1 i, ?_⟩
  refine (List.pairwise_lt_range n).imp ?_
  intro i j hij
  show List.Disjoint (f i) (f j)
  intro a ha hb
  have := h2 i j a ha hb
  omega

theorem nodup_range_map_pair {α : Type} (n : Nat) (f : Nat → α)
    (h : ∀ i j, f i = f j → i = j) : ((List.range n).map f).Nodup :=
  (List.nodup_range n).map (fun i j hij => h i j hij)

theorem x_superior_anchors_nodup : x_superior_anchors.Nodup := by
  unfold x_superior_anchors
  refine nodup_flatMap_range _ _ (fun z => nodup_range_map_pair _ _ ?_) ?_
  · intro i j h
    simp only [Prod.mk.injEq] at h
    exact h.1
  · intro i j a ha hb
    simp only [List.mem_map, List.mem_range] at ha hb
    obtain ⟨y, _, rfl⟩ := ha
    obtain ⟨y', _, h⟩ := hb
    simp only [Prod.mk.injEq] at h
    exact h.2.symm

theorem y_superior_anchors_nodup : y_superior_anchors.Nodup := by
  unfold y_superior_anchors
  refine nodup_flatMap_range _ _ (fun z => nodup_range_map_pair _ _ ?_) ?_
  · intro i j h
    simp only [Prod.mk.injEq] at h
    exact h.1
  · intro i j a ha hb
    simp only [List.mem_map, List.mem_range] at ha hb
    obtain ⟨y, _, rfl⟩ := ha
    obtain ⟨y', _, h⟩ := hb
    simp only [Prod.mk.injEq] at h
    exact h.2.symm

theorem z_superior_anchors_nodup : z_superior_anchors.Nodup := by
  unfold z_superior_anchors
  refine nodup_flatMap_range _ _ (fun z => nodup_range_map_pair _ _ ?_) ?_
  · intro i j h
    simp only [Prod.mk.injEq] at h
    exact h.1
  · intro i j a ha hb
    simp only [List.mem_map, List.mem_range] at ha hb
    obtain ⟨y, _, rfl⟩ := ha
    obtain ⟨y', _, h⟩ := hb
    simp only [Prod.mk.injEq] at h
    exact h.2.symm

theorem interior_anchors_nodup : interior_anchors.Nodup := by
  unfold interior_anchors
  refine nodup_flatMap_range _ _ (fun z => nodup_flatMap_range _ _
    (fun y => nodup_range_map_pair _ _ ?_) ?_) ?_
  · intro i j h
    simp only [Prod.mk.injEq] at h
    exact h.1
  · intro i j a ha hb
    simp only [List.mem_map, List.mem_range] at ha hb
    obtain ⟨x, _, rfl⟩ := ha
    obtain ⟨x', _, h⟩ := hb
    simp only [Prod.mk.injEq] at h
    exact h.2.1.symm
  · intro i j a ha hb
    simp only [List.mem_flatMap, List.mem_map, List.mem_range] at ha hb
    obtain ⟨y, _, x, _, rfl⟩ := ha
    obtain ⟨y', _, x', _, h⟩ := hb
    simp only [Prod.mk.injEq] at h
    exact h.2.2.symm

theorem mem_mesh_pair_anchors_iff {x y z : Nat} :
    (x, y, z) ∈ mesh_pair_anchors ↔ x < 16 ∧ y < 16 ∧ z < 16 := by
  unfold mesh_pair_anchors
  simp only [VOXEL_CHUNK_EDGE_LENGTH, List.mem_append, List.mem_map, Prod.mk.injEq, Prod.exists,
    mem_interior_anchors_iff]
  constructor
  · rintro (⟨a, b, hm, rfl, rfl, rfl⟩ | ⟨a, b, hm, rfl, rfl, rfl⟩ | ⟨a, b, hm, rfl, rfl, rfl⟩ | h)
    · have := mem_x_superior_anchors_iff.mp hm
      omega
    · have := mem_y_superior_anchors_iff.mp hm
      omega
    · have := mem_z_superior_anchors_iff.mp hm
      omega
    · omega
  · rintro ⟨hx, hy, hz⟩
    by_cases h1 : y = 15
    · right
      left
      exact ⟨x, z, mem_y_superior_anchors_iff.mpr ⟨hx, hz⟩, rfl, h1.symm, rfl⟩
    · by_cases h2 : x = 15
      · left
        exact ⟨y, z, mem_x_superior_anchors_iff.mpr ⟨by omega, hz⟩, h2.symm, rfl, rfl⟩
      · by_cases h3 : z = 15
        · right
          right
          left
          exact ⟨x, y, mem_z_superior_anchors_iff.mpr ⟨by omega, by omega⟩, rfl, rfl, h3.symm⟩
        · right
          right
          right
          omega

theorem mesh_pair_anchors_nodup : mesh_pair_anchors.Nodup := by
  unfold mesh_pair_anchors
  simp only [VOXEL_CHUNK_EDGE_LENGTH]
  have n1 : (x_superior_anchors.map (fun yz => (16 - 1, yz.1, yz.2))).Nodup :=
    x_superior_anchors_nodup.map (fun a b h => by
      simp only [Prod.mk.injEq] at h
      exact Prod.ext h.2.1 h.2.2)
  have n2 : (y_superior_anchors.map (fun xz => (xz.1, 16 - 1, xz.2))).Nodup :=
    y_superior_anchors_nodup.map (fun a b h => by
      simp only [Prod.mk.injEq] at h
      exact Prod.ext h.1 h.2.2)
  have n3 : (z_superior_anchors.map (fun xy => (xy.1, xy.2, 16 - 1))).Nodup :=
    z_superior_anchors_nodup.map (fun a b h => by
      simp only [Prod.mk.injEq] at h
      exact Prod.ext h.1 h.2.1)
  refine List.Nodup.append n1 (List.Nodup.append n2 (List.Nodup.append n3
    interior_anchors_nodup ?_) ?_) ?_
  · intro a ha hb
    simp only [List.mem_map, Prod.exists] at ha
    obtain ⟨x, y, hm, rfl⟩ := ha
    have := mem_interior_anchors_iff.mp hb
    omega
  · intro a ha hb
    simp only [List.mem_map, Prod.exists, List.mem_append] at ha hb
    obtain ⟨x, z, hm, rfl⟩ := ha
    rcases hb with ⟨x', y', hm', h⟩ | hb
    · simp only [Prod.mk.injEq] at h
      have := mem_z_superior_anchors_iff.mp hm'
      omega
    · have := mem_interior_anchors_iff.mp hb
      omega
  · intro a ha hb
    simp only [List.mem_map, Prod.exists, List.mem_append] at ha hb
    obtain ⟨y, z, hm, rfl⟩ := ha
    have hy := mem_x_superior_anchors_iff.mp hm
    rcases hb with ⟨x', z', hm', h⟩ | ⟨x', y', hm', h⟩ | hb
    · simp only [Prod.mk.injEq] at h
      omega
    · simp only [Prod.mk.injEq] at h
      have := mem_z_superior_anchors_iff.mp hm'
      omega
    · have := mem_interior_anchors_iff.mp hb
      omega

theorem get_voxel_chunk_of_some {g : voxel_chunks_t} {p : Nat} {c : voxel_chunk_t}
    (h : g.chunks p = some c) : get_voxel_chunk g (p : Int) = some p := by
  unfold get_voxel_chunk
  rw [if_neg (by omega : ¬ (p : Int) = -1)]
  simp only [Int.toNat_ofNat, h, Option.isSome_some, if_true]

theorem ready_chunk_for_gpu_sync_flagged {g : voxel_chunks_t} {p : Nat} {c : voxel_chunk_t}
    (hc : g.chunks p = some c) (hf : c.should_do_gpu_sync = true) :
    ready_chunk_for_gpu_sync g (some p) = some g := by
  unfold ready_chunk_for_gpu_sync
  simp only [hc, hf, Bool.not_true, Bool.false_eq_true, if_false]

theorem ready_chunk_for_gpu_sync_unflagged {g : voxel_chunks_t} {p : Nat} {c : voxel_chunk_t}
    (hc : g.chunks p = some c) (hf : c.should_do_gpu_sync = false) :
    ready_chunk_for_gpu_sync g (some p) = some { g with
      chunks_to_gpu_sync := Function.update g.chunks_to_gpu_sync g.to_sync_count
        (convert_3d_to_1d_index c.chunk_coord.x c.chunk_coord.y c.chunk_coord.z g.grid_edge_size)
      to_sync_count := g.to_sync_count + 1
      chunks := Function.update g.chunks p (some { c with should_do_gpu_sync := true }) } := by
  unfold ready_chunk_for_gpu_sync
  simp only [hc, hf, Bool.not_false, if_true]

theorem ready_chunk_for_gpu_sync_twice (g : voxel_chunks_t) (p : Nat) :
    (ready_chunk_for_gpu_sync g (some p)).bind (fun s => ready_chunk_for_gpu_sync s (some p)) =
      ready_chunk_for_gpu_sync g (some p) := by
  cases hc : g.chunks p with
  | none =>
    have : ready_chunk_for_gpu_sync g (some p) = none := by
      unfold ready_chunk_for_gpu_sync
      simp only [hc]
    rw [this]
    rfl
  | some c =>
    cases hf : c.should_do_gpu_sync with
    | true =>
      rw [ready_chunk_for_gpu_sync_flagged hc hf]
      simp only [Option.some_bind]
      exact ready_chunk_for_gpu_sync_flagged hc hf
    | false =>
      rw [ready_chunk_for_gpu_sync_unflagged hc hf]
      simp only [Option.some_bind]
      exact ready_chunk_for_gpu_sync_flagged (c := { c with should_do_gpu_sync := true })
        (by simp) rfl

theorem ready_chunk_for_gpu_sync_list_ok {g : voxel_chunks_t} {p : Nat} {c : voxel_chunk_t}
    (hidx : chunks_at_their_index g) (hok : gpu_sync_list_ok g) (hc : g.chunks p = some c) :
    ∃ g', ready_chunk_for_gpu_sync g (some p) = some g' ∧ chunks_at_their_index g' ∧
      gpu_sync_list_ok g' ∧ g'.grid_edge_size = g.grid_edge_size ∧
      (∀ q, (g'.chunks q).isSome = (g.chunks q).isSome) ∧
      (∃ c', g'.chunks p = some c' ∧ c'.should_do_gpu_sync = true) ∧
      (∀ q c1, g.chunks q = some c1 → c1.should_do_gpu_sync = true → g'.chunks q = some c1) ∧
      (∀ q c1, g'.chunks q = some c1 → c1.should_do_gpu_sync = true → q ≠ p →
        g.chunks q = some c1) ∧
      same_voxels g g' := by
  cases hf : c.should_do_gpu_sync with
  | true =>
    refine ⟨g, ready_chunk_for_gpu_sync_flagged hc hf, hidx, hok, rfl, fun _ => rfl,
      ⟨c, hc, hf⟩, fun q c1 h _ => h, fun q c1 h _ _ => h, rfl, fun _ => rfl⟩
  | false =>
    obtain ⟨hnd, hlisted, hflag⟩ := hok
    have hpidx := hidx p c hc
    refine ⟨_, ready_chunk_for_gpu_sync_unflagged hc hf, ?_, ⟨?_, ?_, ?_⟩, rfl, ?_,
      ⟨{ c with should_do_gpu_sync := true }, by simp, rfl⟩, ?_, ?_, ⟨rfl, ?_⟩⟩
    · intro q c1 h1
      by_cases hq : q = p
      · subst hq
        simp only [Function.update_same, Option.some.injEq] at h1
        subst h1
        exact hpidx
      · simp only [Function.update_noteq hq] at h1
        exact hidx q c1 h1
    · intro i j hi hj hij
      simp only at hi hj hij
      rw [hpidx] at hij
      have notlisted : ∀ k, k < g.to_sync_count → g.chunks_to_gpu_sync k ≠ (p : Int) := by
        intro k hk hkp
        obtain ⟨p', c', e1, e2, e3⟩ := hlisted k hk
        rw [hkp] at e1
        have : p' = p := by omega
        subst this
        rw [hc] at e2
        cases e2
        rw [hf] at e3
        cases e3
      by_cases hi' : i = g.to_sync_count
      · by_cases hj' : j = g.to_sync_count
        · omega
        · exfalso
          rw [hi', Function.update_same, Function.update_noteq hj'] at hij
          exact notlisted j (by omega) hij.symm
      · by_cases hj' : j = g.to_sync_count
        · exfalso
          rw [hj', Function.update_same, Function.update_noteq hi'] at hij
          exact notlisted i (by omega) hij
        · rw [Function.update_noteq hi', Function.update_noteq hj'] at hij
          exact hnd i j (by omega) (by omega) hij
    · intro i hi
      simp only at hi
      by_cases hi' : i = g.to_sync_count
      · refine ⟨p, { c with should_do_gpu_sync := true }, ?_, by simp, rfl⟩
        show Function.update g.chunks_to_gpu_sync g.to_sync_count _ i = (p : Int)
        rw [hi', Function.update_same]
        exact hpidx
      · obtain ⟨p', c', e1, e2, e3⟩ := hlisted i (by omega)
        by_cases hp : p' = p
        · subst hp
          rw [hc] at e2
          cases e2
          rw [hf] at e3
          cases e3
        · refine ⟨p', c', ?_, ?_, e3⟩
          · simp only [Function.update_noteq hi']
            exact e1
          · simp only [Function.update_noteq hp]
            exact e2
    · intro q c1 h1 h2
      by_cases hq : q = p
      · subst hq
        refine ⟨g.to_sync_count, by simp, ?_⟩
        simp only [Function.update_same]
        exact hpidx
      · simp only [Function.update_noteq hq] at h1
        obtain ⟨i, hi, e⟩ := hflag q c1 h1 h2
        refine ⟨i, by simp only; omega, ?_⟩
        simp only [Function.update_noteq (by omega : i ≠ g.to_sync_count)]
        exact e
    · intro q
      by_cases hq : q = p
      · subst hq
        simp [hc]
      · simp only [Function.update_noteq hq]
    · intro q c1 h1 h2
      have hq : q ≠ p := by
        intro hq
        subst hq
        rw [hc] at h1
        cases h1
        rw [hf] at h2
        cases h2
      simp only [Function.update_noteq hq]
      exact h1
    · intro q c1 h1 _ hq
      simp only [Function.update_noteq hq] at h1
      exact h1
    · intro q
      by_cases hq : q = p
      · subst hq
        simp [hc]
      · simp only [Function.update_noteq hq]

theorem same_voxels_isSome {g g' : voxel_chunks_t} (h : same_voxels g g') (i : Nat) :
    (g'.chunks i).isSome = (g.chunks i).isSome := by
  have := congrArg Option.isSome (h.2 i)
  simpa using this

theorem same_voxels_symm {g g' : voxel_chunks_t} (h : same_voxels g g') : same_voxels g' g :=
  ⟨h.1.symm, fun i => (h.2 i).symm⟩

theorem same_voxels_get_voxel_chunk {g g' : voxel_chunks_t} (h : same_voxels g g') (index : Int) :
    get_voxel_chunk g' index = get_voxel_chunk g index := by
  unfold get_voxel_chunk
  rw [same_voxels_isSome h]

theorem same_voxels_chunk_voxels {g g' : voxel_chunks_t} (h : same_voxels g g') {p : Nat}
    {c c' : voxel_chunk_t} (hc : g.chunks p = some c) (hc' : g'.chunks p = some c') :
    c'.voxels = c.voxels := by
  have := h.2 p
  rw [hc, hc'] at this
  simp only [Option.map_some', Option.some.injEq, Prod.mk.injEq] at this
  exact this.2.2

theorem same_voxels_chunk_edge_voxel_value {g g' : voxel_chunks_t} (h : same_voxels g g')
    (c : voxel_chunk_t) (x y z : Nat) :
    chunk_edge_voxel_value g' c x y z = chunk_edge_voxel_value g c x y z := by
  unfold chunk_edge_voxel_value
  simp only [h.1, same_voxels_get_voxel_chunk h]
  cases hp : get_voxel_chunk g (convert_3d_to_1d_index
      (c.chunk_coord.x + if x = VOXEL_CHUNK_EDGE_LENGTH then 1 else 0)
      (c.chunk_coord.y + if y = VOXEL_CHUNK_EDGE_LENGTH then 1 else 0)
      (c.chunk_coord.z + if z = VOXEL_CHUNK_EDGE_LENGTH then 1 else 0) g.grid_edge_size) with
  | none => rfl
  | some p =>
    simp only
    cases hc : g.chunks p with
    | none =>
      have : g'.chunks p = none := by
        have := same_voxels_isSome h p
        rw [hc] at this
        simpa using this
      rw [this]
    | some c1 =>
      cases hc' : g'.chunks p with
      | none =>
        have := same_voxels_isSome h p
        rw [hc, hc'] at this
        simp at this
      | some c2 =>
        simp only [same_voxels_chunk_voxels h hc hc']

theorem same_voxels_push_edge {g g' : voxel_chunks_t} (h : same_voxels g g') :
    voxel_values_t.push_edge g' = voxel_values_t.push_edge g := by
  funext st c x y z
  unfold voxel_values_t.push_edge
  rw [same_voxels_chunk_edge_voxel_value h]

theorem same_voxels_update_chunk_mesh_loops {g g' : voxel_chunks_t} (h : same_voxels g g')
    (t : mesh_tables) (c : voxel_chunk_t) (S : Nat) :
    update_chunk_mesh_loops t g' c S = update_chunk_mesh_loops t g c S := by
  have hx : x_superior_voxel_values g' = x_superior_voxel_values g := by
    funext c x y z
    unfold x_superior_voxel_values
    rw [same_voxels_push_edge h]
  have hy : y_superior_voxel_values g' = y_superior_voxel_values g := by
    funext c x y z
    unfold y_superior_voxel_values
    rw [same_voxels_push_edge h]
  have px : x_superior_pair t g' S = x_superior_pair t g S := by
    funext c a
    unfold x_superior_pair
    rw [hx]
  have py : y_superior_pair t g' S = y_superior_pair t g S := by
    funext c a
    unfold y_superior_pair
    rw [hy]
  have pz : z_superior_pair t g' S = z_superior_pair t g S := by
    funext c a
    unfold z_superior_pair
    rw [hx]
  unfold update_chunk_mesh_loops
  simp only [px, py, pz, h.1, same_voxels_get_voxel_chunk h]

theorem convert_3d_to_1d_index_lt_cube {x y z : Int} {G p : Nat}
    (h : convert_3d_to_1d_index x y z G = (p : Int)) : p < G ^ 3 := by
  unfold convert_3d_to_1d_index at h
  by_cases hw : is_voxel_coord_within_chunk ⟨x, y, z⟩ G = true
  · rw [if_pos hw] at h
    unfold is_voxel_coord_within_chunk at hw
    simp only [decide_eq_true_eq] at hw
    obtain ⟨x0, x1, y0, y1, z0, z1⟩ := hw
    have hx : x = (x.toNat : Int) := (Int.toNat_of_nonneg x0).symm
    have hy : y = (y.toNat : Int) := (Int.toNat_of_nonneg y0).symm
    have hz : z = (z.toNat : Int) := (Int.toNat_of_nonneg z0).symm
    have lx : x.toNat < G := by omega
    have ly : y.toNat < G := by omega
    have lz : z.toNat < G := by omega
    have hb := index_lt_cube lx ly lz
    rw [hx, hy, hz] at h
    have hp : z.toNat * (G * G) + y.toNat * G + x.toNat = p := by exact_mod_cast h
    have e : G ^ 3 = G * G * G := by ring
    rw [e, ← hp]
    exact hb
  · rw [if_neg hw] at h
    omega

theorem gpu_sync_list_count_le {g : voxel_chunks_t} (hidx : chunks_at_their_index g)
    (hok : gpu_sync_list_ok g) : g.to_sync_count ≤ g.grid_edge_size ^ 3 := by
  obtain ⟨hnd, hlisted, _⟩ := hok
  have h := Finset.card_le_card_of_injOn (s := Finset.range g.to_sync_count)
    (t := Finset.range (g.grid_edge_size ^ 3)) (fun i => (g.chunks_to_gpu_sync i).toNat) ?_ ?_
  · simpa using h
  · intro i hi
    obtain ⟨p, c, e1, e2, _⟩ := hlisted i (Finset.mem_range.mp hi)
    simp only [e1, Int.toNat_ofNat]
    exact Finset.mem_range.mpr (convert_3d_to_1d_index_lt_cube (hidx p c e2))
  · intro i hi j hj hij
    simp only [Finset.coe_range, Set.mem_Iio] at hi hj
    obtain ⟨p, c, e1, _, _⟩ := hlisted i hi
    obtain ⟨p', c', e1', _, _⟩ := hlisted j hj
    simp only [e1, e1', Int.toNat_ofNat] at hij
    exact hnd i j hi hj (by rw [e1, e1', hij])

theorem ready_fold_list_ok (ps : List Nat) :
    ∀ g : voxel_chunks_t, chunks_at_their_index g → gpu_sync_list_ok g →
      (∀ p ∈ ps, (g.chunks p).isSome = true) →
      ∃ g', ps.foldlM (fun s p => ready_chunk_for_gpu_sync s (some p)) g = some g' ∧
        chunks_at_their_index g' ∧ gpu_sync_list_ok g' ∧
        g'.grid_edge_size = g.grid_edge_size ∧ same_voxels g g' ∧
        (∀ p ∈ ps, ∃ c', g'.chunks p = some c' ∧ c'.should_do_gpu_sync = true) := by
  induction ps with
  | nil =>
    intro g hidx hok _
    exact ⟨g, rfl, hidx, hok, rfl, ⟨rfl, fun _ => rfl⟩, fun p hp => by cases hp⟩
  | cons p ps ih =>
    intro g hidx hok hps
    obtain ⟨c, hc⟩ := Option.isSome_iff_exists.mp (hps p (List.mem_cons_self p ps))
    obtain ⟨g1, r1, i1, o1, e1, s1, f1, keep1, _, v1⟩ := ready_chunk_for_gpu_sync_list_ok hidx hok hc
    have hps1 : ∀ q ∈ ps, (g1.chunks q).isSome = true := by
      intro q hq
      rw [s1 q]
      exact hps q (List.mem_cons_of_mem p hq)
    obtain ⟨g2, r2, i2, o2, e2, v2, f2⟩ := ih g1 i1 o1 hps1
    refine ⟨g2, ?_, i2, o2, e2.trans e1, ?_, ?_⟩
    · rw [List.foldlM_cons, r1]
      exact r2
    · exact ⟨v2.1.trans v1.1, fun i => (v2.2 i).trans (v1.2 i)⟩
    · intro q hq
      rcases List.mem_cons.mp hq with rfl | hq'
      · obtain ⟨c', hc', hf'⟩ := f1
        by_cases hmem : q ∈ ps
        · exact f2 q hmem
        · have hkeep : ∀ (l : List Nat) (s : voxel_chunks_t) (s' : voxel_chunks_t),
              l.foldlM (fun s p => ready_chunk_for_gpu_sync s (some p)) s = some s' →
              ∀ q c1, s.chunks q = some c1 → c1.should_do_gpu_sync = true →
                s'.chunks q = some c1 := by
            intro l
            induction l with
            | nil =>
              intro s s' h q c1 h1 _
              simp only [List.foldlM_nil] at h
              cases h
              exact h1
            | cons a l ihl =>
              intro s s' h q c1 h1 h2
              rw [List.foldlM_cons] at h
              cases hr : ready_chunk_for_gpu_sync s (some a) with
              | none =>
                rw [hr] at h
                cases h
              | some s1 =>
                rw [hr] at h
                refine ihl s1 s' h q c1 ?_ h2
                unfold ready_chunk_for_gpu_sync at hr
                simp only at hr
                cases ha : s.chunks a with
                | none =>
                  rw [ha] at hr
                  cases hr
                | some ca =>
                  rw [ha] at hr
                  simp only at hr
                  by_cases hfa : ca.should_do_gpu_sync = true
                  · simp only [hfa, Bool.not_true, Bool.false_eq_true, if_false] at hr
                    cases hr
                    exact h1
                  · simp only [hfa, Bool.not_false, if_true] at hr
                    cases hr
                    have hqa : q ≠ a := by
                      intro e
                      subst e
                      rw [ha] at h1
                      cases h1
                      exact hfa h2
                    simp only [Function.update_noteq hqa]
                    exact h1
          exact ⟨c', hkeep ps g1 g2 r2 q c' hc' hf', hf'⟩
      · exact f2 q hq'

theorem sync_loop_inv_initial {g : voxel_chunks_t} (hok : gpu_sync_list_ok g) :
    sync_loop_inv g g 0 := by
  obtain ⟨_, hlisted, hflag⟩ := hok
  refine ⟨rfl, rfl, ⟨rfl, fun _ => rfl⟩, rfl, ?_, ?_⟩
  · intro j hj
    obtain ⟨p, c, e1, e2, e3⟩ := hlisted j hj
    refine ⟨p, c, e1, e2, ?_⟩
    rw [if_neg (by omega)]
    exact ⟨e2, e3⟩
  · intro p c h1 h2
    obtain ⟨i, hi, e⟩ := hflag p c h1 h2
    exact ⟨i, by omega, hi, e⟩

theorem sync_gpu_with_chunk_state_step_inv {t : mesh_tables} {g0 g : voxel_chunks_t} {i : Nat}
    (hok : gpu_sync_list_ok g0)
    (hmesh : ∀ p c, g0.chunks p = some c → c.should_do_gpu_sync = true →
      (update_chunk_mesh_passes t g0 c 60).isSome = true)
    (hinv : sync_loop_inv g0 g i) (hi : i < g0.to_sync_count) :
    ∃ g1, sync_gpu_with_chunk_state_step t g i = some g1 ∧ sync_loop_inv g0 g1 (i + 1) := by
  obtain ⟨hcount, hlist, hvox, hsize, hlisted, hflag⟩ := hinv
  obtain ⟨p, c, e1, e2, e3⟩ := hlisted i hi
  rw [if_neg (by omega)] at e3
  obtain ⟨e0, ef⟩ := e3
  obtain ⟨c1, hc1⟩ := Option.isSome_iff_exists.mp (hmesh p c e0 ef)
  have hpass : update_chunk_mesh_passes t g c 60 = some c1 := by
    unfold update_chunk_mesh_passes at hc1 ⊢
    rw [same_voxels_update_chunk_mesh_loops hvox]
    exact hc1
  have hbody : same_chunk_body c c1 := by
    unfold update_chunk_mesh_passes at hc1
    have := update_chunk_mesh_loops_same_body hc1
    exact ⟨this.1, this.2.1, this.2.2.1, this.2.2.2.1, this.2.2.2.2.1, this.2.2.2.2.2.1,
      this.2.2.2.2.2.2⟩
  have hf1 : c1.should_do_gpu_sync = true := hbody.2.2.2.1.trans ef
  have hmesh1 : update_chunk_mesh t g p 60 =
      some { g with chunks := Function.update g.chunks p (some c1) } := by
    rw [update_chunk_mesh_eq e2 hpass]
    exact ready_chunk_for_gpu_sync_flagged (c := c1) (by simp) hf1
  have hstep : sync_gpu_with_chunk_state_step t g i =
      some { g with
        chunks :=
          Function.update g.chunks p (some { c1 with should_do_gpu_sync := false }) } := by
    have hl : g.chunks_to_gpu_sync i = (p : Int) := by
      rw [hlist]
      exact e1
    unfold sync_gpu_with_chunk_state_step
    rw [hl, get_voxel_chunk_of_some e2]
    simp only [hmesh1, Function.update_same, Function.update_idem]
  refine ⟨_, hstep, hcount, hlist, ⟨hvox.1, ?_⟩, hsize, ?_, ?_⟩
  · intro q
    by_cases hq : q = p
    · subst hq
      have := hvox.2 q
      rw [e2] at this
      simp only [Function.update_same, Option.map_some', hbody.1, hbody.2.1, hbody.2.2.1]
      exact this
    · simp only [Function.update_noteq hq]
      exact hvox.2 q
  · intro j hj
    obtain ⟨pj, cj, a1, a2, a3⟩ := hlisted j hj
    by_cases hp : pj = p
    · subst hp
      have hji : j = i := hok.1 j i hj hi (by rw [a1, e1])
      refine ⟨pj, { c1 with should_do_gpu_sync := false }, a1, by simp, ?_⟩
      rw [if_pos (by omega)]
    · refine ⟨pj, cj, a1, by simp only [Function.update_noteq hp]; exact a2, ?_⟩
      have hji : j ≠ i := by
        intro e
        subst e
        rw [a1] at e1
        omega
      by_cases hlt : j < i
      · rw [if_pos hlt] at a3
        rw [if_pos (by omega)]
        exact a3
      · rw [if_neg hlt] at a3
        rw [if_neg (by omega)]
        exact a3
  · intro q cq h1 h2
    have hq : q ≠ p := by
      intro e
      subst e
      simp only [Function.update_same, Option.some.injEq] at h1
      subst h1
      simp at h2
    simp only [Function.update_noteq hq] at h1
    obtain ⟨j, hj1, hj2, hj3⟩ := hflag q cq h1 h2
    have hji : j ≠ i := by
      intro e
      subst e
      rw [hj3] at e1
      omega
    exact ⟨j, by omega, hj2, hj3⟩

theorem sync_gpu_with_chunk_state_loop_done {t : mesh_tables} {g0 : voxel_chunks_t}
    (hok : gpu_sync_list_ok g0)
    (hmesh : ∀ p c, g0.chunks p = some c → c.should_do_gpu_sync = true →
      (update_chunk_mesh_passes t g0 c 60).isSome = true) :
    ∀ (k i : Nat) (g : voxel_chunks_t) (n : Nat), i + k = g0.to_sync_count →
      sync_loop_inv g0 g i →
      ∃ g', sync_gpu_with_chunk_state_loop t (k + 1 + n) g i = run_result.done g' ∧
        sync_loop_inv g0 g' g0.to_sync_count := by
  intro k
  induction k with
  | zero =>
    intro i g n hik hinv
    have hi : i = g0.to_sync_count := by omega
    refine ⟨g, ?_, hi ▸ hinv⟩
    rw [show 0 + 1 + n = n + 1 from by omega]
    unfold sync_gpu_with_chunk_state_loop
    rw [if_neg (by rw [hinv.1]; omega)]
  | succ k ih =>
    intro i g n hik hinv
    obtain ⟨g1, hstep, hinv1⟩ := sync_gpu_with_chunk_state_step_inv hok hmesh hinv (by omega)
    obtain ⟨g', hloop, hfin⟩ := ih (i + 1) g1 n (by omega) hinv1
    refine ⟨g', ?_, hfin⟩
    rw [show k + 1 + 1 + n = (k + 1 + n) + 1 from by omega]
    unfold sync_gpu_with_chunk_state_loop
    rw [if_pos (by rw [hinv.1]; omega), hstep]
    exact hloop

theorem sync_gpu_with_chunk_state_done {t : mesh_tables} {g : voxel_chunks_t}
    (hok : gpu_sync_list_ok g)
    (hmesh : ∀ p c, g.chunks p = some c → c.should_do_gpu_sync = true →
      (update_chunk_mesh_passes t g c 60).isSome = true) (n : Nat) :
    ∃ g', sync_gpu_with_chunk_state t (g.to_sync_count + 1 + n) g = run_result.done g' ∧
      g'.to_sync_count = 0 ∧ (∀ p c, g'.chunks p = some c → c.should_do_gpu_sync = false) ∧
      (∀ i, i < g.to_sync_count → ∃ (p : Nat) (c : voxel_chunk_t),
        g.chunks_to_gpu_sync i = (p : Int) ∧ g'.chunks p = some c ∧
          c.should_do_gpu_sync = false) ∧
      gpu_sync_list_ok g' ∧ same_voxels g g' := by
  obtain ⟨g1, hloop, hinv⟩ := sync_gpu_with_chunk_state_loop_done hok hmesh g.to_sync_count 0 g n
    (by omega) (sync_loop_inv_initial hok)
  obtain ⟨hcount, hlist, hvox, hsize, hlisted, hflag⟩ := hinv
  have hclear : ∀ p c, g1.chunks p = some c → c.should_do_gpu_sync = false := by
    intro p c h1
    cases hf : c.should_do_gpu_sync with
    | false => rfl
    | true =>
      obtain ⟨j, hj1, hj2, _⟩ := hflag p c h1 hf
      omega
  refine ⟨{ g1 with to_sync_count := 0 }, ?_, rfl, hclear, ?_, ⟨?_, ?_, ?_⟩, hvox⟩
  · unfold sync_gpu_with_chunk_state
    rw [hloop]
  · intro i hi
    obtain ⟨p, c, a1, a2, a3⟩ := hlisted i hi
    rw [if_pos hi] at a3
    exact ⟨p, c, a1, a2, a3⟩
  · intro i j hi
    simp only at hi
    omega
  · intro i hi
    simp only at hi
    omega
  · intro p c h1 h2
    have := hclear p c h1
    rw [this] at h2
    cases h2

theorem dispatch_fold_other_entries {start : serializer_t} {st0 : dispatch_loop_t}
    (hstart : player_states_of_items start.items = []) :
    ∀ (m : Nat), m ≤ st0.server.network_state.client_count → ∀ (stm : dispatch_loop_t),
      (List.range m).foldlM (dispatch_snapshot_to_client start) st0 = some stm →
      ∃ msgs : List sent_message_t, stm.server.sent = st0.server.sent ++ msgs ∧
        msgs.length = recipients_before st0.server m ∧
        (∀ j, m ≤ j → stm.player_snapshots j = st0.player_snapshots j) ∧
        (∀ j, j < m → (get_client st0.server j).received_input_commands = false →
          stm.player_snapshots j = st0.player_snapshots j) ∧
        ∀ k, k < m → (get_client st0.server k).received_input_commands = true →
          ∃ msg, msgs[recipients_before st0.server k]? = some msg ∧
            ∀ j, j < st0.server.network_state.client_count →
              msg.player_states[j]? =
                some (if j ≤ k then stm.player_snapshots j else st0.player_snapshots j) := by
  intro m
  induction m with
  | zero =>
    intro _ stm h
    simp only [List.range_zero, List.foldlM_nil, Option.pure_def, Option.some.injEq] at h
    subst h
    refine ⟨[], by simp, rfl, fun j _ => rfl, fun j hj => absurd hj (Nat.not_lt_zero j), ?_⟩
    intro k hk
    exact absurd hk (Nat.not_lt_zero k)
  | succ m ih =>
    intro hm stm1 h
    rw [List.range_succ, List.foldlM_append] at h
    cases hf : (List.range m).foldlM (dispatch_snapshot_to_client start) st0 with
    | none => rw [hf] at h; simp at h
    | some stm =>
      rw [hf] at h
      simp only [Option.bind_eq_bind, Option.some_bind, List.foldlM_cons, List.foldlM_nil,
        Option.pure_def, Option.bind_some] at h
      obtain ⟨i1, _, i3, _⟩ := dispatch_fold_spec hstart m (by omega) stm hf
      obtain ⟨im1, _⟩ := i3 m (le_refl m)
      obtain ⟨msgs, n1, n2, n3, n4, n5⟩ := ih (by omega) stm hf
      by_cases hr : (get_client st0.server m).received_input_commands = true
      · have hr' : (get_client stm.server m).received_input_commands = true := by
          rw [im1]; exact hr
        obtain ⟨msg, e1, e2, _, e4⟩ :=
          dispatch_snapshot_to_client_entries hstart (by rw [i1]; omega) hr' h
        refine ⟨msgs ++ [msg], by rw [e1, n1, List.append_assoc], ?_, ?_, ?_, ?_⟩
        · rw [List.length_append, n2, recipients_before_succ]
          simp [hr]
        · intro j hj
          rw [e4 j (by omega)]
          exact n3 j (by omega)
        · intro j hj hrj
          have hjm : j ≠ m := by
            intro e
            subst e
            rw [hr] at hrj
            cases hrj
          rw [e4 j hjm]
          exact n4 j (by omega) hrj
        · intro k hk hrk
          by_cases hkm : k = m
          · subst hkm
            refine ⟨msg, ?_, ?_⟩
            · rw [← n2, List.getElem?_append_right (le_refl _)]
              simp
            · intro j hj
              rw [e2, i1, List.getElem?_map, List.getElem?_range hj]
              simp only [Option.map_some']
              by_cases hjk : j ≤ k
              · rw [if_pos hjk]
              · rw [if_neg hjk, e4 j (by omega)]
                rw [n3 j (by omega)]
          · obtain ⟨msg0, g1, g2⟩ := n5 k (by omega) hrk
            refine ⟨msg0, ?_, ?_⟩
            · have hlt : recipients_before st0.server k < msgs.length := by
                by_contra hcon
                rw [List.getElem?_eq_none (by omega)] at g1
                exact absurd g1 (by simp)
              rw [List.getElem?_append_left hlt]
              exact g1
            · intro j hj
              rw [g2 j hj]
              by_cases hjk : j ≤ k
              · rw [if_pos hjk, if_pos hjk, e4 j (by omega)]
              · rw [if_neg hjk, if_neg hjk]
      · simp only [Bool.not_eq_true] at hr
        have hr' : (get_client stm.server m).received_input_commands = false := by
          rw [im1]; exact hr
        rw [dispatch_snapshot_to_client_skip hr'] at h
        have := Option.some.inj h
        subst this
        refine ⟨msgs, n1, ?_, fun j hj => n3 j (by omega), ?_, ?_⟩
        · rw [n2, recipients_before_succ]
          simp [hr]
        · intro j hj hrj
          by_cases hjm : j = m
          · subst hjm
            exact n3 j (le_refl j)
          · exact n4 j (by omega) hrj
        · intro k hk hrk
          by_cases hkm : k = m
          · subst hkm
            rw [hr] at hrk
            exact absurd hrk (by simp)
          · exact n5 k (by omega) hrk

theorem toggle_rolling_mode_fields (e : player_t) (E_is_down : Bool) :
    (toggle_rolling_mode e E_is_down).rolling_mode =
      (if E_is_down = true ∧ e.toggled_rolling_previous_frame = false then !e.rolling_mode
        else e.rolling_mode) ∧
    (toggle_rolling_mode e E_is_down).toggled_rolling_previous_frame = E_is_down := by
  unfold toggle_rolling_mode
  cases E_is_down <;> cases hT : e.toggled_rolling_previous_frame <;>
    cases hR : e.rolling_mode <;> simp [hT, hR]

theorem handle_main_player_keyboard_input_rolling (M : math_functions) (a : action_flags_t)
    (e : player_t) (input_state : input_state_t) (dt : float32_t) :
    (handle_main_player_keyboard_input M a e input_state dt).1.rolling_mode =
      (if input_state.keyboard keyboard_button_type_t.E = true ∧
          e.toggled_rolling_previous_frame = false then !e.rolling_mode else e.rolling_mode) ∧
    (handle_main_player_keyboard_input M a e input_state dt).1.toggled_rolling_previous_frame =
      input_state.keyboard keyboard_button_type_t.E := by
  obtain ⟨h1, h2⟩ := toggle_rolling_mode_fields e (input_state.keyboard keyboard_button_type_t.E)
  unfold handle_main_player_keyboard_input
  by_cases hm : (keyboard_movement M a e input_state).1.movements > 0
  · simp only [hm, if_true]
    exact ⟨h1, h2⟩
  · simp only [hm, if_false]
    exact ⟨h1, h2⟩

theorem edge_corners_isSome {e : Int} (h0 : 0 ≤ e) (h1 : e ≤ 11) :
    ∃ v0 v1, edge_corners e = some (v0, v1) := by
  have : e = 0 ∨ e = 1 ∨ e = 2 ∨ e = 3 ∨ e = 4 ∨ e = 5 ∨ e = 6 ∨ e = 7 ∨ e = 8 ∨ e = 9 ∨
      e = 10 ∨ e = 11 := by omega
  rcases this with h | h | h | h | h | h | h | h | h | h | h | h <;> subst h <;>
    exact ⟨_, _, rfl⟩

theorem push_collision_vertex_ok (v0 v1 : Nat) (vertices : Nat → vector3_t) (vals : Nat → Nat)
    (S max : Nat) (dst : collision_vertices_t) (hc : dst.count < max) (hmax : max < 2 ^ 32) :
    ∃ dst', push_collision_vertex v0 v1 vertices vals S max dst = some dst' ∧
      dst'.count = dst.count + 1 ∧
      ∀ i, i ≠ dst.count → dst'.dst_array i = dst.dst_array i := by
  unfold push_collision_vertex
  simp only [hc, if_true]
  refine ⟨_, rfl, ?_, ?_⟩
  · exact Nat.mod_eq_of_lt (by omega)
  · intro i hi
    exact Function.update_noteq hi _ _

theorem push_collision_edge_vertex_ok (ep : Nat → Int) (vertices : Nat → vector3_t)
    (vals : Nat → Nat) (S max : Nat) (dst : collision_vertices_t) (i : Nat)
    (he : 0 ≤ ep i ∧ ep i ≤ 11) (hc : dst.count < max) (hmax : max < 2 ^ 32) :
    ∃ dst', push_collision_edge_vertex ep vertices vals S max dst i = some dst' ∧
      dst'.count = dst.count + 1 ∧
      ∀ j, j ≠ dst.count → dst'.dst_array j = dst.dst_array j := by
  obtain ⟨v0, v1, hv⟩ := edge_corners_isSome he.1 he.2
  unfold push_collision_edge_vertex
  rw [hv]
  exact push_collision_vertex_ok v0 v1 vertices vals S max dst hc hmax

theorem push_collision_triangle_ok (ep : Nat → Int) (vertices : Nat → vector3_t)
    (vals : Nat → Nat) (S max : Nat) (dst : collision_vertices_t)
    (he : ∀ i, i < 3 → 0 ≤ ep i ∧ ep i ≤ 11) (hc : dst.count + 3 < max) (hmax : max < 2 ^ 32) :
    ∃ dst', (List.range 3).foldlM (push_collision_edge_vertex ep vertices vals S max) dst
        = some dst' ∧
      dst'.count = dst.count + 3 ∧
      ∀ j, (j < dst.count ∨ dst.count + 3 ≤ j) → dst'.dst_array j = dst.dst_array j := by
  obtain ⟨d1, p1, k1, a1⟩ := push_collision_edge_vertex_ok ep vertices vals S max dst 0
    (he 0 (by norm_num)) (by omega) hmax
  obtain ⟨d2, p2, k2, a2⟩ := push_collision_edge_vertex_ok ep vertices vals S max d1 1
    (he 1 (by norm_num)) (by omega) hmax
  obtain ⟨d3, p3, k3, a3⟩ := push_collision_edge_vertex_ok ep vertices vals S max d2 2
    (he 2 (by norm_num)) (by omega) hmax
  refine ⟨d3, ?_, by omega, ?_⟩
  · have hr : List.range 3 = [0, 1, 2] := by decide
    rw [hr]
    simp only [List.foldlM_cons, List.foldlM_nil, Option.bind_eq_bind, p1, Option.some_bind, p2,
      p3]
    rfl
  · intro j hj
    rw [a3 j (by omega), a2 j (by omega), a1 j (by omega)]

theorem push_collision_triangles_vertices_loop_ok (vals : Nat → Nat) (x y z S max : Nat)
    (hmax : max + 3 < 2 ^ 32) :
    ∀ (row : List Int) (edge : Nat) (ep : Nat → Int) (dst : collision_vertices_t),
      (∀ e ∈ row, e = -1 ∨ (0 ≤ e ∧ e ≤ 11)) → (-1 : Int) ∈ row →
      (∀ i, i < edge % 3 → 0 ≤ ep i ∧ ep i ≤ 11) →
      dst.count ≤ max → dst.count % 3 = 0 →
      ∃ dst', push_collision_triangles_vertices_loop vals x y z S max row edge ep dst = some dst' ∧
        dst'.count % 3 = 0 ∧ dst.count ≤ dst'.count ∧ dst'.count ≤ max ∧
        ∀ j, (j < dst.count ∨ max ≤ j) → dst'.dst_array j = dst.dst_array j := by
  intro row
  induction row with
  | nil =>
    intro edge ep dst _ hm
    cases hm
  | cons e rest ih =>
    intro edge ep dst htab hterm hep hle h3
    unfold push_collision_triangles_vertices_loop
    by_cases he : e = -1
    · rw [if_pos he]
      exact ⟨dst, rfl, h3, le_refl _, hle, fun _ _ => rfl⟩
    · rw [if_neg he]
      have hmod : (dst.count + 3) % 2 ^ 32 = dst.count + 3 := Nat.mod_eq_of_lt (by omega)
      rw [hmod]
      by_cases hbrk : dst.count + 3 ≥ max
      · rw [if_pos hbrk]
        exact ⟨dst, rfl, h3, le_refl _, hle, fun _ _ => rfl⟩
      · rw [if_neg hbrk]
        have hvalid : 0 ≤ e ∧ e ≤ 11 := by
          rcases htab e (List.mem_cons_self e rest) with h | h
          · exact absurd h he
          · exact h
        have htab' : ∀ e' ∈ rest, e' = -1 ∨ (0 ≤ e' ∧ e' ≤ 11) :=
          fun e' h' => htab e' (List.mem_cons_of_mem e h')
        have hterm' : (-1 : Int) ∈ rest := by
          rcases List.mem_cons.mp hterm with h | h
          · exact absurd h.symm he
          · exact h
        have hlt3 : edge % 3 < 3 := Nat.mod_lt _ (by norm_num)
        by_cases h2 : edge % 3 = 2
        · simp only [h2, if_true]
          have hep1 : ∀ i, i < 3 → 0 ≤ Function.update ep 2 e i ∧ Function.update ep 2 e i ≤ 11 := by
            intro i hi
            by_cases hi2 : i = 2
            · subst hi2
              rw [Function.update_same]
              exact hvalid
            · rw [Function.update_noteq hi2]
              exact hep i (by omega)
          obtain ⟨d1, p1, k1, a1⟩ := push_collision_triangle_ok (Function.update ep 2 e)
            (voxel_pair_vertices x y z) vals S max dst hep1 (by omega) (by omega)
          rw [p1]
          simp only
          obtain ⟨d2, p2, q1, q2, q3, q4⟩ := ih (edge + 1) (Function.update ep 2 e) d1 htab' hterm'
            (by
              intro i hi
              have : (edge + 1) % 3 = 0 := by omega
              omega)
            (by omega) (by omega)
          refine ⟨d2, p2, q1, by omega, q3, ?_⟩
          intro j hj
          rw [q4 j (by omega), a1 j (by omega)]
        · simp only [h2, if_false]
          obtain ⟨d2, p2, q1, q2, q3, q4⟩ := ih (edge + 1) (Function.update ep (edge % 3) e) dst
            htab' hterm'
            (by
              intro i hi
              have hs : (edge + 1) % 3 = edge % 3 + 1 := by omega
              by_cases hie : i = edge % 3
              · rw [hie, Function.update_same]
                exact hvalid
              · rw [Function.update_noteq hie]
                exact hep i (by omega))
            hle h3
          exact ⟨d2, p2, q1, q2, q3, q4⟩

theorem distance_squared_nonneg (v : vector3_t) : 0 ≤ distance_squared v := by
  unfold distance_squared vector3_t.dot
  nlinarith [mul_self_nonneg v.x, mul_self_nonneg v.y, mul_self_nonneg v.z]

theorem very_close_guard_false (v : vector3_t) :
    ¬ (distance_squared v < squared es_very_close_distance_from_terrain) := by
  have h := distance_squared_nonneg v
  have h0 : squared es_very_close_distance_from_terrain = 0 := by
    unfold squared es_very_close_distance_from_terrain
    norm_num
  rw [h0]
  exact not_lt.mpr h

theorem collide_response_cases (M : math_functions) (es_center es_velocity ws_size : vector3_t)
    (recurse_depth : Nat) (closest_collision : collision_t) :
    collide_response M es_center es_velocity ws_size recurse_depth closest_collision = none ∨
    (recurse_depth < max_recursion_depth ∧
      ∃ args1 : collide_args,
        collide_response M es_center es_velocity ws_size recurse_depth closest_collision =
          some (collide_step.recurse args1) ∧
        args1.recurse_depth = recurse_depth + 1 ∧ args1.ws_size = ws_size ∧
        args1.previous_collision.detected = true) ∨
    (¬ recurse_depth < max_recursion_depth ∧
      ∃ ret : collision_t,
        collide_response M es_center es_velocity ws_size recurse_depth closest_collision =
          some (collide_step.returned collide_branch.depth_cap ret) ∧ ret.detected = true) := by
  unfold collide_response
  simp only
  split
  · exact Or.inl rfl
  · split
    · exact Or.inl rfl
    · rename_i n hn
      rw [if_neg (very_close_guard_false _)]
      by_cases hd : recurse_depth < max_recursion_depth
      · rw [if_pos hd]
        refine Or.inr (Or.inl ⟨hd, _, rfl, ?_, rfl, rfl⟩)
        show (recurse_depth + 1) % 2 ^ 32 = recurse_depth + 1
        unfold max_recursion_depth at hd
        exact Nat.mod_eq_of_lt (by omega)
      · rw [if_neg hd]
        exact Or.inr (Or.inr ⟨hd, _, rfl, rfl⟩)

theorem collide_body_cases (M : math_functions) (t : mesh_tables) (g : voxel_chunks_t)
    (args : collide_args) :
    collide_body M t g args = none ∨
    (∃ ret, collide_body M t g args =
      some (collide_step.returned collide_branch.no_collision ret)) ∨
    (args.recurse_depth < max_recursion_depth ∧
      ∃ args1 : collide_args,
        collide_body M t g args = some (collide_step.recurse args1) ∧
        args1.recurse_depth = args.recurse_depth + 1) ∨
    (¬ args.recurse_depth < max_recursion_depth ∧
      ∃ ret : collision_t,
        collide_body M t g args = some (collide_step.returned collide_branch.depth_cap ret)) := by
  unfold collide_body
  split
  · rename_i es_center es_velocity vertices _ _ _
    split
    · exact Or.inl rfl
    · rename_i closest _
      by_cases hdet : closest.detected = true
      · rw [if_pos hdet]
        rcases collide_response_cases M es_center es_velocity args.ws_size args.recurse_depth
          closest with h | ⟨hd, a1, h, hdep, _⟩ | ⟨hd, ret, h, _⟩
        · exact Or.inl h
        · exact Or.inr (Or.inr (Or.inl ⟨hd, a1, h, hdep⟩))
        · exact Or.inr (Or.inr (Or.inr ⟨hd, ret, h⟩))
      · rw [if_neg hdet]
        split
        · exact Or.inl rfl
        · exact Or.inr (Or.inl ⟨_, rfl⟩)
  · exact Or.inl rfl

theorem collide_not_out_of_fuel (M : math_functions) (t : mesh_tables) (g : voxel_chunks_t) :
    ∀ (fuel : Nat) (args : collide_args), max_recursion_depth + 1 ≤ args.recurse_depth + fuel →
      1 ≤ fuel → collide M t g fuel args ≠ run_result.out_of_fuel := by
  intro fuel
  induction fuel with
  | zero =>
    intro args _ h1
    omega
  | succ fuel ih =>
    intro args hf _
    unfold collide
    rcases collide_body_cases M t g args with h | ⟨ret, h⟩ | ⟨hd, a1, h, hdep⟩ | ⟨hd, ret, h⟩
    · rw [h]
      intro hc
      cases hc
    · rw [h]
      intro hc
      cases hc
    · rw [h]
      simp only
      unfold max_recursion_depth at hd hf
      exact ih a1 (by unfold max_recursion_depth; omega) (by omega)
    · rw [h]
      intro hc
      cases hc

theorem collide_fuel_irrelevant (M : math_functions) (t : mesh_tables) (g : voxel_chunks_t) :
    ∀ (fuel : Nat) (args : collide_args) (n : Nat),
      max_recursion_depth + 1 ≤ args.recurse_depth + fuel → 1 ≤ fuel →
      collide M t g (fuel + n) args = collide M t g fuel args := by
  intro fuel
  induction fuel with
  | zero =>
    intro args n _ h1
    omega
  | succ fuel ih =>
    intro args n hf _
    rw [show fuel + 1 + n = (fuel + n) + 1 from by omega]
    unfold collide
    rcases collide_body_cases M t g args with h | ⟨ret, h⟩ | ⟨hd, a1, h, hdep⟩ | ⟨hd, ret, h⟩
    · rw [h]
    · rw [h]
    · rw [h]
      simp only
      unfold max_recursion_depth at hd hf
      exact ih a1 n (by unfold max_recursion_depth; omega) (by omega)
    · rw [h]

theorem collide_depths_range (M : math_functions) (t : mesh_tables) (g : voxel_chunks_t) :
    ∀ (fuel : Nat) (args : collide_args), max_recursion_depth + 1 ≤ args.recurse_depth + fuel →
      1 ≤ fuel → args.recurse_depth ≤ max_recursion_depth →
      ∃ k, 1 ≤ k ∧ args.recurse_depth + k ≤ max_recursion_depth + 1 ∧
        collide_depths M t g fuel args = List.range' args.recurse_depth k := by
  intro fuel
  induction fuel with
  | zero =>
    intro args _ h1
    omega
  | succ fuel ih =>
    intro args hf _ hle
    unfold collide_depths
    rcases collide_body_cases M t g args with h | ⟨ret, h⟩ | ⟨hd, a1, h, hdep⟩ | ⟨hd, ret, h⟩
    · rw [h]
      exact ⟨1, le_refl 1, by omega, rfl⟩
    · rw [h]
      exact ⟨1, le_refl 1, by omega, rfl⟩
    · rw [h]
      simp only
      unfold max_recursion_depth at hd hf hle
      obtain ⟨k, hk1, hk2, hk3⟩ := ih a1 (by unfold max_recursion_depth; omega) (by omega)
        (by unfold max_recursion_depth; omega)
      refine ⟨k + 1, by omega, by unfold max_recursion_depth at hk2 ⊢; omega, ?_⟩
      rw [hk3, hdep]
      rfl
    · rw [h]
      exact ⟨1, le_refl 1, by omega, rfl⟩

theorem collide_never_very_close (M : math_functions) (t : mesh_tables) (g : voxel_chunks_t) :
    ∀ (fuel : Nat) (args : collide_args) (ret : collision_t),
      collide M t g fuel args ≠ run_result.done (collide_branch.very_close, ret) := by
  intro fuel
  induction fuel with
  | zero =>
    intro args ret h
    unfold collide at h
    cases h
  | succ fuel ih =>
    intro args ret
    unfold collide
    rcases collide_body_cases M t g args with h | ⟨r, h⟩ | ⟨hd, a1, h, hdep⟩ | ⟨hd, r, h⟩
    · rw [h]
      intro hc
      cases hc
    · rw [h]
      intro hc
      cases hc
    · rw [h]
      exact ih a1 ret
    · rw [h]
      intro hc
      cases hc

theorem collide_with_triangle_face_again {M : math_functions}
    {es_fa es_fb es_fc es_center es_velocity n p : vector3_t} {plane_constant first : float32_t}
    {closest c o : collision_t}
    (h : collide_with_triangle_face M es_fa es_fb es_fc es_center es_velocity n plane_constant
      first closest (collide_with_triangle_step.returned o) =
        collide_with_triangle_step.again p c) :
    closest.under_terrain = false ∧ c.under_terrain = true := by
  unfold collide_with_triangle_face at h
  simp only at h
  split at h
  · split at h
    · split at h
      · rename_i hcond
        cases h
        exact ⟨hcond.2, rfl⟩
      · cases h
    · cases h
  · cases h

theorem collide_with_triangle_body_again {M : math_functions} {tv : Nat → vector3_t}
    {es_center es_velocity p : vector3_t} {closest c : collision_t}
    (h : collide_with_triangle_body M tv es_center es_velocity closest =
      some (collide_with_triangle_step.again p c)) :
    closest.under_terrain = false ∧ c.under_terrain = true := by
  unfold collide_with_triangle_body at h
  simp only at h
  cases hn : glm_normalize M (((tv 1).sub (tv 0)).cross ((tv 2).sub (tv 0))) with
  | none =>
    rw [hn] at h
    cases h
  | some n =>
    rw [hn] at h
    simp only at h
    split_ifs at h
    all_goals first
      | exact collide_with_triangle_face_again (Option.some.inj h)
      | cases h

theorem collide_with_triangle_not_out_of_fuel (M : math_functions) (tv : Nat → vector3_t)
    (es_center es_velocity : vector3_t) (closest : collision_t) (n : Nat) :
    collide_with_triangle M tv (2 + n) es_center es_velocity closest ≠ run_result.out_of_fuel := by
  rw [show 2 + n = (n + 1) + 1 from by omega]
  unfold collide_with_triangle
  cases h1 : collide_with_triangle_body M tv es_center es_velocity closest with
  | none =>
    intro hc
    cases hc
  | some step =>
    cases step with
    | returned c =>
      intro hc
      cases hc
    | again p c =>
      simp only
      obtain ⟨_, hu⟩ := collide_with_triangle_body_again h1
      unfold collide_with_triangle
      cases h2 : collide_with_triangle_body M tv p es_velocity c with
      | none =>
        intro hc
        cases hc
      | some step2 =>
        cases step2 with
        | returned c2 =>
          intro hc
          cases hc
        | again p2 c2 =>
          obtain ⟨hu2, _⟩ := collide_with_triangle_body_again h2
          rw [hu] at hu2
          cases hu2

theorem collide_push_voxel_pair_example (dst : collision_vertices_t) (x y z : Int)
    (hx : 0 ≤ x ∧ x < 15) (hy : 0 ≤ y ∧ y < 15) (hz : 0 ≤ z ∧ z < 15) :
    collide_push_voxel_pair example_tables example_grid false 90 dst (x, y, z) = some dst := by
  have hchunk : get_chunk_encompassing_point example_grid ⟨(x : ℚ), (y : ℚ), (z : ℚ)⟩
      = some 0 := by
    rw [get_chunk_encompassing_point_of_int example_grid _ x y z (rounded_position_int x y z)]
    have e1 : x.tdiv 16 = 0 := Int.tdiv_eq_zero_of_lt hx.1 (by omega)
    have e2 : y.tdiv 16 = 0 := Int.tdiv_eq_zero_of_lt hy.1 (by omega)
    have e3 : z.tdiv 16 = 0 := Int.tdiv_eq_zero_of_lt hz.1 (by omega)
    rw [e1, e2, e3]
    decide
  have hcs : get_voxel_coord_ivector3 ⟨x, y, z⟩ = ⟨x, y, z⟩ := by
    unfold get_voxel_coord_ivector3
    simp only [VOXEL_CHUNK_EDGE_LENGTH, Nat.cast_ofNat]
    rw [Int.tmod_eq_of_lt hx.1 (by omega), Int.tmod_eq_of_lt hy.1 (by omega),
      Int.tmod_eq_of_lt hz.1 (by omega)]
  have hvals : collide_voxel_values example_grid false x y z =
      some (interior_voxel_values example_chunk x.toNat y.toNat z.toNat).value_at := by
    unfold collide_voxel_values
    rw [hchunk]
    have hc0 : example_grid.chunks 0 = some example_chunk := rfl
    simp only [hc0, hcs]
    rw [if_pos ⟨hx.1, hy.1, hz.1⟩]
    simp only [Bool.false_eq_true, if_false]
    rw [if_pos (by omega)]
  unfold collide_push_voxel_pair
  simp only [hvals]
  unfold push_collision_triangles_vertices
  have hb : bit_combination
      (interior_voxel_values example_chunk x.toNat y.toNat z.toNat).value_at 60 = 255 := by
    apply bit_combination_all_over
    intro i hi
    interval_cases i <;>
      simp [interior_voxel_values, voxel_values_t.value_at, example_chunk]
  rw [hb, example_tables_row_255]
  unfold push_collision_triangles_vertices_loop
  rw [if_pos rfl]

theorem collide_anchors_example : collide_anchors ⟨7, 7, 7⟩ ⟨2, 2, 2⟩ =
    [(7, 7, 7), (8, 7, 7), (7, 8, 7), (8, 8, 7), (7, 7, 8), (8, 7, 8), (7, 8, 8), (8, 8, 8)] := by
  simp [collide_anchors, List.range_succ, List.flatMap]

theorem collide_fold_example (l : List (Int × Int × Int))
    (hl : ∀ p ∈ l, (0 ≤ p.1 ∧ p.1 < 15) ∧ (0 ≤ p.2.1 ∧ p.2.1 < 15) ∧ (0 ≤ p.2.2 ∧ p.2.2 < 15))
    (dst : collision_vertices_t) :
    l.foldlM (collide_push_voxel_pair example_tables example_grid false 90) dst = some dst := by
  induction l generalizing dst with
  | nil => rfl
  | cons p l ih =>
    obtain ⟨x, y, z⟩ := p
    have hp := hl (x, y, z) (List.mem_cons_self _ _)
    rw [List.foldlM_cons, collide_push_voxel_pair_example dst x y z hp.1 hp.2.1 hp.2.2]
    exact ih (fun q hq => hl q (List.mem_cons_of_mem _ hq)) dst

/-- In `example_grid` the world position `(w, w, w)` is the voxel-space position
`(x, x, x)`, `x` being the float32 quotient by 9 of the float32 sum `w + 72`. -/
theorem ws_to_xs_example_diagonal {w a x : ℚ} (ha : round_float32 (w + 72) = a)
    (hab : |a| < 2 ^ 128) (hx : round_float32 (a / 9) = x) (hxb : |x| < 2 ^ 128) :
    ws_to_xs example_grid ⟨w, w, w⟩ = some ⟨x, x, x⟩ := by
  have hs : example_grid.size = 9 := rfl
  have hsum : float32 (w - -72) = some a := by
    rw [sub_neg_eq_add]
    exact float32_of_round ha hab
  have h1 : (vector3_t.mk w w w).float32_sub ⟨-72, -72, -72⟩ = some ⟨a, a, a⟩ :=
    float32_sub_eq_some hsum hsum hsum
  have hq : float32_div a 9 = some x := by
    unfold float32_div
    rw [if_neg (by norm_num)]
    exact float32_of_round hx hxb
  have h2 : (vector3_t.mk a a a).float32_div_scalar 9 = some ⟨x, x, x⟩ :=
    float32_div_scalar_eq_some hq hq hq
  unfold ws_to_xs
  rw [get_voxel_world_origin_example]
  simp only
  rw [h1]
  simp only
  rw [hs, h2]

theorem collide_triangle_vertices_example :
    collide_triangle_vertices example_tables example_grid ⟨0, 0, 0⟩ ⟨9, 9, 9⟩ =
      some { dst_array := fun _ => none, count := 0 } := by
  have hhi : ws_to_xs example_grid (vector3_t.add ⟨0, 0, 0⟩ ⟨9, 9, 9⟩) = some ⟨9, 9, 9⟩ := by
    have ea : vector3_t.add ⟨0, 0, 0⟩ ⟨9, 9, 9⟩ = ⟨9, 9, 9⟩ := by simp [vector3_t.add]
    rw [ea]
    apply @ws_to_xs_example_diagonal 9 81 9
    · have := round_float32_intCast 81 (by norm_num)
      have e : ((9 : ℚ) + 72) = ((81 : Int) : ℚ) := by norm_num
      rw [e, this]
      norm_num
    · rw [abs_lt]; constructor <;> norm_num
    · have := round_float32_intCast 9 (by norm_num)
      have e : ((81 : ℚ) / 9) = ((9 : Int) : ℚ) := by norm_num
      rw [e, this]
      norm_num
    · rw [abs_lt]; constructor <;> norm_num
  have hlo : ws_to_xs example_grid (vector3_t.sub ⟨0, 0, 0⟩ ⟨9, 9, 9⟩) = some ⟨7, 7, 7⟩ := by
    have ea : vector3_t.sub ⟨0, 0, 0⟩ ⟨9, 9, 9⟩ = ⟨-9, -9, -9⟩ := by simp [vector3_t.sub]
    rw [ea]
    apply @ws_to_xs_example_diagonal (-9) 63 7
    · have := round_float32_intCast 63 (by norm_num)
      have e : ((-9 : ℚ) + 72) = ((63 : Int) : ℚ) := by norm_num
      rw [e, this]
      norm_num
    · rw [abs_lt]; constructor <;> norm_num
    · have := round_float32_intCast 7 (by norm_num)
      have e : ((63 : ℚ) / 9) = ((7 : Int) : ℚ) := by norm_num
      rw [e, this]
      norm_num
    · rw [abs_lt]; constructor <;> norm_num
  have hc9 : ⌈(9 : ℚ)⌉ = 9 := by simp
  have hf7 : ⌊(7 : ℚ)⌋ = 7 := by simp
  have hsub : ivector3_t.sub ⟨9, 9, 9⟩ ⟨7, 7, 7⟩ = ⟨2, 2, 2⟩ := by
    simp [ivector3_t.sub]
  have hmax : (float_to_int (3 * 5 * (ivector3_t.to_vector3 ⟨2, 2, 2⟩).dot
      (ivector3_t.to_vector3 ⟨2, 2, 2⟩) / 2)).toNat = 90 := by
    have : (3 * 5 * (ivector3_t.to_vector3 ⟨2, 2, 2⟩).dot (ivector3_t.to_vector3 ⟨2, 2, 2⟩) / 2 : ℚ)
        = ((90 : Int) : ℚ) := by
      norm_num [ivector3_t.to_vector3, vector3_t.dot]
    rw [this, float_to_int_intCast]
    rfl
  have hmaxc : get_voxel_coord_ivector3 ⟨7 + 2, 7 + 2, 7 + 2⟩ = ⟨9, 9, 9⟩ := by
    simp [get_voxel_coord_ivector3, VOXEL_CHUNK_EDGE_LENGTH, Int.tmod]
  have hminc : get_voxel_coord_ivector3 ⟨7, 7, 7⟩ = ⟨7, 7, 7⟩ := by
    simp [get_voxel_coord_ivector3, VOXEL_CHUNK_EDGE_LENGTH, Int.tmod]
  unfold collide_triangle_vertices
  rw [hhi, hlo]
  simp only [hc9, hf7, hsub, hmax, hmaxc, hminc, collide_anchors_example]
  have hbetween : decide ((9 : Int) < 7 ∨ (9 : Int) < 7 ∨ (9 : Int) < 7 ∨ (9 : Int) = 15 ∨
      (9 : Int) = 15 ∨ (9 : Int) = 15) = false := by
    simp
  rw [hbetween]
  apply collide_fold_example
  intro p hp
  simp only [List.mem_cons, List.mem_singleton, List.mem_nil_iff, or_false] at hp
  rcases hp with rfl | rfl | rfl | rfl | rfl | rfl | rfl | rfl <;> norm_num

theorem collide_of_body_returned (M : math_functions) (t : mesh_tables) (g : voxel_chunks_t)
    (fuel : Nat) (args : collide_args) (branch : collide_branch) (ret : collision_t)
    (h : collide_body M t g args = some (collide_step.returned branch ret)) :
    collide M t g (fuel + 1) args = run_result.done (branch, ret) := by
  unfold collide
  rw [h]

theorem collide_body_no_collision (M : math_functions) (t : mesh_tables) (g : voxel_chunks_t)
    (args : collide_args) (es_center es_velocity es_at : vector3_t)
    (vertices : collision_vertices_t) (closest_collision : collision_t)
    (h1 : args.ws_center.div args.ws_size = some es_center)
    (h2 : args.ws_velocity.div args.ws_size = some es_velocity)
    (hv : collide_triangle_vertices t g args.ws_center args.ws_size = some vertices)
    (hc : collide_closest_collision M g args.ws_size vertices es_center es_velocity =
      some closest_collision)
    (hdet : closest_collision.detected = false)
    (h3 : (args.ws_center.add args.ws_velocity).div args.ws_size = some es_at) :
    collide_body M t g args =
      some (collide_step.returned collide_branch.no_collision
        { collision_t.zero with
          detected := decide (args.recurse_depth > 0)
          is_currently_in_air := true
          es_at := es_at
          es_velocity := es_velocity
          es_normal := args.previous_collision.es_normal }) := by
  unfold collide_body
  rw [h1, h2, hv]
  simp only
  rw [hc]
  simp only
  rw [if_neg (by rw [hdet]; exact Bool.false_ne_true), h3]

theorem collide_closest_collision_no_triangles (M : math_functions) (g : voxel_chunks_t)
    (ws_size es_center es_velocity : vector3_t) (vertices : collision_vertices_t)
    (h : vertices.count = 0) :
    collide_closest_collision M g ws_size vertices es_center es_velocity =
      some { collision_t.zero with es_distance := 1000 } := by
  unfold collide_closest_collision
  rw [h]
  rfl

theorem collide_body_free_space_example (previous_collision : collision_t) :
    collide_body example_math_functions example_tables example_grid
      { ws_center := ⟨0, 0, 0⟩, ws_size := ⟨9, 9, 9⟩, ws_velocity := ⟨0, -9, 0⟩,
        recurse_depth := 0, previous_collision := previous_collision } =
      some (collide_step.returned collide_branch.no_collision
        { collision_t.zero with
          detected := false
          is_currently_in_air := true
          es_at := ⟨0, -1, 0⟩
          es_velocity := ⟨0, -1, 0⟩
          es_normal := previous_collision.es_normal }) := by
  have h1 : vector3_t.div ⟨0, 0, 0⟩ ⟨9, 9, 9⟩ = some ⟨0, 0, 0⟩ := by
    unfold vector3_t.div
    norm_num
  have h2 : vector3_t.div ⟨0, -9, 0⟩ ⟨9, 9, 9⟩ = some ⟨0, -1, 0⟩ := by
    unfold vector3_t.div
    norm_num
  have h3 : vector3_t.div (vector3_t.add ⟨0, 0, 0⟩ ⟨0, -9, 0⟩) ⟨9, 9, 9⟩ = some ⟨0, -1, 0⟩ := by
    unfold vector3_t.div vector3_t.add
    norm_num
  exact collide_body_no_collision example_math_functions example_tables example_grid
    { ws_center := ⟨0, 0, 0⟩, ws_size := ⟨9, 9, 9⟩, ws_velocity := ⟨0, -9, 0⟩,
      recurse_depth := 0, previous_collision := previous_collision }
    ⟨0, 0, 0⟩ ⟨0, -1, 0⟩ ⟨0, -1, 0⟩ { dst_array := fun _ => none, count := 0 }
    { collision_t.zero with es_distance := 1000 } h1 h2 collide_triangle_vertices_example
    (collide_closest_collision_no_triangles _ _ _ _ _ _ rfl) rfl h3

/-- A run of `collide` that ends: in a grid whose only chunk has every voxel above
the surface level there is no surface triangle, so an ellipsoid of size 9 at the
origin moving nine units down returns through the no-collision branch at depth 0. -/
theorem collide_free_space_example (fuel : Nat) (previous_collision : collision_t) :
    collide example_math_functions example_tables example_grid (fuel + 1)
      { ws_center := ⟨0, 0, 0⟩, ws_size := ⟨9, 9, 9⟩, ws_velocity := ⟨0, -9, 0⟩,
        recurse_depth := 0, previous_collision := previous_collision } =
      run_result.done (collide_branch.no_collision,
        { collision_t.zero with
          detected := false
          is_currently_in_air := true
          es_at := ⟨0, -1, 0⟩
          es_velocity := ⟨0, -1, 0⟩
          es_normal := previous_collision.es_normal }) :=
  collide_of_body_returned _ _ _ fuel _ _ _ (collide_body_free_space_example previous_collision)

/-- C20: a call of `collide` at recursion depth 0 ends within six activations,
at the depths 0, 1, ..., k - 1 for some `k ≤ 6`, so it recurses at most 5 times
(depths 1 to 5); more fuel does not change its result; an activation at depth 5
or more never calls `collide` again, whatever the triangles found; and
`collide_with_triangle` ends within two activations. -/
theorem collide_recurses_at_most_five_times (M : math_functions) (t : mesh_tables)
    (g : voxel_chunks_t) (args : collide_args) (n : Nat) :
    collide M t g 6 { args with recurse_depth := 0 } ≠ run_result.out_of_fuel ∧
    collide M t g (6 + n) { args with recurse_depth := 0 } =
      collide M t g 6 { args with recurse_depth := 0 } ∧
    (∃ k, 1 ≤ k ∧ k ≤ 6 ∧
      collide_depths M t g 6 { args with recurse_depth := 0 } = List.range k) ∧
    (∀ args1, collide_body M t g { args with recurse_depth := 5 + n } ≠
      some (collide_step.recurse args1)) ∧
    (∀ (triangle_vertices : Nat → vector3_t) (es_center es_velocity : vector3_t)
      (closest : collision_t),
      collide_with_triangle M triangle_vertices (2 + n) es_center es_velocity closest ≠
        run_result.out_of_fuel) := by
  refine ⟨?_, ?_, ?_, ?_, ?_⟩
  · exact collide_not_out_of_fuel M t g 6 _ (by unfold max_recursion_depth; simp) (by norm_num)
  · exact collide_fuel_irrelevant M t g 6 _ n (by unfold max_recursion_depth; simp) (by norm_num)
  · obtain ⟨k, h1, h2, h3⟩ := collide_depths_range M t g 6 { args with recurse_depth := 0 }
      (by unfold max_recursion_depth; simp) (by norm_num) (Nat.zero_le _)
    refine ⟨k, h1, ?_, ?_⟩
    · unfold max_recursion_depth at h2
      simp only at h2
      omega
    · rw [h3, List.range_eq_range']
  · intro args1 h
    rcases collide_body_cases M t g { args with recurse_depth := 5 + n } with
      h0 | ⟨ret, h0⟩ | ⟨hd, a1, h0, _⟩ | ⟨hd, ret, h0⟩
    · rw [h0] at h
      cases h
    · rw [h0] at h
      cases h
    · unfold max_recursion_depth at hd
      simp only at hd
      omega
    · rw [h0] at h
      cases h
  · intro tv es_center es_velocity closest
    exact collide_with_triangle_not_out_of_fuel M tv es_center es_velocity closest n

/-- C28: with the very-close distance fixed at 0 the guard
`new_velocity_distance_squared < very_close_distance_squared` is false for every
vector, so no activation of `collide` leaves through the very-close branch: the
response to a detected collision either recurses, at a depth below 5, or returns
through the depth-cap branch, at a depth of 5 or more (or has no finite value),
and no call of `collide` returns through the very-close branch. -/
theorem collide_very_close_branch_unreachable (M : math_functions) (t : mesh_tables)
    (g : voxel_chunks_t) (fuel : Nat) (args : collide_args) (ret : collision_t)
    (es_new_velocity es_center es_velocity ws_size : vector3_t) (recurse_depth : Nat)
    (closest_collision : collision_t) :
    ¬ (distance_squared es_new_velocity < squared es_very_close_distance_from_terrain) ∧
    collide_response M es_center es_velocity ws_size recurse_depth closest_collision ≠
      some (collide_step.returned collide_branch.very_close ret) ∧
    (collide_response M es_center es_velocity ws_size recurse_depth closest_collision = none ∨
      (recurse_depth < max_recursion_depth ∧
        ∃ args1 : collide_args,
          collide_response M es_center es_velocity ws_size recurse_depth closest_collision =
            some (collide_step.recurse args1) ∧
          args1.recurse_depth = recurse_depth + 1 ∧ args1.ws_size = ws_size ∧
          args1.previous_collision.detected = true) ∨
      (¬ recurse_depth < max_recursion_depth ∧
        ∃ ret1 : collision_t,
          collide_response M es_center es_velocity ws_size recurse_depth closest_collision =
            some (collide_step.returned collide_branch.depth_cap ret1) ∧
          ret1.detected = true)) ∧
    collide_body M t g args ≠ some (collide_step.returned collide_branch.very_close ret) ∧
    collide M t g fuel args ≠ run_result.done (collide_branch.very_close, ret) := by
  refine ⟨very_close_guard_false es_new_velocity, ?_,
    collide_response_cases M es_center es_velocity ws_size recurse_depth closest_collision, ?_,
    collide_never_very_close M t g fuel args ret⟩
  · intro h
    rcases collide_response_cases M es_center es_velocity ws_size recurse_depth
      closest_collision with h0 | ⟨_, a1, h0, _⟩ | ⟨_, r, h0, _⟩
    · rw [h0] at h
      cases h
    · rw [h0] at h
      cases h
    · rw [h0] at h
      cases h
  · intro h
    rcases collide_body_cases M t g args with h0 | ⟨r, h0⟩ | ⟨_, a1, h0, _⟩ | ⟨_, r, h0⟩
    · rw [h0] at h
      cases h
    · rw [h0] at h
      cases h
    · rw [h0] at h
      cases h
    · rw [h0] at h
      cases h

theorem glm_normalize_unit {M : math_functions} {v res : vector3_t}
    (h : glm_normalize M v = some res)
    (hs : M.sqrt (v.dot v) * M.sqrt (v.dot v) = v.dot v) : res.dot res = 1 := by
  unfold glm_normalize vector3_t.div_scalar at h
  by_cases h0 : M.sqrt (v.dot v) = 0
  · rw [if_pos h0] at h
    cases h
  · rw [if_neg h0] at h
    cases h
    generalize M.sqrt (v.dot v) = s at h0 hs
    have hss : s * s ≠ 0 := mul_ne_zero h0 h0
    unfold vector3_t.dot at hs ⊢
    simp only
    have e : v.x / s * (v.x / s) + v.y / s * (v.y / s) + v.z / s * (v.z / s) =
        (v.x * v.x + v.y * v.y + v.z * v.z) / (s * s) := by
      field_simp
    rw [e, ← hs, div_self hss]

theorem mouse_look_direction_unit {M : math_functions} {ws_d res : vector3_t}
    {x_angle y_angle : float32_t}
    (h : mouse_look_direction M ws_d x_angle y_angle = some res)
    (hs : ∀ v, mouse_look_rotated M ws_d x_angle y_angle = some v →
      M.sqrt (v.dot v) * M.sqrt (v.dot v) = v.dot v) : res.dot res = 1 := by
  unfold mouse_look_direction at h
  cases hv : mouse_look_rotated M ws_d x_angle y_angle with
  | none =>
    rw [hv] at h
    cases h
  | some v =>
    rw [hv] at h
    exact glm_normalize_unit h (hs v hv)

/-- C21: `handle_main_player_mouse_movement` preserves the look invariant.  If
the facing direction `d` is unit with `|d·u| < 0.99` for `u = (0, 1, 0)`, then
for every cursor movement and `dt` the direction after the call is unit (the
library square root being exact on the rotated vector that is normalized) and
satisfies `|d·u| < 0.99`, hence `≤ 0.99`; the direction after the call is the
old one or the normalized rotated one, and a normalized rotated direction that
violates the limit leaves `d` unchanged. -/
theorem mouse_movement_preserves_look_invariant (M : math_functions) (e : player_t)
    (input_state : input_state_t) (dt : float32_t)
    (hunit : e.ws_d.dot e.ws_d = 1)
    (hlim : |e.ws_d.dot ⟨0, 1, 0⟩| < 99 / 100)
    (hsqrt : ∀ v, mouse_look_rotated M e.ws_d
        (mouse_look_angle (input_state.cursor_pos_x - input_state.previous_cursor_pos_x) dt)
        (mouse_look_angle (input_state.cursor_pos_y - input_state.previous_cursor_pos_y) dt)
          = some v →
      M.sqrt (v.dot v) * M.sqrt (v.dot v) = v.dot v) :
    (handle_main_player_mouse_movement M e input_state dt).ws_d.dot
      (handle_main_player_mouse_movement M e input_state dt).ws_d = 1 ∧
    |(handle_main_player_mouse_movement M e input_state dt).ws_d.dot ⟨0, 1, 0⟩| < 99 / 100 ∧
    |(handle_main_player_mouse_movement M e input_state dt).ws_d.dot ⟨0, 1, 0⟩| ≤ 99 / 100 ∧
    ((handle_main_player_mouse_movement M e input_state dt).ws_d = e.ws_d ∨
      mouse_look_direction M e.ws_d
        (mouse_look_angle (input_state.cursor_pos_x - input_state.previous_cursor_pos_x) dt)
        (mouse_look_angle (input_state.cursor_pos_y - input_state.previous_cursor_pos_y) dt)
          = some (handle_main_player_mouse_movement M e input_state dt).ws_d) ∧
    (∀ res, mouse_look_direction M e.ws_d
        (mouse_look_angle (input_state.cursor_pos_x - input_state.previous_cursor_pos_x) dt)
        (mouse_look_angle (input_state.cursor_pos_y - input_state.previous_cursor_pos_y) dt)
          = some res →
      ¬ |res.dot ⟨0, 1, 0⟩| < 99 / 100 →
      (handle_main_player_mouse_movement M e input_state dt).ws_d = e.ws_d) := by
  have key : ∀ e' : player_t,
      (e'.ws_d = e.ws_d ∨
        (mouse_look_direction M e.ws_d
          (mouse_look_angle (input_state.cursor_pos_x - input_state.previous_cursor_pos_x) dt)
          (mouse_look_angle (input_state.cursor_pos_y - input_state.previous_cursor_pos_y) dt)
            = some e'.ws_d ∧ |e'.ws_d.dot ⟨0, 1, 0⟩| < 99 / 100)) →
      e'.ws_d.dot e'.ws_d = 1 ∧ |e'.ws_d.dot ⟨0, 1, 0⟩| < 99 / 100 ∧
      |e'.ws_d.dot ⟨0, 1, 0⟩| ≤ 99 / 100 ∧
      (e'.ws_d = e.ws_d ∨ mouse_look_direction M e.ws_d
          (mouse_look_angle (input_state.cursor_pos_x - input_state.previous_cursor_pos_x) dt)
          (mouse_look_angle (input_state.cursor_pos_y - input_state.previous_cursor_pos_y) dt)
            = some e'.ws_d) ∧
      (∀ res, mouse_look_direction M e.ws_d
          (mouse_look_angle (input_state.cursor_pos_x - input_state.previous_cursor_pos_x) dt)
          (mouse_look_angle (input_state.cursor_pos_y - input_state.previous_cursor_pos_y) dt)
            = some res →
        ¬ |res.dot ⟨0, 1, 0⟩| < 99 / 100 → e'.ws_d = e.ws_d) := by
    intro e' h
    rcases h with h | ⟨h1, h2⟩
    · rw [h]
      exact ⟨hunit, hlim, le_of_lt hlim, Or.inl rfl, fun _ _ _ => rfl⟩
    · refine ⟨mouse_look_direction_unit h1 hsqrt, h2, le_of_lt h2, Or.inr h1, ?_⟩
      intro res hres hviol
      rw [h1] at hres
      cases hres
      exact absurd h2 hviol
  apply key
  unfold handle_main_player_mouse_movement
  by_cases hm : input_state.cursor_moved = true
  · simp only [hm, if_true]
    cases hd : mouse_look_direction M e.ws_d
        (mouse_look_angle (input_state.cursor_pos_x - input_state.previous_cursor_pos_x) dt)
        (mouse_look_angle (input_state.cursor_pos_y - input_state.previous_cursor_pos_y) dt) with
    | none => exact Or.inl rfl
    | some res =>
      simp only
      split
      · rename_i hc
        right
        refine ⟨rfl, ?_⟩
        simp only [vector3_t.dot, vector3_t.neg, mul_zero, mul_one, zero_mul, one_mul, add_zero,
          zero_add] at hc ⊢
        rw [abs_lt]
        exact ⟨hc.1, hc.2.1⟩
      · exact Or.inl rfl
  · simp only [hm]
    exact Or.inl rfl

theorem mouse_look_rotated_example (x_angle y_angle : float32_t) :
    mouse_look_rotated example_math_functions ⟨1, 0, 0⟩ x_angle y_angle =
      some ⟨16 / 25, 3 / 5, -12 / 25⟩ := by
  norm_num [mouse_look_rotated, glm_rotate, glm_normalize, vector3_t.div_scalar, vector3_t.dot,
    example_math_functions, matrix3_t.mul_vec, vector3_t.scale, vector3_t.add, vector3_t.cross]

theorem mouse_movement_preserves_look_invariant_witness :
    look_example_player.ws_d.dot look_example_player.ws_d = 1 ∧
    |look_example_player.ws_d.dot ⟨0, 1, 0⟩| < 99 / 100 ∧
    (handle_main_player_mouse_movement example_math_functions look_example_player
        look_example_input (1 / 60)).ws_d.dot
      (handle_main_player_mouse_movement example_math_functions look_example_player
        look_example_input (1 / 60)).ws_d = 1 ∧
    |(handle_main_player_mouse_movement example_math_functions look_example_player
        look_example_input (1 / 60)).ws_d.dot ⟨0, 1, 0⟩| < 99 / 100 := by
  have hunit : look_example_player.ws_d.dot look_example_player.ws_d = 1 := by
    norm_num [look_example_player, vector3_t.dot]
  have hlim : |look_example_player.ws_d.dot ⟨0, 1, 0⟩| < 99 / 100 := by
    norm_num [look_example_player, vector3_t.dot]
  have h := mouse_movement_preserves_look_invariant example_math_functions look_example_player
    look_example_input (1 / 60) hunit hlim (by
      intro v hv
      have hd : look_example_player.ws_d = ⟨1, 0, 0⟩ := rfl
      rw [hd, mouse_look_rotated_example] at hv
      cases hv
      norm_num [example_math_functions, vector3_t.dot])
  exact ⟨hunit, hlim, h.1, h.2.1⟩

theorem rolling_mode_flips_eq (M : math_functions) (a : action_flags_t) :
    ∀ (frames : List (input_state_t × float32_t)) (e : player_t),
      rolling_mode_flips M a e frames =
        List.zipWith (fun was_down is_down => is_down && !was_down)
          (e.toggled_rolling_previous_frame :: E_is_down frames) (E_is_down frames) := by
  intro frames
  induction frames with
  | nil =>
    intro e
    rfl
  | cons frame rest ih =>
    intro e
    obtain ⟨h1, h2⟩ := handle_main_player_keyboard_input_rolling M a e frame.1 frame.2
    unfold rolling_mode_flips E_is_down
    simp only [List.map_cons, List.zipWith_cons_cons]
    rw [ih, h2]
    congr 1
    rw [h1]
    cases frame.1.keyboard keyboard_button_type_t.E <;>
      cases e.toggled_rolling_previous_frame <;> cases e.rolling_mode <;> rfl

theorem rolling_mode_flips_held_after_toggle (M : math_functions) (a : action_flags_t) :
    ∀ (frames : List (input_state_t × float32_t)) (e : player_t),
      (∀ f ∈ frames, f.1.keyboard keyboard_button_type_t.E = true) →
      e.toggled_rolling_previous_frame = true →
      (rolling_mode_flips M a e frames).count true = 0 := by
  intro frames
  induction frames with
  | nil =>
    intro e _ _
    rfl
  | cons frame rest ih =>
    intro e hall ht
    obtain ⟨h1, h2⟩ := handle_main_player_keyboard_input_rolling M a e frame.1 frame.2
    have hE := hall frame (List.mem_cons_self frame rest)
    unfold rolling_mode_flips
    simp only
    rw [h1, if_neg (by rw [ht]; simp)]
    simp only [bne_self_eq_false, List.count_cons, Bool.false_eq_true, beq_iff_eq, if_false,
      add_zero]
    exact ih _ (fun f hf => hall f (List.mem_cons_of_mem frame hf)) (by rw [h2]; exact hE)

/-- C22: over any sequence of frames processed by
`handle_main_player_keyboard_input`, `rolling_mode` flips in a frame exactly when
key `E` is down in the frame and was not down in the frame before (for the first
frame: `toggled_rolling_previous_frame` is clear on entry); so a frame with `E`
up never flips it, and when `E` is held down over a non-empty run of frames that
starts with the flag clear, `rolling_mode` flips exactly once. -/
theorem rolling_mode_flips_once_per_press (M : math_functions) (a : action_flags_t)
    (e : player_t) (frames : List (input_state_t × float32_t))
    (hheld : ∀ f ∈ frames, f.1.keyboard keyboard_button_type_t.E = true)
    (hne : frames ≠ []) (hclear : e.toggled_rolling_previous_frame = false) :
    (∀ (e0 : player_t) (fs : List (input_state_t × float32_t)),
      rolling_mode_flips M a e0 fs =
        List.zipWith (fun was_down is_down => is_down && !was_down)
          (e0.toggled_rolling_previous_frame :: E_is_down fs) (E_is_down fs)) ∧
    (∀ (e0 : player_t) (input_state : input_state_t) (dt : float32_t),
      ((handle_main_player_keyboard_input M a e0 input_state dt).1.rolling_mode ≠ e0.rolling_mode ↔
        input_state.keyboard keyboard_button_type_t.E = true ∧
          e0.toggled_rolling_previous_frame = false) ∧
      (handle_main_player_keyboard_input M a e0 input_state dt).1.toggled_rolling_previous_frame =
        input_state.keyboard keyboard_button_type_t.E) ∧
    (rolling_mode_flips M a e frames).count true = 1 := by
  refine ⟨fun e0 fs => rolling_mode_flips_eq M a fs e0, ?_, ?_⟩
  · intro e0 input_state dt
    obtain ⟨h1, h2⟩ := handle_main_player_keyboard_input_rolling M a e0 input_state dt
    refine ⟨?_, h2⟩
    rw [h1]
    cases input_state.keyboard keyboard_button_type_t.E <;>
      cases e0.toggled_rolling_previous_frame <;> cases e0.rolling_mode <;> simp
  · cases frames with
    | nil => exact absurd rfl hne
    | cons frame rest =>
      obtain ⟨h1, h2⟩ := handle_main_player_keyboard_input_rolling M a e frame.1 frame.2
      have hE := hheld frame (List.mem_cons_self frame rest)
      have hrest := rolling_mode_flips_held_after_toggle M a rest
        (handle_main_player_keyboard_input M a e frame.1 frame.2).1
        (fun f hf => hheld f (List.mem_cons_of_mem frame hf)) (by rw [h2]; exact hE)
      have hflip : ((handle_main_player_keyboard_input M a e frame.1 frame.2).1.rolling_mode
          != e.rolling_mode) = true := by
        rw [h1, if_pos ⟨hE, hclear⟩]
        cases e.rolling_mode <;> rfl
      unfold rolling_mode_flips
      simp only
      rw [List.count_cons, hrest, hflip]
      rfl

theorem rolling_mode_flips_once_per_press_witness :
    (rolling_mode_flips example_math_functions example_action_flags (player_t.zero 40)
      [(example_input_state true, 1 / 60), (example_input_state true, 1 / 60),
        (example_input_state true, 1 / 60)]).count true = 1 :=
  (rolling_mode_flips_once_per_press example_math_functions example_action_flags
    (player_t.zero 40)
    [(example_input_state true, 1 / 60), (example_input_state true, 1 / 60),
      (example_input_state true, 1 / 60)]
    (fun f hf => by
      simp only [List.mem_cons, List.mem_singleton, List.not_mem_nil, or_false, or_self] at hf
      subst hf
      rfl)
    (by simp) rfl).2.2

/-- C23: for a cube edge whose corner densities lie on opposite sides of the
surface level `S` (one above, the other at or below), `push_vertex_to_triangle_array`
puts the corner of smaller density first and stores, at index `vertex_count`,
the vertex `lo_pos + t * (hi_pos - lo_pos)` with `t = (S - lo) / (hi - lo)`; the
divisor is not zero and `0 ≤ t < 1`. -/
theorem push_vertex_to_triangle_array_cut_edge (t : mesh_tables) (v0 v1 : Nat)
    (vertices : Nat → vector3_t) (chunk : voxel_chunk_t) (voxel_values : Nat → Nat) (S : Nat)
    (hcut : (voxel_values v0 > S ∧ voxel_values v1 ≤ S) ∨
      (voxel_values v1 > S ∧ voxel_values v0 ≤ S))
    (hcap : chunk.vertex_count < t.MAX_VERTICES_PER_VOXEL_CHUNK) :
    let lo : ℚ := (min (voxel_values v0) (voxel_values v1) : Nat)
    let hi : ℚ := (max (voxel_values v0) (voxel_values v1) : Nat)
    let lo_pos := if voxel_values v0 > voxel_values v1 then vertices v1 else vertices v0
    let hi_pos := if voxel_values v0 > voxel_values v1 then vertices v0 else vertices v1
    let s : ℚ := ((S : ℚ) - lo) / (hi - lo)
    lo ≤ (S : ℚ) ∧ (S : ℚ) < hi ∧ hi - lo ≠ 0 ∧ 0 ≤ s ∧ s < 1 ∧
    push_vertex_to_triangle_array t v0 v1 vertices chunk voxel_values S =
      some { chunk with
        mesh_vertices := Function.update chunk.mesh_vertices chunk.vertex_count
          (lo_pos.add ((hi_pos.sub lo_pos).scale s))
        vertex_count := chunk.vertex_count + 1 } := by
  intro lo hi lo_pos hi_pos s
  have hlo : lo ≤ (S : ℚ) := by
    have : min (voxel_values v0) (voxel_values v1) ≤ S := by
      rcases hcut with h | h
      · exact le_trans (min_le_right _ _) h.2
      · exact le_trans (min_le_left _ _) h.2
    exact Nat.cast_le.mpr this
  have hhi : (S : ℚ) < hi := by
    have : S < max (voxel_values v0) (voxel_values v1) := by
      rcases hcut with h | h
      · exact lt_of_lt_of_le h.1 (le_max_left _ _)
      · exact lt_of_lt_of_le h.1 (le_max_right _ _)
    exact Nat.cast_lt.mpr this
  have hpos : 0 < hi - lo := by linarith
  have hne : hi - lo ≠ 0 := ne_of_gt hpos
  have hs0 : 0 ≤ s := div_nonneg (by linarith) (le_of_lt hpos)
  have hs1 : s < 1 := by
    rw [div_lt_one hpos]
    linarith
  refine ⟨hlo, hhi, hne, hs0, hs1, ?_⟩
  unfold push_vertex_to_triangle_array lerp float_div interpolate
  by_cases hs : voxel_values v0 > voxel_values v1
  · have hq : ((voxel_values v0 : ℚ)) > (voxel_values v1 : ℚ) := by exact_mod_cast hs
    have e1 : lo = (voxel_values v1 : ℚ) := by
      show ((min (voxel_values v0) (voxel_values v1) : Nat) : ℚ) = _
      rw [min_eq_right (le_of_lt hs)]
    have e2 : hi = (voxel_values v0 : ℚ) := by
      show ((max (voxel_values v0) (voxel_values v1) : Nat) : ℚ) = _
      rw [max_eq_left (le_of_lt hs)]
    have h1 : ((voxel_values v0 : ℚ)) - (voxel_values v1 : ℚ) ≠ 0 := by
      rw [← e1, ← e2]
      exact hne
    have e3 : lo_pos = vertices v1 := if_pos hs
    have e4 : hi_pos = vertices v0 := if_pos hs
    simp only [hq, decide_True, if_true, h1, if_false, hcap]
    rw [e3, e4]
    show some _ = some _
    rw [show s = ((S : ℚ) - (voxel_values v1 : ℚ)) / ((voxel_values v0 : ℚ) - (voxel_values v1 : ℚ))
      from by rw [← e1, ← e2]]
  · have hq : ¬ ((voxel_values v0 : ℚ)) > (voxel_values v1 : ℚ) := by exact_mod_cast hs
    have hle : voxel_values v0 ≤ voxel_values v1 := Nat.le_of_not_lt hs
    have e1 : lo = (voxel_values v0 : ℚ) := by
      show ((min (voxel_values v0) (voxel_values v1) : Nat) : ℚ) = _
      rw [min_eq_left hle]
    have e2 : hi = (voxel_values v1 : ℚ) := by
      show ((max (voxel_values v0) (voxel_values v1) : Nat) : ℚ) = _
      rw [max_eq_right hle]
    have h1 : ((voxel_values v1 : ℚ)) - (voxel_values v0 : ℚ) ≠ 0 := by
      rw [← e1, ← e2]
      exact hne
    have e3 : lo_pos = vertices v0 := if_neg hs
    have e4 : hi_pos = vertices v1 := if_neg hs
    simp only [hq, decide_False, Bool.false_eq_true, if_false, h1, hcap, if_true]
    rw [e3, e4]
    show some _ = some _
    rw [show s = ((S : ℚ) - (voxel_values v0 : ℚ)) / ((voxel_values v1 : ℚ) - (voxel_values v0 : ℚ))
      from by rw [← e1, ← e2]]

theorem push_vertex_to_triangle_array_cut_edge_witness :
    ((200 > 60 ∧ 0 ≤ 60) ∨ (0 > 60 ∧ 200 ≤ 60)) ∧
    (example_chunk.vertex_count < example_tables.MAX_VERTICES_PER_VOXEL_CHUNK) ∧
    push_vertex_to_triangle_array example_tables 0 1 (voxel_pair_vertices 3 4 5) example_chunk
        (fun i => if i = 0 then 200 else 0) 60 =
      some { example_chunk with
        mesh_vertices := Function.update example_chunk.mesh_vertices example_chunk.vertex_count
          ((voxel_pair_vertices 3 4 5 1).add
            (((voxel_pair_vertices 3 4 5 0).sub (voxel_pair_vertices 3 4 5 1)).scale
              (((60 : ℚ) - 0) / (200 - 0))))
        vertex_count := example_chunk.vertex_count + 1 } := by
  have h := push_vertex_to_triangle_array_cut_edge example_tables 0 1 (voxel_pair_vertices 3 4 5)
    example_chunk (fun i => if i = 0 then 200 else 0) 60 (Or.inl ⟨by norm_num, by norm_num⟩)
    (by decide)
  refine ⟨Or.inl ⟨by norm_num, by norm_num⟩, by decide, ?_⟩
  have h6 := h.2.2.2.2.2
  simpa using h6

theorem get_smallest_root_no_root {a b c t : ℝ} (hd : b * b - 4 * a * c < 0) :
    a * t ^ 2 + b * t + c ≠ 0 := by
  intro h
  have : b * b - 4 * a * c = (2 * a * t + b) ^ 2 := by linear_combination (-4 * a) * h
  have hsq : 0 ≤ (2 * a * t + b) ^ 2 := sq_nonneg _
  linarith

theorem smallest_root_of_sorted_roots {a b c max_r root lo hi : ℝ}
    (hroots : ∀ t : ℝ, a * t ^ 2 + b * t + c = 0 ↔ t = lo ∨ t = hi) (hle : lo ≤ hi)
    (res : Bool × ℝ)
    (hres : res = if lo > 0 ∧ lo < max_r then (true, lo)
      else if hi > 0 ∧ hi < max_r then (true, hi) else (false, root)) :
    (res.1 = true ↔ ∃ t : ℝ, a * t ^ 2 + b * t + c = 0 ∧ 0 < t ∧ t < max_r) ∧
    (res.1 = true →
      a * res.2 ^ 2 + b * res.2 + c = 0 ∧ 0 < res.2 ∧ res.2 < max_r ∧
      ∀ t : ℝ, a * t ^ 2 + b * t + c = 0 → 0 < t → t < max_r → res.2 ≤ t) ∧
    (res.1 = false → res.2 = root) := by
  by_cases hlo : lo > 0 ∧ lo < max_r
  · rw [if_pos hlo] at hres
    subst hres
    refine ⟨⟨fun _ => ⟨lo, (hroots lo).mpr (Or.inl rfl), hlo.1, hlo.2⟩, fun _ => rfl⟩, ?_,
      fun h => absurd h.symm Bool.false_ne_true⟩
    intro _
    refine ⟨(hroots lo).mpr (Or.inl rfl), hlo.1, hlo.2, ?_⟩
    intro t ht _ _
    rcases (hroots t).mp ht with h | h
    · exact le_of_eq h.symm
    · rw [h]
      exact hle
  · rw [if_neg hlo] at hres
    by_cases hhi : hi > 0 ∧ hi < max_r
    · rw [if_pos hhi] at hres
      subst hres
      refine ⟨⟨fun _ => ⟨hi, (hroots hi).mpr (Or.inr rfl), hhi.1, hhi.2⟩, fun _ => rfl⟩, ?_,
        fun h => absurd h.symm Bool.false_ne_true⟩
      intro _
      refine ⟨(hroots hi).mpr (Or.inr rfl), hhi.1, hhi.2, ?_⟩
      intro t ht ht0 htm
      rcases (hroots t).mp ht with h | h
      · exact absurd ⟨h ▸ ht0, h ▸ htm⟩ hlo
      · exact le_of_eq h.symm
    · rw [if_neg hhi] at hres
      subst hres
      refine ⟨⟨fun h => absurd h Bool.false_ne_true, ?_⟩, fun h => absurd h Bool.false_ne_true,
        fun _ => rfl⟩
      rintro ⟨t, ht, ht0, htm⟩
      rcases (hroots t).mp ht with h | h
      · exact absurd ⟨h ▸ ht0, h ▸ htm⟩ hlo
      · exact absurd ⟨h ▸ ht0, h ▸ htm⟩ hhi

/-- C24: over the reals, for every `a ≠ 0`, `b`, `c` and `max_r`,
`get_smallest_root` returns true if and only if `a·t² + b·t + c = 0` has a root
`t` with `0 < t < max_r`; the value then written to `*root` is the smallest such
root, and when the function returns false `*root` keeps its value. -/
theorem get_smallest_root_returns_smallest_root_in_range (a b c max_r root : ℝ) (ha : a ≠ 0) :
    ((get_smallest_root Real.sqrt a b c max_r root).1 = true ↔
      ∃ t : ℝ, a * t ^ 2 + b * t + c = 0 ∧ 0 < t ∧ t < max_r) ∧
    ((get_smallest_root Real.sqrt a b c max_r root).1 = true →
      a * (get_smallest_root Real.sqrt a b c max_r root).2 ^ 2 +
          b * (get_smallest_root Real.sqrt a b c max_r root).2 + c = 0 ∧
      0 < (get_smallest_root Real.sqrt a b c max_r root).2 ∧
      (get_smallest_root Real.sqrt a b c max_r root).2 < max_r ∧
      ∀ t : ℝ, a * t ^ 2 + b * t + c = 0 → 0 < t → t < max_r →
        (get_smallest_root Real.sqrt a b c max_r root).2 ≤ t) ∧
    ((get_smallest_root Real.sqrt a b c max_r root).1 = false →
      (get_smallest_root Real.sqrt a b c max_r root).2 = root) := by
  by_cases hd : b * b - 4 * a * c < 0
  · have hres : get_smallest_root Real.sqrt a b c max_r root = (false, root) := by
      unfold get_smallest_root
      exact if_pos hd
    rw [hres]
    refine ⟨⟨fun h => absurd h Bool.false_ne_true, ?_⟩, fun h => absurd h Bool.false_ne_true,
      fun _ => rfl⟩
    rintro ⟨t, ht, _, _⟩
    exact absurd ht (get_smallest_root_no_root hd)
  · have h2a : (2 : ℝ) * a ≠ 0 := mul_ne_zero two_ne_zero ha
    have hD : 0 ≤ b * b - 4 * a * c := not_lt.mp hd
    have hs : discrim a b c = Real.sqrt (b * b - 4 * a * c) * Real.sqrt (b * b - 4 * a * c) := by
      rw [Real.mul_self_sqrt hD]
      unfold discrim
      ring
    have hroots : ∀ t : ℝ, a * t ^ 2 + b * t + c = 0 ↔
        t = (-b + Real.sqrt (b * b - 4 * a * c)) / (2 * a) ∨
        t = (-b - Real.sqrt (b * b - 4 * a * c)) / (2 * a) := by
      intro t
      have := quadratic_eq_zero_iff ha hs t
      rw [← this]
      constructor <;> intro h <;> linear_combination h
    have hres : get_smallest_root Real.sqrt a b c max_r root =
        if (if (-b - Real.sqrt (b * b - 4 * a * c)) / (2 * a) >
              (-b + Real.sqrt (b * b - 4 * a * c)) / (2 * a)
            then (-b + Real.sqrt (b * b - 4 * a * c)) / (2 * a)
            else (-b - Real.sqrt (b * b - 4 * a * c)) / (2 * a)) > 0 ∧
          (if (-b - Real.sqrt (b * b - 4 * a * c)) / (2 * a) >
              (-b + Real.sqrt (b * b - 4 * a * c)) / (2 * a)
            then (-b + Real.sqrt (b * b - 4 * a * c)) / (2 * a)
            else (-b - Real.sqrt (b * b - 4 * a * c)) / (2 * a)) < max_r
        then (true, if (-b - Real.sqrt (b * b - 4 * a * c)) / (2 * a) >
              (-b + Real.sqrt (b * b - 4 * a * c)) / (2 * a)
            then (-b + Real.sqrt (b * b - 4 * a * c)) / (2 * a)
            else (-b - Real.sqrt (b * b - 4 * a * c)) / (2 * a))
        else if (if (-b - Real.sqrt (b * b - 4 * a * c)) / (2 * a) >
              (-b + Real.sqrt (b * b - 4 * a * c)) / (2 * a)
            then (-b - Real.sqrt (b * b - 4 * a * c)) / (2 * a)
            else (-b + Real.sqrt (b * b - 4 * a * c)) / (2 * a)) > 0 ∧
          (if (-b - Real.sqrt (b * b - 4 * a * c)) / (2 * a) >
              (-b + Real.sqrt (b * b - 4 * a * c)) / (2 * a)
            then (-b - Real.sqrt (b * b - 4 * a * c)) / (2 * a)
            else (-b + Real.sqrt (b * b - 4 * a * c)) / (2 * a)) < max_r
        then (true, if (-b - Real.sqrt (b * b - 4 * a * c)) / (2 * a) >
              (-b + Real.sqrt (b * b - 4 * a * c)) / (2 * a)
            then (-b - Real.sqrt (b * b - 4 * a * c)) / (2 * a)
            else (-b + Real.sqrt (b * b - 4 * a * c)) / (2 * a))
        else (false, root) := by
      unfold get_smallest_root
      rw [if_neg hd, if_neg h2a]
    generalize Real.sqrt (b * b - 4 * a * c) = s at hroots hres
    generalize (-b - s) / (2 * a) = r1 at hroots hres
    generalize (-b + s) / (2 * a) = r2 at hroots hres
    by_cases hswap : r1 > r2
    · simp only [hswap, if_true] at hres
      exact smallest_root_of_sorted_roots hroots (le_of_lt hswap) _ hres
    · simp only [hswap, if_false] at hres
      exact smallest_root_of_sorted_roots (fun t => (hroots t).trans Or.comm) (not_lt.mp hswap)
        _ hres

theorem get_smallest_root_returns_smallest_root_in_range_witness :
    (1 : ℝ) ≠ 0 ∧
    ((get_smallest_root Real.sqrt 1 (-3) 2 5 0).1 = true ↔
      ∃ t : ℝ, 1 * t ^ 2 + (-3) * t + 2 = 0 ∧ 0 < t ∧ t < 5) :=
  ⟨one_ne_zero, (get_smallest_root_returns_smallest_root_in_range 1 (-3) 2 5 0 one_ne_zero).1⟩

theorem bind_congr_of_invariant {β : Type} (P : β → Prop) (F G F' G' : β → Option β)
    (h1 : ∀ c, P c → F c = G c ∧ ∀ c', F c = some c' → P c')
    (h2 : ∀ c, P c → F' c = G' c ∧ ∀ c', F' c = some c' → P c') :
    ∀ c, P c → (F c).bind F' = (G c).bind G' ∧ ∀ c', (F c).bind F' = some c' → P c' := by
  intro c hc
  obtain ⟨e1, p1⟩ := h1 c hc
  rw [← e1]
  cases hF : F c with
  | none =>
    refine ⟨rfl, ?_⟩
    intro c' h
    cases h
  | some c1 =>
    simp only [Option.some_bind]
    exact h2 c1 (p1 c1 hF)

theorem neighbour_isSome {g : voxel_chunks_t} {cc : ivector3_t} (hN : neighbours_exist g cc) :
    (get_voxel_chunk g (convert_3d_to_1d_index (cc.x + 1) cc.y cc.z g.grid_edge_size)).isSome
      = true ∧
    (get_voxel_chunk g (convert_3d_to_1d_index cc.x (cc.y + 1) cc.z g.grid_edge_size)).isSome
      = true ∧
    (get_voxel_chunk g (convert_3d_to_1d_index cc.x cc.y (cc.z + 1) g.grid_edge_size)).isSome
      = true := by
  have hx := hN 1 0 0 (by norm_num) (by norm_num) (by norm_num)
  have hy := hN 0 1 0 (by norm_num) (by norm_num) (by norm_num)
  have hz := hN 0 0 1 (by norm_num) (by norm_num) (by norm_num)
  simp only [Nat.cast_one, Nat.cast_zero, add_zero] at hx hy hz
  exact ⟨hx, hy, hz⟩

theorem update_chunk_mesh_loops_eq_fold (t : mesh_tables) (g : voxel_chunks_t)
    (chunk : voxel_chunk_t) (S : Nat) (hN : neighbours_exist g chunk.chunk_coord) :
    update_chunk_mesh_loops t g chunk S = mesh_pair_anchors.foldlM (mesh_pair_at t g S) chunk := by
  obtain ⟨nx, ny, nz⟩ := neighbour_isSome hN
  have hP : ∀ c : voxel_chunk_t, c.chunk_coord = chunk.chunk_coord →
      neighbours_exist g c.chunk_coord := fun c hc => by
    rw [hc]
    exact hN
  have s1 := foldlM_congr_of_invariant (fun c : voxel_chunk_t => c.chunk_coord = chunk.chunk_coord)
    (fun yz : Nat × Nat => yz ∈ x_superior_anchors)
    (x_superior_pair t g S) (fun c yz => mesh_pair_at t g S c (VOXEL_CHUNK_EDGE_LENGTH - 1, yz.1, yz.2))
    (fun c a c' hc h => (mesh_face_pair_same_body h).2.1.trans hc)
    (fun c a hc ha => by
      obtain ⟨y, z⟩ := a
      have hm := mem_x_superior_anchors_iff.mp ha
      exact x_superior_pair_eq_mesh_pair_at (hP c hc) hm.1 hm.2)
    x_superior_anchors
  have s2 := foldlM_congr_of_invariant (fun c : voxel_chunk_t => c.chunk_coord = chunk.chunk_coord)
    (fun xz : Nat × Nat => xz ∈ y_superior_anchors)
    (y_superior_pair t g S) (fun c xz => mesh_pair_at t g S c (xz.1, VOXEL_CHUNK_EDGE_LENGTH - 1, xz.2))
    (fun c a c' hc h => (mesh_face_pair_same_body h).2.1.trans hc)
    (fun c a hc ha => by
      obtain ⟨x, z⟩ := a
      have hm := mem_y_superior_anchors_iff.mp ha
      exact y_superior_pair_eq_mesh_pair_at (hP c hc) hm.1 hm.2)
    y_superior_anchors
  have s3 := foldlM_congr_of_invariant (fun c : voxel_chunk_t => c.chunk_coord = chunk.chunk_coord)
    (fun xy : Nat × Nat => xy ∈ z_superior_anchors)
    (z_superior_pair t g S) (fun c xy => mesh_pair_at t g S c (xy.1, xy.2, VOXEL_CHUNK_EDGE_LENGTH - 1))
    (fun c a c' hc h => (mesh_face_pair_same_body h).2.1.trans hc)
    (fun c a hc ha => by
      obtain ⟨x, y⟩ := a
      have hm := mem_z_superior_anchors_iff.mp ha
      exact z_superior_pair_eq_mesh_pair_at (hP c hc) hm.1 hm.2)
    z_superior_anchors
  have s4 := foldlM_congr_of_invariant (fun c : voxel_chunk_t => c.chunk_coord = chunk.chunk_coord)
    (fun a : Nat × Nat × Nat => a ∈ interior_anchors)
    (interior_pair t S) (mesh_pair_at t g S)
    (fun c a c' hc h => (update_chunk_mesh_voxel_pair_same_body h).2.1.trans hc)
    (fun c a hc ha => by
      obtain ⟨x, y, z⟩ := a
      have hm := mem_interior_anchors_iff.mp ha
      exact interior_pair_eq_mesh_pair_at hm.1 hm.2.1 hm.2.2)
    interior_anchors
  have c34 := bind_congr_of_invariant _ _ _ _ _
    (fun c hc => s3 c (fun a ha => ha) hc) (fun c hc => s4 c (fun a ha => ha) hc)
  have c234 := bind_congr_of_invariant _ _ _ _ _
    (fun c hc => s2 c (fun a ha => ha) hc) c34
  have c1234 := bind_congr_of_invariant _ _ _ _ _
    (fun c hc => s1 c (fun a ha => ha) hc) c234
  have key := (c1234 chunk rfl).1
  unfold update_chunk_mesh_loops mesh_pair_anchors
  simp only [nx, ny, nz, if_true, List.foldlM_append, List.foldlM_map, Option.bind_eq_bind,
    Option.bind_assoc]
  simp only [Option.bind_eq_bind, Option.bind_assoc] at key
  exact key

/-- C25: for a chunk that is allocated together with its `+x`, `+y`, `+z`, `xy`,
`xz`, `yz` and `xyz` neighbours, the loops of `update_chunk_mesh` call
`update_chunk_mesh_voxel_pair` once for each anchor of `mesh_pair_anchors`, and
these anchors (the three face loops followed by the interior loop) are
duplicate-free and are exactly the `(x, y, z)` with `0 ≤ x, y, z < 16`; the four
loops visit pairwise disjoint sets. -/
theorem update_chunk_mesh_visits_each_anchor_once (t : mesh_tables) (g : voxel_chunks_t)
    (chunk : voxel_chunk_t) (surface_level : Nat)
    (hN : neighbours_exist g chunk.chunk_coord) :
    update_chunk_mesh_loops t g chunk surface_level =
      mesh_pair_anchors.foldlM (mesh_pair_at t g surface_level) chunk ∧
    mesh_pair_anchors.Nodup ∧
    (∀ x y z : Nat, (x, y, z) ∈ mesh_pair_anchors ↔ x < 16 ∧ y < 16 ∧ z < 16) ∧
    mesh_pair_anchors.length = 16 * 16 * 16 := by
  refine ⟨update_chunk_mesh_loops_eq_fold t g chunk surface_level hN, mesh_pair_anchors_nodup,
    fun x y z => mem_mesh_pair_anchors_iff, ?_⟩
  unfold mesh_pair_anchors x_superior_anchors y_superior_anchors z_superior_anchors
    interior_anchors
  simp [VOXEL_CHUNK_EDGE_LENGTH, List.length_flatMap, Function.comp_def, List.map_const',
    List.sum_replicate]

theorem boundary_grid_neighbours_exist :
    neighbours_exist boundary_grid (boundary_chunk 0).chunk_coord := by
  intro dx dy dz hx hy hz
  interval_cases dx <;> interval_cases dy <;> interval_cases dz <;> decide

theorem update_chunk_mesh_visits_each_anchor_once_witness :
    neighbours_exist boundary_grid (boundary_chunk 0).chunk_coord ∧
    (update_chunk_mesh_loops example_tables boundary_grid (boundary_chunk 0) 60 =
      mesh_pair_anchors.foldlM (mesh_pair_at example_tables boundary_grid 60) (boundary_chunk 0) ∧
    mesh_pair_anchors.Nodup ∧
    (∀ x y z : Nat, (x, y, z) ∈ mesh_pair_anchors ↔ x < 16 ∧ y < 16 ∧ z < 16) ∧
    mesh_pair_anchors.length = 16 * 16 * 16) :=
  ⟨boundary_grid_neighbours_exist,
    update_chunk_mesh_visits_each_anchor_once example_tables boundary_grid (boundary_chunk 0) 60
      boundary_grid_neighbours_exist⟩

theorem prepared_player_snapshots_flags (s : server_t) (j : Nat) :
    (prepared_player_snapshots s j).need_to_do_correction = false ∧
    (prepared_player_snapshots s j).need_to_do_voxel_correction = false := by
  unfold prepared_player_snapshots
  split
  · exact ⟨rfl, rfl⟩
  · exact ⟨rfl, rfl⟩

/-- C26: within one call of `dispatch_snapshot_to_clients`, the packet of a
recipient `B` carries, as the entry of a player `A`, the entry of the array
`player_snapshots` as it is at the end of the call when `A ≤ B` (for a recipient
`A` that is the entry of `A`'s own packet, with the correction flags computed
in `A`'s iteration; for a client that is no recipient it is the prepared entry)
and the prepared entry, whose two correction flags are 0, when `A > B`.  On
`two_recipient_server` the entry of client 1 has `need_to_do_correction = 0` in
the packet of client 0 and `1` in the packet of client 1. -/
theorem snapshot_entries_of_other_players {fmt : wire_format} {s s' : server_t}
    {voxel_packet : game_snapshot_voxel_delta_packet_t}
    (h : dispatch_snapshot_to_clients fmt s voxel_packet = some s') :
    (∃ (msgs : List sent_message_t) (final : Nat → game_snapshot_player_state_packet_t),
      s'.sent = s.sent ++ msgs ∧
      (∀ A, A < s.network_state.client_count →
        (get_client s A).received_input_commands = false →
        final A = prepared_player_snapshots s A) ∧
      (∀ A, (prepared_player_snapshots s A).need_to_do_correction = false ∧
        (prepared_player_snapshots s A).need_to_do_voxel_correction = false) ∧
      ∀ B, B < s.network_state.client_count →
        (get_client s B).received_input_commands = true →
        ∃ msg, msgs[recipients_before s B]? = some msg ∧
          ∀ A, A < s.network_state.client_count →
            msg.player_states[A]? =
              some (if A ≤ B then final A else prepared_player_snapshots s A)) ∧
    (dispatch_snapshot_to_clients example_wire_format two_recipient_server
        { modified_chunks := [] }).map
      (fun s1 => s1.sent.map fun m =>
        (m.address, m.player_states.map fun e => (e.client_id, e.need_to_do_correction,
          e.need_to_do_voxel_correction))) =
      some [((get_client two_recipient_server 0).network_address,
          [(0, false, false), (1, false, false)]),
        ((get_client two_recipient_server 1).network_address,
          [(0, false, false), (1, true, false)])] := by
  constructor
  · unfold dispatch_snapshot_to_clients at h
    simp only [Option.map_eq_some'] at h
    obtain ⟨st, hf, rfl⟩ := h
    obtain ⟨msgs, n1, _, _, n4, n5⟩ := dispatch_fold_other_entries (by rfl) _ (le_refl _) st hf
    exact ⟨msgs, st.player_snapshots, n1, fun A hA hr => n4 A hA hr,
      prepared_player_snapshots_flags s, fun B hB hr => n5 B hB hr⟩
  · have h5 : round_float32 (5 : ℚ) = 5 := by
      have := round_float32_intCast 5 (by norm_num)
      simpa using this
    norm_num [dispatch_snapshot_to_clients, dispatch_snapshot_to_client, two_recipient_server,
      example_server, get_client, get_player, List.range_succ, client_t.zero,
      force_voxel_correction,
      serialize_player_snapshot, send_client_snapshot, send_serialized_message,
      sent_message_t.player_states, player_states_of_items, serializer_t.write, set_client,
      set_player,
      correct_own_snapshot, prepared_player_snapshots, prepare_player_snapshot, player_t.zero,
      player_state_t.zero, vector3_t.zero, is_different, round_float32_zero, round_float32_one_tenth, h5,
      game_snapshot_player_state_packet_t.zero]
    exact ⟨rfl, rfl⟩

theorem two_recipient_server_dispatch_defined :
    ∃ s', dispatch_snapshot_to_clients example_wire_format two_recipient_server
      { modified_chunks := [] } = some s' := by
  apply dispatch_snapshot_to_clients_total
  intro k hk hr chunk hchunk
  exfalso
  have : (get_client two_recipient_server k).modified_chunks_count = 0 := by
    unfold get_client two_recipient_server
    simp only
    split <;> rfl
  omega

theorem snapshot_entries_of_other_players_witness :
    ∃ s', dispatch_snapshot_to_clients example_wire_format two_recipient_server
        { modified_chunks := [] } = some s' ∧
      ∃ (msgs : List sent_message_t) (final : Nat → game_snapshot_player_state_packet_t),
        s'.sent = two_recipient_server.sent ++ msgs ∧
        ∀ B, B < two_recipient_server.network_state.client_count →
          (get_client two_recipient_server B).received_input_commands = true →
          ∃ msg, msgs[recipients_before two_recipient_server B]? = some msg ∧
            ∀ A, A < two_recipient_server.network_state.client_count →
              msg.player_states[A]? =
                some (if A ≤ B then final A
                  else prepared_player_snapshots two_recipient_server A) := by
  obtain ⟨s', hs'⟩ := two_recipient_server_dispatch_defined
  obtain ⟨⟨msgs, final, h1, _, _, h4⟩, _⟩ := snapshot_entries_of_other_players hs'
  exact ⟨s', hs', msgs, final, h1, h4⟩

/-- C27: starting from a grid whose GPU-sync list is duplicate-free and mirrors
the flags `should_do_gpu_sync`, any sequence of calls of `ready_chunk_for_gpu_sync`
on allocated chunks keeps it so (each flagged chunk is listed exactly once, no
other chunk is listed), hence `to_sync_count` is at most the number of grid
cells, and a second call on a chunk changes nothing; `sync_gpu_with_chunk_state`
then ends, sets `to_sync_count` to 0 and clears the flag of every listed chunk
(the mesh rebuild of each flagged chunk being defined). -/
theorem gpu_sync_list_mirrors_flags (t : mesh_tables) (g : voxel_chunks_t) (ps : List Nat)
    (n : Nat) (hidx : chunks_at_their_index g) (hok : gpu_sync_list_ok g)
    (hps : ∀ p ∈ ps, (g.chunks p).isSome = true)
    (hmesh : ∀ g', ps.foldlM (fun s p => ready_chunk_for_gpu_sync s (some p)) g = some g' →
      ∀ p c, g'.chunks p = some c → c.should_do_gpu_sync = true →
        (update_chunk_mesh_passes t g' c 60).isSome = true) :
    ∃ g' g'', ps.foldlM (fun s p => ready_chunk_for_gpu_sync s (some p)) g = some g' ∧
      gpu_sync_list_ok g' ∧ g'.to_sync_count ≤ g'.grid_edge_size ^ 3 ∧
      (∀ p ∈ ps, ∃ c, g'.chunks p = some c ∧ c.should_do_gpu_sync = true) ∧
      (∀ s p, (ready_chunk_for_gpu_sync s (some p)).bind
          (fun s1 => ready_chunk_for_gpu_sync s1 (some p)) =
        ready_chunk_for_gpu_sync s (some p)) ∧
      sync_gpu_with_chunk_state t (g'.to_sync_count + 1 + n) g' = run_result.done g'' ∧
      g''.to_sync_count = 0 ∧
      (∀ i, i < g'.to_sync_count → ∃ (p : Nat) (c : voxel_chunk_t),
        g'.chunks_to_gpu_sync i = (p : Int) ∧ g''.chunks p = some c ∧
          c.should_do_gpu_sync = false) ∧
      (∀ p c, g''.chunks p = some c → c.should_do_gpu_sync = false) ∧
      gpu_sync_list_ok g'' := by
  obtain ⟨g', hfold, hidx', hok', _, _, hflagged⟩ := ready_fold_list_ok ps g hidx hok hps
  obtain ⟨g'', hsync, hzero, hclear, hlisted, hok'', _⟩ :=
    sync_gpu_with_chunk_state_done hok' (hmesh g' hfold) n
  exact ⟨g', g'', hfold, hok', gpu_sync_list_count_le hidx' hok', hflagged,
    ready_chunk_for_gpu_sync_twice, hsync, hzero, hlisted, hclear, hok''⟩

theorem boundary_grid_chunks_at_their_index : chunks_at_their_index boundary_grid := by
  intro p c h
  unfold boundary_grid at h
  simp only at h
  by_cases hp : p < 8
  · rw [if_pos hp] at h
    cases h
    interval_cases p <;> decide
  · rw [if_neg hp] at h
    cases h

theorem boundary_grid_gpu_sync_list_ok : gpu_sync_list_ok boundary_grid := by
  refine ⟨?_, ?_, ?_⟩
  · intro i j hi
    exact absurd hi (Nat.not_lt_zero i)
  · intro i hi
    exact absurd hi (Nat.not_lt_zero i)
  · intro p c h hf
    unfold boundary_grid at h
    simp only at h
    by_cases hp : p < 8
    · rw [if_pos hp] at h
      cases h
      cases hf
    · rw [if_neg hp] at h
      cases h

theorem ready_fold_twice (g : voxel_chunks_t) (p : Nat) :
    [p, p].foldlM (fun s q => ready_chunk_for_gpu_sync s (some q)) g =
      ready_chunk_for_gpu_sync g (some p) := by
  have h := ready_chunk_for_gpu_sync_twice g p
  simp only [List.foldlM_cons, List.foldlM_nil, Option.bind_eq_bind, Option.pure_def,
    Option.bind_some]
  exact h

theorem boundary_grid_ready_twice :
    ∃ g', [1, 1].foldlM (fun s p => ready_chunk_for_gpu_sync s (some p)) boundary_grid = some g' ∧
      same_voxels boundary_grid g' ∧
      ∀ p c, g'.chunks p = some c → c.should_do_gpu_sync = true →
        is_boundary_chunk_1 c := by
  have hc : boundary_grid.chunks 1 = some (boundary_chunk 1) := rfl
  have hf : (boundary_chunk 1).should_do_gpu_sync = false := rfl
  have h1 := ready_chunk_for_gpu_sync_unflagged hc hf
  have hfold := (ready_fold_twice boundary_grid 1).trans h1
  refine ⟨_, hfold, ⟨rfl, ?_⟩, ?_⟩
  · intro q
    by_cases hq : q = 1
    · subst hq
      simp [hc]
    · simp only [Function.update_noteq hq]
  · intro p c h hfl
    by_cases hp : p = 1
    · subst hp
      simp only [Function.update_same, Option.some.injEq] at h
      subst h
      exact ⟨rfl, by simp [boundary_chunk]⟩
    · simp only [Function.update_noteq hp] at h
      unfold boundary_grid at h
      simp only at h
      by_cases hp8 : p < 8
      · rw [if_pos hp8] at h
        cases h
        cases hfl
      · rw [if_neg hp8] at h
        cases h

theorem boundary_grid_mesh_defined :
    ∀ g', [1, 1].foldlM (fun s p => ready_chunk_for_gpu_sync s (some p)) boundary_grid = some g' →
      ∀ p c, g'.chunks p = some c → c.should_do_gpu_sync = true →
        (update_chunk_mesh_passes example_tables g' c 60).isSome = true := by
  intro g' hg' p c hc hf
  obtain ⟨g1, h1, hv, hb⟩ := boundary_grid_ready_twice
  rw [h1] at hg'
  cases hg'
  have hI := hb p c hc hf
  unfold update_chunk_mesh_passes
  rw [same_voxels_update_chunk_mesh_loops hv]
  obtain ⟨c', e, _⟩ := update_chunk_mesh_loops_boundary
    (c := { c with vertex_count := 0 }) ⟨hI.1, hI.2⟩ rfl
  rw [e]
  rfl

theorem gpu_sync_list_mirrors_flags_witness :
    ∃ g' g'', [1, 1].foldlM (fun s p => ready_chunk_for_gpu_sync s (some p)) boundary_grid
        = some g' ∧
      gpu_sync_list_ok g' ∧ g'.to_sync_count ≤ g'.grid_edge_size ^ 3 ∧
      (∀ p ∈ [1, 1], ∃ c, g'.chunks p = some c ∧ c.should_do_gpu_sync = true) ∧
      (∀ s p, (ready_chunk_for_gpu_sync s (some p)).bind
          (fun s1 => ready_chunk_for_gpu_sync s1 (some p)) =
        ready_chunk_for_gpu_sync s (some p)) ∧
      sync_gpu_with_chunk_state example_tables (g'.to_sync_count + 1 + 0) g'
        = run_result.done g'' ∧
      g''.to_sync_count = 0 ∧
      (∀ i, i < g'.to_sync_count → ∃ (p : Nat) (c : voxel_chunk_t),
        g'.chunks_to_gpu_sync i = (p : Int) ∧ g''.chunks p = some c ∧
          c.should_do_gpu_sync = false) ∧
      (∀ p c, g''.chunks p = some c → c.should_do_gpu_sync = false) ∧
      gpu_sync_list_ok g'' :=
  gpu_sync_list_mirrors_flags example_tables boundary_grid [1, 1] 0
    boundary_grid_chunks_at_their_index boundary_grid_gpu_sync_list_ok
    (fun p hp => by
      simp only [List.mem_cons, List.mem_singleton, or_self, List.not_mem_nil, or_false] at hp
      subst hp
      rfl)
    boundary_grid_mesh_defined

/-- C29: `push_collision_triangles_vertices` never stores at or beyond index
`max` of the destination array.  If on entry `*count ≤ max` and `*count` is a
multiple of 3 (and `max + 3` does not wrap in `uint32_t`), then for a table row
made of edge indices 0..11 and ended by `-1` the function is defined, which
includes that every store went to an index below `max`; on exit `*count` is a
multiple of 3, at least its entry value and at most `max`, and the entries below
the entry value of `*count` and from `max` on are untouched. -/
theorem push_collision_triangles_vertices_stays_below_max (t : mesh_tables)
    (voxel_values : Nat → Nat) (x y z surface_level : Nat) (dst : collision_vertices_t)
    (max : Nat)
    (htable : ∀ e ∈ t.TRIANGLE_TABLE (bit_combination voxel_values surface_level),
      e = -1 ∨ (0 ≤ e ∧ e ≤ 11))
    (hterm : (-1 : Int) ∈ t.TRIANGLE_TABLE (bit_combination voxel_values surface_level))
    (hcount : dst.count ≤ max) (hthree : dst.count % 3 = 0) (hmax : max + 3 < 2 ^ 32) :
    ∃ dst', push_collision_triangles_vertices t voxel_values x y z surface_level dst max
        = some dst' ∧
      dst'.count % 3 = 0 ∧ dst.count ≤ dst'.count ∧ dst'.count ≤ max ∧
      ∀ j, (j < dst.count ∨ max ≤ j) → dst'.dst_array j = dst.dst_array j := by
  unfold push_collision_triangles_vertices
  exact push_collision_triangles_vertices_loop_ok voxel_values x y z surface_level max hmax _ 0
    (fun _ => 0) dst htable hterm (fun i hi => absurd hi (Nat.not_lt_zero i)) hcount hthree

theorem push_collision_triangles_vertices_stays_below_max_witness :
    ∃ dst', push_collision_triangles_vertices example_tables
        (fun i => if i = 0 ∨ i = 3 ∨ i = 4 ∨ i = 7 then 255 else 0) 1 2 3 60
        { dst_array := fun _ => none, count := 3 } 10 = some dst' ∧
      dst'.count % 3 = 0 ∧ 3 ≤ dst'.count ∧ dst'.count ≤ 10 ∧
      ∀ j, (j < 3 ∨ 10 ≤ j) → dst'.dst_array j = none :=
  push_collision_triangles_vertices_stays_below_max example_tables
    (fun i => if i = 0 ∨ i = 3 ∨ i = 4 ∨ i = 7 then 255 else 0) 1 2 3 60
    { dst_array := fun _ => none, count := 3 } 10
    (by
      have hb : bit_combination (fun i => if i = 0 ∨ i = 3 ∨ i = 4 ∨ i = 7 then 255 else 0) 60
          = 153 := by decide
      rw [hb]
      intro e he
      simp [example_tables] at he
      omega)
    (by
      have hb : bit_combination (fun i => if i = 0 ∨ i = 3 ∨ i = 4 ∨ i = 7 then 255 else 0) 60
          = 153 := by decide
      rw [hb]
      simp [example_tables])
    (by norm_num) (by norm_num) (by norm_num)

/-- C30 (amended): for every edge length `e ≤ 1290` (so that `e³ < 2^31`) and all
`uint32_t` coordinates, `convert_3d_to_1d_index` returns `z·e² + y·e + x` when
`x, y, z < e` and `-1` otherwise; on in-range coordinates the result lies in
`[0, e³)` and the function is injective. -/
theorem convert_3d_to_1d_index_bounded_edge (e : Nat) (he : e ≤ 1290) :
    (∀ x y z, x < e → y < e → z < e →
      convert_3d_to_1d_index_uint32 x y z e = ((z * (e * e) + y * e + x : Nat) : Int) ∧
      0 ≤ convert_3d_to_1d_index_uint32 x y z e ∧
      convert_3d_to_1d_index_uint32 x y z e < ((e * e * e : Nat) : Int)) ∧
    (∀ x y z, x < 2 ^ 32 → y < 2 ^ 32 → z < 2 ^ 32 → ¬ (x < e ∧ y < e ∧ z < e) →
      convert_3d_to_1d_index_uint32 x y z e = -1) ∧
    (∀ x y z x' y' z', x < e → y < e → z < e → x' < e → y' < e → z' < e →
      convert_3d_to_1d_index_uint32 x y z e = convert_3d_to_1d_index_uint32 x' y' z' e →
      x = x' ∧ y = y' ∧ z = z') := by
  refine ⟨?_, ?_, ?_⟩
  · intro x y z hx hy hz
    rw [convert_3d_to_1d_index_uint32_in_range he hx hy hz]
    have := index_lt_cube hx hy hz
    exact ⟨rfl, by omega, by exact_mod_cast this⟩
  · intro x y z hx hy hz h
    exact convert_3d_to_1d_index_uint32_out_of_range hx hy hz h
  · intro x y z x' y' z' hx hy hz hx' hy' hz' h
    rw [convert_3d_to_1d_index_uint32_in_range he hx hy hz,
      convert_3d_to_1d_index_uint32_in_range he hx' hy' hz'] at h
    exact index_injective hx hy hx' hy' (by exact_mod_cast h)

theorem convert_3d_to_1d_index_bounded_edge_witness :
    (16 : Nat) ≤ 1290 ∧
    ((∀ x y z, x < 16 → y < 16 → z < 16 →
      convert_3d_to_1d_index_uint32 x y z 16 = ((z * (16 * 16) + y * 16 + x : Nat) : Int) ∧
      0 ≤ convert_3d_to_1d_index_uint32 x y z 16 ∧
      convert_3d_to_1d_index_uint32 x y z 16 < ((16 * 16 * 16 : Nat) : Int)) ∧
    (∀ x y z, x < 2 ^ 32 → y < 2 ^ 32 → z < 2 ^ 32 → ¬ (x < 16 ∧ y < 16 ∧ z < 16) →
      convert_3d_to_1d_index_uint32 x y z 16 = -1) ∧
    (∀ x y z x' y' z', x < 16 → y < 16 → z < 16 → x' < 16 → y' < 16 → z' < 16 →
      convert_3d_to_1d_index_uint32 x y z 16 = convert_3d_to_1d_index_uint32 x' y' z' 16 →
      x = x' ∧ y = y' ∧ z = z')) :=
  ⟨by norm_num, convert_3d_to_1d_index_bounded_edge 16 (by norm_num)⟩

/-- C30 (counterexample): for the edge length `65536` the coordinates `(0, 0, 0)`
and `(0, 0, 1)` are both in range and both get the index 0, because
`1 · 65536 · 65536 = 2^32` wraps to 0 in `uint32_t`: the function is not
injective and does not return `z·e² + y·e + x`. -/
theorem convert_3d_to_1d_index_wraps_counterexample :
    convert_3d_to_1d_index_uint32 0 0 0 65536 = 0 ∧
    convert_3d_to_1d_index_uint32 0 0 1 65536 = 0 ∧
    ((1 * (65536 * 65536) + 0 * 65536 + 0 : Nat) : Int) = 4294967296 := by
  refine ⟨by decide, by decide, by norm_num⟩

end Game
